import Mathlib

/-!
# Waypoint manager of the ZeroPilot path manager

A shallow embedding of `Autopilot/PathManager/Src/waypointManager.cpp`: the
flight-path management half first, the navigation half after it.

* Waypoint records live on a heap: an address is a natural number, `nullptr`
  is `none`, and the heap maps an address to the record stored there (`none`
  once the record has been deleted, or was never allocated).
* The two member arrays `waypointBuffer` and `waypointBufferStatus` are
  functions of an `Int` index; every access goes through a bounds check against
  `PATH_BUFFER_SIZE`, which is a parameter since the header that fixes it is
  not part of the sources.
* Dereferencing `nullptr` or a deleted record, and indexing outside the arrays,
  is a `Fault`: every operation returns `Except Fault _`.
* `int` members are `Int` (no index or counter of the buffer comes near the
  range of `int`); latitude and longitude are rationals (the buffer only ever
  compares them for equality).
* `new` is modelled by passing the address it returns to the factory; the
  `UNIT_TESTING` branches are left out.
* Navigation computes in an ordered field `F` instead of `float` and `double`; the
  functions of `<cmath>` are the fields of a `MathLib F`; a floating `while` loop
  runs on fuel and ends in `Stop.fuel` when the fuel runs out, while the two
  integer loops that normalise a heading are total functions.
* Whether the two angle-wrapping loops of `follow_orbit` end depends on the
  rounding of a `float`: the hold branch of the tick is given a second time,
  over the rationals with the roundings of `float` and `double`
  (`get_next_directions_float`).
-/

namespace ZeroPilot

/-- Heap address of a waypoint record. -/
abbrev Ptr := Nat

/-- The status enum `_WaypointStatus`. -/
inductive WaypointStatus where
  | WAYPOINT_SUCCESS
  | UNDEFINED_FAILURE
  | CURRENT_INDEX_INVALID
  | UNDEFINED_PARAMETER
  | INVALID_PARAMETERS
  deriving DecidableEq, Repr

/-- The occupancy enum `_WaypointBufferStatus`. -/
inductive WaypointBufferStatus where
  | FREE
  | FULL
  deriving DecidableEq, Repr

/-- The request enum `_WaypointBufferUpdateType`. -/
inductive WaypointBufferUpdateType where
  | APPEND_WAYPOINT
  | INSERT_WAYPOINT
  | UPDATE_WAYPOINT
  | DELETE_WAYPOINT
  deriving DecidableEq, Repr

/-- The waypoint kind enum `_WaypointOutputType`. -/
inductive WaypointOutputType where
  | PATH_FOLLOW
  | ORBIT_FOLLOW
  | HOLD_WAYPOINT
  deriving DecidableEq, Repr

/-- Undefined behaviour of the C++ program, made explicit. -/
inductive Fault where
  | nullDeref
  | useAfterFree
  | outOfBounds
  deriving DecidableEq, Repr

/-- The record `_PathData`. -/
structure PathData where
  waypointId : Int
  latitude : ℚ
  longitude : ℚ
  altitude : Int
  waypointType : WaypointOutputType
  turnRadius : ℚ
  next : Option Ptr
  previous : Option Ptr

/-- The members of `WaypointManager` that flight-path management reads or writes,
together with the heap of waypoint records. -/
structure WaypointManager where
  heap : Ptr → Option PathData
  waypointBuffer : Int → Option Ptr
  waypointBufferStatus : Int → WaypointBufferStatus
  numWaypoints : Int
  nextFilledIndex : Int
  nextAssignedId : Int
  currentIndex : Int
  homeBase : Option Ptr
  inHold : Bool
  goingHome : Bool
  errorCode : WaypointStatus
  errorStatus : WaypointStatus

namespace WaypointManager

open WaypointStatus WaypointBufferStatus WaypointBufferUpdateType WaypointOutputType

section Memory

variable (PATH_BUFFER_SIZE : Nat)

/-- Read of `waypointBuffer[i]`. -/
def readBuffer (m : WaypointManager) (i : Int) : Except Fault (Option Ptr) :=
  if 0 ≤ i ∧ i < (PATH_BUFFER_SIZE : Int) then .ok (m.waypointBuffer i)
  else .error Fault.outOfBounds

/-- Read of `waypointBufferStatus[i]`. -/
def readStatus (m : WaypointManager) (i : Int) : Except Fault WaypointBufferStatus :=
  if 0 ≤ i ∧ i < (PATH_BUFFER_SIZE : Int) then .ok (m.waypointBufferStatus i)
  else .error Fault.outOfBounds

/-- Assignment `waypointBuffer[i] = p`. -/
def writeBuffer (m : WaypointManager) (i : Int) (p : Option Ptr) :
    Except Fault WaypointManager :=
  if 0 ≤ i ∧ i < (PATH_BUFFER_SIZE : Int) then
    .ok { m with waypointBuffer := Function.update m.waypointBuffer i p }
  else .error Fault.outOfBounds

/-- Assignment `waypointBufferStatus[i] = st`. -/
def writeStatus (m : WaypointManager) (i : Int) (st : WaypointBufferStatus) :
    Except Fault WaypointManager :=
  if 0 ≤ i ∧ i < (PATH_BUFFER_SIZE : Int) then
    .ok { m with waypointBufferStatus := Function.update m.waypointBufferStatus i st }
  else .error Fault.outOfBounds

end Memory

/-- Dereference `*p` for reading. -/
def deref (m : WaypointManager) (p : Option Ptr) : Except Fault PathData :=
  match p with
  | none => .error Fault.nullDeref
  | some a =>
    match m.heap a with
    | none => .error Fault.useAfterFree
    | some d => .ok d

/-- A field assignment through a pointer, `p->field = v`: the record at `p`
becomes `f` of itself. -/
def assign (m : WaypointManager) (p : Option Ptr) (f : PathData → PathData) :
    Except Fault WaypointManager :=
  match p with
  | none => .error Fault.nullDeref
  | some a =>
    match m.heap a with
    | none => .error Fault.useAfterFree
    | some d => .ok { m with heap := Function.update m.heap a (some (f d)) }

/-- The statement `delete p`. -/
def free (m : WaypointManager) (p : Option Ptr) : Except Fault WaypointManager :=
  match p with
  | none => .ok m
  | some a =>
    match m.heap a with
    | none => .error Fault.useAfterFree
    | some _ => .ok { m with heap := Function.update m.heap a none }

/-- The factory `initialize_waypoint()`; `a` is the address `new` returns. -/
def initialize_waypoint_default (m : WaypointManager) (a : Ptr) : WaypointManager × Ptr :=
  ({ m with
      heap := Function.update m.heap a (some
        { waypointId := m.nextAssignedId, latitude := -1, longitude := -1, altitude := -1,
          waypointType := PATH_FOLLOW, turnRadius := -1, next := none, previous := none })
      nextAssignedId := m.nextAssignedId + 1 }, a)

/-- The factory `initialize_waypoint(longitude, latitude, altitude, waypointType)`;
`a` is the address `new` returns. -/
def initialize_waypoint (m : WaypointManager) (a : Ptr) (longitude latitude : ℚ)
    (altitude : Int) (waypointType : WaypointOutputType) : WaypointManager × Ptr :=
  ({ m with
      heap := Function.update m.heap a (some
        { waypointId := m.nextAssignedId, latitude := latitude, longitude := longitude,
          altitude := altitude, waypointType := waypointType, turnRadius := -1,
          next := none, previous := none })
      nextAssignedId := m.nextAssignedId + 1 }, a)

/-- The factory `initialize_waypoint(longitude, latitude, altitude, waypointType,
turnRadius)`; `a` is the address `new` returns. -/
def initialize_waypoint_radius (m : WaypointManager) (a : Ptr) (longitude latitude : ℚ)
    (altitude : Int) (waypointType : WaypointOutputType) (turnRadius : ℚ) :
    WaypointManager × Ptr :=
  ({ m with
      heap := Function.update m.heap a (some
        { waypointId := m.nextAssignedId, latitude := latitude, longitude := longitude,
          altitude := altitude, waypointType := waypointType, turnRadius := turnRadius,
          next := none, previous := none })
      nextAssignedId := m.nextAssignedId + 1 }, a)

/-- A counted loop `for (i = lo; i < hi; i++)` whose bounds the body leaves alone:
`cnt` iterations remain and the loop variable is `i`. -/
def forUp (body : Int → WaypointManager → Except Fault WaypointManager) :
    Nat → Int → WaypointManager → Except Fault WaypointManager
  | 0, _, m => .ok m
  | cnt + 1, i, m => do
    let m1 ← body i m
    forUp body cnt (i + 1) m1

/-- A counted loop `for (i = hi; i >= lo; i--)` whose bounds the body leaves alone:
`cnt` iterations remain and the loop variable is `i`. -/
def forDown (body : Int → WaypointManager → Except Fault WaypointManager) :
    Nat → Int → WaypointManager → Except Fault WaypointManager
  | 0, _, m => .ok m
  | cnt + 1, i, m => do
    let m1 ← body i m
    forDown body cnt (i - 1) m1

section Operations

variable (PATH_BUFFER_SIZE : Nat)

/-- The scan of `get_waypoint_index_from_id`, with `fuel` iterations left and
loop variable `i`. -/
def get_waypoint_index_from_id_loop (m : WaypointManager) (waypointId : Int) :
    Nat → Int → Except Fault Int
  | 0, _ => .ok (-1)
  | fuel + 1, i => do
    let st ← readStatus PATH_BUFFER_SIZE m i
    if st = FREE then pure (-1) else do
      let p ← readBuffer PATH_BUFFER_SIZE m i
      let d ← deref m p
      if d.waypointId = waypointId then pure i
      else get_waypoint_index_from_id_loop m waypointId fuel (i + 1)

/-- The function `get_waypoint_index_from_id`: `for (i = 0; i < PATH_BUFFER_SIZE; i++)`. -/
def get_waypoint_index_from_id (m : WaypointManager) (waypointId : Int) : Except Fault Int :=
  get_waypoint_index_from_id_loop PATH_BUFFER_SIZE m waypointId PATH_BUFFER_SIZE 0

/-- The function `destroy_waypoint`; the returned id is dropped by every caller. -/
def destroy_waypoint (m : WaypointManager) (waypoint : Option Ptr) :
    Except Fault WaypointManager := do
  let _ ← deref m waypoint
  let m1 ← assign m waypoint (fun d => { d with next := none })
  let m2 ← assign m1 waypoint (fun d => { d with previous := none })
  free m2 waypoint

/-- The duplicate test at the head of `append_waypoint`, with its short-circuit
evaluation. -/
def append_is_duplicate (m : WaypointManager) (newWaypoint : Option Ptr)
    (previousIndex : Int) : Except Fault Bool :=
  if previousIndex ≠ -1 then do
    let p ← readBuffer PATH_BUFFER_SIZE m previousIndex
    let d ← deref m p
    let w ← deref m newWaypoint
    pure (decide (d.latitude = w.latitude) && decide (d.longitude = w.longitude))
  else pure false

/-- The part of `append_waypoint` after the duplicate test. -/
def append_store (m : WaypointManager) (newWaypoint : Option Ptr) (previousIndex : Int) :
    Except Fault WaypointManager := do
  let m1 ← writeBuffer PATH_BUFFER_SIZE m m.nextFilledIndex newWaypoint
  let m2 ← writeStatus PATH_BUFFER_SIZE m1 m1.nextFilledIndex FULL
  if previousIndex = -1 then
    pure { m2 with nextFilledIndex := m2.nextFilledIndex + 1,
                   numWaypoints := m2.numWaypoints + 1 }
  else do
    let cur ← readBuffer PATH_BUFFER_SIZE m2 m2.nextFilledIndex
    let prev ← readBuffer PATH_BUFFER_SIZE m2 previousIndex
    let m3 ← assign m2 cur (fun d => { d with previous := prev })
    let prev3 ← readBuffer PATH_BUFFER_SIZE m3 previousIndex
    let cur3 ← readBuffer PATH_BUFFER_SIZE m3 m3.nextFilledIndex
    let m4 ← assign m3 prev3 (fun d => { d with next := cur3 })
    pure { m4 with nextFilledIndex := m4.nextFilledIndex + 1,
                   numWaypoints := m4.numWaypoints + 1 }

/-- The function `append_waypoint`. -/
def append_waypoint (m : WaypointManager) (newWaypoint : Option Ptr) :
    Except Fault (WaypointManager × WaypointStatus) := do
  let previousIndex := m.nextFilledIndex - 1
  let dup ← append_is_duplicate PATH_BUFFER_SIZE m newWaypoint previousIndex
  if dup then pure (m, INVALID_PARAMETERS) else do
    let m1 ← append_store PATH_BUFFER_SIZE m newWaypoint previousIndex
    pure (m1, WAYPOINT_SUCCESS)

/-- The body of the shifting loop of `insert_new_waypoint`. -/
def insert_shift_body (i : Int) (m : WaypointManager) : Except Fault WaypointManager := do
  let st ← readStatus PATH_BUFFER_SIZE m i
  if st = FULL then do
    let p ← readBuffer PATH_BUFFER_SIZE m i
    let m1 ← writeBuffer PATH_BUFFER_SIZE m (i + 1) p
    writeStatus PATH_BUFFER_SIZE m1 (i + 1) FULL
  else pure m

/-- The part of `insert_new_waypoint` after the parameter check:
`for (i = PATH_BUFFER_SIZE - 2; i >= nextIndex; i--)`, then the store and the
four link assignments. -/
def insert_store (m : WaypointManager) (newWaypoint : Option Ptr)
    (previousIndex nextIndex : Int) : Except Fault WaypointManager := do
  let m1 ← forDown (insert_shift_body PATH_BUFFER_SIZE)
    ((PATH_BUFFER_SIZE : Int) - 1 - nextIndex).toNat ((PATH_BUFFER_SIZE : Int) - 2) m
  let m2 ← writeBuffer PATH_BUFFER_SIZE m1 nextIndex newWaypoint
  let m3 ← writeStatus PATH_BUFFER_SIZE m2 nextIndex FULL
  let cur ← readBuffer PATH_BUFFER_SIZE m3 nextIndex
  let succ ← readBuffer PATH_BUFFER_SIZE m3 (nextIndex + 1)
  let m4 ← assign m3 cur (fun d => { d with next := succ })
  let cur4 ← readBuffer PATH_BUFFER_SIZE m4 nextIndex
  let prev4 ← readBuffer PATH_BUFFER_SIZE m4 previousIndex
  let m5 ← assign m4 cur4 (fun d => { d with previous := prev4 })
  let prev5 ← readBuffer PATH_BUFFER_SIZE m5 previousIndex
  let m6 ← assign m5 prev5 (fun d => { d with next := newWaypoint })
  let succ6 ← readBuffer PATH_BUFFER_SIZE m6 (nextIndex + 1)
  assign m6 succ6 (fun d => { d with previous := newWaypoint })

/-- The function `insert_new_waypoint`. -/
def insert_new_waypoint (m : WaypointManager) (newWaypoint : Option Ptr)
    (previousId nextId : Int) : Except Fault (WaypointManager × WaypointStatus) := do
  let nextIndex ← get_waypoint_index_from_id PATH_BUFFER_SIZE m nextId
  let previousIndex ← get_waypoint_index_from_id PATH_BUFFER_SIZE m previousId
  if nextIndex = -1 ∨ previousIndex = -1 ∨ nextIndex - 1 ≠ previousIndex ∨ nextIndex = 0 then
    pure (m, INVALID_PARAMETERS)
  else do
    let m1 ← insert_store PATH_BUFFER_SIZE m newWaypoint previousIndex nextIndex
    pure (m1, WAYPOINT_SUCCESS)

/-- The neighbour re-linking of `delete_waypoint`. -/
def delete_relink (m : WaypointManager) (waypointIndex : Int) :
    Except Fault WaypointManager :=
  if waypointIndex = 0 then do
    let succ ← readBuffer PATH_BUFFER_SIZE m (waypointIndex + 1)
    assign m succ (fun d => { d with previous := none })
  else do
    let last ←
      if waypointIndex = (PATH_BUFFER_SIZE : Int) - 1 then pure true
      else do
        let st ← readStatus PATH_BUFFER_SIZE m (waypointIndex + 1)
        pure (decide (st = FREE))
    if last then do
      let prev ← readBuffer PATH_BUFFER_SIZE m (waypointIndex - 1)
      assign m prev (fun d => { d with next := none })
    else do
      let st ← readStatus PATH_BUFFER_SIZE m (waypointIndex + 1)
      if st = FULL then do
        let prev ← readBuffer PATH_BUFFER_SIZE m (waypointIndex - 1)
        let succ ← readBuffer PATH_BUFFER_SIZE m (waypointIndex + 1)
        let m1 ← assign m prev (fun d => { d with next := succ })
        let succ1 ← readBuffer PATH_BUFFER_SIZE m1 (waypointIndex + 1)
        let prev1 ← readBuffer PATH_BUFFER_SIZE m1 (waypointIndex - 1)
        assign m1 succ1 (fun d => { d with previous := prev1 })
      else pure m

/-- The body of the compacting loop of `delete_waypoint`. -/
def delete_compact_body (i : Int) (m : WaypointManager) : Except Fault WaypointManager := do
  let st ← readStatus PATH_BUFFER_SIZE m (i + 1)
  if st = FREE then do
    let m1 ← writeStatus PATH_BUFFER_SIZE m i FREE
    writeBuffer PATH_BUFFER_SIZE m1 i none
  else do
    let st1 ← readStatus PATH_BUFFER_SIZE m (i + 1)
    if st1 = FULL then do
      let m1 ← writeStatus PATH_BUFFER_SIZE m i FULL
      let p ← readBuffer PATH_BUFFER_SIZE m1 (i + 1)
      let m2 ← writeBuffer PATH_BUFFER_SIZE m1 i p
      writeStatus PATH_BUFFER_SIZE m2 (i + 1) FREE
    else pure m

/-- The part of `delete_waypoint` after the id has been resolved. -/
def delete_store (m : WaypointManager) (waypointIndex : Int) :
    Except Fault WaypointManager := do
  let waypointToDelete ← readBuffer PATH_BUFFER_SIZE m waypointIndex
  let m1 ← delete_relink PATH_BUFFER_SIZE m waypointIndex
  let m2 ← destroy_waypoint m1 waypointToDelete
  let m3 ←
    if waypointIndex = m2.numWaypoints - 1 then do
      let m21 ← writeBuffer PATH_BUFFER_SIZE m2 waypointIndex none
      writeStatus PATH_BUFFER_SIZE m21 waypointIndex FREE
    else
      forUp (delete_compact_body PATH_BUFFER_SIZE)
        (m2.numWaypoints - 1 - waypointIndex).toNat waypointIndex m2
  pure { m3 with numWaypoints := m3.numWaypoints - 1,
                 nextFilledIndex := m3.nextFilledIndex - 1 }

/-- The function `delete_waypoint`. -/
def delete_waypoint (m : WaypointManager) (waypointId : Int) :
    Except Fault (WaypointManager × WaypointStatus) := do
  let waypointIndex ← get_waypoint_index_from_id PATH_BUFFER_SIZE m waypointId
  if waypointIndex = -1 then pure (m, INVALID_PARAMETERS)
  else do
    let m1 ← delete_store PATH_BUFFER_SIZE m waypointIndex
    pure (m1, WAYPOINT_SUCCESS)

/-- The part of `update_waypoint` after the id has been resolved. -/
def update_store (m : WaypointManager) (updatedWaypoint : Option Ptr)
    (waypointIndex : Int) : Except Fault WaypointManager := do
  let oldWaypoint ← readBuffer PATH_BUFFER_SIZE m waypointIndex
  let m1 ← writeBuffer PATH_BUFFER_SIZE m waypointIndex updatedWaypoint
  let m2 ←
    if waypointIndex = 0 then do
      let cur ← readBuffer PATH_BUFFER_SIZE m1 waypointIndex
      let succ ← readBuffer PATH_BUFFER_SIZE m1 (waypointIndex + 1)
      let m11 ← assign m1 cur (fun d => { d with next := succ })
      let succ1 ← readBuffer PATH_BUFFER_SIZE m11 (waypointIndex + 1)
      let cur1 ← readBuffer PATH_BUFFER_SIZE m11 waypointIndex
      assign m11 succ1 (fun d => { d with previous := cur1 })
    else do
      let last ←
        if waypointIndex = (PATH_BUFFER_SIZE : Int) - 1 then pure true
        else do
          let st ← readStatus PATH_BUFFER_SIZE m1 (waypointIndex + 1)
          pure (decide (st = FREE))
      if last then do
        let cur ← readBuffer PATH_BUFFER_SIZE m1 waypointIndex
        let prev ← readBuffer PATH_BUFFER_SIZE m1 (waypointIndex - 1)
        let m11 ← assign m1 cur (fun d => { d with previous := prev })
        let prev1 ← readBuffer PATH_BUFFER_SIZE m11 (waypointIndex - 1)
        let cur1 ← readBuffer PATH_BUFFER_SIZE m11 waypointIndex
        assign m11 prev1 (fun d => { d with next := cur1 })
      else do
        let cur ← readBuffer PATH_BUFFER_SIZE m1 waypointIndex
        let succ ← readBuffer PATH_BUFFER_SIZE m1 (waypointIndex + 1)
        let m11 ← assign m1 cur (fun d => { d with next := succ })
        let cur1 ← readBuffer PATH_BUFFER_SIZE m11 waypointIndex
        let prev1 ← readBuffer PATH_BUFFER_SIZE m11 (waypointIndex - 1)
        let m12 ← assign m11 cur1 (fun d => { d with previous := prev1 })
        let prev2 ← readBuffer PATH_BUFFER_SIZE m12 (waypointIndex - 1)
        let cur2 ← readBuffer PATH_BUFFER_SIZE m12 waypointIndex
        let m13 ← assign m12 prev2 (fun d => { d with next := cur2 })
        let succ3 ← readBuffer PATH_BUFFER_SIZE m13 (waypointIndex + 1)
        let cur3 ← readBuffer PATH_BUFFER_SIZE m13 waypointIndex
        assign m13 succ3 (fun d => { d with previous := cur3 })
  destroy_waypoint m2 oldWaypoint

/-- The function `update_waypoint`. -/
def update_waypoint (m : WaypointManager) (updatedWaypoint : Option Ptr)
    (waypointId : Int) : Except Fault (WaypointManager × WaypointStatus) := do
  let waypointIndex ← get_waypoint_index_from_id PATH_BUFFER_SIZE m waypointId
  if waypointIndex = -1 then pure (m, INVALID_PARAMETERS)
  else do
    let m1 ← update_store PATH_BUFFER_SIZE m updatedWaypoint waypointIndex
    pure (m1, WAYPOINT_SUCCESS)

/-- The dispatch of `update_path_nodes` once the full-buffer check has passed. -/
def update_path_nodes_dispatch (m : WaypointManager) (waypoint : Option Ptr)
    (updateType : WaypointBufferUpdateType) (waypointId previousId nextId : Int) :
    Except Fault (WaypointManager × WaypointStatus) :=
  match updateType with
  | APPEND_WAYPOINT => append_waypoint PATH_BUFFER_SIZE m waypoint
  | INSERT_WAYPOINT => insert_new_waypoint PATH_BUFFER_SIZE m waypoint previousId nextId
  | UPDATE_WAYPOINT => update_waypoint PATH_BUFFER_SIZE m waypoint waypointId
  | DELETE_WAYPOINT => delete_waypoint PATH_BUFFER_SIZE m waypointId

/-- The function `update_path_nodes`. -/
def update_path_nodes (m : WaypointManager) (waypoint : Option Ptr)
    (updateType : WaypointBufferUpdateType) (waypointId previousId nextId : Int) :
    Except Fault (WaypointManager × WaypointStatus) :=
  if m.numWaypoints = (PATH_BUFFER_SIZE : Int) ∧
      (updateType = APPEND_WAYPOINT ∨ updateType = INSERT_WAYPOINT) then
    pure (m, INVALID_PARAMETERS)
  else do
    let r ← update_path_nodes_dispatch PATH_BUFFER_SIZE m waypoint updateType
      waypointId previousId nextId
    pure ({ r.1 with errorCode := r.2 }, r.2)

/-- The body of the loop of `clear_path_nodes`. -/
def clear_body (i : Int) (m : WaypointManager) : Except Fault WaypointManager := do
  let st ← readStatus PATH_BUFFER_SIZE m i
  let m1 ←
    if st = FULL then do
      let p ← readBuffer PATH_BUFFER_SIZE m i
      destroy_waypoint m p
    else pure m
  let m2 ← writeStatus PATH_BUFFER_SIZE m1 i FREE
  writeBuffer PATH_BUFFER_SIZE m2 i none

/-- The function `clear_path_nodes`. -/
def clear_path_nodes (m : WaypointManager) : Except Fault WaypointManager := do
  let m1 ← forUp (clear_body PATH_BUFFER_SIZE) PATH_BUFFER_SIZE 0 m
  pure { m1 with numWaypoints := 0, nextFilledIndex := 0, nextAssignedId := 0,
                 currentIndex := 0 }

/-- The body of the first loop of `initialize_flight_path`; the argument array
`initialWaypoints` is a list, and reading past its end is a fault. -/
def initialize_fill_body (initialWaypoints : List (Option Ptr)) (i : Int)
    (m : WaypointManager) : Except Fault WaypointManager := do
  let p ← match initialWaypoints[i.toNat]? with
    | some p => pure p
    | none => Except.error Fault.outOfBounds
  let m1 ← writeBuffer PATH_BUFFER_SIZE m i p
  let m2 ← writeStatus PATH_BUFFER_SIZE m1 i FULL
  pure { m2 with nextFilledIndex := i + 1 }

/-- The body of the linking loop of `initialize_flight_path`. -/
def initialize_link_body (i : Int) (m : WaypointManager) : Except Fault WaypointManager :=
  if i = 0 then do
    let cur ← readBuffer PATH_BUFFER_SIZE m i
    let succ ← readBuffer PATH_BUFFER_SIZE m (i + 1)
    let m1 ← assign m cur (fun d => { d with next := succ })
    let cur1 ← readBuffer PATH_BUFFER_SIZE m1 i
    assign m1 cur1 (fun d => { d with previous := none })
  else if i = m.numWaypoints - 1 then do
    let cur ← readBuffer PATH_BUFFER_SIZE m i
    let m1 ← assign m cur (fun d => { d with next := none })
    let cur1 ← readBuffer PATH_BUFFER_SIZE m1 i
    let prev1 ← readBuffer PATH_BUFFER_SIZE m1 (i - 1)
    assign m1 cur1 (fun d => { d with previous := prev1 })
  else do
    let cur ← readBuffer PATH_BUFFER_SIZE m i
    let succ ← readBuffer PATH_BUFFER_SIZE m (i + 1)
    let m1 ← assign m cur (fun d => { d with next := succ })
    let cur1 ← readBuffer PATH_BUFFER_SIZE m1 i
    let prev1 ← readBuffer PATH_BUFFER_SIZE m1 (i - 1)
    assign m1 cur1 (fun d => { d with previous := prev1 })

/-- The three loops shared by both overloads of `initialize_flight_path`. -/
def initialize_flight_path_loops (m : WaypointManager)
    (initialWaypoints : List (Option Ptr)) : Except Fault WaypointManager := do
  let m1 ← forUp (initialize_fill_body PATH_BUFFER_SIZE initialWaypoints)
    m.numWaypoints.toNat 0 m
  let m2 ← forUp (initialize_link_body PATH_BUFFER_SIZE) m1.numWaypoints.toNat 0 m1
  forUp (fun i mm => writeBuffer PATH_BUFFER_SIZE mm i none)
    ((PATH_BUFFER_SIZE : Int) - m2.numWaypoints).toNat m2.numWaypoints m2

/-- The overload `initialize_flight_path(initialWaypoints, numberOfWaypoints)`,
built without `UNIT_TESTING`. -/
def initialize_flight_path (m : WaypointManager) (initialWaypoints : List (Option Ptr))
    (numberOfWaypoints : Int) : Except Fault (WaypointManager × WaypointStatus) :=
  if m.numWaypoints ≠ 0 then
    pure ({ m with errorStatus := UNDEFINED_FAILURE }, UNDEFINED_FAILURE)
  else do
    let m1 ← initialize_flight_path_loops PATH_BUFFER_SIZE
      { m with numWaypoints := numberOfWaypoints, nextFilledIndex := 0 } initialWaypoints
    pure ({ m1 with errorStatus := WAYPOINT_SUCCESS }, WAYPOINT_SUCCESS)

/-- The overload `initialize_flight_path(initialWaypoints, numberOfWaypoints,
currentLocation)`. -/
def initialize_flight_path_home (m : WaypointManager)
    (initialWaypoints : List (Option Ptr)) (numberOfWaypoints : Int)
    (currentLocation : Option Ptr) : Except Fault (WaypointManager × WaypointStatus) :=
  if m.numWaypoints ≠ 0 then
    pure ({ m with errorStatus := UNDEFINED_FAILURE }, UNDEFINED_FAILURE)
  else do
    let m1 ← initialize_flight_path_loops PATH_BUFFER_SIZE
      { m with homeBase := currentLocation, numWaypoints := numberOfWaypoints,
               nextFilledIndex := 0 } initialWaypoints
    pure ({ m1 with errorStatus := WAYPOINT_SUCCESS }, WAYPOINT_SUCCESS)

end Operations

/-- The buffer that `clear_path_nodes` leaves behind, on an empty heap: every slot
`FREE` and null, every counter zero. -/
def emptyManager : WaypointManager where
  heap := fun _ => none
  waypointBuffer := fun _ => none
  waypointBufferStatus := fun _ => FREE
  numWaypoints := 0
  nextFilledIndex := 0
  nextAssignedId := 0
  currentIndex := 0
  homeBase := none
  inHold := false
  goingHome := false
  errorCode := WAYPOINT_SUCCESS
  errorStatus := WAYPOINT_SUCCESS

/-- The id of the waypoint in slot `i`, when the slot holds a live record. -/
def slotId (m : WaypointManager) (i : Int) : Option Int :=
  match m.waypointBuffer i with
  | none => none
  | some a => (m.heap a).map (fun d => d.waypointId)

/-! ## Concrete managers -/

/-- The manager an operation leaves behind; `emptyManager` stands in when the
operation faults. -/
def stateOf (x : Except Fault (WaypointManager × WaypointStatus)) : WaypointManager :=
  match x with
  | .ok (m, _) => m
  | .error _ => emptyManager

/-- The status an operation returns, or the fault it ends in. -/
def statusOf (x : Except Fault (WaypointManager × WaypointStatus)) :
    Except Fault WaypointStatus :=
  match x with
  | .ok (_, r) => .ok r
  | .error e => .error e

/-- Five waypoints made by the factory on an empty manager: addresses `10` to
`14`, ids `0` to `4`, longitudes `-80` to `-84`, all at latitude `43`. -/
def factoryFive : WaypointManager :=
  let m0 := (initialize_waypoint emptyManager 10 (-80) 43 100 PATH_FOLLOW).1
  let m1 := (initialize_waypoint m0 11 (-81) 43 100 PATH_FOLLOW).1
  let m2 := (initialize_waypoint m1 12 (-82) 43 100 PATH_FOLLOW).1
  let m3 := (initialize_waypoint m2 13 (-83) 43 100 PATH_FOLLOW).1
  (initialize_waypoint m3 14 (-84) 43 100 PATH_FOLLOW).1

/-- A buffer of capacity five initialised with the waypoints of ids `0`, `1`, `2`. -/
def threeWaypoints : WaypointManager :=
  stateOf (initialize_flight_path 5 factoryFive [some 10, some 11, some 12] 3)

/-- Two waypoints with the same coordinates `(43, -80)`, altitude `100` and kind
`PATH_FOLLOW`, made by the factory on an empty manager at addresses `20`, `21`. -/
def factoryTwins : WaypointManager :=
  let m0 := (initialize_waypoint emptyManager 20 (-80) 43 100 PATH_FOLLOW).1
  (initialize_waypoint m0 21 (-80) 43 100 PATH_FOLLOW).1

/-- The first of the twin records. -/
def record20 : PathData :=
  { waypointId := 0, latitude := 43, longitude := -80, altitude := 100,
    waypointType := PATH_FOLLOW, turnRadius := -1, next := none, previous := none }

/-- The second of the twin records. -/
def record21 : PathData :=
  { waypointId := 1, latitude := 43, longitude := -80, altitude := 100,
    waypointType := PATH_FOLLOW, turnRadius := -1, next := none, previous := none }

/-- The scenario step: on `threeWaypoints`, insert the waypoint at `13` (id `3`)
with `previousId = 0` and `nextId = 1`. -/
def afterInsert : Except Fault (WaypointManager × WaypointStatus) :=
  update_path_nodes 5 threeWaypoints (some 13) INSERT_WAYPOINT 0 0 1

/-- The scenario step after `afterInsert`: delete id `1`. -/
def afterInsertDelete : Except Fault (WaypointManager × WaypointStatus) :=
  update_path_nodes 5 (stateOf afterInsert) none DELETE_WAYPOINT 1 0 0

/-- Another step after `afterInsert`: append the waypoint at `14` (id `4`). -/
def afterInsertAppend : Except Fault (WaypointManager × WaypointStatus) :=
  update_path_nodes 5 (stateOf afterInsert) (some 14) APPEND_WAYPOINT 0 0 0

/-- The record the factory made at address `13`: id `3`, unattached. -/
def record13 : PathData :=
  { waypointId := 3, latitude := 43, longitude := -83, altitude := 100,
    waypointType := PATH_FOLLOW, turnRadius := -1, next := none, previous := none }

/-- The record the factory made at address `14`: id `4`, unattached. -/
def record14 : PathData :=
  { waypointId := 4, latitude := 43, longitude := -84, altitude := 100,
    waypointType := PATH_FOLLOW, turnRadius := -1, next := none, previous := none }

/-! ## Invariants of the buffer -/

/-- Slot `i` holds the live record `d` at address `a`. -/
def SlotHolds (m : WaypointManager) (i : Int) (a : Ptr) (d : PathData) : Prop :=
  m.waypointBuffer i = some a ∧ m.heap a = some d

/-- The packing invariant: the counters agree and stay within the capacity, the
slots below `numWaypoints` are `FULL` and hold a live waypoint record, and the
slots from `numWaypoints` on are `FREE` and null. -/
def Packing (S : Nat) (m : WaypointManager) : Prop :=
  0 ≤ m.numWaypoints ∧ m.numWaypoints ≤ (S : Int) ∧
  m.nextFilledIndex = m.numWaypoints ∧
  (∀ i : Int, 0 ≤ i → i < m.numWaypoints →
    m.waypointBufferStatus i = FULL ∧ ∃ a d, SlotHolds m i a d) ∧
  (∀ i : Int, m.numWaypoints ≤ i → i < (S : Int) →
    m.waypointBufferStatus i = FREE ∧ m.waypointBuffer i = none)

/-- The linking invariant on the occupied prefix `[0, numWaypoints)`: each slot
holds a live record whose `previous` is the slot before it (null for the first)
and whose `next` is the slot after it (null for the last). -/
def Linking (m : WaypointManager) : Prop :=
  ∀ i : Int, 0 ≤ i → i < m.numWaypoints →
    ∃ a d, SlotHolds m i a d ∧
      d.previous = (if i = 0 then none else m.waypointBuffer (i - 1)) ∧
      d.next = (if i = m.numWaypoints - 1 then none else m.waypointBuffer (i + 1))

/-- The id `waypointId` resolves to the index `k`. -/
def Resolves (S : Nat) (m : WaypointManager) (waypointId : Int) (k : Int) : Prop :=
  get_waypoint_index_from_id S m waypointId = .ok k ∧ k ≠ -1

/-- The heap after `update_waypoint` has put the record `dw` at address `w` into
slot `k`, displacing the record at address `b`: `b` is deleted, `w` is linked to
the neighbours of slot `k`, and the neighbours are linked to `w`. -/
def updatedHeap (m : WaypointManager) (k : Int) (w : Ptr) (dw : PathData) (b : Ptr) :
    Ptr → Option PathData :=
  fun p =>
    if p = b then none
    else if p = w then
      some { dw with
        previous := if k = 0 then dw.previous else m.waypointBuffer (k - 1)
        next := if k = m.numWaypoints - 1 then dw.next else m.waypointBuffer (k + 1) }
    else
      (m.heap p).map fun d =>
        { d with
          next := if k ≠ 0 ∧ m.waypointBuffer (k - 1) = some p then some w else d.next
          previous :=
            if k ≠ m.numWaypoints - 1 ∧ m.waypointBuffer (k + 1) = some p then some w
            else d.previous }

/-- The heap after `delete_waypoint` has linked the neighbours of slot `k` to each
other (the record of slot `k` itself is still there). -/
def relinkedHeap (m : WaypointManager) (k : Int) : Ptr → Option PathData :=
  fun p =>
    (m.heap p).map fun d =>
      { d with
        next :=
          if k ≠ 0 ∧ m.waypointBuffer (k - 1) = some p then
            (if k = m.numWaypoints - 1 then none else m.waypointBuffer (k + 1))
          else d.next
        previous :=
          if k ≠ m.numWaypoints - 1 ∧ m.waypointBuffer (k + 1) = some p then
            (if k = 0 then none else m.waypointBuffer (k - 1))
          else d.previous }

/-- The slots after `delete_waypoint` has removed slot `k`: the slots after `k`
move one down; the old last slot is nulled only when it is the removed one. -/
def compactedBuffer (m : WaypointManager) (k : Int) : Int → Option Ptr :=
  fun i =>
    if k ≤ i ∧ i < m.numWaypoints - 1 then m.waypointBuffer (i + 1)
    else if i = k ∧ k = m.numWaypoints - 1 then none
    else m.waypointBuffer i

/-- The slots after the shifting loop of `insert_new_waypoint` for the index `k`:
the occupied slots from `k` on have moved one up. -/
def shiftedBuffer (m : WaypointManager) (k : Int) : Int → Option Ptr :=
  fun j => if k < j ∧ j ≤ m.numWaypoints then m.waypointBuffer (j - 1) else m.waypointBuffer j

/-- The heap after `insert_new_waypoint` has put the record `dw` at address `w`
between the old slots `k - 1` and `k`. -/
def insertedHeap (m : WaypointManager) (k : Int) (w : Ptr) (dw : PathData) :
    Ptr → Option PathData :=
  fun p =>
    if p = w then
      some { dw with next := m.waypointBuffer k, previous := m.waypointBuffer (k - 1) }
    else
      (m.heap p).map fun d =>
        { d with
          next := if m.waypointBuffer (k - 1) = some p then some w else d.next
          previous := if m.waypointBuffer k = some p then some w else d.previous }

/-- The buffer is non-empty and its last stored waypoint has the latitude and the
longitude of the record `dw`. -/
def LastHasCoordinates (m : WaypointManager) (dw : PathData) : Prop :=
  m.numWaypoints ≠ 0 ∧
    ∃ a d, SlotHolds m (m.numWaypoints - 1) a d ∧
      d.latitude = dw.latitude ∧ d.longitude = dw.longitude

/-! ## Current index and home -/

/-- The function `change_current_index`, with the short-circuit evaluation of its
three-part test. -/
def change_current_index (PATH_BUFFER_SIZE : Nat) (m : WaypointManager) (id : Int) :
    Except Fault (WaypointManager × WaypointStatus) := do
  let waypointIndex ← get_waypoint_index_from_id PATH_BUFFER_SIZE m id
  if waypointIndex = -1 then pure (m, INVALID_PARAMETERS)
  else do
    let p ← readBuffer PATH_BUFFER_SIZE m waypointIndex
    let d ← deref m p
    if d.next = none then pure (m, INVALID_PARAMETERS)
    else do
      let d1 ← deref m d.next
      if d1.next = none then pure (m, INVALID_PARAMETERS)
      else pure ({ m with currentIndex := waypointIndex }, WAYPOINT_SUCCESS)

/-- The function `head_home`. -/
def head_home (PATH_BUFFER_SIZE : Nat) (m : WaypointManager) :
    Except Fault (WaypointManager × Bool) :=
  if m.homeBase = none then pure (m, false)
  else if m.goingHome = false then do
    let m1 ← clear_path_nodes PATH_BUFFER_SIZE m
    pure ({ m1 with goingHome := true }, true)
  else pure ({ m with goingHome := false }, false)

/-- Every `FULL` slot holds a live record, and no two `FULL` slots hold the same
record: what `clear_path_nodes` relies on when it destroys the records. -/
def ClearSafe (S : Nat) (m : WaypointManager) : Prop :=
  (∀ i : Int, 0 ≤ i → i < (S : Int) → m.waypointBufferStatus i = FULL →
    ∃ a d, SlotHolds m i a d) ∧
  (∀ i j : Int, 0 ≤ i → i < j → j < (S : Int) → m.waypointBufferStatus i = FULL →
    m.waypointBufferStatus j = FULL → m.waypointBuffer i ≠ m.waypointBuffer j)

/-- A scenario: the buffer initialised with the waypoints of ids `0` and `1`. -/
def twoWaypoints : Except Fault (WaypointManager × WaypointStatus) :=
  initialize_flight_path 5 factoryFive [some 10, some 11] 2

/-- The scenario continued: delete id `0`, then delete id `1`. -/
def twoDeleted : Except Fault (WaypointManager × WaypointStatus) :=
  update_path_nodes 5
    (stateOf (update_path_nodes 5 (stateOf twoWaypoints) none DELETE_WAYPOINT 0 0 0))
    none DELETE_WAYPOINT 1 0 0

/-- The scenario continued: initialise the emptied buffer with the single
waypoint at `12`. -/
def reinitialisedOne : Except Fault (WaypointManager × WaypointStatus) :=
  initialize_flight_path 5 (stateOf twoDeleted) [some 12] 1

/-- A scenario: after `afterInsert`, delete id `2`. -/
def afterInsertDeleteLast : Except Fault (WaypointManager × WaypointStatus) :=
  update_path_nodes 5 (stateOf afterInsert) none DELETE_WAYPOINT 2 0 0

/-- A scenario with a home: the buffer initialised with the waypoints of ids
`0, 1, 2` and the waypoint at `14` as current location, then the insert of the
waypoint at `13` between the ids `0` and `1`, then the delete of id `2`. -/
def homeInsertDeleteLast : Except Fault (WaypointManager × WaypointStatus) :=
  update_path_nodes 5
    (stateOf (update_path_nodes 5
      (stateOf (initialize_flight_path_home 5 factoryFive [some 10, some 11, some 12] 3
        (some 14)))
      (some 13) INSERT_WAYPOINT 0 0 1))
    none DELETE_WAYPOINT 2 0 0

/-! ## Navigation

The navigation half of the source computes in `float`, `double` and `long double`.
Here the numbers are the elements of a linearly ordered field `F`, the functions
of `<cmath>` and the constant `M_PI` are the fields of a `MathLib F`, and a
floating `while` loop runs for at most `fuel` iterations: a call that needs more
ends in `Stop.fuel`. -/

/-- The functions of `<cmath>` that the source calls, and `M_PI`. `round` is
`round` followed by the conversion to `int`, `toInt` is the conversion of a
floating value to `int`. -/
structure MathLib (F : Type) where
  pi : F
  sqrt : F → F
  sin : F → F
  cos : F → F
  tan : F → F
  asin : F → F
  acos : F → F
  atan : F → F
  atan2 : F → F → F
  round : F → Int
  toInt : F → Int

/-- A `float[3]`. -/
structure Vec3 (F : Type) where
  c0 : F
  c1 : F
  c2 : F

/-- The input record `_WaypointManager_Data_In`. Its declaration is in a header
that is not part of the sources: the fields are the ones the source reads, and
their values are rationals. -/
structure WaypointManager_Data_In where
  latitude : ℚ
  longitude : ℚ
  altitude : ℚ
  heading : ℚ

/-- The output record `_WaypointManager_Data_Out`. Its declaration is in a header
that is not part of the sources: the fields are the ones `update_return_data`
writes. -/
structure WaypointManager_Data_Out (F : Type) where
  desiredHeading : Int
  desiredAltitude : F
  distanceToNextWaypoint : F
  radius : F
  turnDirection : Int
  errorCode : WaypointStatus
  isDataNew : Bool
  timeOfData : Int
  out_type : WaypointOutputType

/-- The members of `WaypointManager` that only navigation reads or writes. Their
declarations are in a header that is not part of the sources: the names are the
ones the source uses, `turnDirection` and `desiredHeading` are `int`, the others
are floating. -/
structure NavigationData (F : Type) where
  relativeLongitude : F
  relativeLatitude : F
  orbitPathStatus : WaypointOutputType
  turnCenter : Vec3 F
  turnRadius : F
  turnDirection : Int
  turnDesiredAltitude : F
  desiredHeading : Int
  desiredAltitude : F
  distanceToNextWaypoint : F
  outputType : WaypointOutputType
  dataIsNew : Bool

/-- Why a navigation call does not return: undefined behaviour on the heap or the
arrays, or a floating `while` loop that needs more iterations than allowed. -/
inductive Stop where
  | fault (f : Fault)
  | fuel

/-- A buffer operation inside a navigation call. -/
def liftFault {α : Type} (x : Except Fault α) : Except Stop α :=
  match x with
  | .ok a => .ok a
  | .error e => .error (Stop.fault e)

/-- The loop `while (calcHeading >= 360.0) calcHeading -= 360.0;` on an `int`. -/
def heading_sub_loop (calcHeading : Int) : Int :=
  if 360 ≤ calcHeading then heading_sub_loop (calcHeading - 360) else calcHeading
termination_by calcHeading.toNat
decreasing_by omega

/-- The loop `while (calcHeading < 0.0) calcHeading += 360.0;` on an `int`. -/
def heading_add_loop (calcHeading : Int) : Int :=
  if calcHeading < 0 then heading_add_loop (calcHeading + 360) else calcHeading
termination_by (-calcHeading).toNat
decreasing_by omega

/-- The two normalising loops of `follow_orbit` and `follow_straight_path`, one
after the other. -/
def normalize_heading (calcHeading : Int) : Int :=
  heading_add_loop (heading_sub_loop calcHeading)

/-- The heading normalised the way the spec proposes, by a single modulo. -/
def heading_modulo (calcHeading : Int) : Int := calcHeading % 360

/-- The conversion of a rational to `int`, towards zero. -/
def truncate (q : ℚ) : Int := if 0 ≤ q then ⌊q⌋ else ⌈q⌉

section Navigation

variable {F : Type} [LinearOrderedField F] (lib : MathLib F)

/-- The macro `deg2rad`. -/
def deg2rad (angle_in_degrees : F) : F := angle_in_degrees * lib.pi / 180

/-- The macro `rad2deg`. -/
def rad2deg (angle_in_radians : F) : F := angle_in_radians * 180 / lib.pi

/-- The macro `EARTH_RADIUS`. -/
def EARTH_RADIUS : F := 6378137 / 1000

/-- The array `k_gain`, indexed by `PATH_FOLLOW` and `ORBIT_FOLLOW`. -/
def k_gain (i : WaypointOutputType) : F :=
  match i with
  | PATH_FOLLOW => 1 / 100
  | _ => 1

/-- The function `get_distance`. -/
def get_distance (lat1 lon1 lat2 lon2 : F) : F :=
  let change_in_Lat := deg2rad lib (lat2 - lat1)
  let change_in_lon := deg2rad lib (lon2 - lon1)
  let haversine_ans :=
    lib.sin (change_in_Lat / 2) * lib.sin (change_in_Lat / 2) +
      lib.cos (deg2rad lib lat1) * lib.cos (deg2rad lib lat2) *
        lib.sin (change_in_lon / 2) * lib.sin (change_in_lon / 2)
  if (0 ≤ change_in_Lat ∧ 0 ≤ change_in_lon) ∨ (change_in_Lat < 0 ∧ change_in_lon < 0) then
    EARTH_RADIUS * (2 * lib.atan2 (lib.sqrt haversine_ans) (lib.sqrt (1 - haversine_ans))) * 1000
  else
    EARTH_RADIUS * (2 * lib.atan2 (lib.sqrt haversine_ans) (lib.sqrt (1 - haversine_ans)))
      * -1000

/-- The function `get_coordinates`: the two values it stores in `xyCoordinates[0]`
and `xyCoordinates[1]`. -/
def get_coordinates (nav : NavigationData F) (longitude latitude : F) : F × F :=
  (get_distance lib nav.relativeLatitude nav.relativeLongitude nav.relativeLatitude longitude,
   get_distance lib nav.relativeLatitude nav.relativeLongitude latitude nav.relativeLongitude)

/-- The loop `while (courseAngle - heading < -M_PI) courseAngle += 2 * M_PI;` on
exact numbers; `wrap_course_up_float` is the loop with the roundings of a `float`. -/
def wrap_course_up (heading : F) : Nat → F → Except Stop F
  | 0, courseAngle =>
    if courseAngle - heading < -lib.pi then .error Stop.fuel else .ok courseAngle
  | fuel + 1, courseAngle =>
    if courseAngle - heading < -lib.pi then
      wrap_course_up heading fuel (courseAngle + 2 * lib.pi)
    else .ok courseAngle

/-- The loop `while (courseAngle - heading > M_PI) courseAngle -= 2 * M_PI;` on
exact numbers; `wrap_course_down_float` is the loop with the roundings of a `float`. -/
def wrap_course_down (heading : F) : Nat → F → Except Stop F
  | 0, courseAngle =>
    if lib.pi < courseAngle - heading then .error Stop.fuel else .ok courseAngle
  | fuel + 1, courseAngle =>
    if lib.pi < courseAngle - heading then
      wrap_course_down heading fuel (courseAngle - 2 * lib.pi)
    else .ok courseAngle

/-- The loop `while (turnCenterBearing >= 360.0) turnCenterBearing -= 360.0;`. -/
def bearing_sub_loop : Nat → F → Except Stop F
  | 0, turnCenterBearing =>
    if 360 ≤ turnCenterBearing then .error Stop.fuel else .ok turnCenterBearing
  | fuel + 1, turnCenterBearing =>
    if 360 ≤ turnCenterBearing then bearing_sub_loop fuel (turnCenterBearing - 360)
    else .ok turnCenterBearing

/-- The loop `while (turnCenterBearing < 0.0) turnCenterBearing += 360.0;`. -/
def bearing_add_loop : Nat → F → Except Stop F
  | 0, turnCenterBearing =>
    if turnCenterBearing < 0 then .error Stop.fuel else .ok turnCenterBearing
  | fuel + 1, turnCenterBearing =>
    if turnCenterBearing < 0 then bearing_add_loop fuel (turnCenterBearing + 360)
    else .ok turnCenterBearing

/-- The function `follow_orbit`. -/
def follow_orbit (fuel : Nat) (nav : NavigationData F) (position : Vec3 F) (heading : F) :
    Except Stop (NavigationData F) := do
  let currentHeading := deg2rad lib (90 - heading)
  let orbitDistance :=
    lib.sqrt ((position.c0 - nav.turnCenter.c0) ^ 2 + (position.c1 - nav.turnCenter.c1) ^ 2)
  let courseAngle :=
    lib.atan2 (position.c1 - nav.turnCenter.c1) (position.c0 - nav.turnCenter.c0)
  let courseAngle1 ← wrap_course_up lib currentHeading fuel courseAngle
  let courseAngle2 ← wrap_course_down lib currentHeading fuel courseAngle1
  let calcHeading : Int :=
    lib.round (90 - rad2deg lib (courseAngle2 + (nav.turnDirection : F) *
      (lib.pi / 2 + lib.atan (k_gain ORBIT_FOLLOW * (orbitDistance - nav.turnRadius)
        / nav.turnRadius))))
  pure { nav with
    desiredHeading := normalize_heading calcHeading
    distanceToNextWaypoint := 0
    outputType := ORBIT_FOLLOW
    desiredAltitude := nav.turnDesiredAltitude }

/-- The function `follow_straight_path`; `inHold` is the member it tests at its end. -/
def follow_straight_path (fuel : Nat) (inHold : Bool) (nav : NavigationData F)
    (waypointDirection targetWaypoint position : Vec3 F) (heading : F) :
    Except Stop (NavigationData F) := do
  let heading1 := deg2rad lib (90 - heading)
  let courseAngle := lib.atan2 waypointDirection.c1 waypointDirection.c0
  let courseAngle1 ← wrap_course_up lib heading1 fuel courseAngle
  let courseAngle2 ← wrap_course_down lib heading1 fuel courseAngle1
  let pathError :=
    -lib.sin courseAngle2 * (position.c0 - targetWaypoint.c0) +
      lib.cos courseAngle2 * (position.c1 - targetWaypoint.c1)
  let calcHeading : Int :=
    lib.toInt (90 - rad2deg lib (courseAngle2 -
      lib.pi / 2 * 2 / lib.pi * lib.atan (k_gain PATH_FOLLOW * pathError)))
  let nav1 := { nav with
    desiredHeading := normalize_heading calcHeading
    outputType := PATH_FOLLOW
    desiredAltitude := targetWaypoint.c2 }
  if inHold = false then pure { nav1 with turnRadius := 0, turnDirection := 0 }
  else pure nav1

/-- The function `follow_hold_pattern`. -/
def follow_hold_pattern (fuel : Nat) (nav : NavigationData F) (position : Vec3 F)
    (heading : F) : Except Stop (NavigationData F) :=
  let xy := get_coordinates lib nav position.c0 position.c1
  follow_orbit lib fuel nav { position with c0 := xy.1, c1 := xy.2 } heading

/-- The local coordinates and altitude of a waypoint record, as the followers
compute them with `get_coordinates`. -/
def waypoint_coordinates (nav : NavigationData F) (w : PathData) : Vec3 F :=
  let xy := get_coordinates lib nav (w.longitude : F) (w.latitude : F)
  { c0 := xy.1, c1 := xy.2, c2 := (w.altitude : F) }

/-- The Euclidean distance `sqrt(pow(..,2) + pow(..,2) + pow(..,2))` of two points. -/
def distance3 (p q : Vec3 F) : F :=
  lib.sqrt ((p.c0 - q.c0) ^ 2 + (p.c1 - q.c1) ^ 2 + (p.c2 - q.c2) ^ 2)

/-- The unit vector from `q` towards `p`, as the followers compute it. -/
def direction3 (p q : Vec3 F) : Vec3 F :=
  { c0 := (p.c0 - q.c0) / distance3 lib p q
    c1 := (p.c1 - q.c1) / distance3 lib p q
    c2 := (p.c2 - q.c2) / distance3 lib p q }

/-- The function `follow_line_segment`. -/
def follow_line_segment (fuel : Nat) (m : WaypointManager) (nav : NavigationData F)
    (currentWaypoint : Option Ptr) (position : Vec3 F) (heading : F) :
    Except Stop (WaypointManager × NavigationData F) := do
  let cw ← liftFault (deref m currentWaypoint)
  let waypointPosition := waypoint_coordinates lib nav cw
  let targetWaypoint ← liftFault (deref m cw.next)
  let targetCoordinates := waypoint_coordinates lib nav targetWaypoint
  let waypointDirection := direction3 lib targetCoordinates waypointPosition
  let nav1 := { nav with distanceToNextWaypoint := distance3 lib targetCoordinates position }
  let nav2 ← follow_straight_path lib fuel m.inHold nav1 waypointDirection targetCoordinates
    position heading
  pure (m, nav2)

/-- The function `follow_last_line_segment`. -/
def follow_last_line_segment (fuel : Nat) (m : WaypointManager) (nav : NavigationData F)
    (currentWaypoint : Option Ptr) (position : Vec3 F) (heading : F) :
    Except Stop (WaypointManager × NavigationData F) := do
  let waypointPosition := position
  let targetWaypoint ← liftFault (deref m currentWaypoint)
  let targetCoordinates := waypoint_coordinates lib nav targetWaypoint
  let waypointDirection := direction3 lib targetCoordinates waypointPosition
  let nav1 := { nav with distanceToNextWaypoint := distance3 lib targetCoordinates position }
  let dotProduct :=
    waypointDirection.c0 * (position.c0 - targetCoordinates.c0) +
      waypointDirection.c1 * (position.c1 - targetCoordinates.c1) +
      waypointDirection.c2 * (position.c2 - targetCoordinates.c2)
  let m1 : WaypointManager := if 0 < dotProduct then { m with inHold := true } else m
  let nav2 : NavigationData F :=
    if 0 < dotProduct then
      { nav1 with
        turnDirection := 1
        turnRadius := 50
        turnDesiredAltitude := (targetWaypoint.altitude : F)
        turnCenter :=
          { c0 := (targetWaypoint.longitude : F), c1 := (targetWaypoint.latitude : F),
            c2 := (targetWaypoint.altitude : F) } }
    else nav1
  let nav3 ← follow_straight_path lib fuel m1.inHold nav2 waypointDirection targetCoordinates
    position heading
  pure (m1, nav3)

/-- The function `follow_waypoints`. -/
def follow_waypoints (fuel : Nat) (m : WaypointManager) (nav : NavigationData F)
    (currentWaypoint : Option Ptr) (position : Vec3 F) (heading : F) :
    Except Stop (WaypointManager × NavigationData F) := do
  let cw ← liftFault (deref m currentWaypoint)
  let waypointPosition := waypoint_coordinates lib nav cw
  if cw.next = none then
    follow_last_line_segment lib fuel m nav currentWaypoint position heading
  else do
    let targetWaypoint ← liftFault (deref m cw.next)
    if targetWaypoint.next = none then
      follow_line_segment lib fuel m nav currentWaypoint position heading
    else do
      let targetCoordinates := waypoint_coordinates lib nav targetWaypoint
      let waypointAfterTarget ← liftFault (deref m targetWaypoint.next)
      let waypointAfterTargetCoordinates := waypoint_coordinates lib nav waypointAfterTarget
      let waypointDirection := direction3 lib targetCoordinates waypointPosition
      let nextWaypointDirection :=
        direction3 lib waypointAfterTargetCoordinates targetCoordinates
      let turningAngle :=
        lib.acos (-deg2rad lib
          (waypointDirection.c0 * nextWaypointDirection.c0 +
            waypointDirection.c1 * nextWaypointDirection.c1 +
            waypointDirection.c2 * nextWaypointDirection.c2))
      let tangentFactor := (targetWaypoint.turnRadius : F) / lib.tan (turningAngle / 2)
      let halfPlane : Vec3 F :=
        { c0 := targetCoordinates.c0 - tangentFactor * waypointDirection.c0
          c1 := targetCoordinates.c1 - tangentFactor * waypointDirection.c1
          c2 := targetCoordinates.c2 - tangentFactor * waypointDirection.c2 }
      let nav1 := { nav with distanceToNextWaypoint := distance3 lib targetCoordinates position }
      if nav1.orbitPathStatus = PATH_FOLLOW then
        let dotProduct :=
          waypointDirection.c0 * (position.c0 - halfPlane.c0) +
            waypointDirection.c1 * (position.c1 - halfPlane.c1) +
            waypointDirection.c2 * (position.c2 - halfPlane.c2)
        let nav2 : NavigationData F :=
          if 0 < dotProduct then { nav1 with orbitPathStatus := ORBIT_FOLLOW } else nav1
        let hold : Bool :=
          decide (0 < dotProduct) && decide (targetWaypoint.waypointType = HOLD_WAYPOINT)
        let m1 : WaypointManager := if hold then { m with inHold := true } else m
        let nav3 : NavigationData F :=
          if hold then
            { nav2 with
              turnDirection := 1
              turnRadius := (targetWaypoint.turnRadius : F)
              turnDesiredAltitude := (targetWaypoint.altitude : F)
              turnCenter :=
                { c0 := (targetWaypoint.longitude : F), c1 := (targetWaypoint.latitude : F),
                  c2 := (targetWaypoint.altitude : F) } }
          else nav2
        let nav4 ← follow_straight_path lib fuel m1.inHold nav3 waypointDirection
          targetCoordinates position heading
        pure (m1, nav4)
      else
        let turnDirection : Int :=
          if 0 < waypointDirection.c0 * nextWaypointDirection.c1 -
              waypointDirection.c1 * nextWaypointDirection.c0 then 1 else -1
        let euclideanWaypointDirection :=
          lib.sqrt ((nextWaypointDirection.c0 - waypointDirection.c0) ^ 2 +
              (nextWaypointDirection.c1 - waypointDirection.c1) ^ 2 +
              (nextWaypointDirection.c2 - waypointDirection.c2) ^ 2) *
            (if nextWaypointDirection.c0 - waypointDirection.c0 < 0 then -1 else 1) *
            (if nextWaypointDirection.c1 - waypointDirection.c1 < 0 then -1 else 1) *
            (if nextWaypointDirection.c2 - waypointDirection.c2 < 0 then -1 else 1)
        let nav2 := { nav1 with
          turnDirection := turnDirection
          turnCenter :=
            { c0 := targetCoordinates.c0 +
                tangentFactor * (nextWaypointDirection.c0 - waypointDirection.c0)
                  / euclideanWaypointDirection
              c1 := targetCoordinates.c1 +
                tangentFactor * (nextWaypointDirection.c1 - waypointDirection.c1)
                  / euclideanWaypointDirection
              c2 := targetCoordinates.c2 +
                tangentFactor * (nextWaypointDirection.c2 - waypointDirection.c2)
                  / euclideanWaypointDirection } }
        if m.inHold = true then do
          let nav3 ← follow_orbit lib fuel nav2 position heading
          pure (m, nav3)
        else
          let dotProduct :=
            nextWaypointDirection.c0 * (position.c0 - halfPlane.c0) +
              nextWaypointDirection.c1 * (position.c1 - halfPlane.c1) +
              nextWaypointDirection.c2 * (position.c2 - halfPlane.c2)
          let nav3 : NavigationData F :=
            if 0 < dotProduct then { nav2 with orbitPathStatus := PATH_FOLLOW } else nav2
          let nav4 : NavigationData F :=
            if euclideanWaypointDirection = 0 then { nav3 with orbitPathStatus := PATH_FOLLOW }
            else nav3
          let nav5 := { nav4 with outputType := ORBIT_FOLLOW }
          do
            let nav6 ← follow_orbit lib fuel nav5 position heading
            pure (m, nav6)

/-- The function `update_return_data`: the record it fills and the members after it. -/
def update_return_data (m : WaypointManager) (nav : NavigationData F) :
    NavigationData F × WaypointManager_Data_Out F :=
  ({ nav with dataIsNew := false },
   { desiredHeading := nav.desiredHeading
     desiredAltitude := nav.desiredAltitude
     distanceToNextWaypoint := nav.distanceToNextWaypoint
     radius := nav.turnRadius
     turnDirection := nav.turnDirection
     errorCode := m.errorCode
     isDataNew := nav.dataIsNew
     timeOfData := 0
     out_type := nav.outputType })

/-- The function `get_next_directions`. `Data` is the record behind the output
pointer as the caller hands it in, and the third component of the result is that
record when the call returns; `a` is the address `new _PathData` returns in the
home-return branch, where the record starts with the id `0` (the source leaves
it uninitialised and never reads it). -/
def get_next_directions (fuel : Nat) (PATH_BUFFER_SIZE : Nat) (m : WaypointManager)
    (nav : NavigationData F) (a : Ptr) (currentStatus : WaypointManager_Data_In)
    (Data : WaypointManager_Data_Out F) :
    Except Stop
      (WaypointManager × NavigationData F × WaypointManager_Data_Out F × WaypointStatus) :=
  let m0 : WaypointManager := { m with errorCode := WAYPOINT_SUCCESS }
  let currentHeading : F := (currentStatus.heading : F)
  if m0.inHold = true then
    if nav.turnRadius ≤ 0 ∨ nav.turnDirection < -1 ∨ 1 < nav.turnDirection then
      pure (m0, nav, Data, INVALID_PARAMETERS)
    else do
      let position : Vec3 F :=
        { c0 := (currentStatus.longitude : F), c1 := (currentStatus.latitude : F),
          c2 := (currentStatus.altitude : F) }
      let nav1 ← follow_hold_pattern lib fuel nav position currentHeading
      let nav2 := { nav1 with outputType := ORBIT_FOLLOW, dataIsNew := true }
      let r := update_return_data m0 nav2
      pure (m0, r.1, r.2, m0.errorCode)
  else
    let xy := get_coordinates lib nav (currentStatus.longitude : F) (currentStatus.latitude : F)
    let position : Vec3 F := { c0 := xy.1, c1 := xy.2, c2 := (currentStatus.altitude : F) }
    if m0.goingHome = true then
      if m0.homeBase = none then pure (m0, nav, Data, UNDEFINED_PARAMETER)
      else do
        let currentPosition : PathData :=
          { waypointId := 0
            latitude := currentStatus.latitude
            longitude := currentStatus.longitude
            altitude := truncate currentStatus.altitude
            turnRadius := -1
            waypointType := PATH_FOLLOW
            previous := none
            next := m0.homeBase }
        let m1 : WaypointManager :=
          { m0 with heap := Function.update m0.heap a (some currentPosition) }
        let m2 ← liftFault (assign m1 m1.homeBase (fun d => { d with previous := some a }))
        let m3 ← liftFault (assign m2 m2.homeBase (fun d => { d with next := none }))
        let m4 ← liftFault
          (assign m3 m3.homeBase (fun d => { d with waypointType := HOLD_WAYPOINT }))
        let r ← follow_waypoints lib fuel m4 nav (some a) position currentHeading
        let nav2 := { r.2 with dataIsNew := true }
        let u := update_return_data r.1 nav2
        let m5 ← liftFault (assign r.1 r.1.homeBase (fun d => { d with previous := none }))
        let m6 ← liftFault (free m5 (some a))
        pure (m6, u.1, u.2, m6.errorCode)
    else
      if m0.numWaypoints - m0.currentIndex < 1 ∧ 0 ≤ m0.numWaypoints then
        pure (m0, nav, Data, CURRENT_INDEX_INVALID)
      else do
        let p ← liftFault (readBuffer PATH_BUFFER_SIZE m0 m0.currentIndex)
        let r ← follow_waypoints lib fuel m0 nav p position currentHeading
        let nav2 := { r.2 with dataIsNew := true }
        let u := update_return_data r.1 nav2
        pure (r.1, u.1, u.2, r.1.errorCode)

/-- The function `start_circling`. -/
def start_circling (fuel : Nat) (m : WaypointManager) (nav : NavigationData F)
    (currentStatus : WaypointManager_Data_In) (radius : F) (direction : Int) (altitude : Int)
    (cancelTurning : Bool) : Except Stop (WaypointManager × NavigationData F) :=
  if cancelTurning = false then do
    let m1 : WaypointManager := { m with inHold := true }
    let nav1 := { nav with
      turnDesiredAltitude := (altitude : F)
      turnRadius := radius
      turnDirection := direction }
    let currentHeading : F := (currentStatus.heading : F)
    let position : Vec3 F :=
      { c0 := deg2rad lib (currentStatus.longitude : F)
        c1 := deg2rad lib (currentStatus.latitude : F)
        c2 := (currentStatus.altitude : F) }
    let turnCenterBearing : F :=
      if nav1.turnDirection = -1 then currentHeading + 90
      else if nav1.turnDirection = 1 then currentHeading - 90
      else 0
    let turnCenterBearing1 ← bearing_sub_loop fuel turnCenterBearing
    let turnCenterBearing2 ← bearing_add_loop fuel turnCenterBearing1
    let angularDisplacement := nav1.turnRadius / (EARTH_RADIUS * 1000)
    let turnCenterBearing_Radians := deg2rad lib turnCenterBearing2
    let turnCenter1 :=
      lib.asin (lib.sin position.c1 * lib.cos angularDisplacement +
        lib.cos position.c1 * lib.sin angularDisplacement * lib.cos turnCenterBearing_Radians)
    let turnCenter0 :=
      position.c0 +
        lib.atan2
          (lib.sin turnCenterBearing_Radians * lib.sin angularDisplacement * lib.cos position.c1)
          (lib.cos angularDisplacement - lib.sin position.c1 * lib.sin turnCenter1)
    let xy := get_coordinates lib nav1 (rad2deg lib turnCenter0) (rad2deg lib turnCenter1)
    pure (m1, { nav1 with
      turnCenter := { c0 := xy.1, c1 := xy.2, c2 := nav1.turnDesiredAltitude } })
  else pure ({ m with inHold := false }, nav)

end Navigation

/-- A crude rational stand-in for `<cmath>`, used to run the navigation functions
on concrete inputs: `M_PI` is `22/7`, `atan2` is constantly `0`, and the other
functions are their first-order approximations at `0`. -/
def coarseLib : MathLib ℚ where
  pi := 22 / 7
  sqrt := fun x => x
  sin := fun x => x
  cos := fun _ => 1
  tan := fun x => x
  asin := fun x => x
  acos := fun _ => 11 / 7
  atan := fun x => x
  atan2 := fun _ _ => 0
  round := fun x => if 0 ≤ x then ⌊x + 1 / 2⌋ else ⌈x - 1 / 2⌉
  toInt := truncate

/-- The navigation members after the constructor `WaypointManager(relLat, relLong)`,
with `0` in the members the constructor leaves uninitialised. -/
def emptyNavigation (relLat relLong : ℚ) : NavigationData ℚ :=
  { relativeLongitude := relLong
    relativeLatitude := relLat
    orbitPathStatus := PATH_FOLLOW
    turnCenter := { c0 := 0, c1 := 0, c2 := 0 }
    turnRadius := 0
    turnDirection := 0
    turnDesiredAltitude := 0
    desiredHeading := 0
    desiredAltitude := 0
    distanceToNextWaypoint := 0
    outputType := PATH_FOLLOW
    dataIsNew := false }

/-- A telemetry sample: at 43 N, 80 W, 100 m up, heading north. -/
def telemetry : WaypointManager_Data_In :=
  { latitude := 43, longitude := -80, altitude := 100, heading := 0 }

/-- An output record as a caller may hand it in, with the error code
`WAYPOINT_SUCCESS` in it. -/
def blankOut : WaypointManager_Data_Out ℚ :=
  { desiredHeading := 0
    desiredAltitude := 0
    distanceToNextWaypoint := 0
    radius := 0
    turnDirection := 0
    errorCode := WAYPOINT_SUCCESS
    isDataNew := false
    timeOfData := 0
    out_type := PATH_FOLLOW }

/-- The result of a navigation call, or `dflt` when the call does not return. -/
def resultOr {α : Type} (dflt : α) (x : Except Stop α) : α :=
  match x with
  | .ok a => a
  | .error _ => dflt

/-- What a follower may do to the manager and to the steering members: it sets
`inHold` or leaves the manager alone; started outside a hold it leaves a turn
direction among `-1`, `0`, `1`; a result in mode `PATH_FOLLOW` outside a hold has
the turn radius and the turn direction `0`; the heading is in `[0, 360)`. -/
def Followed {F : Type} [LinearOrderedField F] (m m1 : WaypointManager)
    (nav1 : NavigationData F) : Prop :=
  (m1 = m ∨ m1 = { m with inHold := true }) ∧
  (m.inHold = false →
    nav1.turnDirection = -1 ∨ nav1.turnDirection = 0 ∨ nav1.turnDirection = 1) ∧
  (m1.inHold = false → nav1.outputType = PATH_FOLLOW →
    nav1.turnRadius = 0 ∧ nav1.turnDirection = 0) ∧
  0 ≤ nav1.desiredHeading ∧ nav1.desiredHeading < 360

/-- What the steps of a navigation tick may do to the manager: apart from `inHold`
only the heap changes, and on the heap only the record at the address
`a` (the transient record of the home-return branch) and the home record. -/
def TickFrame (a : Ptr) (m m1 : WaypointManager) : Prop :=
  m1.waypointBuffer = m.waypointBuffer ∧ m1.waypointBufferStatus = m.waypointBufferStatus ∧
  m1.numWaypoints = m.numWaypoints ∧ m1.nextFilledIndex = m.nextFilledIndex ∧
  m1.nextAssignedId = m.nextAssignedId ∧ m1.currentIndex = m.currentIndex ∧
  m1.homeBase = m.homeBase ∧ m1.goingHome = m.goingHome ∧ m1.errorStatus = m.errorStatus ∧
  m1.errorCode = m.errorCode ∧
  ∀ p : Ptr, p ≠ a → some p ≠ m.homeBase → m1.heap p = m.heap p

/-- The output record `out` is the one `update_return_data` fills from the
navigation members, which are `nav1` after the call. -/
def Written {F : Type} (nav1 : NavigationData F) (out : WaypointManager_Data_Out F) : Prop :=
  out.errorCode = WAYPOINT_SUCCESS ∧ out.isDataNew = true ∧ out.timeOfData = 0 ∧
  out.desiredHeading = nav1.desiredHeading ∧ out.desiredAltitude = nav1.desiredAltitude ∧
  out.distanceToNextWaypoint = nav1.distanceToNextWaypoint ∧
  out.radius = nav1.turnRadius ∧ out.turnDirection = nav1.turnDirection ∧
  out.out_type = nav1.outputType ∧ nav1.dataIsNew = false

/-- The loop of `clear_path_nodes` leaves these members of `m0` as they are in `m1`. -/
def SameScalars (m1 m0 : WaypointManager) : Prop :=
  m1.numWaypoints = m0.numWaypoints ∧ m1.nextFilledIndex = m0.nextFilledIndex ∧
  m1.nextAssignedId = m0.nextAssignedId ∧ m1.currentIndex = m0.currentIndex ∧
  m1.homeBase = m0.homeBase ∧ m1.inHold = m0.inHold ∧ m1.goingHome = m0.goingHome ∧
  m1.errorCode = m0.errorCode ∧ m1.errorStatus = m0.errorStatus

/-- A buffer of capacity five initialised with the waypoints of ids `0` and `1`
and with the waypoint at `14` as current location, which becomes the home. -/
def twoWithHome : WaypointManager :=
  stateOf (initialize_flight_path_home 5 factoryFive [some 10, some 11] 2 (some 14))

/-- The hold that `start_circling` starts with the radius `100`, the direction `0`
and the altitude `50`, on a manager fresh from the constructor. -/
def circlingZero : WaypointManager × NavigationData ℚ :=
  resultOr (emptyManager, emptyNavigation 43 (-80))
    (start_circling coarseLib 0 emptyManager (emptyNavigation 43 (-80)) telemetry 100 0 50
      false)

/-- The hold that `start_circling` starts with the radius `0`, the direction `1`
and the altitude `50`, on a manager fresh from the constructor. -/
def circlingFlat : WaypointManager × NavigationData ℚ :=
  resultOr (emptyManager, emptyNavigation 43 (-80))
    (start_circling coarseLib 1 emptyManager (emptyNavigation 43 (-80)) telemetry 0 1 50
      false)

/-- The manager `twoWithHome` after `head_home`: the buffer is cleared and
`goingHome` is set. -/
def headingHome : WaypointManager :=
  match head_home 5 twoWithHome with
  | .ok (m, _) => m
  | .error _ => emptyManager

/-- The manager `headingHome` after `initialize_flight_path` with the waypoints at
`12` and `13` and a null current location: `goingHome` is still set, and the home
is null. -/
def homeless : WaypointManager :=
  stateOf (initialize_flight_path_home 5 headingHome [some 12, some 13] 2 none)

/-- The manager `headingHome` after two appends: of the waypoint at `12`, then of
the home waypoint at `14` itself. -/
def homeAppended : WaypointManager :=
  stateOf (update_path_nodes 5
    (stateOf (update_path_nodes 5 headingHome (some 12) APPEND_WAYPOINT 0 0 0))
    (some 14) APPEND_WAYPOINT 0 0 0)

/-- A hold of radius `100`, clockwise, at the altitude `50`. -/
def holdNavigation : NavigationData ℚ :=
  { emptyNavigation 43 (-80) with
    turnRadius := 100
    turnDirection := -1
    turnDesiredAltitude := 50 }

/-- A tick of `get_next_directions` with the stand-in library, capacity five, the
telemetry sample, a blank output record and `20` as the next address of `new`. -/
def tick (fuel : Nat) (m : WaypointManager) (nav : NavigationData ℚ) :
    Except Stop
      (WaypointManager × NavigationData ℚ × WaypointManager_Data_Out ℚ × WaypointStatus) :=
  get_next_directions coarseLib fuel 5 m nav 20 telemetry blankOut

/-- The status a navigation call returns, when it returns. -/
def tickStatus {F : Type} (x : Except Stop
    (WaypointManager × NavigationData F × WaypointManager_Data_Out F × WaypointStatus)) :
    Option WaypointStatus :=
  match x with
  | .ok r => some r.2.2.2
  | .error _ => none

/-- The output record after a navigation call, when it returns. -/
def tickOutput {F : Type} (x : Except Stop
    (WaypointManager × NavigationData F × WaypointManager_Data_Out F × WaypointStatus)) :
    Option (WaypointManager_Data_Out F) :=
  match x with
  | .ok r => some r.2.2.1
  | .error _ => none

/-- The manager after a navigation call (the empty manager when it does not
return). -/
def tickState {F : Type} (x : Except Stop
    (WaypointManager × NavigationData F × WaypointManager_Data_Out F × WaypointStatus)) :
    WaypointManager :=
  match x with
  | .ok r => r.1
  | .error _ => emptyManager

/-- The manager `headingHome` after `start_circling` with the radius `100`, the
direction `-1` and the altitude `50`: in a hold, with `goingHome` still set. -/
def holdingHome : WaypointManager × NavigationData ℚ :=
  resultOr (emptyManager, emptyNavigation 43 (-80))
    (start_circling coarseLib 0 headingHome (emptyNavigation 43 (-80)) telemetry 100 (-1) 50
      false)

/-- The navigation members after a tick that followed a straight path towards a
waypoint at the altitude `100` with the sample telemetry. -/
def straightNavigation : NavigationData ℚ :=
  { emptyNavigation 43 (-80) with
    desiredHeading := 90
    desiredAltitude := 100 }

/-- The output record of such a tick. -/
def straightOut : WaypointManager_Data_Out ℚ :=
  { blankOut with
    desiredHeading := 90
    desiredAltitude := 100
    isDataNew := true }

/-- A scenario: the buffer initialised with the single waypoint of id `0`, at `10`. -/
def oneWaypoint : WaypointManager :=
  stateOf (initialize_flight_path 5 factoryFive [some 10] 1)

/-- A scenario: the empty buffer after the append of the waypoint of id `0`. -/
def oneAppended : WaypointManager :=
  stateOf (update_path_nodes 5 factoryFive (some 10) APPEND_WAYPOINT 0 0 0)

/-- The integer square root, digit by digit in base two: `r` is the root found so
far and `b` binary digits remain to be tried. -/
def isqrtAux : Nat → Nat → Nat → Nat
  | 0, _, r => r
  | b + 1, n, r => if (r + 2 ^ b) * (r + 2 ^ b) ≤ n then isqrtAux b n (r + 2 ^ b)
    else isqrtAux b n r

/-- A rational square root: the integer square roots of the numerator and of the
denominator (of at most 128 binary digits); exact on the squares of rationals. -/
def flatSqrt (q : ℚ) : ℚ :=
  (isqrtAux 64 q.num.toNat 0 : ℚ) / (isqrtAux 64 q.den 0 : ℚ)

/-- A rational stand-in for `<cmath>` that keeps the geometry of small angles:
`M_PI` is `22/7`, `sqrt` is the rational square root (exact on squares), `sin`,
`tan`, `asin` and `atan` are the identity, `cos` is constantly `1`, `acos x` is
`M_PI/2 - x`, and `atan2 y x` is the quotient `y / x` moved to the quadrant of
`(x, y)`. -/
def flatLib : MathLib ℚ where
  pi := 22 / 7
  sqrt := flatSqrt
  sin := fun x => x
  cos := fun _ => 1
  tan := fun x => x
  asin := fun x => x
  acos := fun x => 11 / 7 - x
  atan := fun x => x
  atan2 := fun y x =>
    if 0 < x then y / x
    else if x < 0 then (if 0 ≤ y then y / x + 22 / 7 else y / x - 22 / 7)
    else if 0 < y then 11 / 7
    else if y < 0 then -(11 / 7)
    else 0
  round := fun x => if 0 ≤ x then ⌊x + 1 / 2⌋ else ⌈x - 1 / 2⌉
  toInt := truncate

section Planner

variable {F : Type} [LinearOrderedField F] (lib : MathLib F)

/-- The value `follow_waypoints` gives its local `turningAngle`, from the two
direction vectors. -/
def turningAngle (waypointDirection nextWaypointDirection : Vec3 F) : F :=
  lib.acos (-deg2rad lib
    (waypointDirection.c0 * nextWaypointDirection.c0 +
      waypointDirection.c1 * nextWaypointDirection.c1 +
      waypointDirection.c2 * nextWaypointDirection.c2))

/-- The value `follow_waypoints` gives its local `tangentFactor`. -/
def tangentFactor (turnRadius : F) (waypointDirection nextWaypointDirection : Vec3 F) : F :=
  turnRadius / lib.tan (turningAngle lib waypointDirection nextWaypointDirection / 2)

/-- The value `follow_waypoints` gives its local `halfPlane`. -/
def halfPlane (targetCoordinates waypointDirection : Vec3 F) (tangentFactor : F) : Vec3 F :=
  { c0 := targetCoordinates.c0 - tangentFactor * waypointDirection.c0
    c1 := targetCoordinates.c1 - tangentFactor * waypointDirection.c1
    c2 := targetCoordinates.c2 - tangentFactor * waypointDirection.c2 }

/-- The value `follow_waypoints` gives its local `euclideanWaypointDirection`. -/
def euclideanWaypointDirection (waypointDirection nextWaypointDirection : Vec3 F) : F :=
  let s0 : F := if nextWaypointDirection.c0 - waypointDirection.c0 < 0 then -1 else 1
  let s1 : F := if nextWaypointDirection.c1 - waypointDirection.c1 < 0 then -1 else 1
  let s2 : F := if nextWaypointDirection.c2 - waypointDirection.c2 < 0 then -1 else 1
  lib.sqrt ((nextWaypointDirection.c0 - waypointDirection.c0) ^ 2 +
      (nextWaypointDirection.c1 - waypointDirection.c1) ^ 2 +
      (nextWaypointDirection.c2 - waypointDirection.c2) ^ 2) * s0 * s1 * s2

/-- The dot product `u[0] * (p[0] - q[0]) + u[1] * (p[1] - q[1]) + u[2] * (p[2] - q[2])`
that the followers compare with zero. -/
def dotProduct (u p q : Vec3 F) : F :=
  u.c0 * (p.c0 - q.c0) + u.c1 * (p.c1 - q.c1) + u.c2 * (p.c2 - q.c2)

/-- The sign in the fillet formulas of the specification: `-1` below zero, `1`
otherwise. -/
def signOf (x : F) : F := if x < 0 then -1 else 1

/-- The fillet turn centre as the specification words it: with `d = q12 - q01`,
each component `W1_i + t * d_i / (s_i * |d|)`, where `s_i` is the sign of `d_i`. -/
def statedTurnCenter (W1 : Vec3 F) (t : F) (q01 q12 : Vec3 F) : Vec3 F :=
  let norm := lib.sqrt ((q12.c0 - q01.c0) ^ 2 + (q12.c1 - q01.c1) ^ 2 + (q12.c2 - q01.c2) ^ 2)
  { c0 := W1.c0 + t * (q12.c0 - q01.c0) / (signOf (q12.c0 - q01.c0) * norm)
    c1 := W1.c1 + t * (q12.c1 - q01.c1) / (signOf (q12.c1 - q01.c1) * norm)
    c2 := W1.c2 + t * (q12.c2 - q01.c2) / (signOf (q12.c2 - q01.c2) * norm) }

/-- The fillet turn centre with one denominator for the three components: with
`d = q12 - q01`, each component `W1_i + t * d_i / (s * |d|)`, where `s` is the
product of the signs of the three components of `d`. -/
def commonSignTurnCenter (W1 : Vec3 F) (t : F) (q01 q12 : Vec3 F) : Vec3 F :=
  let norm := lib.sqrt ((q12.c0 - q01.c0) ^ 2 + (q12.c1 - q01.c1) ^ 2 + (q12.c2 - q01.c2) ^ 2)
  let s := signOf (q12.c0 - q01.c0) * signOf (q12.c1 - q01.c1) * signOf (q12.c2 - q01.c2)
  { c0 := W1.c0 + t * (q12.c0 - q01.c0) / (s * norm)
    c1 := W1.c1 + t * (q12.c1 - q01.c1) / (s * norm)
    c2 := W1.c2 + t * (q12.c2 - q01.c2) / (s * norm) }

end Planner

/-- The navigation members after `follow_last_line_segment` has steered an aircraft
`50` m east of the only waypoint, which is at the reference point and at the
altitude `100`. -/
def lastSegmentNavigation : NavigationData ℚ :=
  { emptyNavigation 43 (-80) with
    desiredHeading := 180
    desiredAltitude := 100
    distanceToNextWaypoint := 50 }

/-- The array `position` that `get_next_directions` fills outside a hold: the local
coordinates of the aircraft and its altitude. -/
def aircraftPosition {F : Type} [LinearOrderedField F] (lib : MathLib F)
    (nav : NavigationData F) (currentStatus : WaypointManager_Data_In) : Vec3 F :=
  { c0 := (get_coordinates lib nav (currentStatus.longitude : F)
      (currentStatus.latitude : F)).1
    c1 := (get_coordinates lib nav (currentStatus.longitude : F)
      (currentStatus.latitude : F)).2
    c2 := (currentStatus.altitude : F) }

/-- Three waypoints made by the factories on an empty manager, on the equator at
the altitude `100`: at the addresses `10`, `11`, `12`, with the ids `0`, `1`, `2` and
the longitudes `0`, `1`, `2`; the middle one has the turn radius `100`. -/
def equatorFactory : WaypointManager :=
  let m0 := (initialize_waypoint emptyManager 10 0 0 100 PATH_FOLLOW).1
  let m1 := (initialize_waypoint_radius m0 11 1 0 100 PATH_FOLLOW 100).1
  (initialize_waypoint m1 12 2 0 100 PATH_FOLLOW).1

/-- A buffer of capacity five initialised with the three waypoints on the equator. -/
def equatorThree : WaypointManager :=
  stateOf (initialize_flight_path 5 equatorFactory [some 10, some 11, some 12] 3)

/-- A telemetry sample: on the equator at the longitude `2`, `100` m up, heading
east. -/
def equatorTelemetry : WaypointManager_Data_In :=
  { latitude := 0, longitude := 2, altitude := 100, heading := 90 }

/-- The navigation members after a navigation call (those of the constructor at the
reference point `(0, 0)` when the call does not return). -/
def tickNavigation (x : Except Stop
    (WaypointManager × NavigationData ℚ × WaypointManager_Data_Out ℚ × WaypointStatus)) :
    NavigationData ℚ :=
  match x with
  | .ok r => r.2.1
  | .error _ => emptyNavigation 0 0

/-- The output record after a navigation call (the blank record when the call does
not return). -/
def tickRecord (x : Except Stop
    (WaypointManager × NavigationData ℚ × WaypointManager_Data_Out ℚ × WaypointStatus)) :
    WaypointManager_Data_Out ℚ :=
  match x with
  | .ok r => r.2.2.1
  | .error _ => blankOut

/-- A tick of `get_next_directions` with the library `flatLib`, capacity five, a
blank output record and `20` as the next address of `new`. -/
def flatTick (fuel : Nat) (m : WaypointManager) (nav : NavigationData ℚ)
    (currentStatus : WaypointManager_Data_In) :
    Except Stop
      (WaypointManager × NavigationData ℚ × WaypointManager_Data_Out ℚ × WaypointStatus) :=
  get_next_directions flatLib fuel 5 m nav 20 currentStatus blankOut

/-- The record of the first waypoint on the equator, as it is in the buffer. -/
def equator10 : PathData :=
  { waypointId := 0, latitude := 0, longitude := 0, altitude := 100,
    waypointType := PATH_FOLLOW, turnRadius := -1, next := some 11, previous := none }

/-- The record of the middle waypoint on the equator, as it is in the buffer. -/
def equator11 : PathData :=
  { waypointId := 1, latitude := 0, longitude := 1, altitude := 100,
    waypointType := PATH_FOLLOW, turnRadius := 100, next := some 12, previous := some 10 }

/-- The record of the last waypoint on the equator, as it is in the buffer. -/
def equator12 : PathData :=
  { waypointId := 2, latitude := 0, longitude := 2, altitude := 100,
    waypointType := PATH_FOLLOW, turnRadius := -1, next := none, previous := some 11 }

/-- Three waypoints made by the factories on an empty manager, on the equator at
the altitude `100`, as in `equatorFactory`, but the middle one is a
`HOLD_WAYPOINT`. -/
def holdFactory : WaypointManager :=
  let m0 := (initialize_waypoint emptyManager 10 0 0 100 PATH_FOLLOW).1
  let m1 := (initialize_waypoint_radius m0 11 1 0 100 HOLD_WAYPOINT 100).1
  (initialize_waypoint m1 12 2 0 100 PATH_FOLLOW).1

/-- A buffer of capacity five initialised with the three waypoints of
`holdFactory`. -/
def holdThree : WaypointManager :=
  stateOf (initialize_flight_path 5 holdFactory [some 10, some 11, some 12] 3)

/-- The record of the middle waypoint of `holdThree`, as it is in the buffer. -/
def hold11 : PathData :=
  { equator11 with waypointType := HOLD_WAYPOINT }

/-- Three waypoints made by the factories on an empty manager, at the altitude
`100`, around a right-angled corner: the first at longitude `0` on the equator, the
second at longitude `1` on the equator with the turn radius `100`, the third at
longitude `1` and latitude `1`. -/
def cornerFactory : WaypointManager :=
  let m0 := (initialize_waypoint emptyManager 10 0 0 100 PATH_FOLLOW).1
  let m1 := (initialize_waypoint_radius m0 11 1 0 100 PATH_FOLLOW 100).1
  (initialize_waypoint m1 12 1 1 100 PATH_FOLLOW).1

/-- A buffer of capacity five initialised with the three waypoints around the
corner. -/
def cornerThree : WaypointManager :=
  stateOf (initialize_flight_path 5 cornerFactory [some 10, some 11, some 12] 3)

/-- The record of the last waypoint of `cornerThree`, as it is in the buffer. -/
def corner12 : PathData :=
  { equator12 with
    longitude := 1
    latitude := 1 }

/-- The navigation members of the constructor at the reference point `(0, 0)`, in
the sub-mode `ORBIT_FOLLOW`. -/
def orbitNavigation : NavigationData ℚ :=
  { emptyNavigation 0 0 with orbitPathStatus := ORBIT_FOLLOW }

/-- A telemetry sample: on the equator at the longitude `1`, `100` m up, heading
east. -/
def cornerTelemetry : WaypointManager_Data_In :=
  { latitude := 0, longitude := 1, altitude := 100, heading := 90 }

/-! ## Id uniqueness: the invariant and the reachable states -/

/-- Slot `i` of the buffer is tagged `FULL` and holds the pointer `b`. -/
def Occupies (S : Nat) (m : WaypointManager) (i : Int) (b : Ptr) : Prop :=
  0 ≤ i ∧ i < (S : Int) ∧ m.waypointBufferStatus i = FULL ∧ m.waypointBuffer i = some b

/-- The ids of the occupied slots are pairwise distinct: two slots of the buffer
that are tagged `FULL` and hold live records with the same id are the same slot. -/
def UniqueIds (S : Nat) (m : WaypointManager) : Prop :=
  ∀ i j : Int, 0 ≤ i → i < (S : Int) → 0 ≤ j → j < (S : Int) →
    m.waypointBufferStatus i = FULL → m.waypointBufferStatus j = FULL →
    ∀ x : Int, slotId m i = some x → slotId m j = some x → i = j

/-- The heap part of the id invariant, for the set `E` of the addresses at which a
factory has made a waypoint since the last clear: the live records at these
addresses have ids below `nextAssignedId`, pairwise distinct. -/
def HeapInv (E : Ptr → Prop) (m : WaypointManager) : Prop :=
  (∀ a d, E a → m.heap a = some d → d.waypointId < m.nextAssignedId) ∧
  (∀ a b da db, E a → E b → m.heap a = some da → m.heap b = some db →
    da.waypointId = db.waypointId → a = b)

/-- The buffer part of the id invariant: every pointer in an occupied slot is
allowed there by `Q`, and no pointer is in two occupied slots. -/
def SlotInv (S : Nat) (Q : Int → Ptr → Prop) (m : WaypointManager) : Prop :=
  (∀ i b, Occupies S m i b → Q i b) ∧
  (∀ i j b, Occupies S m i b → Occupies S m j b → i = j)

/-- The id invariant: `E` holds the addresses of the waypoints made since the last
clear and `H` the pointers handed to the buffer so far; the occupied slots hold
pairwise different pointers, all of them in `E` and in `H`. -/
def IdInv (S : Nat) (E H : Ptr → Prop) (m : WaypointManager) : Prop :=
  HeapInv E m ∧ SlotInv S (fun _ b => E b ∧ H b) m

/-- A step that leaves the buffer, the tags and `nextAssignedId` alone, and on the
heap only removes records or changes fields other than the id. -/
def Quiet (m m1 : WaypointManager) : Prop :=
  m1.waypointBuffer = m.waypointBuffer ∧ m1.waypointBufferStatus = m.waypointBufferStatus ∧
  m1.nextAssignedId = m.nextAssignedId ∧
  ∀ a d1, m1.heap a = some d1 → ∃ d, m.heap a = some d ∧ d.waypointId = d1.waypointId

/-- Whenever the computation `c` returns a manager, the manager satisfies `J`. -/
def Safe (J : WaypointManager → Prop) (c : Except Fault WaypointManager) : Prop :=
  ∀ m1, c = .ok m1 → J m1

/-- What the constructor `WaypointManager(relLat, relLong)` establishes: the counter
of ids and the current index are `0`, no hold and no home-return is active, and
every slot is tagged `FREE`; the other members are not initialised. -/
def Constructed (S : Nat) (m : WaypointManager) : Prop :=
  m.nextAssignedId = 0 ∧ m.currentIndex = 0 ∧ m.inHold = false ∧ m.goingHome = false ∧
  ∀ i : Int, 0 ≤ i → i < (S : Int) → m.waypointBufferStatus i = FREE

/-- The states reachable from construction through the factories,
`initialize_flight_path` (both overloads), the append, update and delete requests of
`update_path_nodes`, `clear_path_nodes` and `head_home`, whenever these return;
`Reached S m E H` carries the set `E` of the addresses at which a factory has made a
waypoint since the last clear and the set `H` of the pointers handed to the buffer
so far. Every pointer handed to the buffer is in `E` and not yet in `H`, and the
pointers of one `initialize_flight_path` call are pairwise different. -/
inductive Reached (S : Nat) : WaypointManager → (Ptr → Prop) → (Ptr → Prop) → Prop where
  | construct (m : WaypointManager) (hc : Constructed S m) :
      Reached S m (fun _ => False) (fun _ => False)
  | factory_default (m : WaypointManager) (E H : Ptr → Prop) (a : Ptr)
      (h : Reached S m E H) :
      Reached S (initialize_waypoint_default m a).1 (fun p => p = a ∨ E p) H
  | factory (m : WaypointManager) (E H : Ptr → Prop) (a : Ptr) (longitude latitude : ℚ)
      (altitude : Int) (waypointType : WaypointOutputType) (h : Reached S m E H) :
      Reached S (initialize_waypoint m a longitude latitude altitude waypointType).1
        (fun p => p = a ∨ E p) H
  | factory_radius (m : WaypointManager) (E H : Ptr → Prop) (a : Ptr)
      (longitude latitude : ℚ) (altitude : Int) (waypointType : WaypointOutputType)
      (turnRadius : ℚ) (h : Reached S m E H) :
      Reached S
        (initialize_waypoint_radius m a longitude latitude altitude waypointType turnRadius).1
        (fun p => p = a ∨ E p) H
  | flight_path (m m1 : WaypointManager) (E H : Ptr → Prop) (ws : List Ptr) (n : Int)
      (s : WaypointStatus) (h : Reached S m E H) (hE : ∀ a, a ∈ ws → E a ∧ ¬ H a)
      (hd : ws.Nodup)
      (hr : initialize_flight_path S m (ws.map some) n = .ok (m1, s)) :
      Reached S m1 E (fun p => p ∈ ws ∨ H p)
  | flight_path_home (m m1 : WaypointManager) (E H : Ptr → Prop) (ws : List Ptr) (n : Int)
      (currentLocation : Option Ptr) (s : WaypointStatus) (h : Reached S m E H)
      (hE : ∀ a, a ∈ ws → E a ∧ ¬ H a) (hd : ws.Nodup)
      (hr : initialize_flight_path_home S m (ws.map some) n currentLocation = .ok (m1, s)) :
      Reached S m1 E (fun p => p ∈ ws ∨ H p)
  | append (m m1 : WaypointManager) (E H : Ptr → Prop) (a : Ptr)
      (waypointId previousId nextId : Int) (s : WaypointStatus) (h : Reached S m E H)
      (hE : E a) (hH : ¬ H a)
      (hr : update_path_nodes S m (some a) APPEND_WAYPOINT waypointId previousId nextId
        = .ok (m1, s)) :
      Reached S m1 E (fun p => p = a ∨ H p)
  | update (m m1 : WaypointManager) (E H : Ptr → Prop) (a : Ptr)
      (waypointId previousId nextId : Int) (s : WaypointStatus) (h : Reached S m E H)
      (hE : E a) (hH : ¬ H a)
      (hr : update_path_nodes S m (some a) UPDATE_WAYPOINT waypointId previousId nextId
        = .ok (m1, s)) :
      Reached S m1 E (fun p => p = a ∨ H p)
  | delete (m m1 : WaypointManager) (E H : Ptr → Prop) (w : Option Ptr)
      (waypointId previousId nextId : Int) (s : WaypointStatus) (h : Reached S m E H)
      (hr : update_path_nodes S m w DELETE_WAYPOINT waypointId previousId nextId
        = .ok (m1, s)) :
      Reached S m1 E H
  | clear (m m1 : WaypointManager) (E H : Ptr → Prop) (h : Reached S m E H)
      (hr : clear_path_nodes S m = .ok m1) :
      Reached S m1 (fun _ => False) H
  | head_home (m m1 : WaypointManager) (E H : Ptr → Prop) (b : Bool)
      (h : Reached S m E H) (hr : head_home S m = .ok (m1, b)) :
      Reached S m1 (fun p => E p ∧ b = false) H

/-- A scenario: a waypoint made by the factory at `10`, with the id `0`, on a
manager fresh from the constructor. -/
def madeBeforeClear : WaypointManager :=
  (initialize_waypoint emptyManager 10 (-80) 43 100 PATH_FOLLOW).1

/-- The scenario after `clear_path_nodes`: the buffer is empty as before, and
`nextAssignedId` is `0` again. -/
def clearedOnce : WaypointManager :=
  match clear_path_nodes 5 madeBeforeClear with
  | .ok m => m
  | .error _ => emptyManager

/-- The scenario after a second waypoint made by the factory, at `11`: it has the
id `0` too. -/
def madeAfterClear : WaypointManager :=
  (initialize_waypoint clearedOnce 11 (-81) 43 100 PATH_FOLLOW).1

/-- The scenario after the appends of the waypoint at `10` and of the waypoint at
`11`. -/
def clearedTwins : WaypointManager :=
  stateOf (update_path_nodes 5
    (stateOf (update_path_nodes 5 madeAfterClear (some 10) APPEND_WAYPOINT 0 0 0))
    (some 11) APPEND_WAYPOINT 0 0 0)

/-- A scenario: on `threeWaypoints`, the insert of the waypoint at `13` (id `3`)
between the ids `0` and `1`, then the delete of id `0`. -/
def insertedDeleted : WaypointManager :=
  stateOf (update_path_nodes 5 (stateOf afterInsert) none DELETE_WAYPOINT 0 0 0)

/-- The scenario `insertedDeleted` after the insert of the waypoint at `14` (id `4`)
between the ids `3` and `1`. -/
def insertedTwice : WaypointManager :=
  stateOf (update_path_nodes 5 insertedDeleted (some 14) INSERT_WAYPOINT 0 3 1)

/-- A scenario: `threeWaypoints` after the append of the waypoint at `13`. -/
def reachedFour : WaypointManager :=
  stateOf (update_path_nodes 5 threeWaypoints (some 13) APPEND_WAYPOINT 0 0 0)

/-- The scenario `reachedFour` after the delete of id `1`. -/
def reachedThree : WaypointManager :=
  stateOf (update_path_nodes 5 reachedFour none DELETE_WAYPOINT 1 0 0)

/-- The navigation members after the constructor `WaypointManager(0, 0)`, over any
field of numbers, with `0` in the members the constructor leaves uninitialised. -/
def originNavigation (F : Type) [LinearOrderedField F] : NavigationData F :=
  { relativeLongitude := 0
    relativeLatitude := 0
    orbitPathStatus := PATH_FOLLOW
    turnCenter := { c0 := 0, c1 := 0, c2 := 0 }
    turnRadius := 0
    turnDirection := 0
    turnDesiredAltitude := 0
    desiredHeading := 0
    desiredAltitude := 0
    distanceToNextWaypoint := 0
    outputType := PATH_FOLLOW
    dataIsNew := false }

/-- An output record as a caller may hand it in, over any field of numbers. -/
def originOut (F : Type) [LinearOrderedField F] : WaypointManager_Data_Out F :=
  { desiredHeading := 0
    desiredAltitude := 0
    distanceToNextWaypoint := 0
    radius := 0
    turnDirection := 0
    errorCode := WAYPOINT_SUCCESS
    isDataNew := false
    timeOfData := 0
    out_type := PATH_FOLLOW }

/-- The navigation members `originNavigation` in the sub-mode `ORBIT_FOLLOW`. -/
def originOrbitNavigation (F : Type) [LinearOrderedField F] : NavigationData F :=
  { originNavigation F with orbitPathStatus := ORBIT_FOLLOW }

/-! ## The hold branch of the tick in `float` arithmetic

The definitions above compute with exact numbers. The two angle-wrapping loops
of `follow_orbit` add or subtract `2 * M_PI` on a `float`, and whether they end
depends on the rounding of that `float`. The definitions below repeat the hold
branch of the tick with the roundings that the loops depend on: numbers are
rationals, `binary32` is the rounding to a `float` and `binary64` the rounding
to a `double` (to the nearest value of the format, a tie to the even
significand; values beyond the largest finite one are not modelled). -/

/-- Rounding of a rational to the nearest integer, a tie to the even one. -/
def roundHalfEven (q : ℚ) : Int :=
  if q - ⌊q⌋ < 1 / 2 then ⌊q⌋
  else if 1 / 2 < q - ⌊q⌋ then ⌊q⌋ + 1
  else if ⌊q⌋ % 2 = 0 then ⌊q⌋ else ⌊q⌋ + 1

/-- The distance between neighbouring values of a binary floating format with `p`
significant bits and least normal exponent `emin`, in the binade of `x`: a
power of two, `2 ^ (emin + 1 - p)` below the normal range. -/
def binaryUlp (p : Nat) (emin : Int) (x : ℚ) : ℚ :=
  2 ^ (max (Int.log 2 |x|) emin + 1 - (p : Int))

/-- The value of the format nearest to `x`, a tie to the even significand. -/
def roundBinary (p : Nat) (emin : Int) (x : ℚ) : ℚ :=
  (roundHalfEven (x / binaryUlp p emin x) : ℚ) * binaryUlp p emin x

/-- The conversion of a value to `float` (IEEE 754 binary32). -/
def binary32 (x : ℚ) : ℚ := roundBinary 24 (-126) x

/-- The rounding of a `double` operation (IEEE 754 binary64). -/
def binary64 (x : ℚ) : ℚ := roundBinary 53 (-1022) x

/-- The loop `while (courseAngle - currentHeading < -M_PI) courseAngle += 2 * M_PI;`
of `follow_orbit` on `float` variables: the difference of the two `float`s is a
`float`, the sum is computed in `double` and stored in the `float`. -/
def wrap_course_up_float (lib : MathLib ℚ) (currentHeading : ℚ) : Nat → ℚ → Except Stop ℚ
  | 0, courseAngle =>
    if binary32 (courseAngle - currentHeading) < -lib.pi then .error Stop.fuel
    else .ok courseAngle
  | fuel + 1, courseAngle =>
    if binary32 (courseAngle - currentHeading) < -lib.pi then
      wrap_course_up_float lib currentHeading fuel
        (binary32 (binary64 (courseAngle + binary64 (2 * lib.pi))))
    else .ok courseAngle

/-- The loop `while (courseAngle - currentHeading > M_PI) courseAngle -= 2 * M_PI;`
of `follow_orbit` on `float` variables. -/
def wrap_course_down_float (lib : MathLib ℚ) (currentHeading : ℚ) : Nat → ℚ → Except Stop ℚ
  | 0, courseAngle =>
    if lib.pi < binary32 (courseAngle - currentHeading) then .error Stop.fuel
    else .ok courseAngle
  | fuel + 1, courseAngle =>
    if lib.pi < binary32 (courseAngle - currentHeading) then
      wrap_course_down_float lib currentHeading fuel
        (binary32 (binary64 (courseAngle - binary64 (2 * lib.pi))))
    else .ok courseAngle

/-- The function `follow_orbit` on `float` variables. `lib.pi` is the `double`
constant `M_PI`. The three locals `currentHeading`, `orbitDistance` and
`courseAngle` are `float`s: what is stored in them is rounded to `binary32`.
`currentHeading` is `(90 - heading) * M_PI / 180.0` with `heading` a `float`: a
`float` subtraction, then a multiplication and a division in `double`. The
operands of the other expressions include members whose declarations are in a
header that is not part of the sources: inside those expressions the arithmetic
is exact. -/
def follow_orbit_float (lib : MathLib ℚ) (fuel : Nat) (nav : NavigationData ℚ)
    (position : Vec3 ℚ) (heading : ℚ) : Except Stop (NavigationData ℚ) := do
  let currentHeading :=
    binary32 (binary64 (binary64 (binary32 (90 - heading) * lib.pi) / 180))
  let orbitDistance := binary32
    (lib.sqrt ((position.c0 - nav.turnCenter.c0) ^ 2 + (position.c1 - nav.turnCenter.c1) ^ 2))
  let courseAngle := binary32
    (lib.atan2 (position.c1 - nav.turnCenter.c1) (position.c0 - nav.turnCenter.c0))
  let courseAngle1 ← wrap_course_up_float lib currentHeading fuel courseAngle
  let courseAngle2 ← wrap_course_down_float lib currentHeading fuel courseAngle1
  let calcHeading : Int :=
    lib.round (90 - rad2deg lib (courseAngle2 + (nav.turnDirection : ℚ) *
      (lib.pi / 2 + lib.atan (k_gain ORBIT_FOLLOW * (orbitDistance - nav.turnRadius)
        / nav.turnRadius))))
  pure { nav with
    desiredHeading := normalize_heading calcHeading
    distanceToNextWaypoint := 0
    outputType := ORBIT_FOLLOW
    desiredAltitude := nav.turnDesiredAltitude }

/-- The function `follow_hold_pattern` on `float` variables: `get_coordinates`
stores its two results in the `float` array `position`. -/
def follow_hold_pattern_float (lib : MathLib ℚ) (fuel : Nat) (nav : NavigationData ℚ)
    (position : Vec3 ℚ) (heading : ℚ) : Except Stop (NavigationData ℚ) :=
  let xy := get_coordinates lib nav position.c0 position.c1
  follow_orbit_float lib fuel nav
    { position with c0 := binary32 xy.1, c1 := binary32 xy.2 } heading

/-- The function `get_next_directions` with the branch `if (inHold)` on `float`
variables: the heading and the three components of the position are stored in
`float`s before `follow_hold_pattern` is called. Without a hold the tick is the
one of `get_next_directions`. -/
def get_next_directions_float (lib : MathLib ℚ) (fuel : Nat) (PATH_BUFFER_SIZE : Nat)
    (m : WaypointManager) (nav : NavigationData ℚ) (a : Ptr)
    (currentStatus : WaypointManager_Data_In) (Data : WaypointManager_Data_Out ℚ) :
    Except Stop
      (WaypointManager × NavigationData ℚ × WaypointManager_Data_Out ℚ × WaypointStatus) :=
  let m0 : WaypointManager := { m with errorCode := WAYPOINT_SUCCESS }
  let currentHeading : ℚ := binary32 currentStatus.heading
  if m0.inHold = true then
    if nav.turnRadius ≤ 0 ∨ nav.turnDirection < -1 ∨ 1 < nav.turnDirection then
      pure (m0, nav, Data, INVALID_PARAMETERS)
    else do
      let position : Vec3 ℚ :=
        { c0 := binary32 currentStatus.longitude
          c1 := binary32 currentStatus.latitude
          c2 := binary32 currentStatus.altitude }
      let nav1 ← follow_hold_pattern_float lib fuel nav position currentHeading
      let nav2 := { nav1 with outputType := ORBIT_FOLLOW, dataIsNew := true }
      let r := update_return_data m0 nav2
      pure (m0, r.1, r.2, m0.errorCode)
  else get_next_directions lib fuel PATH_BUFFER_SIZE m nav a currentStatus Data

/-- A stand-in math library for closed evaluations in `float` arithmetic: `M_PI`
is the `double` nearest to the number pi, `884279719003555 / 2 ^ 48`, and the
functions are those of `coarseLib`. -/
def doubleLib : MathLib ℚ :=
  { coarseLib with pi := 884279719003555 / 281474976710656 }

/-- The sample telemetry with the heading `10 ^ 10` degrees. -/
def largeHeading : WaypointManager_Data_In :=
  { telemetry with heading := 10000000000 }

/-- The sample telemetry with the heading `90` degrees. -/
def eastwards : WaypointManager_Data_In :=
  { telemetry with heading := 90 }

/-! ## Sequencing in `Except Fault` -/

theorem bind_ok_iff {α β : Type} (x : Except Fault α) (f : α → Except Fault β) (b : β) :
    (x >>= f) = .ok b ↔ ∃ a, x = .ok a ∧ f a = .ok b := by
  cases x with
  | error e => simp [bind, Except.bind]
  | ok a => simp [bind, Except.bind]

theorem ok_bind {α β : Type} (a : α) (f : α → Except Fault β) :
    ((Except.ok a : Except Fault α) >>= f) = f a := rfl

theorem pure_eq_ok {α : Type} (a : α) : (pure a : Except Fault α) = .ok a := rfl

/-- A body that can only end with `WAYPOINT_SUCCESS` does not end with
`INVALID_PARAMETERS`. -/
theorem success_tail_ne_invalid (x : Except Fault WaypointManager) (m1 : WaypointManager) :
    (x >>= fun m2 => (pure (m2, WAYPOINT_SUCCESS) :
      Except Fault (WaypointManager × WaypointStatus))) ≠ .ok (m1, INVALID_PARAMETERS) := by
  cases x with
  | error e => simp [bind, Except.bind]
  | ok a => simp [bind, Except.bind, pure, Except.pure]

/-! ## Failure leaves the manager alone -/

theorem append_waypoint_invalid (S : Nat) (m m1 : WaypointManager) (w : Option Ptr)
    (h : append_waypoint S m w = .ok (m1, INVALID_PARAMETERS)) : m1 = m := by
  unfold append_waypoint at h
  simp only [bind_ok_iff] at h
  obtain ⟨dup, _, h⟩ := h
  split at h
  · simp [pure, Except.pure] at h
    exact h.symm
  · exact absurd h (success_tail_ne_invalid _ _)

theorem insert_new_waypoint_invalid (S : Nat) (m m1 : WaypointManager) (w : Option Ptr)
    (pid nid : Int)
    (h : insert_new_waypoint S m w pid nid = .ok (m1, INVALID_PARAMETERS)) : m1 = m := by
  unfold insert_new_waypoint at h
  simp only [bind_ok_iff] at h
  obtain ⟨ni, _, pi, _, h⟩ := h
  split at h
  · simp [pure, Except.pure] at h
    exact h.symm
  · exact absurd h (success_tail_ne_invalid _ _)

theorem delete_waypoint_invalid (S : Nat) (m m1 : WaypointManager) (id : Int)
    (h : delete_waypoint S m id = .ok (m1, INVALID_PARAMETERS)) : m1 = m := by
  unfold delete_waypoint at h
  simp only [bind_ok_iff] at h
  obtain ⟨k, _, h⟩ := h
  split at h
  · simp [pure, Except.pure] at h
    exact h.symm
  · exact absurd h (success_tail_ne_invalid _ _)

theorem update_waypoint_invalid (S : Nat) (m m1 : WaypointManager) (w : Option Ptr)
    (id : Int)
    (h : update_waypoint S m w id = .ok (m1, INVALID_PARAMETERS)) : m1 = m := by
  unfold update_waypoint at h
  simp only [bind_ok_iff] at h
  obtain ⟨k, _, h⟩ := h
  split at h
  · simp [pure, Except.pure] at h
    exact h.symm
  · exact absurd h (success_tail_ne_invalid _ _)

theorem update_path_nodes_dispatch_invalid (S : Nat) (m m1 : WaypointManager)
    (w : Option Ptr) (ut : WaypointBufferUpdateType) (id pid nid : Int)
    (h : update_path_nodes_dispatch S m w ut id pid nid = .ok (m1, INVALID_PARAMETERS)) :
    m1 = m := by
  cases ut
  · exact append_waypoint_invalid S m m1 w h
  · exact insert_new_waypoint_invalid S m m1 w pid nid h
  · exact update_waypoint_invalid S m m1 w id h
  · exact delete_waypoint_invalid S m m1 id h

/-- C1. Failure atomicity: whenever `update_path_nodes` returns
`INVALID_PARAMETERS`, for any manager state and any of the four request kinds,
the counters `numWaypoints` and `nextFilledIndex`, both arrays (every slot and
every occupancy tag) and the whole heap of waypoint records (so every id and
every `previous`/`next` link) are exactly as before the call. -/
theorem update_path_nodes_failure_atomic (S : Nat) (m m1 : WaypointManager)
    (w : Option Ptr) (ut : WaypointBufferUpdateType) (id pid nid : Int)
    (h : update_path_nodes S m w ut id pid nid = .ok (m1, INVALID_PARAMETERS)) :
    m1.numWaypoints = m.numWaypoints ∧ m1.nextFilledIndex = m.nextFilledIndex ∧
    m1.waypointBuffer = m.waypointBuffer ∧
    m1.waypointBufferStatus = m.waypointBufferStatus ∧ m1.heap = m.heap := by
  unfold update_path_nodes at h
  split at h
  · simp [pure, Except.pure] at h
    subst h
    exact ⟨rfl, rfl, rfl, rfl, rfl⟩
  · simp only [bind_ok_iff] at h
    obtain ⟨⟨m2, r⟩, hd, h⟩ := h
    simp [pure, Except.pure] at h
    obtain ⟨h1, h2⟩ := h
    subst h2
    have := update_path_nodes_dispatch_invalid S m m2 w ut id pid nid hd
    subst this
    subst h1
    exact ⟨rfl, rfl, rfl, rfl, rfl⟩

theorem update_path_nodes_failure_atomic_witness :
    update_path_nodes 5 threeWaypoints (some 13) UPDATE_WAYPOINT 9 0 0
      = .ok ({ threeWaypoints with errorCode := INVALID_PARAMETERS }, INVALID_PARAMETERS) ∧
    ({ threeWaypoints with errorCode := INVALID_PARAMETERS } : WaypointManager).numWaypoints
        = threeWaypoints.numWaypoints ∧
    ({ threeWaypoints with errorCode := INVALID_PARAMETERS } : WaypointManager).nextFilledIndex
        = threeWaypoints.nextFilledIndex ∧
    ({ threeWaypoints with errorCode := INVALID_PARAMETERS } : WaypointManager).waypointBuffer
        = threeWaypoints.waypointBuffer ∧
    ({ threeWaypoints with
        errorCode := INVALID_PARAMETERS } : WaypointManager).waypointBufferStatus
        = threeWaypoints.waypointBufferStatus ∧
    ({ threeWaypoints with errorCode := INVALID_PARAMETERS } : WaypointManager).heap
        = threeWaypoints.heap :=
  ⟨rfl, update_path_nodes_failure_atomic 5 threeWaypoints
    { threeWaypoints with errorCode := INVALID_PARAMETERS } (some 13) UPDATE_WAYPOINT 9 0 0 rfl⟩

/-! ## Resolving an id -/

theorem get_loop_sound (S : Nat) (m : WaypointManager) (id : Int) :
    ∀ (fuel : Nat) (i k : Int), 0 ≤ i →
      get_waypoint_index_from_id_loop S m id fuel i = .ok k → k ≠ -1 →
      i ≤ k ∧ k < i + fuel ∧ k < (S : Int) ∧ m.waypointBufferStatus k = FULL ∧
      (∃ a d, SlotHolds m k a d ∧ d.waypointId = id) ∧
      ∀ j, i ≤ j → j < k → m.waypointBufferStatus j = FULL ∧
        ∃ a d, SlotHolds m j a d ∧ d.waypointId ≠ id := by
  intro fuel
  induction fuel with
  | zero =>
    intro i k _ h hk
    simp [get_waypoint_index_from_id_loop] at h
    exact absurd h.symm hk
  | succ f ih =>
    intro i k hi h hk
    unfold get_waypoint_index_from_id_loop at h
    simp only [bind_ok_iff] at h
    obtain ⟨st, hst, h⟩ := h
    unfold readStatus at hst
    split at hst
    case isFalse => simp at hst
    case isTrue hb =>
      simp at hst
      split at h
      case isTrue => simp [pure, Except.pure] at h; exact absurd h.symm hk
      case isFalse hfree =>
        have hfull : m.waypointBufferStatus i = FULL := by
          cases hs : m.waypointBufferStatus i
          · rw [hs] at hst; exact absurd hst.symm hfree
          · rfl
        simp only [bind_ok_iff] at h
        obtain ⟨p, hp, d, hd, h⟩ := h
        simp [readBuffer, hb] at hp
        have hslot : ∃ a, SlotHolds m i a d := by
          unfold deref at hd
          cases p with
          | none => simp at hd
          | some a =>
            simp only at hd
            cases hh : m.heap a with
            | none => rw [hh] at hd; simp at hd
            | some d1 =>
              rw [hh] at hd
              simp at hd
              exact ⟨a, hp, by rw [hh, hd]⟩
        obtain ⟨a, ha⟩ := hslot
        split at h
        case isTrue hid =>
          simp [pure, Except.pure] at h
          subst h
          refine ⟨le_refl _, by push_cast; omega, hb.2, hfull, ⟨a, d, ha, hid⟩, ?_⟩
          intro j h1 h2
          omega
        case isFalse hid =>
          obtain ⟨h1, h2, h3, h4, h5, h6⟩ := ih (i + 1) k (by omega) h hk
          refine ⟨by omega, by push_cast; omega, h3, h4, h5, ?_⟩
          intro j hj1 hj2
          by_cases hji : j = i
          · subst hji
            exact ⟨hfull, a, d, ha, hid⟩
          · exact h6 j (by omega) hj2

theorem get_loop_complete (S : Nat) (m : WaypointManager) (id : Int) :
    ∀ (fuel : Nat) (i k : Int), 0 ≤ i → i ≤ k → k < i + fuel → k < (S : Int) →
      m.waypointBufferStatus k = FULL →
      (∃ a d, SlotHolds m k a d ∧ d.waypointId = id) →
      (∀ j, i ≤ j → j < k → m.waypointBufferStatus j = FULL ∧
        ∃ a d, SlotHolds m j a d ∧ d.waypointId ≠ id) →
      get_waypoint_index_from_id_loop S m id fuel i = .ok k := by
  intro fuel
  induction fuel with
  | zero =>
    intro i k _ h1 h2
    simp at h2
    omega
  | succ f ih =>
    intro i k hi hik hkf hkS hfull hk hbefore
    unfold get_waypoint_index_from_id_loop
    have hb : 0 ≤ i ∧ i < (S : Int) := ⟨hi, by omega⟩
    by_cases hik2 : i = k
    · subst hik2
      obtain ⟨a, d, ⟨ha1, ha2⟩, hid⟩ := hk
      simp [readStatus, readBuffer, hb, hfull, deref, ha1, ha2, hid, bind, Except.bind,
        pure, Except.pure]
    · obtain ⟨hf, a, d, ⟨ha1, ha2⟩, hid⟩ := hbefore i (le_refl _) (by omega)
      simp [readStatus, readBuffer, hb, hf, deref, ha1, ha2, hid, bind, Except.bind,
        pure, Except.pure]
      exact ih (i + 1) k (by omega) (by omega) (by push_cast at hkf; omega) hkS hfull hk
        (fun j h1 h2 => hbefore j (by omega) h2)

/-- Under the packing invariant the scan never faults. -/
theorem get_loop_total (S : Nat) (m : WaypointManager) (id : Int) (hP : Packing S m) :
    ∀ (fuel : Nat) (i : Int), 0 ≤ i → i + fuel ≤ (S : Int) →
      ∃ k, get_waypoint_index_from_id_loop S m id fuel i = .ok k := by
  intro fuel
  induction fuel with
  | zero => intro i _ _; exact ⟨-1, rfl⟩
  | succ f ih =>
    intro i hi hS
    unfold get_waypoint_index_from_id_loop
    have hb : 0 ≤ i ∧ i < (S : Int) := ⟨hi, by push_cast at hS; omega⟩
    by_cases hn : i < m.numWaypoints
    · obtain ⟨hf, a, d, ha1, ha2⟩ := hP.2.2.2.1 i hi hn
      by_cases hid : d.waypointId = id
      · exact ⟨i, by simp [readStatus, readBuffer, hb, hf, deref, ha1, ha2, hid, bind,
          Except.bind, pure, Except.pure]⟩
      · obtain ⟨k, hk⟩ := ih (i + 1) (by omega) (by push_cast at hS ⊢; omega)
        exact ⟨k, by simp [readStatus, readBuffer, hb, hf, deref, ha1, ha2, hid, bind,
          Except.bind, pure, Except.pure, hk]⟩
    · obtain ⟨hf, _⟩ := hP.2.2.2.2 i (by omega) hb.2
      exact ⟨-1, by simp [readStatus, hb, hf, bind, Except.bind, pure, Except.pure]⟩

theorem get_index_total (S : Nat) (m : WaypointManager) (id : Int) (hP : Packing S m) :
    ∃ k, get_waypoint_index_from_id S m id = .ok k :=
  get_loop_total S m id hP S 0 (le_refl _) (by simp)

/-- What a resolved id says about the slot it resolves to. -/
theorem Resolves.slot {S : Nat} {m : WaypointManager} {id k : Int} (h : Resolves S m id k) :
    0 ≤ k ∧ k < (S : Int) ∧ m.waypointBufferStatus k = FULL ∧
    ∃ a d, SlotHolds m k a d ∧ d.waypointId = id := by
  obtain ⟨h1, h2, h3, h4, h5, _⟩ := get_loop_sound S m id S 0 k (le_refl _) h.1 h.2
  exact ⟨h1, h3, h4, h5⟩

theorem Resolves.lt_numWaypoints {S : Nat} {m : WaypointManager} {id k : Int}
    (h : Resolves S m id k) (hP : Packing S m) : k < m.numWaypoints := by
  obtain ⟨h0, hS, hfull, _⟩ := h.slot
  by_contra hc
  have := (hP.2.2.2.2 k (by omega) hS).1
  rw [this] at hfull
  exact absurd hfull (by decide)

/-! ## Consequences of the linking invariant -/

theorem Linking.slot_some {m : WaypointManager} (hL : Linking m) {i : Int} (h0 : 0 ≤ i)
    (h1 : i < m.numWaypoints) : ∃ a, m.waypointBuffer i = some a := by
  obtain ⟨a, _, ⟨ha, _⟩, _⟩ := hL i h0 h1
  exact ⟨a, ha⟩

/-- Two different slots of a linked prefix never hold the same record. -/
theorem Linking.distinct {m : WaypointManager} (hL : Linking m) :
    ∀ (t : Nat) (j : Int), (t : Int) < j → j < m.numWaypoints →
      m.waypointBuffer t ≠ m.waypointBuffer j := by
  intro t
  induction t with
  | zero =>
    intro j hj hn heq
    obtain ⟨a, d, ⟨ha1, ha2⟩, hp, _⟩ := hL 0 (le_refl _) (by omega)
    obtain ⟨a1, d1, ⟨hb1, hb2⟩, hq, _⟩ := hL j (by omega) hn
    simp at heq hj
    rw [ha1, hb1] at heq
    cases heq
    rw [ha2] at hb2
    cases hb2
    simp at hp
    rw [hp, if_neg (by omega)] at hq
    obtain ⟨c, hc⟩ := hL.slot_some (i := j - 1) (by omega) (by omega)
    rw [hc] at hq
    cases hq
  | succ t ih =>
    intro j hj hn heq
    push_cast at hj heq
    obtain ⟨a, d, ⟨ha1, ha2⟩, hp, _⟩ := hL (t + 1) (by omega) (by omega)
    obtain ⟨a1, d1, ⟨hb1, hb2⟩, hq, _⟩ := hL j (by omega) hn
    rw [ha1, hb1] at heq
    cases heq
    rw [ha2] at hb2
    cases hb2
    rw [if_neg (by omega)] at hp
    rw [hp, if_neg (by omega)] at hq
    simp at hq
    exact ih (j - 1) (by omega) (by omega) hq

theorem Linking.ne_of_ne {m : WaypointManager} (hL : Linking m) {i j : Int}
    (hi0 : 0 ≤ i) (hi : i < m.numWaypoints) (hj0 : 0 ≤ j) (hj : j < m.numWaypoints)
    (hij : i ≠ j) : m.waypointBuffer i ≠ m.waypointBuffer j := by
  rcases lt_or_gt_of_ne hij with h | h
  · have := hL.distinct i.toNat j (by omega) hj
    rwa [Int.toNat_of_nonneg hi0] at this
  · have := hL.distinct j.toNat i (by omega) hi
    rw [Int.toNat_of_nonneg hj0] at this
    exact fun e => this e.symm

/-- A record with both links null is in no slot of a linked prefix of two or
more waypoints. -/
theorem Linking.unattached_fresh {m : WaypointManager} (hL : Linking m)
    (hn : 2 ≤ m.numWaypoints) {w : Ptr} {dw : PathData} (hw : m.heap w = some dw)
    (hnext : dw.next = none) (hprev : dw.previous = none) :
    ∀ i : Int, 0 ≤ i → i < m.numWaypoints → m.waypointBuffer i ≠ some w := by
  intro i h0 h1 heq
  obtain ⟨a, d, ⟨ha1, ha2⟩, hp, hq⟩ := hL i h0 h1
  rw [heq] at ha1
  cases ha1
  rw [hw] at ha2
  cases ha2
  by_cases hi : i = 0
  · rw [if_neg (by omega), hnext] at hq
    obtain ⟨c, hc⟩ := hL.slot_some (i := i + 1) (by omega) (by omega)
    rw [hc] at hq
    cases hq
  · rw [if_neg hi, hprev] at hp
    obtain ⟨c, hc⟩ := hL.slot_some (i := i - 1) (by omega) (by omega)
    rw [hc] at hp
    cases hp

/-! ## The concrete buffer of three waypoints -/

theorem threeWaypoints_packing : Packing 5 threeWaypoints := by
  have hn : threeWaypoints.numWaypoints = 3 := rfl
  refine ⟨by decide, by decide, rfl, ?_, ?_⟩
  · intro i h0 h1
    rw [hn] at h1
    have : i = 0 ∨ i = 1 ∨ i = 2 := by omega
    rcases this with rfl | rfl | rfl
    · exact ⟨rfl, 10, _, rfl, rfl⟩
    · exact ⟨rfl, 11, _, rfl, rfl⟩
    · exact ⟨rfl, 12, _, rfl, rfl⟩
  · intro i h0 h1
    rw [hn] at h0
    have : i = 3 ∨ i = 4 := by omega
    rcases this with rfl | rfl
    · exact ⟨rfl, rfl⟩
    · exact ⟨rfl, rfl⟩

theorem threeWaypoints_linking : Linking threeWaypoints := by
  have hn : threeWaypoints.numWaypoints = 3 := rfl
  intro i h0 h1
  rw [hn] at h1
  have : i = 0 ∨ i = 1 ∨ i = 2 := by omega
  rcases this with rfl | rfl | rfl
  · exact ⟨10, _, ⟨rfl, rfl⟩, rfl, rfl⟩
  · exact ⟨11, _, ⟨rfl, rfl⟩, rfl, rfl⟩
  · exact ⟨12, _, ⟨rfl, rfl⟩, rfl, rfl⟩

/-! ## Update -/

theorem update_store_spec (S : Nat) (m : WaypointManager) (w : Ptr) (dw : PathData)
    (k : Int) (b : Ptr) (db : PathData) (hP : Packing S m) (hL : Linking m)
    (hn : 2 ≤ m.numWaypoints) (hk0 : 0 ≤ k) (hk : k < m.numWaypoints)
    (hw : m.heap w = some dw)
    (hfresh : ∀ i : Int, 0 ≤ i → i < m.numWaypoints → m.waypointBuffer i ≠ some w)
    (hb : SlotHolds m k b db) :
    update_store S m (some w) k = .ok
      { m with waypointBuffer := Function.update m.waypointBuffer k (some w)
               heap := updatedHeap m k w dw b } := by
  obtain ⟨hn0, hnS, hnfi, hfull, hfree⟩ := hP
  obtain ⟨hb1, hb2⟩ := hb
  have hbw : b ≠ w := fun e => hfresh k hk0 hk (by rw [hb1, e])
  have hkS : k < (S : Int) := by omega
  by_cases hfirst : k = 0
  · subst hfirst
    obtain ⟨c, dc, ⟨hc1, hc2⟩, -, -⟩ := hL 1 (by omega) (by omega)
    have hcw : c ≠ w := fun e => hfresh 1 (by omega) (by omega) (by rw [hc1, e])
    have hcb : c ≠ b := fun e => hL.ne_of_ne (i := 0) (j := 1) (by omega) (by omega)
      (by omega) (by omega) (by omega) (by rw [hb1, hc1, e])
    have h1S : (1 : Int) < S := by omega
    have h0S : (0 : Int) < S := by omega
    simp [update_store, readBuffer, writeBuffer, h0S, h1S, bind, Except.bind, pure,
      Except.pure, assign, destroy_waypoint, deref, free, hb1, hb2, hc1, hc2, hw,
      Function.update_apply, hcw, hbw, hcb, hcw.symm, hbw.symm, hcb.symm]
    funext p
    have hn1 : (0 : Int) ≠ m.numWaypoints - 1 := by omega
    simp only [updatedHeap, Function.update_apply]
    by_cases hpb : p = b
    · simp [hpb]
    · by_cases hpw : p = w
      · subst hpw
        simp [hpb, hcw.symm, hc1, hn1]
      · by_cases hpc : p = c
        · subst hpc
          simp [hpb, hpw, hc1, hc2, hn1]
        · have : some c ≠ some p := fun e => hpc (Option.some.inj e).symm
          simp [hpb, hpw, hpc, hc1, this]
  · obtain ⟨a, da, ⟨ha1, ha2⟩, -, -⟩ := hL (k - 1) (by omega) (by omega)
    have haw : a ≠ w := fun e => hfresh (k - 1) (by omega) (by omega) (by rw [ha1, e])
    have hab : a ≠ b := fun e => hL.ne_of_ne (i := k - 1) (j := k) (by omega) (by omega)
      (by omega) (by omega) (by omega) (by rw [hb1, ha1, e])
    have hk1S : k - 1 < (S : Int) := by omega
    have hk10 : 0 ≤ k - 1 := by omega
    by_cases hlast0 : k = m.numWaypoints - 1
    · have hlast : (k = m.numWaypoints - 1) = True := eq_true hlast0
      have hheap : Function.update (Function.update (Function.update m.heap w
          (some { dw with previous := some a })) a (some { da with next := some w })) b none
          = m.updatedHeap k w dw b := by
        funext p
        simp only [updatedHeap, Function.update_apply]
        by_cases hpb : p = b
        · simp [hpb]
        · by_cases hpw : p = w
          · subst hpw
            simp [hpb, haw.symm, ha1, hlast, hfirst]
          · by_cases hpa : p = a
            · subst hpa
              simp [hpb, hpw, ha1, ha2, hlast, hfirst]
            · have : some a ≠ some p := fun e => hpa (Option.some.inj e).symm
              simp [hpb, hpw, hpa, ha1, this, hlast]
      rw [← hheap]
      by_cases hS : k = (S : Int) - 1
      · have hS1 : (k = (S : Int) - 1) = True := eq_true hS
        simp [update_store, readBuffer, writeBuffer, readStatus, hk0, hkS, hk1S, hk10,
          hfirst, hS1, bind, Except.bind, pure,
          Except.pure, assign, destroy_waypoint, deref, free, hb1, hb2, ha1, ha2, hw,
          Function.update_apply, haw, hbw, hab, haw.symm, hbw.symm, hab.symm]
      · have hfr := (hfree (k + 1) (by omega) (by omega)).1
        have hk2S : k + 1 < (S : Int) := by omega
        have hk20 : 0 ≤ k + 1 := by omega
        simp [update_store, readBuffer, writeBuffer, readStatus, hk0, hkS, hk1S, hk10,
          hk2S, hk20, hfr,
          hfirst, hS, bind, Except.bind, pure,
          Except.pure, assign, destroy_waypoint, deref, free, hb1, hb2, ha1, ha2, hw,
          Function.update_apply, haw, hbw, hab, haw.symm, hbw.symm, hab.symm]
    · have hlast := hlast0
      obtain ⟨c, dc, ⟨hc1, hc2⟩, -, -⟩ := hL (k + 1) (by omega) (by omega)
      have hcw : c ≠ w := fun e => hfresh (k + 1) (by omega) (by omega) (by rw [hc1, e])
      have hcb : c ≠ b := fun e => hL.ne_of_ne (i := k) (j := k + 1) (by omega) (by omega)
        (by omega) (by omega) (by omega) (by rw [hb1, hc1, e])
      have hca : c ≠ a := fun e => hL.ne_of_ne (i := k - 1) (j := k + 1) (by omega)
        (by omega) (by omega) (by omega) (by omega) (by rw [ha1, hc1, e])
      have hfu := (hfull (k + 1) (by omega) (by omega)).1
      have hk2S : k + 1 < (S : Int) := by omega
      have hk20 : 0 ≤ k + 1 := by omega
      have hS : k ≠ (S : Int) - 1 := by omega
      have hheap : Function.update (Function.update (Function.update (Function.update m.heap w
          (some { dw with next := some c, previous := some a })) a
            (some { da with next := some w })) c (some { dc with previous := some w })) b none
          = m.updatedHeap k w dw b := by
        funext p
        simp only [updatedHeap, Function.update_apply]
        by_cases hpb : p = b
        · simp [hpb]
        · by_cases hpw : p = w
          · subst hpw
            simp [hpb, haw.symm, hcw.symm, ha1, hc1, hlast, hfirst]
          · by_cases hpa : p = a
            · subst hpa
              simp [hpb, hpw, ha1, ha2, hc1, hca, hca.symm, hlast, hfirst]
            · have h1 : some a ≠ some p := fun e => hpa (Option.some.inj e).symm
              by_cases hpc : p = c
              · subst hpc
                simp [hpb, hpw, hpa, ha1, hc1, hc2, hca, hca.symm, hlast, hfirst]
              · have h2 : some c ≠ some p := fun e => hpc (Option.some.inj e).symm
                simp [hpb, hpw, hpa, hpc, ha1, hc1, h1, h2, hlast]
      rw [← hheap]
      simp [update_store, readBuffer, writeBuffer, readStatus, hk0, hkS, hk1S, hk10,
          hk2S, hk20, hfu,
          hfirst, hS, bind, Except.bind, pure,
          Except.pure, assign, destroy_waypoint, deref, free, hb1, hb2, ha1, ha2, hw,
          hc1, hc2, hcw, hcb, hca, hcw.symm, hcb.symm, hca.symm,
          Function.update_apply, haw, hbw, hab, haw.symm, hbw.symm, hab.symm]

/-- The record in a slot other than `k` after an update of slot `k`. -/
theorem updatedHeap_other (m : WaypointManager) (w : Ptr) (dw : PathData) (k : Int)
    (b : Ptr) (db : PathData) (hL : Linking m) (hk0 : 0 ≤ k) (hk : k < m.numWaypoints)
    (hfresh : ∀ i : Int, 0 ≤ i → i < m.numWaypoints → m.waypointBuffer i ≠ some w)
    (hb : SlotHolds m k b db) (i : Int) (hi0 : 0 ≤ i) (hi : i < m.numWaypoints)
    (hik : i ≠ k) (a : Ptr) (d : PathData) (ha : SlotHolds m i a d) :
    a ≠ b ∧ a ≠ w ∧ updatedHeap m k w dw b a = some
      { d with
        next := if k ≠ 0 ∧ m.waypointBuffer (k - 1) = some a then some w else d.next
        previous :=
          if k ≠ m.numWaypoints - 1 ∧ m.waypointBuffer (k + 1) = some a then some w
          else d.previous } := by
  obtain ⟨ha1, ha2⟩ := ha
  have hab : a ≠ b := fun e => hL.ne_of_ne hi0 hi hk0 hk hik (by rw [ha1, hb.1, e])
  have haw : a ≠ w := fun e => hfresh i hi0 hi (by rw [ha1, e])
  refine ⟨hab, haw, ?_⟩
  simp [updatedHeap, hab, haw, ha2]

/-- The buffer after an update of slot `k`. -/
theorem update_result_invariants (S : Nat) (m : WaypointManager) (w : Ptr) (dw : PathData)
    (k : Int) (b : Ptr) (db : PathData) (hP : Packing S m) (hL : Linking m)
    (hk0 : 0 ≤ k) (hk : k < m.numWaypoints)
    (hfresh : ∀ i : Int, 0 ≤ i → i < m.numWaypoints → m.waypointBuffer i ≠ some w)
    (hnext : dw.next = none) (hprev : dw.previous = none)
    (hb : SlotHolds m k b db) :
    Packing S { m with waypointBuffer := Function.update m.waypointBuffer k (some w)
                       heap := updatedHeap m k w dw b } ∧
    Linking { m with waypointBuffer := Function.update m.waypointBuffer k (some w)
                     heap := updatedHeap m k w dw b } := by
  have hother := updatedHeap_other m w dw k b db hL hk0 hk hfresh hb
  obtain ⟨hn0, hnS, hnfi, hfull, hfree⟩ := hP
  obtain ⟨hb1, hb2⟩ := hb
  have hbw : b ≠ w := fun e => hfresh k hk0 hk (by rw [hb1, e])
  have hwb : w ≠ b := fun e => hbw e.symm
  have hself : updatedHeap m k w dw b w = some
      { dw with
        previous := if k = 0 then dw.previous else m.waypointBuffer (k - 1)
        next := if k = m.numWaypoints - 1 then dw.next else m.waypointBuffer (k + 1) } := by
    simp [updatedHeap, hwb]
  constructor
  · refine ⟨hn0, hnS, hnfi, ?_, ?_⟩
    · intro i hi0 (hi : i < m.numWaypoints)
      refine ⟨(hfull i hi0 hi).1, ?_⟩
      by_cases hik : i = k
      · subst hik
        exact ⟨w, _, by simp, hself⟩
      · obtain ⟨a, d, ha⟩ := (hfull i hi0 hi).2
        obtain ⟨-, -, h3⟩ := hother i hi0 hi hik a d ha
        exact ⟨a, _, by simp [Function.update_apply, hik, ha.1], h3⟩
    · intro i (hi : m.numWaypoints ≤ i) hiS
      have hik : i ≠ k := by omega
      exact ⟨(hfree i hi hiS).1, by simp [Function.update_apply, hik, (hfree i hi hiS).2]⟩
  · intro i hi0 (hi : i < m.numWaypoints)
    by_cases hik : i = k
    · subst hik
      refine ⟨w, _, ⟨by simp, hself⟩, ?_, ?_⟩
      · by_cases h0 : i = 0
        · simp [h0, hprev]
        · have : i - 1 ≠ i := by omega
          simp [h0, Function.update_apply, this]
      · by_cases h1 : i = m.numWaypoints - 1
        · have h1t : (i = m.numWaypoints - 1) = True := eq_true h1
          simp [h1t, hnext]
        · have : i + 1 ≠ i := by omega
          simp [h1, Function.update_apply, this]
    · obtain ⟨a, d, ha, hp, hq⟩ := hL i hi0 hi
      obtain ⟨-, -, h3⟩ := hother i hi0 hi hik a d ha
      refine ⟨a, _, ⟨by simp [Function.update_apply, hik, ha.1], h3⟩, ?_, ?_⟩
      · -- the link back
        show (if k ≠ m.numWaypoints - 1 ∧ m.waypointBuffer (k + 1) = some a then some w
            else d.previous) =
          if i = 0 then none else Function.update m.waypointBuffer k (some w) (i - 1)
        by_cases hsucc : i = k + 1
        · have hkl : k ≠ m.numWaypoints - 1 := by omega
          have hi0' : i ≠ 0 := by omega
          have hka : m.waypointBuffer (k + 1) = some a := by rw [← hsucc]; exact ha.1
          have : i - 1 = k := by omega
          rw [if_pos ⟨hkl, hka⟩, if_neg hi0', this, Function.update_same]
        · have hne : ¬ (k ≠ m.numWaypoints - 1 ∧ m.waypointBuffer (k + 1) = some a) := by
            rintro ⟨hkl, hka⟩
            exact hL.ne_of_ne (i := k + 1) (j := i) (by omega) (by omega) hi0 hi
              (fun e => hsucc e.symm) (by rw [hka, ha.1])
          rw [if_neg hne, hp]
          by_cases hi0' : i = 0
          · rw [if_pos hi0', if_pos hi0']
          · have : i - 1 ≠ k := by omega
            rw [if_neg hi0', if_neg hi0', Function.update_noteq this]
      · -- the link forward
        show (if k ≠ 0 ∧ m.waypointBuffer (k - 1) = some a then some w else d.next) =
          if i = m.numWaypoints - 1 then none
          else Function.update m.waypointBuffer k (some w) (i + 1)
        by_cases hpred : i = k - 1
        · have hk0' : k ≠ 0 := by omega
          have hil : i ≠ m.numWaypoints - 1 := by omega
          have hka : m.waypointBuffer (k - 1) = some a := by rw [← hpred]; exact ha.1
          have : i + 1 = k := by omega
          rw [if_pos ⟨hk0', hka⟩, if_neg hil, this, Function.update_same]
        · have hne : ¬ (k ≠ 0 ∧ m.waypointBuffer (k - 1) = some a) := by
            rintro ⟨hk0', hka⟩
            exact hL.ne_of_ne (i := k - 1) (j := i) (by omega) (by omega) hi0 hi
              (fun e => hpred e.symm) (by rw [hka, ha.1])
          rw [if_neg hne, hq]
          by_cases hil : i = m.numWaypoints - 1
          · rw [if_pos hil, if_pos hil]
          · have : i + 1 ≠ k := by omega
            rw [if_neg hil, if_neg hil, Function.update_noteq this]

theorem update_waypoint_spec (S : Nat) (m : WaypointManager) (id k : Int) (w : Ptr)
    (dw : PathData) (hP : Packing S m) (hL : Linking m) (hn : 2 ≤ m.numWaypoints)
    (hres : Resolves S m id k) (hw : m.heap w = some dw)
    (hfresh : ∀ i : Int, 0 ≤ i → i < m.numWaypoints → m.waypointBuffer i ≠ some w) :
    ∃ b db, SlotHolds m k b db ∧ db.waypointId = id ∧
      update_waypoint S m (some w) id = .ok
        ({ m with waypointBuffer := Function.update m.waypointBuffer k (some w)
                  heap := updatedHeap m k w dw b }, WAYPOINT_SUCCESS) := by
  obtain ⟨hk0, -, -, b, db, hb, hid⟩ := hres.slot
  have hk := hres.lt_numWaypoints hP
  refine ⟨b, db, hb, hid, ?_⟩
  unfold update_waypoint
  rw [hres.1, ok_bind, if_neg hres.2,
    update_store_spec S m w dw k b db hP hL hn hk0 hk hw hfresh hb]
  rfl

theorem update_path_nodes_update (S : Nat) (m m1 : WaypointManager) (w : Option Ptr)
    (id pid nid : Int) (r : WaypointStatus)
    (h : update_waypoint S m w id = .ok (m1, r)) :
    update_path_nodes S m w UPDATE_WAYPOINT id pid nid
      = .ok ({ m1 with errorCode := r }, r) := by
  simp [update_path_nodes, update_path_nodes_dispatch, h, bind, Except.bind, pure,
    Except.pure]

/-- C10. Update replaces in place: on a buffer that satisfies packing and linking
with at least two waypoints, for an id that resolves to slot `k` and a live
waypoint `w` with both links null, `update_waypoint` (also when reached through
`update_path_nodes`) returns `WAYPOINT_SUCCESS`; afterwards slot `k` holds `w`,
every other slot, every occupancy tag, `numWaypoints` and `nextFilledIndex` are
unchanged, and packing and linking hold again, with `w` in position `k`. -/
theorem update_replaces_in_place (S : Nat) (m : WaypointManager) (id k pid nid : Int)
    (w : Ptr) (dw : PathData) (hP : Packing S m) (hL : Linking m)
    (hn : 2 ≤ m.numWaypoints) (hres : Resolves S m id k) (hw : m.heap w = some dw)
    (hnext : dw.next = none) (hprev : dw.previous = none) :
    ∃ m1, update_waypoint S m (some w) id = .ok (m1, WAYPOINT_SUCCESS) ∧
      update_path_nodes S m (some w) UPDATE_WAYPOINT id pid nid
        = .ok ({ m1 with errorCode := WAYPOINT_SUCCESS }, WAYPOINT_SUCCESS) ∧
      m1.waypointBuffer k = some w ∧
      (∀ i : Int, i ≠ k → m1.waypointBuffer i = m.waypointBuffer i) ∧
      m1.waypointBufferStatus = m.waypointBufferStatus ∧
      m1.numWaypoints = m.numWaypoints ∧ m1.nextFilledIndex = m.nextFilledIndex ∧
      Packing S m1 ∧ Linking m1 := by
  have hfresh := hL.unattached_fresh hn hw hnext hprev
  obtain ⟨b, db, hb, -, hupd⟩ := update_waypoint_spec S m id k w dw hP hL hn hres hw hfresh
  obtain ⟨hk0, -, -, -⟩ := hres.slot
  have hk := hres.lt_numWaypoints hP
  obtain ⟨hP1, hL1⟩ :=
    update_result_invariants S m w dw k b db hP hL hk0 hk hfresh hnext hprev hb
  refine ⟨_, hupd, update_path_nodes_update S m _ _ id pid nid _ hupd, ?_, ?_, rfl, rfl, rfl,
    hP1, hL1⟩
  · simp
  · intro i hik
    simp [Function.update_apply, hik]

/-- A live record that is in no slot is left alone by an update of slot `k`. -/
theorem updatedHeap_outside (m : WaypointManager) (w : Ptr) (dw : PathData) (k : Int)
    (b : Ptr) (hk0 : 0 ≤ k) (hk : k < m.numWaypoints) (hb : m.waypointBuffer k = some b)
    (v : Ptr) (hvw : v ≠ w)
    (hfresh : ∀ i : Int, 0 ≤ i → i < m.numWaypoints → m.waypointBuffer i ≠ some v) :
    updatedHeap m k w dw b v = m.heap v := by
  have hvb : v ≠ b := fun e => hfresh k hk0 hk (by rw [hb, e])
  have hc1 : ¬ (k ≠ 0 ∧ m.waypointBuffer (k - 1) = some v) :=
    fun ⟨h0, h⟩ => hfresh (k - 1) (by omega) (by omega) h
  have hc2 : ¬ (k ≠ m.numWaypoints - 1 ∧ m.waypointBuffer (k + 1) = some v) :=
    fun ⟨h0, h⟩ => hfresh (k + 1) (by omega) (by omega) h
  simp only [updatedHeap, if_neg hvb, if_neg hvw, if_neg hc1, if_neg hc2]
  cases m.heap v <;> rfl

theorem update_twice_spec (S : Nat) (m : WaypointManager) (id k : Int) (w v : Ptr)
    (dw dv : PathData) (hP : Packing S m) (hL : Linking m) (hn : 2 ≤ m.numWaypoints)
    (hres : Resolves S m id k) (hw : m.heap w = some dw) (hv : m.heap v = some dv)
    (hwv : w ≠ v)
    (hwnext : dw.next = none) (hwprev : dw.previous = none)
    (hvnext : dv.next = none) (hvprev : dv.previous = none)
    (hid : ∀ i : Int, 0 ≤ i → i < k → ∀ a d, SlotHolds m i a d →
      d.waypointId ≠ dw.waypointId) :
    ∃ b dw1,
      update_waypoint S m (some w) id = .ok
        ({ m with waypointBuffer := Function.update m.waypointBuffer k (some w)
                  heap := updatedHeap m k w dw b }, WAYPOINT_SUCCESS) ∧
      update_waypoint S
        { m with waypointBuffer := Function.update m.waypointBuffer k (some w)
                 heap := updatedHeap m k w dw b } (some v) dw.waypointId = .ok
        ({ m with
            waypointBuffer :=
              Function.update (Function.update m.waypointBuffer k (some w)) k (some v)
            heap := updatedHeap
              { m with waypointBuffer := Function.update m.waypointBuffer k (some w)
                       heap := updatedHeap m k w dw b } k v dv w }, WAYPOINT_SUCCESS) ∧
      update_waypoint S m (some v) id = .ok
        ({ m with waypointBuffer := Function.update m.waypointBuffer k (some v)
                  heap := updatedHeap m k v dv b }, WAYPOINT_SUCCESS) ∧
      m.waypointBuffer k = some b ∧
      updatedHeap m k w dw b w = some dw1 := by
  have hfw := hL.unattached_fresh hn hw hwnext hwprev
  have hfv := hL.unattached_fresh hn hv hvnext hvprev
  obtain ⟨hk0, hkS, hkfull, -⟩ := hres.slot
  have hk := hres.lt_numWaypoints hP
  obtain ⟨b, db, hb, -, hupd⟩ := update_waypoint_spec S m id k w dw hP hL hn hres hw hfw
  obtain ⟨b3, db3, hb3, -, hupd3⟩ := update_waypoint_spec S m id k v dv hP hL hn hres hv hfv
  have hbb : b3 = b := by
    have := hb3.1
    rw [hb.1] at this
    exact (Option.some.inj this).symm
  subst hbb
  obtain ⟨hP1, hL1⟩ :=
    update_result_invariants S m w dw k b3 db hP hL hk0 hk hfw hwnext hwprev hb
  have hwb : w ≠ b3 := fun e => hfw k hk0 hk (by rw [hb.1, e])
  have hself : updatedHeap m k w dw b3 w = some
      { dw with
        previous := if k = 0 then dw.previous else m.waypointBuffer (k - 1)
        next := if k = m.numWaypoints - 1 then dw.next else m.waypointBuffer (k + 1) } := by
    simp [updatedHeap, hwb]
  -- the id of `w` now resolves to slot `k`
  have hres1 : Resolves S
      { m with waypointBuffer := Function.update m.waypointBuffer k (some w)
               heap := updatedHeap m k w dw b3 } dw.waypointId k := by
    refine ⟨?_, by omega⟩
    refine get_loop_complete S _ dw.waypointId S 0 k (le_refl _) hk0 (by omega) hkS hkfull
      ⟨w, _, ⟨by simp, hself⟩, rfl⟩ ?_
    intro j hj0 hjk
    obtain ⟨hjf, a, d, ha⟩ := hP.2.2.2.1 j hj0 (by omega)
    obtain ⟨-, -, h3⟩ :=
      updatedHeap_other m w dw k b3 db hL hk0 hk hfw hb j hj0 (by omega) (by omega) a d ha
    have hjk' : j ≠ k := by omega
    exact ⟨hjf, a, _, ⟨by simp [Function.update_apply, hjk', ha.1], h3⟩,
      hid j hj0 hjk a d ha⟩
  have hv1 : updatedHeap m k w dw b3 v = some dv := by
    rw [updatedHeap_outside m w dw k b3 hk0 hk hb.1 v (fun e => hwv e.symm) hfv, hv]
  have hfv1 : ∀ i : Int, 0 ≤ i → i < m.numWaypoints →
      Function.update m.waypointBuffer k (some w) i ≠ some v := by
    intro i hi0 hi
    by_cases hik : i = k
    · subst hik
      simp [hwv]
    · rw [Function.update_noteq hik]
      exact hfv i hi0 hi
  obtain ⟨b2, db2, hb2, -, hupd2⟩ := update_waypoint_spec S _ dw.waypointId k v dv hP1 hL1 hn
    hres1 hv1 hfv1
  have hb2w : b2 = w := by
    have := hb2.1
    simp at this
    exact this.symm
  subst hb2w
  exact ⟨b3, _, hupd, hupd2, hupd3, hb.1, hself⟩

/-- C9 (amended). Two updates of the same slot: on a buffer that satisfies packing
and linking with at least two waypoints, for an id resolving to slot `k` and two
different live waypoints `w`, `v` with null links, where the id of `w` is not the
id of a slot before `k`: `update_waypoint` with `w` for that id succeeds, a second
`update_waypoint` with `v`, addressed to the id that `w` brought into the slot,
succeeds too, and it leaves the slots, the occupancy tags, the counters and every
record other than the deleted `w` exactly as the single update with `v` does. -/
theorem update_twice_same_buffer (S : Nat) (m : WaypointManager) (id k : Int) (w v : Ptr)
    (dw dv : PathData) (hP : Packing S m) (hL : Linking m) (hn : 2 ≤ m.numWaypoints)
    (hres : Resolves S m id k) (hw : m.heap w = some dw) (hv : m.heap v = some dv)
    (hwv : w ≠ v)
    (hwnext : dw.next = none) (hwprev : dw.previous = none)
    (hvnext : dv.next = none) (hvprev : dv.previous = none)
    (hid : ∀ i : Int, 0 ≤ i → i < k → ∀ a d, SlotHolds m i a d →
      d.waypointId ≠ dw.waypointId) :
    ∃ m1 m2 m3,
      update_waypoint S m (some w) id = .ok (m1, WAYPOINT_SUCCESS) ∧
      update_waypoint S m1 (some v) dw.waypointId = .ok (m2, WAYPOINT_SUCCESS) ∧
      update_waypoint S m (some v) id = .ok (m3, WAYPOINT_SUCCESS) ∧
      m2.waypointBuffer = m3.waypointBuffer ∧
      m2.waypointBufferStatus = m3.waypointBufferStatus ∧
      m2.numWaypoints = m3.numWaypoints ∧ m2.nextFilledIndex = m3.nextFilledIndex ∧
      (∀ p, p ≠ w → m2.heap p = m3.heap p) ∧ m2.heap w = none := by
  obtain ⟨b, dw1, h1, h2, h3, hb, hself⟩ := update_twice_spec S m id k w v dw dv hP hL hn
    hres hw hv hwv hwnext hwprev hvnext hvprev hid
  refine ⟨_, _, _, h1, h2, h3, ?_, rfl, rfl, rfl, ?_, ?_⟩
  · simp
  · intro p hpw
    have hfv := hL.unattached_fresh hn hv hvnext hvprev
    obtain ⟨hk0, -, -, -⟩ := hres.slot
    have hk := hres.lt_numWaypoints hP
    have hvb : v ≠ b := fun e => hfv k hk0 hk (by rw [hb, e])
    have hkm : k - 1 ≠ k := by omega
    have hkp : k + 1 ≠ k := by omega
    show updatedHeap _ k v dv w p = updatedHeap m k v dv b p
    by_cases hpv : p = v
    · subst hpv
      simp [updatedHeap, hpw, hvb, Function.update_apply, hkm, hkp]
    · by_cases hpb : p = b
      · subst hpb
        simp [updatedHeap, hpw, hpv]
      · simp only [updatedHeap, if_neg hpw, if_neg hpv, if_neg hpb, Function.update_apply,
          if_neg hkm, if_neg hkp]
        cases m.heap p with
        | none => rfl
        | some d =>
          simp only [Option.map_some']
          congr 1
          split_ifs <;> rfl
  · show updatedHeap _ k v dv w w = none
    simp [updatedHeap]

theorem update_replaces_in_place_witness :
    ∃ m1, update_waypoint 5 threeWaypoints (some 13) 1 = .ok (m1, WAYPOINT_SUCCESS) ∧
      update_path_nodes 5 threeWaypoints (some 13) UPDATE_WAYPOINT 1 0 0
        = .ok ({ m1 with errorCode := WAYPOINT_SUCCESS }, WAYPOINT_SUCCESS) ∧
      m1.waypointBuffer 1 = some 13 ∧
      (∀ i : Int, i ≠ 1 → m1.waypointBuffer i = threeWaypoints.waypointBuffer i) ∧
      m1.waypointBufferStatus = threeWaypoints.waypointBufferStatus ∧
      m1.numWaypoints = threeWaypoints.numWaypoints ∧
      m1.nextFilledIndex = threeWaypoints.nextFilledIndex ∧
      Packing 5 m1 ∧ Linking m1 :=
  update_replaces_in_place 5 threeWaypoints 1 1 0 0 13 record13
    threeWaypoints_packing threeWaypoints_linking (by decide) ⟨rfl, by decide⟩ rfl rfl rfl

theorem update_twice_same_buffer_witness :
    ∃ m1 m2 m3,
      update_waypoint 5 threeWaypoints (some 13) 1 = .ok (m1, WAYPOINT_SUCCESS) ∧
      update_waypoint 5 m1 (some 14) 3 = .ok (m2, WAYPOINT_SUCCESS) ∧
      update_waypoint 5 threeWaypoints (some 14) 1 = .ok (m3, WAYPOINT_SUCCESS) ∧
      m2.waypointBuffer = m3.waypointBuffer ∧
      m2.waypointBufferStatus = m3.waypointBufferStatus ∧
      m2.numWaypoints = m3.numWaypoints ∧ m2.nextFilledIndex = m3.nextFilledIndex ∧
      (∀ p, p ≠ 13 → m2.heap p = m3.heap p) ∧ m2.heap 13 = none :=
  update_twice_same_buffer 5 threeWaypoints 1 1 13 14 record13 record14
    threeWaypoints_packing threeWaypoints_linking (by decide) ⟨rfl, by decide⟩ rfl rfl
    (by decide) rfl rfl rfl rfl
    (by
      intro i h0 h1 a d ⟨ha, hd⟩
      have hi : i = 0 := by omega
      subst hi
      have h10 : threeWaypoints.waypointBuffer 0 = some 10 := rfl
      rw [h10] at ha
      cases ha
      have hrec : (threeWaypoints.heap 10).map (fun r => r.waypointId) = some 0 := rfl
      rw [hd] at hrec
      simp at hrec
      rw [hrec]
      decide)

/-- C9 (as stated) fails: on the buffer initialised with the waypoints of ids
`0, 1, 2`, which satisfies packing and linking and where id `1` resolves to slot
`1`, with the factory-made unattached waypoints at `13` and `14`: the update with
`13` for id `1` returns `WAYPOINT_SUCCESS`, and the following update with `14` for
the same id `1` returns `INVALID_PARAMETERS`, since slot `1` now carries id `3`. -/
theorem update_same_id_twice_invalid :
    statusOf (initialize_flight_path 5 factoryFive [some 10, some 11, some 12] 3)
      = .ok WAYPOINT_SUCCESS ∧
    Packing 5 threeWaypoints ∧ Linking threeWaypoints ∧ Resolves 5 threeWaypoints 1 1 ∧
    threeWaypoints.heap 13 = some record13 ∧ threeWaypoints.heap 14 = some record14 ∧
    statusOf (update_path_nodes 5 threeWaypoints (some 13) UPDATE_WAYPOINT 1 0 0)
      = .ok WAYPOINT_SUCCESS ∧
    statusOf (update_path_nodes 5
      (stateOf (update_path_nodes 5 threeWaypoints (some 13) UPDATE_WAYPOINT 1 0 0))
      (some 14) UPDATE_WAYPOINT 1 0 0) = .ok INVALID_PARAMETERS ∧
    slotId (stateOf (update_path_nodes 5 threeWaypoints (some 13) UPDATE_WAYPOINT 1 0 0)) 1
      = some 3 :=
  ⟨rfl, threeWaypoints_packing, threeWaypoints_linking, ⟨rfl, by decide⟩, rfl, rfl, rfl, rfl,
    rfl⟩

/-! ## Delete -/

/-- The compacting loop of `delete_waypoint`, started at slot `i` with `cnt`
occupied slots after it: each of them moves one slot down and the last one is
tagged `FREE`, its handle left in place. -/
theorem delete_compact_loop (S : Nat) :
    ∀ (cnt : Nat) (i : Int) (m0 : WaypointManager), 0 ≤ i → i + cnt < (S : Int) →
      (∀ j : Int, i < j → j ≤ i + cnt → m0.waypointBufferStatus j = FULL) →
      forUp (delete_compact_body S) cnt i m0 = .ok
        { m0 with
          waypointBuffer := fun j =>
            if i ≤ j ∧ j < i + cnt then m0.waypointBuffer (j + 1) else m0.waypointBuffer j
          waypointBufferStatus := fun j =>
            if i ≤ j ∧ j < i + cnt then FULL
            else if j = i + cnt ∧ 0 < cnt then FREE else m0.waypointBufferStatus j } := by
  intro cnt
  induction cnt with
  | zero =>
    intro i m0 _ _ _
    have h : ∀ j : Int, ¬ (i ≤ j ∧ j < i) := fun j h => by omega
    simp [forUp, h]
  | succ c ih =>
    intro i m0 hi hS hfull
    push_cast at hS
    have hb1 : 0 ≤ i + 1 ∧ i + 1 < (S : Int) := ⟨by omega, by omega⟩
    have hb0 : 0 ≤ i ∧ i < (S : Int) := ⟨hi, by omega⟩
    have hf1 : m0.waypointBufferStatus (i + 1) = FULL := hfull (i + 1) (by omega)
      (by push_cast; omega)
    have hne : i + 1 ≠ i := by omega
    unfold forUp
    simp only [delete_compact_body, readStatus, if_pos hb1, if_pos hb0, hf1, ok_bind,
      writeStatus, writeBuffer, readBuffer, pure_eq_ok]
    simp only [reduceCtorEq, if_false, if_true, ok_bind]
    rw [ih (i + 1) _ (by omega) (by omega) ?_]
    · congr 2
      · funext j
        simp only [Function.update_apply]
        push_cast
        split_ifs <;> first | rfl | omega | (congr 1; omega)
      · funext j
        simp only [Function.update_apply]
        push_cast
        split_ifs <;> first | rfl | omega
    · intro j hj1 hj2
      have h1 : j ≠ i + 1 := by omega
      have h2 : j ≠ i := by omega
      simp only [Function.update_apply, if_neg h1, if_neg h2]
      exact hfull j (by omega) (by push_cast; omega)

theorem destroy_waypoint_ok (m : WaypointManager) (b : Ptr) (d : PathData)
    (h : m.heap b = some d) :
    destroy_waypoint m (some b) = .ok { m with heap := Function.update m.heap b none } := by
  simp [destroy_waypoint, deref, assign, free, h, bind, Except.bind]

theorem delete_relink_spec (S : Nat) (m : WaypointManager) (k : Int) (b : Ptr)
    (db : PathData) (hP : Packing S m) (hL : Linking m) (hn : 2 ≤ m.numWaypoints)
    (hk0 : 0 ≤ k) (hk : k < m.numWaypoints) (hb : SlotHolds m k b db) :
    delete_relink S m k = .ok { m with heap := relinkedHeap m k } := by
  obtain ⟨hn0, hnS, hnfi, hfull, hfree⟩ := hP
  obtain ⟨hb1, hb2⟩ := hb
  have hkS : k < (S : Int) := by omega
  by_cases hfirst : k = 0
  · subst hfirst
    obtain ⟨c, dc, ⟨hc1, hc2⟩, -, -⟩ := hL 1 (by omega) (by omega)
    have h1S : (1 : Int) < S := by omega
    have hn1 : (0 : Int) ≠ m.numWaypoints - 1 := by omega
    simp [delete_relink, readBuffer, h1S, bind, Except.bind, assign, hc1, hc2]
    funext p
    simp only [relinkedHeap, Function.update_apply]
    by_cases hpc : p = c
    · subst hpc
      simp [hc1, hc2, hn1]
    · have : some c ≠ some p := fun e => hpc (Option.some.inj e).symm
      simp [hpc, hc1, this]
  · obtain ⟨a, da, ⟨ha1, ha2⟩, -, -⟩ := hL (k - 1) (by omega) (by omega)
    have hk1S : k - 1 < (S : Int) := by omega
    have hk10 : 0 ≤ k - 1 := by omega
    by_cases hlast0 : k = m.numWaypoints - 1
    · have hlast : (k = m.numWaypoints - 1) = True := eq_true hlast0
      have hheap : Function.update m.heap a (some { da with next := none })
          = relinkedHeap m k := by
        funext p
        simp only [relinkedHeap, Function.update_apply]
        by_cases hpa : p = a
        · subst hpa
          simp [ha1, ha2, hlast, hfirst]
        · have : some a ≠ some p := fun e => hpa (Option.some.inj e).symm
          simp [hpa, ha1, this, hlast]
      rw [← hheap]
      by_cases hS : k = (S : Int) - 1
      · have hS1 : (k = (S : Int) - 1) = True := eq_true hS
        simp [delete_relink, readBuffer, readStatus, hk0, hkS, hk1S, hk10, hfirst, hS1,
          bind, Except.bind, pure, Except.pure, assign, ha1, ha2]
      · have hfr := (hfree (k + 1) (by omega) (by omega)).1
        have hk2S : k + 1 < (S : Int) := by omega
        have hk20 : 0 ≤ k + 1 := by omega
        simp [delete_relink, readBuffer, readStatus, hk0, hkS, hk1S, hk10, hk2S, hk20, hfr,
          hfirst, hS, bind, Except.bind, pure, Except.pure, assign, ha1, ha2]
    · have hlast := hlast0
      obtain ⟨c, dc, ⟨hc1, hc2⟩, -, -⟩ := hL (k + 1) (by omega) (by omega)
      have hca : c ≠ a := fun e => hL.ne_of_ne (i := k - 1) (j := k + 1) (by omega)
        (by omega) (by omega) (by omega) (by omega) (by rw [ha1, hc1, e])
      have hfu := (hfull (k + 1) (by omega) (by omega)).1
      have hk2S : k + 1 < (S : Int) := by omega
      have hk20 : 0 ≤ k + 1 := by omega
      have hS : k ≠ (S : Int) - 1 := by omega
      have hheap : Function.update (Function.update m.heap a
            (some { da with next := some c })) c (some { dc with previous := some a })
          = relinkedHeap m k := by
        funext p
        simp only [relinkedHeap, Function.update_apply]
        by_cases hpa : p = a
        · subst hpa
          simp [ha1, ha2, hc1, hca, hca.symm, hlast, hfirst]
        · have h1 : some a ≠ some p := fun e => hpa (Option.some.inj e).symm
          by_cases hpc : p = c
          · subst hpc
            simp [hpa, ha1, hc1, hc2, hca, hca.symm, hlast, hfirst]
          · have h2 : some c ≠ some p := fun e => hpc (Option.some.inj e).symm
            simp [hpa, hpc, ha1, hc1, h1, h2, hlast]
      rw [← hheap]
      simp [delete_relink, readBuffer, readStatus, hk0, hkS, hk1S, hk10, hk2S, hk20, hfu,
        hfirst, hS, bind, Except.bind, pure, Except.pure, assign, ha1, ha2, hc1, hc2,
        hca, hca.symm, Function.update_apply]

theorem delete_store_spec (S : Nat) (m : WaypointManager) (k : Int) (b : Ptr)
    (db : PathData) (hP : Packing S m) (hL : Linking m) (hn : 2 ≤ m.numWaypoints)
    (hk0 : 0 ≤ k) (hk : k < m.numWaypoints) (hb : SlotHolds m k b db) :
    delete_store S m k = .ok
      { m with
        heap := Function.update (relinkedHeap m k) b none
        waypointBuffer := compactedBuffer m k
        waypointBufferStatus :=
          Function.update m.waypointBufferStatus (m.numWaypoints - 1) FREE
        numWaypoints := m.numWaypoints - 1
        nextFilledIndex := m.nextFilledIndex - 1 } := by
  have hrl := delete_relink_spec S m k b db hP hL hn hk0 hk hb
  obtain ⟨hn0, hnS, hnfi, hfull, hfree⟩ := hP
  obtain ⟨hb1, hb2⟩ := hb
  have hkb : 0 ≤ k ∧ k < (S : Int) := ⟨hk0, by omega⟩
  have hrb : readBuffer S m k = .ok (some b) := by simp [readBuffer, hkb, hb1]
  obtain ⟨d1, hd1⟩ : ∃ d1, relinkedHeap m k b = some d1 := by simp [relinkedHeap, hb2]
  have hds : destroy_waypoint { m with heap := relinkedHeap m k } (some b) = .ok
      { m with heap := Function.update (relinkedHeap m k) b none } :=
    destroy_waypoint_ok _ b d1 hd1
  unfold delete_store
  simp only [hrb, hrl, hds, ok_bind]
  by_cases hlast : k = m.numWaypoints - 1
  · rw [if_pos hlast]
    simp only [writeBuffer, writeStatus, if_pos hkb, ok_bind, pure_eq_ok]
    congr 2
    · funext i
      simp only [compactedBuffer, Function.update_apply]
      split_ifs <;> first | rfl | omega
    · rw [hlast]
  · rw [if_neg hlast]
    obtain ⟨c, hc⟩ : ∃ c : Nat, (c : Int) = m.numWaypoints - 1 - k :=
      ⟨(m.numWaypoints - 1 - k).toNat, by omega⟩
    have hc' : (m.numWaypoints - 1 - k).toNat = c := by omega
    simp only [hc']
    rw [delete_compact_loop S c k { m with heap := Function.update (relinkedHeap m k) b none }
      hk0 (by omega) (fun j hj1 hj2 => (hfull j (by omega) (by omega)).1)]
    simp only [ok_bind, pure_eq_ok]
    congr 2
    · funext i
      simp only [compactedBuffer]
      split_ifs <;> first | rfl | omega
    · funext i
      simp only [Function.update_apply]
      split_ifs with h1 h2 h3 h4
      · omega
      · exact ((hfull i (by omega) (by omega)).1).symm
      · rfl
      · omega
      · omega
      · rfl

/-- The linking invariant holds on the prefix that `delete_waypoint` leaves. -/
theorem delete_result_linking (m : WaypointManager) (k : Int) (b : Ptr)
    (db : PathData) (hL : Linking m)
    (hk0 : 0 ≤ k) (hk : k < m.numWaypoints) (hb : SlotHolds m k b db) :
    Linking
      { m with
        heap := Function.update (relinkedHeap m k) b none
        waypointBuffer := compactedBuffer m k
        waypointBufferStatus :=
          Function.update m.waypointBufferStatus (m.numWaypoints - 1) FREE
        numWaypoints := m.numWaypoints - 1
        nextFilledIndex := m.nextFilledIndex - 1 } := by
  intro i hi0 (hi : i < m.numWaypoints - 1)
  show ∃ a d, (compactedBuffer m k i = some a ∧
      Function.update (relinkedHeap m k) b none a = some d) ∧
    d.previous = (if i = 0 then none else compactedBuffer m k (i - 1)) ∧
    d.next = (if i = m.numWaypoints - 1 - 1 then none else compactedBuffer m k (i + 1))
  -- the old slot that ends up in slot `i`
  obtain ⟨j, hj, hjk⟩ : ∃ j : Int, j = (if i < k then i else i + 1) ∧ j ≠ k := by
    refine ⟨_, rfl, ?_⟩
    split_ifs <;> omega
  have hj0 : 0 ≤ j := by rw [hj]; split_ifs <;> omega
  have hjn : j < m.numWaypoints := by rw [hj]; split_ifs <;> omega
  obtain ⟨a, d, ⟨ha1, ha2⟩, hp, hq⟩ := hL j hj0 hjn
  have hab : a ≠ b := fun e => hL.ne_of_ne hj0 hjn hk0 hk hjk (by rw [ha1, hb.1, e])
  have hbuf : compactedBuffer m k i = some a := by
    rw [← ha1, hj]
    simp only [compactedBuffer]
    split_ifs <;> first | rfl | omega
  have hheap : Function.update (relinkedHeap m k) b none a = some
      { d with
        next :=
          if k ≠ 0 ∧ m.waypointBuffer (k - 1) = some a then
            (if k = m.numWaypoints - 1 then none else m.waypointBuffer (k + 1))
          else d.next
        previous :=
          if k ≠ m.numWaypoints - 1 ∧ m.waypointBuffer (k + 1) = some a then
            (if k = 0 then none else m.waypointBuffer (k - 1))
          else d.previous } := by
    rw [Function.update_noteq hab]
    simp only [relinkedHeap, ha2, Option.map_some']
  refine ⟨a, _, ⟨hbuf, hheap⟩, ?_, ?_⟩
  · -- the link back
    show (if k ≠ m.numWaypoints - 1 ∧ m.waypointBuffer (k + 1) = some a then
        (if k = 0 then none else m.waypointBuffer (k - 1)) else d.previous) = _
    by_cases hsucc : j = k + 1
    · have hik : i = k := by
        rw [hj] at hsucc
        split_ifs at hsucc <;> omega
      have hkl : k ≠ m.numWaypoints - 1 := by omega
      have hka : m.waypointBuffer (k + 1) = some a := by rw [← hsucc]; exact ha1
      rw [if_pos ⟨hkl, hka⟩, hik]
      by_cases h0 : k = 0
      · rw [if_pos h0, if_pos h0]
      · rw [if_neg h0, if_neg h0]
        simp only [compactedBuffer]
        split_ifs <;> first | rfl | omega
    · have hne : ¬ (k ≠ m.numWaypoints - 1 ∧ m.waypointBuffer (k + 1) = some a) := by
        rintro ⟨hkl, hka⟩
        exact hL.ne_of_ne (i := k + 1) (j := j) (by omega) (by omega) hj0 hjn
          (fun e => hsucc e.symm) (by rw [hka, ha1])
      rw [if_neg hne, hp]
      by_cases hik : i < k
      · have hji : j = i := by rw [hj, if_pos hik]
        rw [hji]
        by_cases h0 : i = 0
        · rw [if_pos h0, if_pos h0]
        · rw [if_neg h0, if_neg h0]
          simp only [compactedBuffer]
          split_ifs <;> first | rfl | omega
      · have hji : j = i + 1 := by rw [hj, if_neg hik]
        have hik' : k < i := by omega
        rw [hji, if_neg (by omega), if_neg (by omega)]
        simp only [compactedBuffer]
        split_ifs <;> first | rfl | omega | (congr 1; omega)
  · -- the link forward
    show (if k ≠ 0 ∧ m.waypointBuffer (k - 1) = some a then
        (if k = m.numWaypoints - 1 then none else m.waypointBuffer (k + 1)) else d.next) = _
    by_cases hpred : j = k - 1
    · have hik : i = k - 1 := by
        rw [hj] at hpred
        split_ifs at hpred <;> omega
      have hk0' : k ≠ 0 := by omega
      have hka : m.waypointBuffer (k - 1) = some a := by rw [← hpred]; exact ha1
      rw [if_pos ⟨hk0', hka⟩, hik]
      by_cases hl : k = m.numWaypoints - 1
      · rw [if_pos hl, if_pos (by omega)]
      · rw [if_neg hl, if_neg (by omega)]
        simp only [compactedBuffer]
        split_ifs <;> first | rfl | omega | (congr 1; omega)
    · have hne : ¬ (k ≠ 0 ∧ m.waypointBuffer (k - 1) = some a) := by
        rintro ⟨hk0', hka⟩
        exact hL.ne_of_ne (i := k - 1) (j := j) (by omega) (by omega) hj0 hjn
          (fun e => hpred e.symm) (by rw [hka, ha1])
      rw [if_neg hne, hq]
      by_cases hik : i < k
      · have hji : j = i := by rw [hj, if_pos hik]
        rw [hji, if_neg (by omega), if_neg (by omega)]
        simp only [compactedBuffer]
        split_ifs <;> first | rfl | omega
      · have hji : j = i + 1 := by rw [hj, if_neg hik]
        rw [hji]
        by_cases hl : i + 1 = m.numWaypoints - 1
        · rw [if_pos hl, if_pos (by omega)]
        · rw [if_neg hl, if_neg (by omega)]
          simp only [compactedBuffer]
          split_ifs <;> first | rfl | omega

theorem update_path_nodes_delete (S : Nat) (m m1 : WaypointManager) (w : Option Ptr)
    (id pid nid : Int) (r : WaypointStatus)
    (h : delete_waypoint S m id = .ok (m1, r)) :
    update_path_nodes S m w DELETE_WAYPOINT id pid nid
      = .ok ({ m1 with errorCode := r }, r) := by
  simp [update_path_nodes, update_path_nodes_dispatch, h, bind, Except.bind, pure,
    Except.pure]

/-- C7. Delete removes exactly one element: on a buffer that satisfies packing and
linking with `n ≥ 2` waypoints, for an id resolving to slot `k`, `delete_waypoint`
(also when reached through `update_path_nodes`) returns `WAYPOINT_SUCCESS`; the
record of slot `k` is destroyed, the occupied prefix afterwards is the old slots
`[0, k)` followed by the old slots `(k, n)` in the same order, all tagged `FULL`,
`numWaypoints` and `nextFilledIndex` are `n - 1`, every surviving record keeps all
its fields but the links, and the linking invariant holds on the new prefix. -/
theorem delete_removes_one (S : Nat) (m : WaypointManager) (id k pid nid : Int)
    (w : Option Ptr) (hP : Packing S m) (hL : Linking m) (hn : 2 ≤ m.numWaypoints)
    (hres : Resolves S m id k) :
    ∃ m1 b, delete_waypoint S m id = .ok (m1, WAYPOINT_SUCCESS) ∧
      update_path_nodes S m w DELETE_WAYPOINT id pid nid
        = .ok ({ m1 with errorCode := WAYPOINT_SUCCESS }, WAYPOINT_SUCCESS) ∧
      m.waypointBuffer k = some b ∧ m1.heap b = none ∧
      (∀ i : Int, 0 ≤ i → i < k → m1.waypointBuffer i = m.waypointBuffer i) ∧
      (∀ i : Int, k ≤ i → i < m.numWaypoints - 1 →
        m1.waypointBuffer i = m.waypointBuffer (i + 1)) ∧
      (∀ i : Int, 0 ≤ i → i < m.numWaypoints - 1 → m1.waypointBufferStatus i = FULL) ∧
      m1.numWaypoints = m.numWaypoints - 1 ∧ m1.nextFilledIndex = m.numWaypoints - 1 ∧
      (∀ p d, p ≠ b → m.heap p = some d →
        ∃ d1, m1.heap p = some d1 ∧ { d1 with next := d.next, previous := d.previous } = d) ∧
      Linking m1 := by
  obtain ⟨hk0, -, -, b, db, hb, -⟩ := hres.slot
  have hk := hres.lt_numWaypoints hP
  have hstore := delete_store_spec S m k b db hP hL hn hk0 hk hb
  have hdel : delete_waypoint S m id = .ok
      ({ m with
          heap := Function.update (relinkedHeap m k) b none
          waypointBuffer := compactedBuffer m k
          waypointBufferStatus :=
            Function.update m.waypointBufferStatus (m.numWaypoints - 1) FREE
          numWaypoints := m.numWaypoints - 1
          nextFilledIndex := m.nextFilledIndex - 1 }, WAYPOINT_SUCCESS) := by
    unfold delete_waypoint
    rw [hres.1, ok_bind, if_neg hres.2, hstore]
    rfl
  refine ⟨_, b, hdel, update_path_nodes_delete S m _ w id pid nid _ hdel, hb.1, ?_, ?_, ?_, ?_,
    rfl, ?_, ?_, delete_result_linking m k b db hL hk0 hk hb⟩
  · simp
  · intro i hi0 hik
    show compactedBuffer m k i = _
    simp only [compactedBuffer]
    split_ifs <;> first | rfl | omega
  · intro i hki hin
    show compactedBuffer m k i = _
    simp only [compactedBuffer]
    split_ifs <;> first | rfl | omega
  · intro i hi0 hin
    show Function.update m.waypointBufferStatus (m.numWaypoints - 1) FREE i = FULL
    rw [Function.update_noteq (by omega)]
    exact (hP.2.2.2.1 i hi0 (by omega)).1
  · show m.nextFilledIndex - 1 = m.numWaypoints - 1
    rw [hP.2.2.1]
  · intro p d hpb hd
    have hheap : Function.update (relinkedHeap m k) b none p = some
        { d with
          next :=
            if k ≠ 0 ∧ m.waypointBuffer (k - 1) = some p then
              (if k = m.numWaypoints - 1 then none else m.waypointBuffer (k + 1))
            else d.next
          previous :=
            if k ≠ m.numWaypoints - 1 ∧ m.waypointBuffer (k + 1) = some p then
              (if k = 0 then none else m.waypointBuffer (k - 1))
            else d.previous } := by
      rw [Function.update_noteq hpb]
      simp only [relinkedHeap, hd, Option.map_some']
    exact ⟨_, hheap, rfl⟩

theorem delete_removes_one_witness :
    ∃ m1 b, delete_waypoint 5 threeWaypoints 1 = .ok (m1, WAYPOINT_SUCCESS) ∧
      update_path_nodes 5 threeWaypoints none DELETE_WAYPOINT 1 0 0
        = .ok ({ m1 with errorCode := WAYPOINT_SUCCESS }, WAYPOINT_SUCCESS) ∧
      threeWaypoints.waypointBuffer 1 = some b ∧ m1.heap b = none ∧
      (∀ i : Int, 0 ≤ i → i < 1 → m1.waypointBuffer i = threeWaypoints.waypointBuffer i) ∧
      (∀ i : Int, 1 ≤ i → i < threeWaypoints.numWaypoints - 1 →
        m1.waypointBuffer i = threeWaypoints.waypointBuffer (i + 1)) ∧
      (∀ i : Int, 0 ≤ i → i < threeWaypoints.numWaypoints - 1 →
        m1.waypointBufferStatus i = FULL) ∧
      m1.numWaypoints = threeWaypoints.numWaypoints - 1 ∧
      m1.nextFilledIndex = threeWaypoints.numWaypoints - 1 ∧
      (∀ p d, p ≠ b → threeWaypoints.heap p = some d →
        ∃ d1, m1.heap p = some d1 ∧ { d1 with next := d.next, previous := d.previous } = d) ∧
      Linking m1 :=
  delete_removes_one 5 threeWaypoints 1 1 0 0 none threeWaypoints_packing
    threeWaypoints_linking (by decide) ⟨rfl, by decide⟩

/-- C8 fails on the code: deleting the first of the three waypoints of
`threeWaypoints` (a buffer that satisfies packing) returns `WAYPOINT_SUCCESS` and
leaves `numWaypoints = 2`, but slot `2`, now outside the prefix and tagged `FREE`,
still holds the handle `12` of the last waypoint, which also sits in slot `1`. -/
theorem delete_leaves_stale_handle :
    statusOf (initialize_flight_path 5 factoryFive [some 10, some 11, some 12] 3)
      = .ok WAYPOINT_SUCCESS ∧
    Packing 5 threeWaypoints ∧
    statusOf (update_path_nodes 5 threeWaypoints none DELETE_WAYPOINT 0 0 0)
      = .ok WAYPOINT_SUCCESS ∧
    (stateOf (update_path_nodes 5 threeWaypoints none DELETE_WAYPOINT 0 0 0)).numWaypoints
      = 2 ∧
    (stateOf (update_path_nodes 5 threeWaypoints none DELETE_WAYPOINT 0 0 0)).waypointBufferStatus
      2 = FREE ∧
    (stateOf (update_path_nodes 5 threeWaypoints none DELETE_WAYPOINT 0 0 0)).waypointBuffer 2
      = some 12 ∧
    (stateOf (update_path_nodes 5 threeWaypoints none DELETE_WAYPOINT 0 0 0)).waypointBuffer 1
      = some 12 :=
  ⟨rfl, threeWaypoints_packing, rfl, rfl, rfl, rfl, rfl⟩

/-! ## Insert -/

/-- The shifting loop of `insert_new_waypoint`, run from slot `hi` down over `cnt`
slots: every slot whose lower neighbour was `FULL` receives that neighbour's
handle and the tag `FULL`. -/
theorem insert_shift_loop (S : Nat) :
    ∀ (cnt : Nat) (hi : Int) (m0 : WaypointManager), 0 ≤ hi - cnt + 1 → hi + 1 < (S : Int) →
      forDown (insert_shift_body S) cnt hi m0 = .ok
        { m0 with
          waypointBuffer := fun j =>
            if hi - cnt + 1 < j ∧ j ≤ hi + 1 ∧ m0.waypointBufferStatus (j - 1) = FULL then
              m0.waypointBuffer (j - 1)
            else m0.waypointBuffer j
          waypointBufferStatus := fun j =>
            if hi - cnt + 1 < j ∧ j ≤ hi + 1 ∧ m0.waypointBufferStatus (j - 1) = FULL then FULL
            else m0.waypointBufferStatus j } := by
  intro cnt
  induction cnt with
  | zero =>
    intro hi m0 _ _
    have h : ∀ j : Int, ¬ (hi - (0 : Nat) + 1 < j ∧ j ≤ hi + 1 ∧
        m0.waypointBufferStatus (j - 1) = FULL) := fun j h => by
      have := h.1
      have := h.2.1
      push_cast at *
      omega
    simp only [forUp, forDown, h, if_false]
  | succ c ih =>
    intro hi m0 hlo hS
    push_cast at hlo
    have hb0 : 0 ≤ hi ∧ hi < (S : Int) := ⟨by omega, by omega⟩
    have hb1 : 0 ≤ hi + 1 ∧ hi + 1 < (S : Int) := ⟨by omega, by omega⟩
    unfold forDown
    by_cases hfull : m0.waypointBufferStatus hi = FULL
    · simp only [insert_shift_body, readStatus, if_pos hb0, if_pos hb1, hfull, ok_bind,
        writeStatus, writeBuffer, readBuffer, pure_eq_ok, if_true]
      rw [ih (hi - 1) _ (by omega) (by omega)]
      congr 2
      · funext j
        simp only [Function.update_apply]
        push_cast
        by_cases hj : j = hi + 1
        · subst hj
          have e : hi + 1 - 1 = hi := by omega
          simp [e, hfull]
        · by_cases hle : j ≤ hi
          · have e1 : j - 1 ≠ hi + 1 := by omega
            simp only [if_neg hj, if_neg e1]
            split_ifs with h1 h2 h2
            · rfl
            · obtain ⟨a1, a2, a3⟩ := h1
              exact absurd ⟨by omega, by omega, a3⟩ h2
            · obtain ⟨a1, a2, a3⟩ := h2
              exact absurd ⟨by omega, by omega, a3⟩ h1
            · rfl
          · have hA : ∀ P : Prop, ¬ (hi - 1 - (c : Int) + 1 < j ∧ j ≤ hi - 1 + 1 ∧ P) :=
              fun P ⟨_, h2, _⟩ => by omega
            have hB : ∀ P : Prop, ¬ (hi - ((c : Int) + 1) + 1 < j ∧ j ≤ hi + 1 ∧ P) :=
              fun P ⟨_, h2, _⟩ => by omega
            simp only [hA, hB, if_neg hj, if_false]
      · funext j
        simp only [Function.update_apply]
        push_cast
        by_cases hj : j = hi + 1
        · subst hj
          have e : hi + 1 - 1 = hi := by omega
          simp [e, hfull]
        · by_cases hle : j ≤ hi
          · have e1 : j - 1 ≠ hi + 1 := by omega
            simp only [if_neg hj, if_neg e1]
            split_ifs with h1 h2 h2
            · rfl
            · obtain ⟨a1, a2, a3⟩ := h1
              exact absurd ⟨by omega, by omega, a3⟩ h2
            · obtain ⟨a1, a2, a3⟩ := h2
              exact absurd ⟨by omega, by omega, a3⟩ h1
            · rfl
          · have hA : ∀ P : Prop, ¬ (hi - 1 - (c : Int) + 1 < j ∧ j ≤ hi - 1 + 1 ∧ P) :=
              fun P ⟨_, h2, _⟩ => by omega
            have hB : ∀ P : Prop, ¬ (hi - ((c : Int) + 1) + 1 < j ∧ j ≤ hi + 1 ∧ P) :=
              fun P ⟨_, h2, _⟩ => by omega
            simp only [hA, hB, if_neg hj, if_false]
    · have hst : (m0.waypointBufferStatus hi = FULL) = False := eq_false hfull
      simp only [insert_shift_body, readStatus, if_pos hb0, hst, ok_bind,
        pure_eq_ok, if_false]
      rw [ih (hi - 1) _ (by omega) (by omega)]
      congr 2
      · funext j
        push_cast
        by_cases hj : j = hi + 1
        · subst hj
          have e : hi + 1 - 1 = hi := by omega
          rw [if_neg (fun ⟨_, h2, _⟩ => by omega), if_neg (fun ⟨_, _, h3⟩ => by
            rw [e] at h3; exact hfull h3)]
        · split_ifs with h1 h2 h2
          · rfl
          · obtain ⟨a1, a2, a3⟩ := h1
            exact absurd ⟨by omega, by omega, a3⟩ h2
          · obtain ⟨a1, a2, a3⟩ := h2
            exact absurd ⟨by omega, by omega, a3⟩ h1
          · rfl
      · funext j
        push_cast
        by_cases hj : j = hi + 1
        · subst hj
          have e : hi + 1 - 1 = hi := by omega
          rw [if_neg (fun ⟨_, h2, _⟩ => by omega), if_neg (fun ⟨_, _, h3⟩ => by
            rw [e] at h3; exact hfull h3)]
        · split_ifs with h1 h2 h2
          · rfl
          · obtain ⟨a1, a2, a3⟩ := h1
            exact absurd ⟨by omega, by omega, a3⟩ h2
          · obtain ⟨a1, a2, a3⟩ := h2
            exact absurd ⟨by omega, by omega, a3⟩ h1
          · rfl

theorem insert_shift_spec (S : Nat) (m : WaypointManager) (k : Int) (hP : Packing S m)
    (hnS : m.numWaypoints < (S : Int)) (hk0 : 0 ≤ k) (hk : k < m.numWaypoints) :
    forDown (insert_shift_body S) ((S : Int) - 1 - k).toNat ((S : Int) - 2) m = .ok
      { m with
        waypointBuffer := shiftedBuffer m k
        waypointBufferStatus := Function.update m.waypointBufferStatus m.numWaypoints FULL } := by
  obtain ⟨hn0, -, hnfi, hfull, hfree⟩ := hP
  obtain ⟨c, hc⟩ : ∃ c : Nat, (c : Int) = (S : Int) - 1 - k := ⟨((S : Int) - 1 - k).toNat, by omega⟩
  have hc' : ((S : Int) - 1 - k).toNat = c := by omega
  rw [hc', insert_shift_loop S c ((S : Int) - 2) m (by omega) (by omega)]
  have hst : ∀ j : Int, k < j → j ≤ (S : Int) - 2 + 1 →
      (m.waypointBufferStatus (j - 1) = FULL ↔ j ≤ m.numWaypoints) := by
    intro j h1 h2
    constructor
    · intro h
      by_contra hcon
      have := (hfree (j - 1) (by omega) (by omega)).1
      rw [this] at h
      exact absurd h (by decide)
    · intro h
      exact (hfull (j - 1) (by omega) (by omega)).1
  congr 2
  · funext j
    simp only [shiftedBuffer]
    split_ifs with h1 h2 h2
    · rfl
    · obtain ⟨a1, a2, a3⟩ := h1
      exact absurd ⟨by omega, (hst j (by omega) a2).1 a3⟩ h2
    · obtain ⟨a1, a2⟩ := h2
      exact absurd ⟨by omega, by omega, (hst j a1 (by omega)).2 a2⟩ h1
    · rfl
  · funext j
    simp only [Function.update_apply]
    split_ifs with h1 h2 h2
    · rfl
    · obtain ⟨a1, a2, a3⟩ := h1
      have := (hst j (by omega) a2).1 a3
      exact ((hfull j (by omega) (by omega)).1).symm
    · subst h2
      exact absurd ⟨by omega, by omega, (hfull (m.numWaypoints - 1) (by omega) (by omega)).1⟩ h1
    · rfl

theorem insert_store_spec (S : Nat) (m : WaypointManager) (k : Int) (w : Ptr)
    (dw : PathData) (hP : Packing S m) (hL : Linking m)
    (hnS : m.numWaypoints < (S : Int)) (hk1 : 1 ≤ k) (hk : k < m.numWaypoints)
    (hw : m.heap w = some dw)
    (hfresh : ∀ i : Int, 0 ≤ i → i < m.numWaypoints → m.waypointBuffer i ≠ some w) :
    insert_store S m (some w) (k - 1) k = .ok
      { m with
        waypointBuffer := Function.update (shiftedBuffer m k) k (some w)
        waypointBufferStatus := Function.update m.waypointBufferStatus m.numWaypoints FULL
        heap := insertedHeap m k w dw } := by
  have hshift := insert_shift_spec S m k hP hnS (by omega) hk
  obtain ⟨hn0, -, hnfi, hfull, hfree⟩ := hP
  obtain ⟨a, da, ⟨ha1, ha2⟩, -, -⟩ := hL (k - 1) (by omega) (by omega)
  obtain ⟨c, dc, ⟨hc1, hc2⟩, -, -⟩ := hL k (by omega) hk
  have haw : a ≠ w := fun e => hfresh (k - 1) (by omega) (by omega) (by rw [ha1, e])
  have hcw : c ≠ w := fun e => hfresh k (by omega) hk (by rw [hc1, e])
  have hac : a ≠ c := fun e => hL.ne_of_ne (i := k - 1) (j := k) (by omega) (by omega)
    (by omega) hk (by omega) (by rw [ha1, hc1, e])
  have hs1 : shiftedBuffer m k (k + 1) = some c := by
    simp only [shiftedBuffer]
    rw [if_pos ⟨by omega, by omega⟩, ← hc1]
    congr 1
    omega
  have hs0 : shiftedBuffer m k (k - 1) = some a := by
    simp only [shiftedBuffer]
    rw [if_neg (fun ⟨h, _⟩ => by omega), ha1]
  have hbk : 0 ≤ k ∧ k < (S : Int) := ⟨by omega, by omega⟩
  have hbk1 : 0 ≤ k + 1 ∧ k + 1 < (S : Int) := ⟨by omega, by omega⟩
  have hbk0 : 0 ≤ k - 1 ∧ k - 1 < (S : Int) := ⟨by omega, by omega⟩
  have hne1 : k + 1 ≠ k := by omega
  have hne0 : k - 1 ≠ k := by omega
  have hstat : Function.update
      (Function.update m.waypointBufferStatus m.numWaypoints FULL) k FULL
      = Function.update m.waypointBufferStatus m.numWaypoints FULL := by
    funext j
    simp only [Function.update_apply]
    split_ifs with h1 h2
    · rfl
    · subst h1
      exact ((hfull j (by omega) hk).1).symm
    · rfl
    · rfl
  have hheap : Function.update (Function.update (Function.update m.heap w
        (some { dw with next := some c, previous := some a })) a
          (some { da with next := some w })) c (some { dc with previous := some w })
      = insertedHeap m k w dw := by
    funext p
    simp only [insertedHeap, Function.update_apply]
    by_cases hpw : p = w
    · subst hpw
      simp [haw.symm, hcw.symm, ha1, hc1]
    · by_cases hpa : p = a
      · subst hpa
        simp [hpw, ha1, ha2, hc1, hac, hac.symm]
      · have h1 : some a ≠ some p := fun e => hpa (Option.some.inj e).symm
        by_cases hpc : p = c
        · subst hpc
          simp [hpw, hpa, ha1, hc1, hc2, hac, hac.symm]
        · have h2 : some c ≠ some p := fun e => hpc (Option.some.inj e).symm
          simp [hpw, hpa, hpc, ha1, hc1, h1, h2]
  unfold insert_store
  rw [hshift, ← hheap, ← hstat]
  simp [readBuffer, writeBuffer, writeStatus, hbk, hbk1, hbk0, bind, Except.bind,
    assign, Function.update_apply, hne1, hne0, hs1, hs0, hw, ha2, hc2, haw, hcw, hac,
    haw.symm, hcw.symm, hac.symm]

theorem update_path_nodes_insert (S : Nat) (m m1 : WaypointManager) (w : Option Ptr)
    (id pid nid : Int) (r : WaypointStatus) (hn : m.numWaypoints ≠ (S : Int))
    (h : insert_new_waypoint S m w pid nid = .ok (m1, r)) :
    update_path_nodes S m w INSERT_WAYPOINT id pid nid
      = .ok ({ m1 with errorCode := r }, r) := by
  simp [update_path_nodes, update_path_nodes_dispatch, h, hn, bind, Except.bind, pure,
    Except.pure]

/-- When `update_path_nodes` with an insert request returns `INVALID_PARAMETERS`. -/
theorem insert_invalid_iff (S : Nat) (m : WaypointManager) (w : Option Ptr)
    (id pid nid : Int) (hP : Packing S m) :
    (∃ m1, update_path_nodes S m w INSERT_WAYPOINT id pid nid
        = .ok (m1, INVALID_PARAMETERS)) ↔
      (m.numWaypoints = (S : Int) ∨
        get_waypoint_index_from_id S m pid = .ok (-1) ∨
        get_waypoint_index_from_id S m nid = .ok (-1) ∨
        ∃ i j, get_waypoint_index_from_id S m pid = .ok i ∧
          get_waypoint_index_from_id S m nid = .ok j ∧ j ≠ i + 1) := by
  obtain ⟨pi, hpi⟩ := get_index_total S m pid hP
  obtain ⟨ni, hni⟩ := get_index_total S m nid hP
  by_cases hfull : m.numWaypoints = (S : Int)
  · simp [update_path_nodes, hfull, pure, Except.pure]
  · have hins : insert_new_waypoint S m w pid nid =
        (if ni = -1 ∨ pi = -1 ∨ ni - 1 ≠ pi ∨ ni = 0 then
          (pure (m, INVALID_PARAMETERS) : Except Fault (WaypointManager × WaypointStatus))
        else insert_store S m w pi ni >>= fun m1 => pure (m1, WAYPOINT_SUCCESS)) := by
      unfold insert_new_waypoint
      rw [hni, ok_bind, hpi, ok_bind]
    constructor
    · rintro ⟨m1, h⟩
      right
      unfold update_path_nodes at h
      rw [if_neg (fun hh => hfull hh.1)] at h
      simp only [bind_ok_iff] at h
      obtain ⟨⟨m2, r⟩, hd, h⟩ := h
      simp [pure, Except.pure] at h
      obtain ⟨-, h2⟩ := h
      subst h2
      simp only [update_path_nodes_dispatch] at hd
      rw [hins] at hd
      by_cases hc : ni = -1 ∨ pi = -1 ∨ ni - 1 ≠ pi ∨ ni = 0
      · rw [hpi, hni]
        by_cases h1 : pi = -1
        · left; rw [h1]
        · by_cases h2 : ni = -1
          · right; left; rw [h2]
          · right; right
            exact ⟨pi, ni, rfl, rfl, by omega⟩
      · rw [if_neg hc] at hd
        exact absurd hd (success_tail_ne_invalid _ _)
    · rintro (h | h | h | ⟨i, j, h1, h2, h3⟩)
      · exact absurd h hfull
      · rw [hpi] at h
        have hp : pi = -1 := by injection h
        have hcond : ni = -1 ∨ pi = -1 ∨ ni - 1 ≠ pi ∨ ni = 0 := Or.inr (Or.inl hp)
        rw [if_pos hcond] at hins
        exact ⟨_, update_path_nodes_insert S m m w id pid nid _ hfull hins⟩
      · rw [hni] at h
        have hp : ni = -1 := by injection h
        have hcond : ni = -1 ∨ pi = -1 ∨ ni - 1 ≠ pi ∨ ni = 0 := Or.inl hp
        rw [if_pos hcond] at hins
        exact ⟨_, update_path_nodes_insert S m m w id pid nid _ hfull hins⟩
      · rw [hpi] at h1
        rw [hni] at h2
        have e1 : pi = i := by injection h1
        have e2 : ni = j := by injection h2
        have hcond : ni = -1 ∨ pi = -1 ∨ ni - 1 ≠ pi ∨ ni = 0 :=
          Or.inr (Or.inr (Or.inl (by omega)))
        rw [if_pos hcond] at hins
        exact ⟨_, update_path_nodes_insert S m m w id pid nid _ hfull hins⟩

/-- C4. Insert places the new waypoint between its neighbours: on a buffer that
satisfies packing and linking, with `w` a live waypoint that is in no slot:
when the buffer is not full and the ids `previousId`, `nextId` resolve to the
adjacent slots `k - 1` and `k`, `insert_new_waypoint` (also through
`update_path_nodes`) returns `WAYPOINT_SUCCESS`, the slots afterwards are the old
slots `[0, k)`, then `w`, then the old slots `[k, n)`, all tagged `FULL`, `w` is
linked back to the old slot `k - 1` and forward to the old slot `k`, these two
are linked to `w`, and no other link or field changes. And `update_path_nodes`
returns `INVALID_PARAMETERS` for an insert request exactly when the buffer is
full, an id does not resolve, or the index of `nextId` is not the index of
`previousId` plus one. -/
theorem insert_between (S : Nat) (m : WaypointManager) (w : Ptr) (dw : PathData)
    (id pid nid : Int) (hP : Packing S m) (hL : Linking m) (hw : m.heap w = some dw)
    (hfresh : ∀ i : Int, 0 ≤ i → i < m.numWaypoints → m.waypointBuffer i ≠ some w) :
    (∀ k : Int, m.numWaypoints < (S : Int) → Resolves S m pid (k - 1) → Resolves S m nid k →
      ∃ m1, insert_new_waypoint S m (some w) pid nid = .ok (m1, WAYPOINT_SUCCESS) ∧
        update_path_nodes S m (some w) INSERT_WAYPOINT id pid nid
          = .ok ({ m1 with errorCode := WAYPOINT_SUCCESS }, WAYPOINT_SUCCESS) ∧
        (∀ i : Int, 0 ≤ i → i < k → m1.waypointBuffer i = m.waypointBuffer i) ∧
        m1.waypointBuffer k = some w ∧
        (∀ i : Int, k < i → i ≤ m.numWaypoints →
          m1.waypointBuffer i = m.waypointBuffer (i - 1)) ∧
        (∀ i : Int, 0 ≤ i → i ≤ m.numWaypoints → m1.waypointBufferStatus i = FULL) ∧
        m1.heap w = some
          { dw with next := m.waypointBuffer k, previous := m.waypointBuffer (k - 1) } ∧
        (∀ p d, p ≠ w → m.heap p = some d → m1.heap p = some
          { d with
            next := if m.waypointBuffer (k - 1) = some p then some w else d.next
            previous := if m.waypointBuffer k = some p then some w else d.previous })) ∧
    ((∃ m1, update_path_nodes S m (some w) INSERT_WAYPOINT id pid nid
        = .ok (m1, INVALID_PARAMETERS)) ↔
      (m.numWaypoints = (S : Int) ∨
        get_waypoint_index_from_id S m pid = .ok (-1) ∨
        get_waypoint_index_from_id S m nid = .ok (-1) ∨
        ∃ i j, get_waypoint_index_from_id S m pid = .ok i ∧
          get_waypoint_index_from_id S m nid = .ok j ∧ j ≠ i + 1)) := by
  refine ⟨?_, insert_invalid_iff S m (some w) id pid nid hP⟩
  intro k hnS hprev hnext
  obtain ⟨hk1, -, -, -⟩ := hprev.slot
  have hk := hnext.lt_numWaypoints hP
  have hstore := insert_store_spec S m k w dw hP hL hnS (by omega) hk hw hfresh
  have hins : insert_new_waypoint S m (some w) pid nid = .ok
      ({ m with
          waypointBuffer := Function.update (shiftedBuffer m k) k (some w)
          waypointBufferStatus := Function.update m.waypointBufferStatus m.numWaypoints FULL
          heap := insertedHeap m k w dw }, WAYPOINT_SUCCESS) := by
    unfold insert_new_waypoint
    have hcond : ¬ (k = -1 ∨ k - 1 = -1 ∨ k - 1 ≠ k - 1 ∨ k = 0) := by omega
    rw [hnext.1, ok_bind, hprev.1, ok_bind, if_neg hcond, hstore]
    rfl
  refine ⟨_, hins, update_path_nodes_insert S m _ _ id pid nid _ (by omega) hins,
    ?_, ?_, ?_, ?_, ?_, ?_⟩
  · intro i hi0 hik
    show Function.update (shiftedBuffer m k) k (some w) i = _
    rw [Function.update_noteq (by omega)]
    simp only [shiftedBuffer]
    rw [if_neg (fun ⟨h, _⟩ => by omega)]
  · show Function.update (shiftedBuffer m k) k (some w) k = _
    rw [Function.update_same]
  · intro i hki hin
    show Function.update (shiftedBuffer m k) k (some w) i = _
    rw [Function.update_noteq (by omega)]
    simp only [shiftedBuffer]
    rw [if_pos ⟨hki, hin⟩]
  · intro i hi0 hin
    show Function.update m.waypointBufferStatus m.numWaypoints FULL i = FULL
    by_cases h : i = m.numWaypoints
    · rw [h, Function.update_same]
    · rw [Function.update_noteq h]
      exact (hP.2.2.2.1 i hi0 (by omega)).1
  · show insertedHeap m k w dw w = _
    simp only [insertedHeap, if_true]
  · intro p d hpw hd
    show insertedHeap m k w dw p = _
    simp only [insertedHeap, if_neg hpw, hd, Option.map_some']

/-! ## Append -/

theorem append_is_duplicate_spec (S : Nat) (m : WaypointManager) (w : Ptr) (dw : PathData)
    (hP : Packing S m) (hw : m.heap w = some dw) :
    (LastHasCoordinates m dw →
      append_is_duplicate S m (some w) (m.nextFilledIndex - 1) = .ok true) ∧
    (¬ LastHasCoordinates m dw →
      append_is_duplicate S m (some w) (m.nextFilledIndex - 1) = .ok false) := by
  obtain ⟨hn0, hnS, hnfi, hfull, hfree⟩ := hP
  rw [hnfi]
  by_cases hz : m.numWaypoints = 0
  · have hzz : m.numWaypoints - 1 = -1 := by omega
    constructor
    · intro h
      exact absurd hz h.1
    · intro _
      simp [append_is_duplicate, hzz, pure, Except.pure]
  · have hzz : m.numWaypoints - 1 ≠ -1 := by omega
    obtain ⟨-, a, da, ha1, ha2⟩ := hfull (m.numWaypoints - 1) (by omega) (by omega)
    have hb : 0 ≤ m.numWaypoints - 1 ∧ m.numWaypoints - 1 < (S : Int) := ⟨by omega, by omega⟩
    have hcomp : append_is_duplicate S m (some w) (m.numWaypoints - 1) = .ok
        (decide (da.latitude = dw.latitude) && decide (da.longitude = dw.longitude)) := by
      simp [append_is_duplicate, hzz, readBuffer, hb, deref, ha1, ha2, hw, bind, Except.bind,
        pure, Except.pure]
    rw [hcomp]
    constructor
    · rintro ⟨-, a1, d1, ⟨hs1, hs2⟩, hlat, hlon⟩
      rw [ha1] at hs1
      cases hs1
      rw [ha2] at hs2
      cases hs2
      simp [hlat, hlon]
    · intro hne
      have : ¬ (da.latitude = dw.latitude ∧ da.longitude = dw.longitude) :=
        fun ⟨h1, h2⟩ => hne ⟨hz, a, da, ⟨ha1, ha2⟩, h1, h2⟩
      cases h1 : decide (da.latitude = dw.latitude) <;>
        cases h2 : decide (da.longitude = dw.longitude) <;> simp_all

theorem append_store_first (S : Nat) (m : WaypointManager) (w : Option Ptr)
    (hP : Packing S m) (hnS : m.numWaypoints < (S : Int)) (hz : m.numWaypoints = 0) :
    append_store S m w (m.nextFilledIndex - 1) = .ok
      { m with
        waypointBuffer := Function.update m.waypointBuffer m.numWaypoints w
        waypointBufferStatus := Function.update m.waypointBufferStatus m.numWaypoints FULL
        nextFilledIndex := m.nextFilledIndex + 1
        numWaypoints := m.numWaypoints + 1 } := by
  obtain ⟨hn0, -, hnfi, -, -⟩ := hP
  have hb : 0 ≤ m.numWaypoints ∧ m.numWaypoints < (S : Int) := ⟨hn0, hnS⟩
  have hzz : m.numWaypoints - 1 = -1 := by omega
  simp [append_store, hnfi, writeBuffer, writeStatus, hb, hzz, bind, Except.bind, pure,
    Except.pure]

theorem append_store_linked (S : Nat) (m : WaypointManager) (w a : Ptr) (dw da : PathData)
    (hP : Packing S m) (hnS : m.numWaypoints < (S : Int)) (hz : m.numWaypoints ≠ 0)
    (hw : m.heap w = some dw) (ha : SlotHolds m (m.numWaypoints - 1) a da) (haw : a ≠ w) :
    append_store S m (some w) (m.nextFilledIndex - 1) = .ok
      { m with
        waypointBuffer := Function.update m.waypointBuffer m.numWaypoints (some w)
        waypointBufferStatus := Function.update m.waypointBufferStatus m.numWaypoints FULL
        heap := Function.update (Function.update m.heap w
          (some { dw with previous := some a })) a (some { da with next := some w })
        nextFilledIndex := m.nextFilledIndex + 1
        numWaypoints := m.numWaypoints + 1 } := by
  obtain ⟨hn0, -, hnfi, -, -⟩ := hP
  obtain ⟨ha1, ha2⟩ := ha
  have hb : 0 ≤ m.numWaypoints ∧ m.numWaypoints < (S : Int) := ⟨hn0, hnS⟩
  have hb1 : 0 ≤ m.numWaypoints - 1 ∧ m.numWaypoints - 1 < (S : Int) := ⟨by omega, by omega⟩
  have hzz : m.numWaypoints - 1 ≠ -1 := by omega
  have hne : m.numWaypoints - 1 ≠ m.numWaypoints := by omega
  simp [append_store, hnfi, writeBuffer, writeStatus, readBuffer, hb, hb1, hzz, hne, bind,
    Except.bind, pure, Except.pure, assign, Function.update_apply, ha1, ha2, hw, haw,
    haw.symm]

theorem update_path_nodes_append (S : Nat) (m m1 : WaypointManager) (w : Option Ptr)
    (id pid nid : Int) (r : WaypointStatus) (hn : m.numWaypoints ≠ (S : Int))
    (h : append_waypoint S m w = .ok (m1, r)) :
    update_path_nodes S m w APPEND_WAYPOINT id pid nid
      = .ok ({ m1 with errorCode := r }, r) := by
  simp [update_path_nodes, update_path_nodes_dispatch, h, hn, bind, Except.bind, pure,
    Except.pure]

/-- A refused append hands back the buffer it was given. -/
theorem append_refused (S : Nat) (m : WaypointManager) (w : Ptr) (dw : PathData)
    (id pid nid : Int) (hP : Packing S m) (hw : m.heap w = some dw)
    (hc : m.numWaypoints = (S : Int) ∨ LastHasCoordinates m dw) :
    ∃ m1, update_path_nodes S m (some w) APPEND_WAYPOINT id pid nid
        = .ok (m1, INVALID_PARAMETERS) ∧ m1.numWaypoints = m.numWaypoints := by
  by_cases hfull : m.numWaypoints = (S : Int)
  · exact ⟨m, by simp [update_path_nodes, hfull, pure, Except.pure], rfl⟩
  · have hdup := (append_is_duplicate_spec S m w dw hP hw).1 (hc.resolve_left hfull)
    have happ : append_waypoint S m (some w) = .ok (m, INVALID_PARAMETERS) := by
      unfold append_waypoint
      simp only [hdup, ok_bind, if_true, pure_eq_ok]
    exact ⟨_, update_path_nodes_append S m m _ id pid nid _ hfull happ, rfl⟩

/-- An accepted append: what `append_waypoint` returns and stores. -/
theorem append_accepted (S : Nat) (m : WaypointManager) (w : Ptr) (dw : PathData)
    (hP : Packing S m) (hw : m.heap w = some dw)
    (hc : ¬ (m.numWaypoints = (S : Int) ∨ LastHasCoordinates m dw)) :
    ∃ m1, append_waypoint S m (some w) = .ok (m1, WAYPOINT_SUCCESS) ∧
      m1.waypointBuffer = Function.update m.waypointBuffer m.numWaypoints (some w) ∧
      m1.waypointBufferStatus = Function.update m.waypointBufferStatus m.numWaypoints FULL ∧
      m1.numWaypoints = m.numWaypoints + 1 ∧ m1.nextFilledIndex = m.nextFilledIndex + 1 ∧
      (m.numWaypoints = 0 → m1.heap = m.heap) ∧
      (m.numWaypoints ≠ 0 → ∃ a da, SlotHolds m (m.numWaypoints - 1) a da ∧ a ≠ w ∧
        m1.heap = Function.update (Function.update m.heap w
          (some { dw with previous := some a })) a (some { da with next := some w })) := by
  have hfull : m.numWaypoints ≠ (S : Int) := fun h => hc (Or.inl h)
  have hlast : ¬ LastHasCoordinates m dw := fun h => hc (Or.inr h)
  have hnS : m.numWaypoints < (S : Int) := lt_of_le_of_ne hP.2.1 hfull
  have hdup := (append_is_duplicate_spec S m w dw hP hw).2 hlast
  by_cases hz : m.numWaypoints = 0
  · have hst := append_store_first S m (some w) hP hnS hz
    refine ⟨{ m with
        waypointBuffer := Function.update m.waypointBuffer m.numWaypoints (some w)
        waypointBufferStatus := Function.update m.waypointBufferStatus m.numWaypoints FULL
        nextFilledIndex := m.nextFilledIndex + 1
        numWaypoints := m.numWaypoints + 1 },
      ?_, rfl, rfl, rfl, rfl, fun _ => rfl, fun h => absurd hz h⟩
    unfold append_waypoint
    simp only [hdup, ok_bind, hst, pure_eq_ok]
    rfl
  · obtain ⟨-, a, da, ha⟩ := hP.2.2.2.1 (m.numWaypoints - 1) (by have := hP.1; omega) (by omega)
    have haw : a ≠ w := by
      intro e
      subst e
      have := ha.2
      rw [hw] at this
      cases this
      exact hlast ⟨hz, a, dw, ha, rfl, rfl⟩
    have hst := append_store_linked S m w a dw da hP hnS hz hw ha haw
    refine ⟨{ m with
        waypointBuffer := Function.update m.waypointBuffer m.numWaypoints (some w)
        waypointBufferStatus := Function.update m.waypointBufferStatus m.numWaypoints FULL
        heap := Function.update (Function.update m.heap w
          (some { dw with previous := some a })) a (some { da with next := some w })
        nextFilledIndex := m.nextFilledIndex + 1
        numWaypoints := m.numWaypoints + 1 },
      ?_, rfl, rfl, rfl, rfl, fun h => absurd h hz, fun _ => ⟨a, da, ha, haw, rfl⟩⟩
    unfold append_waypoint
    simp only [hdup, ok_bind, hst, pure_eq_ok]
    rfl

/-- C6. Append duplicate guard: on a buffer that satisfies packing, with `w` a
live waypoint, an append request returns `INVALID_PARAMETERS` exactly when the
buffer is full or it is non-empty and the last stored waypoint has the latitude
and longitude of `w`; in every other case it returns `WAYPOINT_SUCCESS`, stores
`w` in slot `numWaypoints` tagged `FULL`, links `w` and its predecessor to each
other (no link is written in an empty buffer) and adds one to `numWaypoints` and
`nextFilledIndex`. In particular coordinates equal to those of an earlier,
non-last waypoint do not refuse the append, and two appends with the same
coordinates to an empty buffer give `WAYPOINT_SUCCESS`, then
`INVALID_PARAMETERS`, with `numWaypoints = 1`. -/
theorem append_duplicate_guard (S : Nat) (m : WaypointManager) (w : Ptr) (dw : PathData)
    (id pid nid : Int) (hP : Packing S m) (hw : m.heap w = some dw) :
    ((∃ m1, update_path_nodes S m (some w) APPEND_WAYPOINT id pid nid
        = .ok (m1, INVALID_PARAMETERS)) ↔
      (m.numWaypoints = (S : Int) ∨ LastHasCoordinates m dw)) ∧
    (¬ (m.numWaypoints = (S : Int) ∨ LastHasCoordinates m dw) →
      ∃ m1, append_waypoint S m (some w) = .ok (m1, WAYPOINT_SUCCESS) ∧
        update_path_nodes S m (some w) APPEND_WAYPOINT id pid nid
          = .ok ({ m1 with errorCode := WAYPOINT_SUCCESS }, WAYPOINT_SUCCESS) ∧
        m1.waypointBuffer = Function.update m.waypointBuffer m.numWaypoints (some w) ∧
        m1.waypointBufferStatus
          = Function.update m.waypointBufferStatus m.numWaypoints FULL ∧
        m1.numWaypoints = m.numWaypoints + 1 ∧
        m1.nextFilledIndex = m.nextFilledIndex + 1 ∧
        (m.numWaypoints = 0 → m1.heap = m.heap) ∧
        (m.numWaypoints ≠ 0 → ∃ a da, SlotHolds m (m.numWaypoints - 1) a da ∧ a ≠ w ∧
          m1.heap = Function.update (Function.update m.heap w
            (some { dw with previous := some a })) a (some { da with next := some w }))) ∧
    (m.numWaypoints = 0 → 0 < S → ∀ v dv, m.heap v = some dv →
      dv.latitude = dw.latitude → dv.longitude = dw.longitude →
      ∃ m1 m2, update_path_nodes S m (some w) APPEND_WAYPOINT id pid nid
          = .ok (m1, WAYPOINT_SUCCESS) ∧
        update_path_nodes S m1 (some v) APPEND_WAYPOINT id pid nid
          = .ok (m2, INVALID_PARAMETERS) ∧
        m2.numWaypoints = 1) := by
  have hacc : ¬ (m.numWaypoints = (S : Int) ∨ LastHasCoordinates m dw) →
      ∃ m1, append_waypoint S m (some w) = .ok (m1, WAYPOINT_SUCCESS) ∧
        update_path_nodes S m (some w) APPEND_WAYPOINT id pid nid
          = .ok ({ m1 with errorCode := WAYPOINT_SUCCESS }, WAYPOINT_SUCCESS) ∧
        m1.waypointBuffer = Function.update m.waypointBuffer m.numWaypoints (some w) ∧
        m1.waypointBufferStatus
          = Function.update m.waypointBufferStatus m.numWaypoints FULL ∧
        m1.numWaypoints = m.numWaypoints + 1 ∧
        m1.nextFilledIndex = m.nextFilledIndex + 1 ∧
        (m.numWaypoints = 0 → m1.heap = m.heap) ∧
        (m.numWaypoints ≠ 0 → ∃ a da, SlotHolds m (m.numWaypoints - 1) a da ∧ a ≠ w ∧
          m1.heap = Function.update (Function.update m.heap w
            (some { dw with previous := some a })) a (some { da with next := some w })) := by
    intro hc
    obtain ⟨m1, h1, h2⟩ := append_accepted S m w dw hP hw hc
    exact ⟨m1, h1, update_path_nodes_append S m m1 _ id pid nid _ (fun h => hc (Or.inl h)) h1,
      h2⟩
  refine ⟨⟨?_, ?_⟩, hacc, ?_⟩
  · rintro ⟨m1, h⟩
    by_contra hc
    obtain ⟨m2, -, h2, -⟩ := hacc hc
    rw [h2] at h
    cases h
  · intro hc
    obtain ⟨m1, h, -⟩ := append_refused S m w dw id pid nid hP hw hc
    exact ⟨m1, h⟩
  · intro hz hS v dv hv hlat hlon
    have hc : ¬ (m.numWaypoints = (S : Int) ∨ LastHasCoordinates m dw) := by
      rintro (h | h)
      · omega
      · exact h.1 hz
    obtain ⟨m1, -, hupd, hbuf, hstat, hnum, hnfi, hheap, -⟩ := hacc hc
    obtain ⟨hn0, hnS, hnf, hfull, hfree⟩ := hP
    have hheap1 := hheap hz
    -- the buffer after the first append satisfies packing, with `w` as last waypoint
    have hP1 : Packing S { m1 with errorCode := WAYPOINT_SUCCESS } := by
      refine ⟨?_, ?_, ?_, ?_, ?_⟩
      · show 0 ≤ m1.numWaypoints
        omega
      · show m1.numWaypoints ≤ (S : Int)
        omega
      · show m1.nextFilledIndex = m1.numWaypoints
        omega
      · intro i hi0 (hi : i < m1.numWaypoints)
        have hi0' : i = 0 := by omega
        subst hi0'
        refine ⟨?_, w, dw, ?_, ?_⟩
        · show m1.waypointBufferStatus 0 = FULL
          rw [hstat, hz, Function.update_same]
        · show m1.waypointBuffer 0 = some w
          rw [hbuf, hz, Function.update_same]
        · show m1.heap w = some dw
          rw [hheap1, hw]
      · intro i (hi : m1.numWaypoints ≤ i) hiS
        have hne : i ≠ m.numWaypoints := by omega
        refine ⟨?_, ?_⟩
        · show m1.waypointBufferStatus i = FREE
          rw [hstat, Function.update_noteq hne]
          exact (hfree i (by omega) hiS).1
        · show m1.waypointBuffer i = none
          rw [hbuf, Function.update_noteq hne]
          exact (hfree i (by omega) hiS).2
    have hv1 : ({ m1 with errorCode := WAYPOINT_SUCCESS } : WaypointManager).heap v = some dv := by
      show m1.heap v = some dv
      rw [hheap1, hv]
    have hlast : LastHasCoordinates { m1 with errorCode := WAYPOINT_SUCCESS } dv := by
      refine ⟨?_, w, dw, ⟨?_, ?_⟩, hlat.symm, hlon.symm⟩
      · show m1.numWaypoints ≠ 0
        omega
      · show m1.waypointBuffer (m1.numWaypoints - 1) = some w
        have : m1.numWaypoints - 1 = m.numWaypoints := by omega
        rw [this, hbuf, Function.update_same]
      · show m1.heap w = some dw
        rw [hheap1, hw]
    obtain ⟨m2, h2, hn2⟩ := append_refused S _ v dv id pid nid hP1 hv1 (Or.inr hlast)
    refine ⟨_, m2, hupd, h2, ?_⟩
    rw [hn2]
    show m1.numWaypoints = 1
    omega

/-! ## The claims on concrete buffers -/

theorem threeWaypoints_fresh13 :
    ∀ i : Int, 0 ≤ i → i < threeWaypoints.numWaypoints →
      threeWaypoints.waypointBuffer i ≠ some 13 := by
  intro i h0 h1
  have hn : threeWaypoints.numWaypoints = 3 := rfl
  rw [hn] at h1
  have : i = 0 ∨ i = 1 ∨ i = 2 := by omega
  rcases this with rfl | rfl | rfl <;> decide

theorem factoryTwins_packing : Packing 5 factoryTwins := by
  refine ⟨by decide, by decide, rfl, ?_, ?_⟩
  · intro i h0 h1
    have hn : factoryTwins.numWaypoints = 0 := rfl
    rw [hn] at h1
    omega
  · intro i _ _
    exact ⟨rfl, rfl⟩

theorem insert_between_witness :
    ∃ m1, insert_new_waypoint 5 threeWaypoints (some 13) 0 1 = .ok (m1, WAYPOINT_SUCCESS) ∧
      update_path_nodes 5 threeWaypoints (some 13) INSERT_WAYPOINT 0 0 1
        = .ok ({ m1 with errorCode := WAYPOINT_SUCCESS }, WAYPOINT_SUCCESS) ∧
      (∀ i : Int, 0 ≤ i → i < 1 → m1.waypointBuffer i = threeWaypoints.waypointBuffer i) ∧
      m1.waypointBuffer 1 = some 13 ∧
      (∀ i : Int, 1 < i → i ≤ threeWaypoints.numWaypoints →
        m1.waypointBuffer i = threeWaypoints.waypointBuffer (i - 1)) ∧
      (∀ i : Int, 0 ≤ i → i ≤ threeWaypoints.numWaypoints →
        m1.waypointBufferStatus i = FULL) ∧
      m1.heap 13 = some
        { record13 with next := threeWaypoints.waypointBuffer 1,
                        previous := threeWaypoints.waypointBuffer (1 - 1) } ∧
      (∀ p d, p ≠ 13 → threeWaypoints.heap p = some d → m1.heap p = some
        { d with
          next := if threeWaypoints.waypointBuffer (1 - 1) = some p then some 13 else d.next
          previous :=
            if threeWaypoints.waypointBuffer 1 = some p then some 13 else d.previous }) :=
  (insert_between 5 threeWaypoints 13 record13 0 0 1 threeWaypoints_packing
    threeWaypoints_linking rfl threeWaypoints_fresh13).1 1 (by decide) ⟨rfl, by decide⟩
    ⟨rfl, by decide⟩

theorem append_duplicate_guard_witness :
    ∃ m1 m2, update_path_nodes 5 factoryTwins (some 20) APPEND_WAYPOINT 0 0 0
        = .ok (m1, WAYPOINT_SUCCESS) ∧
      update_path_nodes 5 m1 (some 21) APPEND_WAYPOINT 0 0 0
        = .ok (m2, INVALID_PARAMETERS) ∧
      m2.numWaypoints = 1 :=
  (append_duplicate_guard 5 factoryTwins 20 record20 0 0 0 factoryTwins_packing rfl).2.2
    rfl (by decide) 21 record21 rfl rfl rfl

/-- C2 fails on the code: `threeWaypoints` satisfies packing with `numWaypoints = 3`
below the capacity `5`; the insert of the waypoint at `13` between the ids `0` and
`1` returns `WAYPOINT_SUCCESS`, and afterwards `numWaypoints` and `nextFilledIndex`
are still `3` although the four slots `0` to `3` are `FULL`, so slot `3`, at an
index not below `numWaypoints`, is not `FREE` and packing no longer holds. -/
theorem insert_keeps_counters :
    statusOf (initialize_flight_path 5 factoryFive [some 10, some 11, some 12] 3)
      = .ok WAYPOINT_SUCCESS ∧
    Packing 5 threeWaypoints ∧ threeWaypoints.numWaypoints = 3 ∧
    statusOf afterInsert = .ok WAYPOINT_SUCCESS ∧
    (stateOf afterInsert).numWaypoints = 3 ∧ (stateOf afterInsert).nextFilledIndex = 3 ∧
    (stateOf afterInsert).waypointBufferStatus 3 = FULL ∧
    (stateOf afterInsert).waypointBuffer 3 = some 12 ∧
    ¬ Packing 5 (stateOf afterInsert) := by
  refine ⟨rfl, threeWaypoints_packing, rfl, rfl, rfl, rfl, rfl, rfl, ?_⟩
  intro h
  have h3 := (h.2.2.2.2 3 (by decide) (by decide)).1
  have h3' : (stateOf afterInsert).waypointBufferStatus 3 = FULL := rfl
  rw [h3'] at h3
  exact absurd h3 (by decide)

/-- C3 fails on the code: in the state reached from an empty buffer by
`initialize_flight_path` with three waypoints and the insert of a fourth, slot `3`
is `FULL` and holds the waypoint at `12` (id `2`); the append of the waypoint at
`14` returns `WAYPOINT_SUCCESS` and stores it in slot `3`, after which the
waypoint at `12` is in no slot of the buffer. -/
theorem append_after_insert_overwrites :
    statusOf (initialize_flight_path 5 factoryFive [some 10, some 11, some 12] 3)
      = .ok WAYPOINT_SUCCESS ∧
    statusOf afterInsert = .ok WAYPOINT_SUCCESS ∧
    (stateOf afterInsert).waypointBufferStatus 3 = FULL ∧
    (stateOf afterInsert).waypointBuffer 3 = some 12 ∧
    slotId (stateOf afterInsert) 3 = some 2 ∧
    statusOf afterInsertAppend = .ok WAYPOINT_SUCCESS ∧
    (stateOf afterInsertAppend).waypointBuffer 3 = some 14 ∧
    (∀ i : Int, 0 ≤ i → i < 5 → (stateOf afterInsertAppend).waypointBuffer i ≠ some 12) := by
  refine ⟨rfl, rfl, rfl, rfl, rfl, rfl, rfl, ?_⟩
  intro i h0 h1
  have : i = 0 ∨ i = 1 ∨ i = 2 ∨ i = 3 ∨ i = 4 := by omega
  rcases this with rfl | rfl | rfl | rfl | rfl <;> decide

/-- C5 fails on the code: from the buffer initialised with the ids `0, 1, 2`, the
insert of the waypoint of id `3` between the ids `0` and `1` and the delete of id
`1` both return `WAYPOINT_SUCCESS`, but the final buffer has `numWaypoints = 2`,
holds the ids `0` and `3` in the slots `0` and `1`, a `FREE` null slot `2`, and the
id `2` in slot `3`, where `get_waypoint_index_from_id` no longer finds it. -/
theorem insert_then_delete_scenario :
    statusOf (initialize_flight_path 5 factoryFive [some 10, some 11, some 12] 3)
      = .ok WAYPOINT_SUCCESS ∧
    slotId threeWaypoints 0 = some 0 ∧ slotId threeWaypoints 1 = some 1 ∧
    slotId threeWaypoints 2 = some 2 ∧
    statusOf afterInsert = .ok WAYPOINT_SUCCESS ∧
    statusOf afterInsertDelete = .ok WAYPOINT_SUCCESS ∧
    (stateOf afterInsertDelete).numWaypoints = 2 ∧
    slotId (stateOf afterInsertDelete) 0 = some 0 ∧
    slotId (stateOf afterInsertDelete) 1 = some 3 ∧
    (stateOf afterInsertDelete).waypointBufferStatus 2 = FREE ∧
    (stateOf afterInsertDelete).waypointBuffer 2 = none ∧
    (stateOf afterInsertDelete).waypointBufferStatus 3 = FULL ∧
    slotId (stateOf afterInsertDelete) 3 = some 2 ∧
    get_waypoint_index_from_id 5 (stateOf afterInsertDelete) 2 = .ok (-1) :=
  ⟨rfl, rfl, rfl, rfl, rfl, rfl, rfl, rfl, rfl, rfl, rfl, rfl, rfl, rfl⟩

/-! ## Initialise -/

/-- C11 fails on the code for a single waypoint: from the buffer initialised with
the waypoints of ids `0` and `1`, two deletes (of id `0`, then of id `1`) return
`WAYPOINT_SUCCESS` and leave `numWaypoints = 0` with the handle `11` of the
destroyed last waypoint still in slot `1`; `initialize_flight_path` with the one
waypoint at `12` then returns `WAYPOINT_SUCCESS` and puts `12` into slot `0`, but
links it forward to the destroyed record `11`, so the linking invariant fails:
the `next` of the only waypoint is not null. -/
theorem initialize_single_links_stale :
    statusOf twoWaypoints = .ok WAYPOINT_SUCCESS ∧
    statusOf (update_path_nodes 5 (stateOf twoWaypoints) none DELETE_WAYPOINT 0 0 0)
      = .ok WAYPOINT_SUCCESS ∧
    statusOf twoDeleted = .ok WAYPOINT_SUCCESS ∧
    (stateOf twoDeleted).numWaypoints = 0 ∧
    (stateOf twoDeleted).waypointBuffer 1 = some 11 ∧
    (stateOf twoDeleted).heap 12 = some
      { waypointId := 2, latitude := 43, longitude := -82, altitude := 100,
        waypointType := PATH_FOLLOW, turnRadius := -1, next := none, previous := none } ∧
    statusOf reinitialisedOne = .ok WAYPOINT_SUCCESS ∧
    (stateOf reinitialisedOne).numWaypoints = 1 ∧
    (stateOf reinitialisedOne).waypointBuffer 0 = some 12 ∧
    (stateOf reinitialisedOne).heap 12 = some
      { waypointId := 2, latitude := 43, longitude := -82, altitude := 100,
        waypointType := PATH_FOLLOW, turnRadius := -1, next := some 11, previous := none } ∧
    (stateOf reinitialisedOne).heap 11 = none ∧
    ¬ Linking (stateOf reinitialisedOne) := by
  refine ⟨rfl, rfl, rfl, rfl, rfl, rfl, rfl, rfl, rfl, rfl, rfl, ?_⟩
  intro hL
  obtain ⟨a, d, ⟨ha, hd⟩, -, hnext⟩ := hL 0 (by decide) (by decide)
  have h0 : (stateOf reinitialisedOne).waypointBuffer 0 = some 12 := rfl
  rw [h0] at ha
  cases ha
  have h12 : ((stateOf reinitialisedOne).heap 12).map (fun r => r.next) = some (some 11) := rfl
  rw [hd] at h12
  have hn : (stateOf reinitialisedOne).numWaypoints - 1 = 0 := rfl
  rw [hn] at hnext
  simp at hnext h12
  rw [hnext] at h12
  cases h12

/-! ## Changing the current index -/

/-- C12. On a buffer that satisfies packing and linking, `change_current_index`
never faults; it returns `WAYPOINT_SUCCESS` exactly when the id resolves to an
index `k` with `k + 2 ≤ numWaypoints - 1`, and then the new state is the old one
with `currentIndex = k`; in every other case it returns `INVALID_PARAMETERS` and
the state, `currentIndex` included, is the one it was given. -/
theorem change_current_index_spec (S : Nat) (m : WaypointManager) (id : Int)
    (hP : Packing S m) (hL : Linking m) :
    ∃ k, get_waypoint_index_from_id S m id = .ok k ∧
      ((k ≠ -1 ∧ k + 2 ≤ m.numWaypoints - 1) →
        change_current_index S m id
          = .ok ({ m with currentIndex := k }, WAYPOINT_SUCCESS)) ∧
      (¬ (k ≠ -1 ∧ k + 2 ≤ m.numWaypoints - 1) →
        change_current_index S m id = .ok (m, INVALID_PARAMETERS)) ∧
      ((∃ m1, change_current_index S m id = .ok (m1, WAYPOINT_SUCCESS)) ↔
        ∃ i, Resolves S m id i ∧ i + 2 ≤ m.numWaypoints - 1) := by
  obtain ⟨k, hk⟩ := get_index_total S m id hP
  -- the value of the call, by cases on the resolved index
  have hval : ((k ≠ -1 ∧ k + 2 ≤ m.numWaypoints - 1) →
        change_current_index S m id
          = .ok ({ m with currentIndex := k }, WAYPOINT_SUCCESS)) ∧
      (¬ (k ≠ -1 ∧ k + 2 ≤ m.numWaypoints - 1) →
        change_current_index S m id = .ok (m, INVALID_PARAMETERS)) := by
    by_cases hk1 : k = -1
    · refine ⟨fun h => absurd hk1 h.1, fun _ => ?_⟩
      unfold change_current_index
      rw [hk, ok_bind, if_pos hk1]
      rfl
    · have hres : Resolves S m id k := ⟨hk, hk1⟩
      obtain ⟨hk0, hkS, -, -⟩ := hres.slot
      have hkn := hres.lt_numWaypoints hP
      obtain ⟨a, d, ⟨ha1, ha2⟩, -, hnext⟩ := hL k hk0 hkn
      have hb : 0 ≤ k ∧ k < (S : Int) := ⟨hk0, hkS⟩
      by_cases hlast : k = m.numWaypoints - 1
      · rw [if_pos hlast] at hnext
        refine ⟨fun h => by omega, fun _ => ?_⟩
        unfold change_current_index
        simp [hk, hk1, readBuffer, hb, deref, ha1, ha2, hnext, bind, Except.bind, pure,
          Except.pure]
      · rw [if_neg hlast] at hnext
        obtain ⟨c, dc, ⟨hc1, hc2⟩, -, hnext2⟩ := hL (k + 1) (by omega) (by omega)
        rw [hc1] at hnext
        by_cases hlast2 : k + 1 = m.numWaypoints - 1
        · rw [if_pos hlast2] at hnext2
          refine ⟨fun h => by omega, fun _ => ?_⟩
          unfold change_current_index
          simp [hk, hk1, readBuffer, hb, deref, ha1, ha2, hnext, hc2, hnext2, bind,
            Except.bind, pure, Except.pure]
        · rw [if_neg hlast2] at hnext2
          obtain ⟨e, he⟩ := hL.slot_some (i := k + 1 + 1) (by omega) (by omega)
          rw [he] at hnext2
          refine ⟨fun _ => ?_, fun h => absurd ⟨hk1, by omega⟩ h⟩
          unfold change_current_index
          simp [hk, hk1, readBuffer, hb, deref, ha1, ha2, hnext, hc2, hnext2, bind,
            Except.bind, pure, Except.pure]
  refine ⟨k, hk, hval.1, hval.2, ?_⟩
  constructor
  · rintro ⟨m1, h⟩
    by_cases hc : k ≠ -1 ∧ k + 2 ≤ m.numWaypoints - 1
    · exact ⟨k, ⟨hk, hc.1⟩, hc.2⟩
    · rw [hval.2 hc] at h
      cases h
  · rintro ⟨i, hres, hi⟩
    have hik : k = i := by
      have := hres.1
      rw [hk] at this
      injection this
    subst hik
    exact ⟨_, hval.1 ⟨hres.2, hi⟩⟩

theorem change_current_index_spec_witness :
    ∃ k, get_waypoint_index_from_id 5 threeWaypoints 0 = .ok k ∧
      ((k ≠ -1 ∧ k + 2 ≤ threeWaypoints.numWaypoints - 1) →
        change_current_index 5 threeWaypoints 0
          = .ok ({ threeWaypoints with currentIndex := k }, WAYPOINT_SUCCESS)) ∧
      (¬ (k ≠ -1 ∧ k + 2 ≤ threeWaypoints.numWaypoints - 1) →
        change_current_index 5 threeWaypoints 0 = .ok (threeWaypoints, INVALID_PARAMETERS)) ∧
      ((∃ m1, change_current_index 5 threeWaypoints 0 = .ok (m1, WAYPOINT_SUCCESS)) ↔
        ∃ i, Resolves 5 threeWaypoints 0 i ∧ i + 2 ≤ threeWaypoints.numWaypoints - 1) :=
  change_current_index_spec 5 threeWaypoints 0 threeWaypoints_packing threeWaypoints_linking

/-! ## Clear and head home -/

theorem clear_body_spec (S : Nat) (m0 : WaypointManager) (i : Int) (h0 : 0 ≤ i)
    (hS : i < (S : Int))
    (hlive : m0.waypointBufferStatus i = FULL → ∃ a d, SlotHolds m0 i a d) :
    ∃ mA, clear_body S i m0 = .ok mA ∧
      mA.waypointBufferStatus = Function.update m0.waypointBufferStatus i FREE ∧
      mA.waypointBuffer = Function.update m0.waypointBuffer i none ∧
      (m0.waypointBufferStatus i = FULL → ∀ a, m0.waypointBuffer i = some a →
        mA.heap = Function.update m0.heap a none) ∧
      (m0.waypointBufferStatus i ≠ FULL → mA.heap = m0.heap) ∧
      SameScalars mA m0 := by
  have hb : 0 ≤ i ∧ i < (S : Int) := ⟨h0, hS⟩
  by_cases hf : m0.waypointBufferStatus i = FULL
  · obtain ⟨a, d, ha1, ha2⟩ := hlive hf
    refine ⟨{ m0 with heap := Function.update m0.heap a none,
                      waypointBufferStatus := Function.update m0.waypointBufferStatus i FREE,
                      waypointBuffer := Function.update m0.waypointBuffer i none },
      ?_, rfl, rfl, ?_, fun h => absurd hf h, ⟨rfl, rfl, rfl, rfl, rfl, rfl, rfl, rfl, rfl⟩⟩
    · unfold clear_body
      simp only [readStatus, if_pos hb, ok_bind, hf, if_true, readBuffer, ha1,
        destroy_waypoint_ok m0 a d ha2, writeStatus, writeBuffer]
    · intro _ a1 ha
      rw [ha1] at ha
      cases ha
      rfl
  · refine ⟨{ m0 with waypointBufferStatus := Function.update m0.waypointBufferStatus i FREE,
                      waypointBuffer := Function.update m0.waypointBuffer i none },
      ?_, rfl, rfl, fun h => absurd h hf, fun _ => rfl, ⟨rfl, rfl, rfl, rfl, rfl, rfl, rfl, rfl, rfl⟩⟩
    unfold clear_body
    simp only [readStatus, if_pos hb, ok_bind, hf, if_false, pure_eq_ok, writeStatus,
      writeBuffer]

/-- The loop of `clear_path_nodes` over the slots `[i, i + cnt)`, when the `FULL`
ones among them hold pairwise distinct live records. -/
theorem clear_loop (S : Nat) :
    ∀ (cnt : Nat) (i : Int) (m0 : WaypointManager), 0 ≤ i → i + cnt ≤ (S : Int) →
      (∀ j : Int, i ≤ j → j < i + cnt → m0.waypointBufferStatus j = FULL →
        ∃ a d, SlotHolds m0 j a d) →
      (∀ j k : Int, i ≤ j → j < k → k < i + cnt → m0.waypointBufferStatus j = FULL →
        m0.waypointBufferStatus k = FULL → m0.waypointBuffer j ≠ m0.waypointBuffer k) →
      ∃ m1, forUp (clear_body S) cnt i m0 = .ok m1 ∧
        (∀ j : Int, i ≤ j → j < i + cnt →
          m1.waypointBufferStatus j = FREE ∧ m1.waypointBuffer j = none) ∧
        (∀ j : Int, j < i ∨ i + cnt ≤ j →
          m1.waypointBufferStatus j = m0.waypointBufferStatus j ∧
          m1.waypointBuffer j = m0.waypointBuffer j) ∧
        (∀ p, (∃ j : Int, i ≤ j ∧ j < i + cnt ∧ m0.waypointBufferStatus j = FULL ∧
          m0.waypointBuffer j = some p) → m1.heap p = none) ∧
        (∀ p, (∀ j : Int, i ≤ j → j < i + cnt → m0.waypointBufferStatus j = FULL →
          m0.waypointBuffer j ≠ some p) → m1.heap p = m0.heap p) ∧
        SameScalars m1 m0 := by
  intro cnt
  induction cnt with
  | zero =>
    intro i m0 _ _ _ _
    refine ⟨m0, rfl, ?_, fun _ _ => ⟨rfl, rfl⟩, ?_, fun _ _ => rfl,
      ⟨rfl, rfl, rfl, rfl, rfl, rfl, rfl, rfl, rfl⟩⟩
    · intro j h1 h2
      simp at h2
      omega
    · rintro p ⟨j, h1, h2, -⟩
      simp at h2
      omega
  | succ c ih =>
    intro i m0 hi hS hlive hdist
    push_cast at hS hlive hdist ⊢
    obtain ⟨mA, hA, hAst, hAbuf, hAfull, hAfree, hAsc⟩ :=
      clear_body_spec S m0 i hi (by omega) (hlive i (le_refl _) (by omega))
    have hstA : ∀ j : Int, j ≠ i → mA.waypointBufferStatus j = m0.waypointBufferStatus j :=
      fun j hj => by rw [hAst, Function.update_noteq hj]
    have hbufA : ∀ j : Int, j ≠ i → mA.waypointBuffer j = m0.waypointBuffer j :=
      fun j hj => by rw [hAbuf, Function.update_noteq hj]
    -- a record of a later `FULL` slot is still live after slot `i` is done
    have hheapA : ∀ p, m0.waypointBuffer i ≠ some p ∨ m0.waypointBufferStatus i ≠ FULL →
        mA.heap p = m0.heap p := by
      intro p hp
      by_cases hf : m0.waypointBufferStatus i = FULL
      · obtain ⟨a, d, ha1, -⟩ := hlive i (le_refl _) (by omega) hf
        rw [hAfull hf a ha1]
        have : p ≠ a := by
          rintro rfl
          rcases hp with hp | hp
          · exact hp ha1
          · exact hp hf
        rw [Function.update_noteq this]
      · rw [hAfree hf]
    obtain ⟨m1, h1, hFree, hOut, hGone, hKeep, hsc⟩ := ih (i + 1) mA (by omega) (by omega)
      (by
        intro j hj1 hj2 hjf
        have hji : j ≠ i := by omega
        rw [hstA j hji] at hjf
        obtain ⟨a, d, ha1, ha2⟩ := hlive j (by omega) (by omega) hjf
        refine ⟨a, d, by rw [hbufA j hji]; exact ha1, ?_⟩
        rw [hheapA a, ha2]
        by_cases hf : m0.waypointBufferStatus i = FULL
        · left
          rw [← ha1]
          exact hdist i j (le_refl _) (by omega) (by omega) hf hjf
        · exact Or.inr hf)
      (by
        intro j k hj1 hjk hk2 hjf hkf
        have hji : j ≠ i := by omega
        have hki : k ≠ i := by omega
        rw [hstA j hji] at hjf
        rw [hstA k hki] at hkf
        rw [hbufA j hji, hbufA k hki]
        exact hdist j k (by omega) hjk (by omega) hjf hkf)
    refine ⟨m1, ?_, ?_, ?_, ?_, ?_, ?_⟩
    · unfold forUp
      rw [hA, ok_bind, h1]
    · intro j hj1 hj2
      by_cases hji : j = i
      · subst hji
        obtain ⟨e1, e2⟩ := hOut j (Or.inl (by omega))
        rw [e1, e2, hAst, hAbuf, Function.update_same, Function.update_same]
        exact ⟨rfl, rfl⟩
      · exact hFree j (by omega) (by omega)
    · intro j hj
      have hji : j ≠ i := by omega
      obtain ⟨e1, e2⟩ := hOut j (by omega)
      rw [e1, e2, hstA j hji, hbufA j hji]
      exact ⟨rfl, rfl⟩
    · rintro p ⟨j, hj1, hj2, hjf, hjp⟩
      by_cases hji : j = i
      · subst hji
        rw [hKeep p, hAfull hjf p hjp, Function.update_same]
        intro k hk1 hk2 hkf hkp
        have hki : k ≠ j := by omega
        rw [hstA k hki] at hkf
        rw [hbufA k hki] at hkp
        exact hdist j k (le_refl _) (by omega) (by omega) hjf hkf (by rw [hjp, hkp])
      · exact hGone p ⟨j, by omega, by omega, by rw [hstA j hji]; exact hjf,
          by rw [hbufA j hji]; exact hjp⟩
    · intro p hp
      rw [hKeep p, hheapA p]
      · by_cases hf : m0.waypointBufferStatus i = FULL
        · exact Or.inl (hp i (le_refl _) (by omega) hf)
        · exact Or.inr hf
      · intro k hk1 hk2 hkf
        have hki : k ≠ i := by omega
        rw [hstA k hki] at hkf
        rw [hbufA k hki]
        exact hp k (by omega) (by omega) hkf
    · obtain ⟨a1, a2, a3, a4, a5, a6, a7, a8, a9⟩ := hsc
      obtain ⟨b1, b2, b3, b4, b5, b6, b7, b8, b9⟩ := hAsc
      exact ⟨a1.trans b1, a2.trans b2, a3.trans b3, a4.trans b4, a5.trans b5, a6.trans b6,
        a7.trans b7, a8.trans b8, a9.trans b9⟩

/-- What `clear_path_nodes` does to a manager whose `FULL` slots hold pairwise
distinct live records. -/
theorem clear_path_nodes_spec (S : Nat) (m : WaypointManager) (h : ClearSafe S m) :
    ∃ m1, clear_path_nodes S m = .ok m1 ∧
      (∀ i : Int, 0 ≤ i → i < (S : Int) →
        m1.waypointBufferStatus i = FREE ∧ m1.waypointBuffer i = none) ∧
      m1.numWaypoints = 0 ∧ m1.nextFilledIndex = 0 ∧ m1.nextAssignedId = 0 ∧
      m1.currentIndex = 0 ∧
      m1.homeBase = m.homeBase ∧ m1.inHold = m.inHold ∧ m1.goingHome = m.goingHome ∧
      (∀ p, (∃ j : Int, 0 ≤ j ∧ j < (S : Int) ∧ m.waypointBufferStatus j = FULL ∧
        m.waypointBuffer j = some p) → m1.heap p = none) ∧
      (∀ p, (∀ j : Int, 0 ≤ j → j < (S : Int) → m.waypointBufferStatus j = FULL →
        m.waypointBuffer j ≠ some p) → m1.heap p = m.heap p) := by
  obtain ⟨m1, h1, hFree, -, hGone, hKeep, hsc⟩ := clear_loop S S 0 m (le_refl _) (by omega)
    (fun j h0 h1 hf => h.1 j h0 (by omega) hf)
    (fun j k h0 hjk hk hjf hkf => h.2 j k h0 hjk (by omega) hjf hkf)
  obtain ⟨-, -, -, -, a5, a6, a7, -, -⟩ := hsc
  refine ⟨{ m1 with numWaypoints := 0, nextFilledIndex := 0, nextAssignedId := 0,
                    currentIndex := 0 }, ?_, ?_, rfl, rfl, rfl, rfl, a5, a6, a7, ?_, ?_⟩
  · unfold clear_path_nodes
    rw [h1, ok_bind]
    rfl
  · intro i hi0 hiS
    exact hFree i hi0 (by omega)
  · rintro p ⟨j, hj0, hjS, hjf, hjp⟩
    exact hGone p ⟨j, hj0, by omega, hjf, hjp⟩
  · intro p hp
    exact hKeep p (fun j hj0 hj1 hjf => hp j hj0 (by omega) hjf)

theorem ClearSafe.of_packing_linking {S : Nat} {m : WaypointManager} (hP : Packing S m)
    (hL : Linking m) : ClearSafe S m := by
  have hlt : ∀ i : Int, 0 ≤ i → i < (S : Int) → m.waypointBufferStatus i = FULL →
      i < m.numWaypoints := by
    intro i h0 hS hf
    by_contra hc
    have := (hP.2.2.2.2 i (by omega) hS).1
    rw [this] at hf
    exact absurd hf (by decide)
  refine ⟨fun i h0 hS hf => (hP.2.2.2.1 i h0 (hlt i h0 hS hf)).2, ?_⟩
  intro i j hi0 hij hjS hfi hfj
  exact hL.ne_of_ne hi0 (hlt i hi0 (by omega) hfi) (by omega) (hlt j (by omega) hjS hfj)
    (by omega)

theorem twoWithHome_packing : Packing 5 twoWithHome := by
  have hn : twoWithHome.numWaypoints = 2 := rfl
  refine ⟨by decide, by decide, rfl, ?_, ?_⟩
  · intro i h0 h1
    rw [hn] at h1
    have : i = 0 ∨ i = 1 := by omega
    rcases this with rfl | rfl
    · exact ⟨rfl, 10, _, rfl, rfl⟩
    · exact ⟨rfl, 11, _, rfl, rfl⟩
  · intro i h0 h1
    rw [hn] at h0
    have : i = 2 ∨ i = 3 ∨ i = 4 := by omega
    rcases this with rfl | rfl | rfl
    · exact ⟨rfl, rfl⟩
    · exact ⟨rfl, rfl⟩
    · exact ⟨rfl, rfl⟩

theorem twoWithHome_linking : Linking twoWithHome := by
  have hn : twoWithHome.numWaypoints = 2 := rfl
  intro i h0 h1
  rw [hn] at h1
  have : i = 0 ∨ i = 1 := by omega
  rcases this with rfl | rfl
  · exact ⟨10, _, ⟨rfl, rfl⟩, rfl, rfl⟩
  · exact ⟨11, _, ⟨rfl, rfl⟩, rfl, rfl⟩

/-- C14 (amended). From every state in which each `FULL` slot holds a live record
and no two `FULL` slots hold the same record, `clear_path_nodes` returns and
leaves every one of the `PATH_BUFFER_SIZE` slots `FREE` and null, with
`numWaypoints`, `nextFilledIndex`, `nextAssignedId` and `currentIndex` all `0`;
`homeBase`, `inHold` and `goingHome` are unchanged, the records of the `FULL`
slots are destroyed and every other record is left as it was. -/
theorem clear_establishes_empty (S : Nat) (m : WaypointManager) (h : ClearSafe S m) :
    ∃ m1, clear_path_nodes S m = .ok m1 ∧
      (∀ i : Int, 0 ≤ i → i < (S : Int) →
        m1.waypointBufferStatus i = FREE ∧ m1.waypointBuffer i = none) ∧
      m1.numWaypoints = 0 ∧ m1.nextFilledIndex = 0 ∧ m1.nextAssignedId = 0 ∧
      m1.currentIndex = 0 ∧
      m1.homeBase = m.homeBase ∧ m1.inHold = m.inHold ∧ m1.goingHome = m.goingHome ∧
      (∀ p, (∃ j : Int, 0 ≤ j ∧ j < (S : Int) ∧ m.waypointBufferStatus j = FULL ∧
        m.waypointBuffer j = some p) → m1.heap p = none) ∧
      (∀ p, (∀ j : Int, 0 ≤ j → j < (S : Int) → m.waypointBufferStatus j = FULL →
        m.waypointBuffer j ≠ some p) → m1.heap p = m.heap p) :=
  clear_path_nodes_spec S m h

theorem clear_establishes_empty_witness :
    ∃ m1, clear_path_nodes 5 threeWaypoints = .ok m1 ∧
      (∀ i : Int, 0 ≤ i → i < ((5 : Nat) : Int) →
        m1.waypointBufferStatus i = FREE ∧ m1.waypointBuffer i = none) ∧
      m1.numWaypoints = 0 ∧ m1.nextFilledIndex = 0 ∧ m1.nextAssignedId = 0 ∧
      m1.currentIndex = 0 ∧
      m1.homeBase = threeWaypoints.homeBase ∧ m1.inHold = threeWaypoints.inHold ∧
      m1.goingHome = threeWaypoints.goingHome ∧
      (∀ p, (∃ j : Int, 0 ≤ j ∧ j < ((5 : Nat) : Int) ∧
        threeWaypoints.waypointBufferStatus j = FULL ∧
        threeWaypoints.waypointBuffer j = some p) → m1.heap p = none) ∧
      (∀ p, (∀ j : Int, 0 ≤ j → j < ((5 : Nat) : Int) →
        threeWaypoints.waypointBufferStatus j = FULL →
        threeWaypoints.waypointBuffer j ≠ some p) → m1.heap p = threeWaypoints.heap p) :=
  clear_establishes_empty 5 threeWaypoints
    (ClearSafe.of_packing_linking threeWaypoints_packing threeWaypoints_linking)

/-- C14 (as stated) fails: `clear_path_nodes` does not return from every state.
After the insert of a fourth waypoint into `threeWaypoints` and the delete of id
`2` (both `WAYPOINT_SUCCESS`), slot `3` is still `FULL` and still holds the handle
`12` of the destroyed record, and `clear_path_nodes` ends in a use after free.
After an append of a null waypoint to the empty buffer (`WAYPOINT_SUCCESS`), slot
`0` is `FULL` and null, and `clear_path_nodes` ends in a null dereference. -/
theorem clear_faults_on_dead_full_slot :
    statusOf afterInsert = .ok WAYPOINT_SUCCESS ∧
    statusOf afterInsertDeleteLast = .ok WAYPOINT_SUCCESS ∧
    (stateOf afterInsertDeleteLast).waypointBufferStatus 3 = FULL ∧
    (stateOf afterInsertDeleteLast).waypointBuffer 3 = some 12 ∧
    (stateOf afterInsertDeleteLast).heap 12 = none ∧
    clear_path_nodes 5 (stateOf afterInsertDeleteLast) = .error Fault.useAfterFree ∧
    statusOf (update_path_nodes 5 emptyManager none APPEND_WAYPOINT 0 0 0)
      = .ok WAYPOINT_SUCCESS ∧
    (stateOf (update_path_nodes 5 emptyManager none APPEND_WAYPOINT 0 0 0)).waypointBufferStatus
      0 = FULL ∧
    (stateOf (update_path_nodes 5 emptyManager none APPEND_WAYPOINT 0 0 0)).waypointBuffer 0
      = none ∧
    clear_path_nodes 5 (stateOf (update_path_nodes 5 emptyManager none APPEND_WAYPOINT 0 0 0))
      = .error Fault.nullDeref :=
  ⟨rfl, rfl, rfl, rfl, rfl, rfl, rfl, rfl, rfl, rfl⟩

/-- C13 (amended). `head_home` toggles home-return. In every state: with a null
home it returns `false` and changes nothing, and with a home and `goingHome` set
it returns `false` and only resets `goingHome`. With a home and `goingHome` clear,
in a state in which each `FULL` slot holds a live record and no two `FULL` slots
hold the same record, it returns `true`, sets `goingHome` and clears the buffer
(`numWaypoints = 0`, every slot `FREE` and null), and a second call then returns
`false`, resets `goingHome` and leaves the buffer empty. `homeBase` is never
changed, and the home record is left alone when it is in no `FULL` slot. -/
theorem head_home_toggles (S : Nat) (m : WaypointManager) :
    (m.homeBase = none → head_home S m = .ok (m, false)) ∧
    (m.homeBase ≠ none → m.goingHome = true →
      head_home S m = .ok ({ m with goingHome := false }, false)) ∧
    (ClearSafe S m → m.homeBase ≠ none → m.goingHome = false →
      ∃ m1, head_home S m = .ok (m1, true) ∧ m1.goingHome = true ∧
        m1.homeBase = m.homeBase ∧ m1.numWaypoints = 0 ∧
        (∀ i : Int, 0 ≤ i → i < (S : Int) →
          m1.waypointBufferStatus i = FREE ∧ m1.waypointBuffer i = none) ∧
        (∀ p, m.homeBase = some p →
          (∀ j : Int, 0 ≤ j → j < (S : Int) → m.waypointBufferStatus j = FULL →
            m.waypointBuffer j ≠ some p) → m1.heap p = m.heap p) ∧
        ∃ m2, head_home S m1 = .ok (m2, false) ∧ m2.goingHome = false ∧
          m2.homeBase = m.homeBase ∧ m2.numWaypoints = 0 ∧
          (∀ i : Int, 0 ≤ i → i < (S : Int) →
            m2.waypointBufferStatus i = FREE ∧ m2.waypointBuffer i = none)) := by
  refine ⟨?_, ?_, ?_⟩
  · intro hh
    unfold head_home
    rw [if_pos hh]
    rfl
  · intro hh hg
    unfold head_home
    rw [if_neg hh, if_neg (by rw [hg]; decide)]
    rfl
  · intro h hh hg
    obtain ⟨m1, h1, hslots, hn, -, -, -, hhome, -, -, -, hkeep⟩ := clear_path_nodes_spec S m h
    refine ⟨{ m1 with goingHome := true }, ?_, rfl, hhome, hn, hslots,
      fun p _ hp => hkeep p hp, { m1 with goingHome := false }, ?_, rfl, hhome, hn, hslots⟩
    · unfold head_home
      rw [if_neg hh, if_pos hg, h1, ok_bind]
      rfl
    · have hh1 : ({ m1 with goingHome := true } : WaypointManager).homeBase ≠ none := by
        show m1.homeBase ≠ none
        rw [hhome]
        exact hh
      unfold head_home
      rw [if_neg hh1, if_neg (fun e : (true : Bool) = false => Bool.noConfusion e)]
      rfl

theorem head_home_toggles_witness :
    (stateOf afterInsertDeleteLast).homeBase = none ∧
    clear_path_nodes 5 (stateOf afterInsertDeleteLast) = .error Fault.useAfterFree ∧
    head_home 5 (stateOf afterInsertDeleteLast) = .ok (stateOf afterInsertDeleteLast, false) ∧
    head_home 5 { stateOf homeInsertDeleteLast with goingHome := true } =
      .ok ({ stateOf homeInsertDeleteLast with goingHome := false }, false) ∧
    ∃ m1, head_home 5 twoWithHome = .ok (m1, true) ∧ m1.goingHome = true ∧
      m1.homeBase = twoWithHome.homeBase ∧ m1.numWaypoints = 0 ∧
      (∀ i : Int, 0 ≤ i → i < ((5 : Nat) : Int) →
        m1.waypointBufferStatus i = FREE ∧ m1.waypointBuffer i = none) ∧
      (∀ p, twoWithHome.homeBase = some p →
        (∀ j : Int, 0 ≤ j → j < ((5 : Nat) : Int) → twoWithHome.waypointBufferStatus j = FULL →
          twoWithHome.waypointBuffer j ≠ some p) → m1.heap p = twoWithHome.heap p) ∧
      ∃ m2, head_home 5 m1 = .ok (m2, false) ∧ m2.goingHome = false ∧
        m2.homeBase = twoWithHome.homeBase ∧ m2.numWaypoints = 0 ∧
        (∀ i : Int, 0 ≤ i → i < ((5 : Nat) : Int) →
          m2.waypointBufferStatus i = FREE ∧ m2.waypointBuffer i = none) :=
  ⟨rfl, rfl, (head_home_toggles 5 (stateOf afterInsertDeleteLast)).1 rfl,
    (head_home_toggles 5 { stateOf homeInsertDeleteLast with goingHome := true }).2.1
      (by decide) rfl,
    (head_home_toggles 5 twoWithHome).2.2
      (ClearSafe.of_packing_linking twoWithHome_packing twoWithHome_linking) (by decide) rfl⟩

/-- C13 (as stated) fails: with the home at `14` present and `goingHome` clear,
in the state reached by initialising three waypoints with a home, inserting a
fourth between the ids `0` and `1` and deleting id `2` (all `WAYPOINT_SUCCESS`),
slot `3` is `FULL` with the handle of a destroyed record, and `head_home` does not
return `true`: its `clear_path_nodes` ends in a use after free. -/
theorem head_home_faults_on_dead_full_slot :
    statusOf (initialize_flight_path_home 5 factoryFive [some 10, some 11, some 12] 3
      (some 14)) = .ok WAYPOINT_SUCCESS ∧
    statusOf (update_path_nodes 5
      (stateOf (initialize_flight_path_home 5 factoryFive [some 10, some 11, some 12] 3
        (some 14)))
      (some 13) INSERT_WAYPOINT 0 0 1) = .ok WAYPOINT_SUCCESS ∧
    statusOf homeInsertDeleteLast = .ok WAYPOINT_SUCCESS ∧
    (stateOf homeInsertDeleteLast).homeBase = some 14 ∧
    (stateOf homeInsertDeleteLast).goingHome = false ∧
    (stateOf homeInsertDeleteLast).waypointBufferStatus 3 = FULL ∧
    (stateOf homeInsertDeleteLast).waypointBuffer 3 = some 12 ∧
    (stateOf homeInsertDeleteLast).heap 12 = none ∧
    head_home 5 (stateOf homeInsertDeleteLast) = .error Fault.useAfterFree :=
  ⟨rfl, rfl, rfl, rfl, rfl, rfl, rfl, rfl, rfl⟩

/-! ## Navigation: sequencing in `Except Stop` -/

theorem stop_bind_ok_iff {α β : Type} (x : Except Stop α) (f : α → Except Stop β) (b : β) :
    (x >>= f) = .ok b ↔ ∃ a, x = .ok a ∧ f a = .ok b := by
  cases x with
  | error e => simp [bind, Except.bind]
  | ok a => simp [bind, Except.bind]

theorem stop_ok_bind {α β : Type} (a : α) (f : α → Except Stop β) :
    ((Except.ok a : Except Stop α) >>= f) = f a := rfl

theorem stop_pure_eq_ok {α : Type} (a : α) : (pure a : Except Stop α) = .ok a := rfl

theorem liftFault_ok_iff {α : Type} (x : Except Fault α) (a : α) :
    liftFault x = .ok a ↔ x = .ok a := by
  cases x with
  | error e => simp [liftFault]
  | ok b => simp [liftFault]

/-! ## Navigation: the normalising loops -/

theorem heading_sub_loop_spec (h : Int) :
    heading_sub_loop h < 360 ∧ (0 ≤ h → 0 ≤ heading_sub_loop h) ∧
      (h < 360 → heading_sub_loop h = h) ∧ ∃ k : Int, heading_sub_loop h = h - 360 * k := by
  obtain ⟨n, hn⟩ : ∃ n, h.toNat = n := ⟨_, rfl⟩
  induction n using Nat.strong_induction_on generalizing h with
  | _ n ih =>
    rw [heading_sub_loop]
    by_cases hc : 360 ≤ h
    · obtain ⟨h1, h2, _, k, hk⟩ := ih (h - 360).toNat (by omega) (h - 360) rfl
      rw [if_pos hc]
      exact ⟨h1, fun _ => h2 (by omega), fun h3 => absurd h3 (by omega), k + 1, by omega⟩
    · rw [if_neg hc]
      exact ⟨by omega, fun h3 => h3, fun _ => rfl, 0, by omega⟩

theorem heading_add_loop_spec (h : Int) :
    0 ≤ heading_add_loop h ∧ (h < 360 → heading_add_loop h < 360) ∧
      (0 ≤ h → heading_add_loop h = h) ∧ ∃ k : Int, heading_add_loop h = h + 360 * k := by
  obtain ⟨n, hn⟩ : ∃ n, (-h).toNat = n := ⟨_, rfl⟩
  induction n using Nat.strong_induction_on generalizing h with
  | _ n ih =>
    rw [heading_add_loop]
    by_cases hc : h < 0
    · obtain ⟨h1, h2, _, k, hk⟩ := ih (-(h + 360)).toNat (by omega) (h + 360) rfl
      rw [if_pos hc]
      exact ⟨h1, fun _ => h2 (by omega), fun h3 => absurd h3 (by omega), k + 1, by omega⟩
    · rw [if_neg hc]
      exact ⟨by omega, fun h3 => h3, fun _ => rfl, 0, by omega⟩

theorem normalize_heading_eq (h : Int) : normalize_heading h = h % 360 := by
  unfold normalize_heading
  obtain ⟨h1, _, _, k, hk⟩ := heading_sub_loop_spec h
  obtain ⟨h2, h3, _, j, hj⟩ := heading_add_loop_spec (heading_sub_loop h)
  have h4 := h3 h1
  omega

theorem normalize_heading_range (h : Int) :
    0 ≤ normalize_heading h ∧ normalize_heading h < 360 := by
  rw [normalize_heading_eq]
  omega

section NavigationLoops

variable {F : Type} [LinearOrderedField F] (lib : MathLib F)

theorem wrap_course_up_steps (heading : F) (n : Nat) :
    ∀ c : F, -lib.pi ≤ c + (n : F) * (2 * lib.pi) - heading → 0 < lib.pi →
      ∃ c1, ∀ fuel, n ≤ fuel → wrap_course_up lib heading fuel c = .ok c1 := by
  induction n with
  | zero =>
    intro c hc _
    have h0 : ¬ (c - heading < -lib.pi) := by
      simp only [Nat.cast_zero, zero_mul, add_zero] at hc
      exact not_lt.mpr hc
    refine ⟨c, fun fuel _ => ?_⟩
    cases fuel with
    | zero => simp only [wrap_course_up, if_neg h0]
    | succ f => simp only [wrap_course_up, if_neg h0]
  | succ n ih =>
    intro c hc hpi
    by_cases h0 : c - heading < -lib.pi
    · obtain ⟨c1, h1⟩ := ih (c + 2 * lib.pi) (by push_cast at hc; linarith) hpi
      refine ⟨c1, fun fuel hf => ?_⟩
      cases fuel with
      | zero => omega
      | succ f =>
        simp only [wrap_course_up, if_pos h0]
        exact h1 f (by omega)
    · refine ⟨c, fun fuel _ => ?_⟩
      cases fuel with
      | zero => simp only [wrap_course_up, if_neg h0]
      | succ f => simp only [wrap_course_up, if_neg h0]

theorem wrap_course_down_steps (heading : F) (n : Nat) :
    ∀ c : F, c - (n : F) * (2 * lib.pi) - heading ≤ lib.pi → 0 < lib.pi →
      ∃ c1, ∀ fuel, n ≤ fuel → wrap_course_down lib heading fuel c = .ok c1 := by
  induction n with
  | zero =>
    intro c hc _
    have h0 : ¬ (lib.pi < c - heading) := by
      simp only [Nat.cast_zero, zero_mul, sub_zero] at hc
      exact not_lt.mpr hc
    refine ⟨c, fun fuel _ => ?_⟩
    cases fuel with
    | zero => simp only [wrap_course_down, if_neg h0]
    | succ f => simp only [wrap_course_down, if_neg h0]
  | succ n ih =>
    intro c hc hpi
    by_cases h0 : lib.pi < c - heading
    · obtain ⟨c1, h1⟩ := ih (c - 2 * lib.pi) (by push_cast at hc; linarith) hpi
      refine ⟨c1, fun fuel hf => ?_⟩
      cases fuel with
      | zero => omega
      | succ f =>
        simp only [wrap_course_down, if_pos h0]
        exact h1 f (by omega)
    · refine ⟨c, fun fuel _ => ?_⟩
      cases fuel with
      | zero => simp only [wrap_course_down, if_neg h0]
      | succ f => simp only [wrap_course_down, if_neg h0]

/-- With `M_PI` positive, the first wrapping loop of a follower ends. -/
theorem wrap_course_up_returns [Archimedean F] (hpi : 0 < lib.pi) (heading c : F) :
    ∃ c1 N, ∀ fuel, N ≤ fuel → wrap_course_up lib heading fuel c = .ok c1 := by
  obtain ⟨n, hn⟩ := Archimedean.arch (-lib.pi - (c - heading))
    (show 0 < 2 * lib.pi by linarith)
  obtain ⟨c1, h1⟩ := wrap_course_up_steps lib heading n c
    (by rw [nsmul_eq_mul] at hn; linarith) hpi
  exact ⟨c1, n, h1⟩

/-- With `M_PI` positive, the second wrapping loop of a follower ends. -/
theorem wrap_course_down_returns [Archimedean F] (hpi : 0 < lib.pi) (heading c : F) :
    ∃ c1 N, ∀ fuel, N ≤ fuel → wrap_course_down lib heading fuel c = .ok c1 := by
  obtain ⟨n, hn⟩ := Archimedean.arch (c - heading - lib.pi)
    (show 0 < 2 * lib.pi by linarith)
  obtain ⟨c1, h1⟩ := wrap_course_down_steps lib heading n c
    (by rw [nsmul_eq_mul] at hn; linarith) hpi
  exact ⟨c1, n, h1⟩

/-- With `M_PI` positive and enough iterations allowed, `follow_orbit` returns:
it keeps the orbit parameters, reports the distance `0`, the mode `ORBIT_FOLLOW`
and the stored orbit altitude, and its heading is a normalised integer. -/
theorem follow_orbit_returns [Archimedean F] (hpi : 0 < lib.pi) (nav : NavigationData F)
    (position : Vec3 F) (heading : F) :
    ∃ (c : Int) (N : Nat), ∀ fuel, N ≤ fuel →
      follow_orbit lib fuel nav position heading =
        .ok { nav with
          desiredHeading := normalize_heading c
          distanceToNextWaypoint := 0
          outputType := ORBIT_FOLLOW
          desiredAltitude := nav.turnDesiredAltitude } := by
  obtain ⟨c1, N1, h1⟩ := wrap_course_up_returns lib hpi (deg2rad lib (90 - heading))
    (lib.atan2 (position.c1 - nav.turnCenter.c1) (position.c0 - nav.turnCenter.c0))
  obtain ⟨c2, N2, h2⟩ := wrap_course_down_returns lib hpi (deg2rad lib (90 - heading)) c1
  refine ⟨lib.round (90 - rad2deg lib (c2 + (nav.turnDirection : F) *
      (lib.pi / 2 + lib.atan (k_gain ORBIT_FOLLOW *
        (lib.sqrt ((position.c0 - nav.turnCenter.c0) ^ 2 + (position.c1 - nav.turnCenter.c1) ^ 2)
          - nav.turnRadius) / nav.turnRadius)))), max N1 N2, fun fuel hf => ?_⟩
  unfold follow_orbit
  simp only [h1 fuel (le_trans (le_max_left _ _) hf), h2 fuel (le_trans (le_max_right _ _) hf),
    stop_ok_bind, stop_pure_eq_ok]

/-- Whenever `follow_orbit` returns, its result has the shape above. -/
theorem follow_orbit_spec (fuel : Nat) (nav nav1 : NavigationData F) (position : Vec3 F)
    (heading : F) (h : follow_orbit lib fuel nav position heading = .ok nav1) :
    ∃ c : Int, nav1 = { nav with
      desiredHeading := normalize_heading c
      distanceToNextWaypoint := 0
      outputType := ORBIT_FOLLOW
      desiredAltitude := nav.turnDesiredAltitude } := by
  unfold follow_orbit at h
  obtain ⟨c1, _, h⟩ := (stop_bind_ok_iff _ _ _).mp h
  obtain ⟨c2, _, h⟩ := (stop_bind_ok_iff _ _ _).mp h
  simp only [stop_pure_eq_ok, Except.ok.injEq] at h
  exact ⟨_, h.symm⟩

end NavigationLoops

section NavigationFollowers

variable {F : Type} [LinearOrderedField F] (lib : MathLib F)

/-- With `M_PI` positive and enough iterations allowed, `follow_straight_path`
returns. -/
theorem follow_straight_path_returns [Archimedean F] (hpi : 0 < lib.pi) (inHold : Bool)
    (nav : NavigationData F) (waypointDirection targetWaypoint position : Vec3 F)
    (heading : F) :
    ∃ N : Nat, ∀ fuel, N ≤ fuel → ∃ nav1 : NavigationData F,
      follow_straight_path lib fuel inHold nav waypointDirection targetWaypoint position
        heading = .ok nav1 := by
  obtain ⟨c1, N1, h1⟩ := wrap_course_up_returns lib hpi (deg2rad lib (90 - heading))
    (lib.atan2 waypointDirection.c1 waypointDirection.c0)
  obtain ⟨c2, N2, h2⟩ := wrap_course_down_returns lib hpi (deg2rad lib (90 - heading)) c1
  refine ⟨max N1 N2, fun fuel hf => ?_⟩
  unfold follow_straight_path
  simp only [h1 fuel (le_trans (le_max_left _ _) hf),
    h2 fuel (le_trans (le_max_right _ _) hf), stop_ok_bind, stop_pure_eq_ok]
  split_ifs
  · exact ⟨_, rfl⟩
  · exact ⟨_, rfl⟩

/-- Whenever `follow_straight_path` returns: the mode is `PATH_FOLLOW`, the heading
is a normalised integer, outside a hold the turn radius and direction are `0`, and
inside a hold they are kept. -/
theorem follow_straight_path_spec (fuel : Nat) (inHold : Bool) (nav nav1 : NavigationData F)
    (waypointDirection targetWaypoint position : Vec3 F) (heading : F)
    (h : follow_straight_path lib fuel inHold nav waypointDirection targetWaypoint position
      heading = .ok nav1) :
    nav1.outputType = PATH_FOLLOW ∧ nav1.desiredAltitude = targetWaypoint.c2 ∧
      (∃ c : Int, nav1.desiredHeading = normalize_heading c) ∧
      (inHold = false → nav1.turnRadius = 0 ∧ nav1.turnDirection = 0) ∧
      (inHold = true →
        nav1.turnRadius = nav.turnRadius ∧ nav1.turnDirection = nav.turnDirection) := by
  unfold follow_straight_path at h
  obtain ⟨c1, _, h⟩ := (stop_bind_ok_iff _ _ _).mp h
  obtain ⟨c2, _, h⟩ := (stop_bind_ok_iff _ _ _).mp h
  cases inHold with
  | false =>
    simp only [if_true, stop_pure_eq_ok, Except.ok.injEq] at h
    subst h
    exact ⟨rfl, rfl, ⟨_, rfl⟩, fun _ => ⟨rfl, rfl⟩, fun e => Bool.noConfusion e⟩
  | true =>
    simp only [stop_pure_eq_ok] at h
    have h2 := Except.ok.inj h
    subst h2
    exact ⟨rfl, rfl, ⟨_, rfl⟩, fun e => Bool.noConfusion e, fun _ => ⟨rfl, rfl⟩⟩

/-- A straight-path result, seen from `follow_waypoints`. -/
theorem Followed.straight (fuel : Nat) (m m1 : WaypointManager) (nav nav1 : NavigationData F)
    (waypointDirection targetWaypoint position : Vec3 F) (heading : F)
    (hm : m1 = m ∨ m1 = { m with inHold := true })
    (hd : m.inHold = false → m1.inHold = true → nav.turnDirection = 1)
    (h : follow_straight_path lib fuel m1.inHold nav waypointDirection targetWaypoint position
      heading = .ok nav1) : Followed m m1 nav1 := by
  obtain ⟨_, _, ⟨c, hc⟩, h0, h1⟩ := follow_straight_path_spec lib _ _ _ _ _ _ _ _ h
  refine ⟨hm, fun hm0 => ?_, fun hh _ => h0 hh, ?_⟩
  · cases hh : m1.inHold with
    | false => exact Or.inr (Or.inl (h0 hh).2)
    | true => exact Or.inr (Or.inr ((h1 hh).2.trans (hd hm0 hh)))
  · rw [hc]
    exact normalize_heading_range c

/-- An orbit result, seen from `follow_waypoints`. -/
theorem Followed.orbit (fuel : Nat) (m : WaypointManager) (nav nav1 : NavigationData F)
    (position : Vec3 F) (heading : F)
    (hd : nav.turnDirection = -1 ∨ nav.turnDirection = 0 ∨ nav.turnDirection = 1)
    (h : follow_orbit lib fuel nav position heading = .ok nav1) : Followed m m nav1 := by
  obtain ⟨c, hc⟩ := follow_orbit_spec lib _ _ _ _ _ h
  subst hc
  exact ⟨Or.inl rfl, fun _ => hd, fun _ e => WaypointOutputType.noConfusion e,
    normalize_heading_range c⟩

theorem follow_last_line_segment_spec (fuel : Nat) (m m1 : WaypointManager)
    (nav nav1 : NavigationData F) (currentWaypoint : Option Ptr) (position : Vec3 F)
    (heading : F)
    (h : follow_last_line_segment lib fuel m nav currentWaypoint position heading =
      .ok (m1, nav1)) : Followed m m1 nav1 := by
  unfold follow_last_line_segment at h
  obtain ⟨tw, _, h⟩ := (stop_bind_ok_iff _ _ _).mp h
  obtain ⟨nav3, h3, h⟩ := (stop_bind_ok_iff _ _ _).mp h
  simp only [stop_pure_eq_ok, Except.ok.injEq, Prod.mk.injEq] at h
  obtain ⟨hm, hn⟩ := h
  subst hn
  rw [hm] at h3
  split_ifs at hm h3 with hdot
  · exact Followed.straight lib fuel m m1 _ _ _ _ _ _ (Or.inr hm.symm) (fun _ _ => rfl) h3
  · refine Followed.straight lib fuel m m1 _ _ _ _ _ _ (Or.inl hm.symm) (fun h0 hh => ?_) h3
    rw [← hm, h0] at hh
    exact Bool.noConfusion hh

theorem follow_line_segment_spec (fuel : Nat) (m m1 : WaypointManager)
    (nav nav1 : NavigationData F) (currentWaypoint : Option Ptr) (position : Vec3 F)
    (heading : F)
    (h : follow_line_segment lib fuel m nav currentWaypoint position heading =
      .ok (m1, nav1)) : Followed m m1 nav1 := by
  unfold follow_line_segment at h
  obtain ⟨cw, _, h⟩ := (stop_bind_ok_iff _ _ _).mp h
  obtain ⟨tw, _, h⟩ := (stop_bind_ok_iff _ _ _).mp h
  obtain ⟨nav2, h2, h⟩ := (stop_bind_ok_iff _ _ _).mp h
  simp only [stop_pure_eq_ok, Except.ok.injEq, Prod.mk.injEq] at h
  obtain ⟨hm, hn⟩ := h
  subst hn
  subst hm
  refine Followed.straight lib fuel m m _ _ _ _ _ _ (Or.inl rfl) (fun h0 hh => ?_) h2
  rw [h0] at hh
  exact Bool.noConfusion hh

/-- The straight-path call of `follow_waypoints`, entered with or without the
hold that a passed `HOLD_WAYPOINT` starts. -/
theorem Followed.straight_hold (fuel : Nat) (m m1 : WaypointManager)
    (nav2 navH nav1 : NavigationData F) (hold : Bool) (hH : navH.turnDirection = 1)
    (waypointDirection targetWaypoint position : Vec3 F) (heading : F)
    (h : (follow_straight_path lib fuel
        (if hold = true then { m with inHold := true } else m).inHold
        (if hold = true then navH else nav2) waypointDirection targetWaypoint position heading
        >>= fun nav4 => (pure ((if hold = true then { m with inHold := true } else m), nav4) :
          Except Stop (WaypointManager × NavigationData F))) = .ok (m1, nav1)) :
    Followed m m1 nav1 := by
  obtain ⟨nav4, h4, h⟩ := (stop_bind_ok_iff _ _ _).mp h
  simp only [stop_pure_eq_ok, Except.ok.injEq, Prod.mk.injEq] at h
  obtain ⟨hm, hn⟩ := h
  subst hn
  cases hold with
  | true =>
    simp only [if_true] at hm h4
    subst hm
    exact Followed.straight lib fuel m _ _ _ _ _ _ _ (Or.inr rfl) (fun _ _ => hH) h4
  | false =>
    have hf : ¬ ((false : Bool) = true) := fun e => Bool.noConfusion e
    simp only [if_neg hf] at hm h4
    subst hm
    refine Followed.straight lib fuel m m _ _ _ _ _ _ (Or.inl rfl) (fun h0 hh => ?_) h4
    rw [h0] at hh
    exact Bool.noConfusion hh

theorem follow_waypoints_spec (fuel : Nat) (m m1 : WaypointManager)
    (nav nav1 : NavigationData F) (currentWaypoint : Option Ptr) (position : Vec3 F)
    (heading : F)
    (h : follow_waypoints lib fuel m nav currentWaypoint position heading =
      .ok (m1, nav1)) : Followed m m1 nav1 := by
  unfold follow_waypoints at h
  obtain ⟨cw, _, h⟩ := (stop_bind_ok_iff _ _ _).mp h
  split at h
  · exact follow_last_line_segment_spec lib _ _ _ _ _ _ _ _ h
  · obtain ⟨tw, _, h⟩ := (stop_bind_ok_iff _ _ _).mp h
    split at h
    · exact follow_line_segment_spec lib _ _ _ _ _ _ _ _ h
    · obtain ⟨wa, _, h⟩ := (stop_bind_ok_iff _ _ _).mp h
      dsimp only at h
      by_cases hp : nav.orbitPathStatus = PATH_FOLLOW
      · rw [if_pos hp] at h
        exact Followed.straight_hold lib fuel m m1 _ _ _ _ rfl _ _ _ _ h
      · rw [if_neg hp] at h
        by_cases hh : m.inHold = true
        · rw [if_pos hh] at h
          obtain ⟨nav3, h3, h⟩ := (stop_bind_ok_iff _ _ _).mp h
          simp only [stop_pure_eq_ok, Except.ok.injEq, Prod.mk.injEq] at h
          obtain ⟨hm, hn⟩ := h
          subst hn
          subst hm
          refine Followed.orbit lib fuel m _ _ _ _ ?_ h3
          dsimp only
          split_ifs
          · exact Or.inr (Or.inr rfl)
          · exact Or.inl rfl
        · rw [if_neg hh] at h
          obtain ⟨nav3, h3, h⟩ := (stop_bind_ok_iff _ _ _).mp h
          simp only [stop_pure_eq_ok, Except.ok.injEq, Prod.mk.injEq] at h
          obtain ⟨hm, hn⟩ := h
          subst hn
          subst hm
          refine Followed.orbit lib fuel m _ _ _ _ ?_ h3
          simp only [apply_ite NavigationData.turnDirection, ite_self]
          split_ifs
          · exact Or.inr (Or.inr rfl)
          · exact Or.inl rfl

end NavigationFollowers

/-! ## Navigation: the tick -/

theorem TickFrame.refl (a : Ptr) (m : WaypointManager) : TickFrame a m m :=
  ⟨rfl, rfl, rfl, rfl, rfl, rfl, rfl, rfl, rfl, rfl, fun _ _ _ => rfl⟩

theorem TickFrame.trans {a : Ptr} {m m1 m2 : WaypointManager} (h1 : TickFrame a m m1)
    (h2 : TickFrame a m1 m2) : TickFrame a m m2 := by
  obtain ⟨a1, a2, a3, a4, a5, a6, a7, a8, a9, a11, a10⟩ := h1
  obtain ⟨b1, b2, b3, b4, b5, b6, b7, b8, b9, b11, b10⟩ := h2
  refine ⟨b1.trans a1, b2.trans a2, b3.trans a3, b4.trans a4, b5.trans a5, b6.trans a6,
    b7.trans a7, b8.trans a8, b9.trans a9, b11.trans a11, fun p hp hh => ?_⟩
  rw [b10 p hp (by rw [a7]; exact hh), a10 p hp hh]

theorem assign_ok_iff (m m1 : WaypointManager) (p : Option Ptr) (f : PathData → PathData) :
    assign m p f = .ok m1 ↔
      ∃ b d, p = some b ∧ m.heap b = some d ∧
        m1 = { m with heap := Function.update m.heap b (some (f d)) } := by
  cases p with
  | none => simp [assign]
  | some b =>
    cases hb : m.heap b with
    | none => simp [assign, hb]
    | some d =>
      simp only [assign, hb, Except.ok.injEq]
      constructor
      · intro e
        exact ⟨b, d, rfl, hb, e.symm⟩
      · rintro ⟨b1, d1, e1, e2, e3⟩
        have e4 : b = b1 := Option.some.inj e1
        subst e4
        rw [hb] at e2
        have e5 : d = d1 := Option.some.inj e2
        subst e5
        exact e3.symm

theorem free_ok_iff (m m1 : WaypointManager) (a : Ptr) :
    free m (some a) = .ok m1 ↔
      (m.heap a).isSome = true ∧ m1 = { m with heap := Function.update m.heap a none } := by
  cases hb : m.heap a with
  | none => simp [free, hb]
  | some d =>
    simp only [free, hb, Except.ok.injEq, Option.isSome_some, true_and]
    exact ⟨fun e => e.symm, fun e => e.symm⟩

/-- An assignment through the home pointer stays inside the frame of a tick. -/
theorem TickFrame.assign_home {a : Ptr} {m m1 : WaypointManager} (f : PathData → PathData)
    (h : assign m m.homeBase f = .ok m1) : TickFrame a m m1 := by
  obtain ⟨b, d, hb, _, hm⟩ := (assign_ok_iff _ _ _ _).mp h
  subst hm
  refine ⟨rfl, rfl, rfl, rfl, rfl, rfl, rfl, rfl, rfl, rfl, fun p _ hh => ?_⟩
  have hpb : p ≠ b := fun e => hh (by rw [hb, e])
  simp only [Function.update_apply, if_neg hpb]

/-- The statement `delete currentPosition` stays inside the frame of a tick. -/
theorem TickFrame.free_transient {a : Ptr} {m m1 : WaypointManager}
    (h : free m (some a) = .ok m1) : TickFrame a m m1 ∧ m1.heap a = none := by
  obtain ⟨_, hm⟩ := (free_ok_iff _ _ _).mp h
  subst hm
  refine ⟨⟨rfl, rfl, rfl, rfl, rfl, rfl, rfl, rfl, rfl, rfl, fun p hp _ => ?_⟩, ?_⟩
  · simp only [Function.update_apply, if_neg hp]
  · simp only [Function.update_same]

/-- A follower stays inside the frame of a tick, and leaves the heap alone. -/
theorem TickFrame.of_followed {F : Type} [LinearOrderedField F] {a : Ptr}
    {m m1 : WaypointManager} {nav1 : NavigationData F} (h : Followed m m1 nav1) :
    TickFrame a m m1 ∧ m1.heap = m.heap := by
  obtain ⟨hm | hm, _⟩ := h
  · subst hm
    exact ⟨TickFrame.refl a _, rfl⟩
  · subst hm
    exact ⟨⟨rfl, rfl, rfl, rfl, rfl, rfl, rfl, rfl, rfl, rfl, fun _ _ _ => rfl⟩, rfl⟩

theorem assign_inHold {m m1 : WaypointManager} {p : Option Ptr} {f : PathData → PathData}
    (h : assign m p f = .ok m1) : m1.inHold = m.inHold := by
  obtain ⟨b, d, _, _, hm⟩ := (assign_ok_iff _ _ _ _).mp h
  rw [hm]

theorem free_inHold {m m1 : WaypointManager} {a : Ptr}
    (h : free m (some a) = .ok m1) : m1.inHold = m.inHold := by
  obtain ⟨_, hm⟩ := (free_ok_iff _ _ _).mp h
  rw [hm]

section NavigationTick

variable {F : Type} [LinearOrderedField F] (lib : MathLib F)

/-- The hold branch of the tick: in a hold whose parameters pass the check, with
`M_PI` positive and enough iterations allowed, `get_next_directions` returns
`WAYPOINT_SUCCESS`, touches nothing of the manager but `errorCode`, and writes the
orbit output. -/
theorem hold_tick_returns [Archimedean F] (hpi : 0 < lib.pi) (PATH_BUFFER_SIZE : Nat)
    (m : WaypointManager) (nav : NavigationData F) (a : Ptr)
    (currentStatus : WaypointManager_Data_In) (Data : WaypointManager_Data_Out F)
    (hh : m.inHold = true)
    (hg : ¬ (nav.turnRadius ≤ 0 ∨ nav.turnDirection < -1 ∨ 1 < nav.turnDirection)) :
    ∃ (c : Int) (N : Nat), ∀ fuel, N ≤ fuel →
      get_next_directions lib fuel PATH_BUFFER_SIZE m nav a currentStatus Data =
        .ok ({ m with errorCode := WAYPOINT_SUCCESS },
          { nav with
            desiredHeading := normalize_heading c
            distanceToNextWaypoint := 0
            outputType := ORBIT_FOLLOW
            desiredAltitude := nav.turnDesiredAltitude
            dataIsNew := false },
          { desiredHeading := normalize_heading c
            desiredAltitude := nav.turnDesiredAltitude
            distanceToNextWaypoint := 0
            radius := nav.turnRadius
            turnDirection := nav.turnDirection
            errorCode := WAYPOINT_SUCCESS
            isDataNew := true
            timeOfData := 0
            out_type := ORBIT_FOLLOW },
          WAYPOINT_SUCCESS) := by
  obtain ⟨c, N, hN⟩ := follow_orbit_returns lib hpi nav
    { c0 := (get_coordinates lib nav (currentStatus.longitude : F)
        (currentStatus.latitude : F)).1
      c1 := (get_coordinates lib nav (currentStatus.longitude : F)
        (currentStatus.latitude : F)).2
      c2 := (currentStatus.altitude : F) } (currentStatus.heading : F)
  refine ⟨c, N, fun fuel hf => ?_⟩
  unfold get_next_directions
  dsimp only
  rw [if_pos hh, if_neg hg]
  unfold follow_hold_pattern
  dsimp only
  rw [hN fuel hf]
  rfl

/-- Whenever `get_next_directions` returns: what it did to the manager, and what
it wrote. -/
theorem tick_spec (fuel PATH_BUFFER_SIZE : Nat) (m m1 : WaypointManager)
    (nav nav1 : NavigationData F) (a : Ptr) (currentStatus : WaypointManager_Data_In)
    (Data out : WaypointManager_Data_Out F) (s : WaypointStatus)
    (h : get_next_directions lib fuel PATH_BUFFER_SIZE m nav a currentStatus Data =
      .ok (m1, nav1, out, s)) :
    TickFrame a { m with errorCode := WAYPOINT_SUCCESS } m1 ∧
      ((m.inHold = true ∨ m.goingHome = false ∨ s ≠ WAYPOINT_SUCCESS) → m1.heap = m.heap) ∧
      (m.heap a = none → m1.heap a = none) ∧
      ((s ≠ WAYPOINT_SUCCESS ∧ out = Data ∧ nav1 = nav ∧ m1.inHold = m.inHold) ∨
        (s = WAYPOINT_SUCCESS ∧ Written nav1 out ∧
          (nav1.turnDirection = -1 ∨ nav1.turnDirection = 0 ∨ nav1.turnDirection = 1) ∧
          (m1.inHold = false → nav1.outputType = PATH_FOLLOW →
            nav1.turnRadius = 0 ∧ nav1.turnDirection = 0) ∧
          0 ≤ nav1.desiredHeading ∧ nav1.desiredHeading < 360)) := by
  unfold get_next_directions at h
  dsimp only at h
  by_cases hh : m.inHold = true
  · rw [if_pos hh] at h
    by_cases hg : nav.turnRadius ≤ 0 ∨ nav.turnDirection < -1 ∨ 1 < nav.turnDirection
    · rw [if_pos hg] at h
      simp only [stop_pure_eq_ok, Except.ok.injEq, Prod.mk.injEq] at h
      obtain ⟨hm, hn, ho, hs⟩ := h
      subst hm hn ho hs
      exact ⟨TickFrame.refl a _, fun _ => rfl, fun e => e,
        Or.inl ⟨fun e => WaypointStatus.noConfusion e, rfl, rfl, rfl⟩⟩
    · rw [if_neg hg] at h
      obtain ⟨nav2, h2, h⟩ := (stop_bind_ok_iff _ _ _).mp h
      simp only [stop_pure_eq_ok, Except.ok.injEq, Prod.mk.injEq, update_return_data] at h
      obtain ⟨hm, hn, ho, hs⟩ := h
      subst hm hn ho hs
      unfold follow_hold_pattern at h2
      obtain ⟨c, hc⟩ := follow_orbit_spec lib _ _ _ _ _ h2
      subst hc
      refine ⟨TickFrame.refl a _, fun _ => rfl, fun e => e,
        Or.inr ⟨rfl, ⟨rfl, rfl, rfl, rfl, rfl, rfl, rfl, rfl, rfl, rfl⟩, ?_,
          fun _ e => WaypointOutputType.noConfusion e, normalize_heading_range c⟩⟩
      simp only [not_or, not_le, not_lt] at hg
      dsimp only
      omega
  · rw [if_neg hh] at h
    have hh0 : m.inHold = false := by
      cases hv : m.inHold with
      | false => rfl
      | true => exact absurd hv hh
    by_cases hgo : m.goingHome = true
    · rw [if_pos hgo] at h
      by_cases hb : m.homeBase = none
      · rw [if_pos hb] at h
        simp only [stop_pure_eq_ok, Except.ok.injEq, Prod.mk.injEq] at h
        obtain ⟨hm, hn, ho, hs⟩ := h
        subst hm hn ho hs
        exact ⟨TickFrame.refl a _, fun _ => rfl, fun e => e,
          Or.inl ⟨fun e => WaypointStatus.noConfusion e, rfl, rfl, rfl⟩⟩
      · rw [if_neg hb] at h
        obtain ⟨m2, h2, h⟩ := (stop_bind_ok_iff _ _ _).mp h
        obtain ⟨m3, h3, h⟩ := (stop_bind_ok_iff _ _ _).mp h
        obtain ⟨m4, h4, h⟩ := (stop_bind_ok_iff _ _ _).mp h
        obtain ⟨⟨mr, navr⟩, hr, h⟩ := (stop_bind_ok_iff _ _ _).mp h
        obtain ⟨m5, h5, h⟩ := (stop_bind_ok_iff _ _ _).mp h
        obtain ⟨m6, h6, h⟩ := (stop_bind_ok_iff _ _ _).mp h
        rw [liftFault_ok_iff] at h2 h3 h4 h5 h6
        simp only [stop_pure_eq_ok, Except.ok.injEq, Prod.mk.injEq, update_return_data] at h
        obtain ⟨hm, hn, ho, hs⟩ := h
        subst hm hn ho hs
        have hF := follow_waypoints_spec lib _ _ _ _ _ _ _ _ hr
        have f0 : TickFrame a { m with errorCode := WAYPOINT_SUCCESS }
            { m with
              errorCode := WAYPOINT_SUCCESS
              heap := Function.update m.heap a (some
                { waypointId := 0
                  latitude := currentStatus.latitude
                  longitude := currentStatus.longitude
                  altitude := truncate currentStatus.altitude
                  turnRadius := -1
                  waypointType := PATH_FOLLOW
                  previous := none
                  next := m.homeBase }) } :=
          ⟨rfl, rfl, rfl, rfl, rfl, rfl, rfl, rfl, rfl, rfl, fun p hp _ => by
            simp only [Function.update_apply, if_neg hp]⟩
        have f2 := TickFrame.assign_home (a := a) _ h2
        have f3 := TickFrame.assign_home (a := a) _ h3
        have f4 := TickFrame.assign_home (a := a) _ h4
        have f5 := (TickFrame.of_followed (a := a) hF).1
        have f6 := TickFrame.assign_home (a := a) _ h5
        have f7 := TickFrame.free_transient h6
        have fr := f0.trans (f2.trans (f3.trans (f4.trans f5)))
        have ft := fr.trans (f6.trans f7.1)
        have hi4 : m4.inHold = false := by
          rw [assign_inHold h4, assign_inHold h3, assign_inHold h2]
          exact hh0
        have hi6 : m6.inHold = mr.inHold := by
          rw [free_inHold h6, assign_inHold h5]
        obtain ⟨_, hd, hz, hr0, hr1⟩ := hF
        refine ⟨ft, fun hc => ?_, fun _ => f7.2, Or.inr ⟨ft.2.2.2.2.2.2.2.2.2.1,
          ⟨fr.2.2.2.2.2.2.2.2.2.1, rfl, rfl, rfl, rfl, rfl, rfl, rfl, rfl, rfl⟩, hd hi4,
          fun e => hz (hi6 ▸ e), hr0, hr1⟩⟩
        rcases hc with hc | hc | hc
        · exact absurd hc hh
        · rw [hgo] at hc
          exact Bool.noConfusion hc
        · exact absurd ft.2.2.2.2.2.2.2.2.2.1 hc
    · rw [if_neg hgo] at h
      by_cases hc : m.numWaypoints - m.currentIndex < 1 ∧ 0 ≤ m.numWaypoints
      · rw [if_pos hc] at h
        simp only [stop_pure_eq_ok, Except.ok.injEq, Prod.mk.injEq] at h
        obtain ⟨hm, hn, ho, hs⟩ := h
        subst hm hn ho hs
        exact ⟨TickFrame.refl a _, fun _ => rfl, fun e => e,
          Or.inl ⟨fun e => WaypointStatus.noConfusion e, rfl, rfl, rfl⟩⟩
      · rw [if_neg hc] at h
        obtain ⟨p, _, h⟩ := (stop_bind_ok_iff _ _ _).mp h
        obtain ⟨⟨mr, navr⟩, hr, h⟩ := (stop_bind_ok_iff _ _ _).mp h
        simp only [stop_pure_eq_ok, Except.ok.injEq, Prod.mk.injEq, update_return_data] at h
        obtain ⟨hm, hn, ho, hs⟩ := h
        subst hm hn ho hs
        have hF := follow_waypoints_spec lib _ _ _ _ _ _ _ _ hr
        have f5 := TickFrame.of_followed (a := a) hF
        obtain ⟨_, hd, hz, hr0, hr1⟩ := hF
        exact ⟨f5.1, fun _ => f5.2, fun e => by rw [f5.2]; exact e,
          Or.inr ⟨f5.1.2.2.2.2.2.2.2.2.2.1,
            ⟨f5.1.2.2.2.2.2.2.2.2.2.1, rfl, rfl, rfl, rfl, rfl, rfl, rfl, rfl, rfl⟩, hd hh0,
            hz, hr0, hr1⟩⟩

end NavigationTick

/-! ## Navigation: the claims about `get_next_directions` -/

/-- C15 fails on the code: the three early returns of `get_next_directions` leave
the output record as the caller handed it in. With `WAYPOINT_SUCCESS` in the
record's `errorCode` beforehand: on a manager fresh from the constructor the tick
returns `CURRENT_INDEX_INVALID`; in the hold that `start_circling` starts with the
radius `0` it returns `INVALID_PARAMETERS`; after `head_home` and a new
`initialize_flight_path` with a null current location, so with `goingHome` set and
no home, it returns `UNDEFINED_PARAMETER`; and each time the record still says
`WAYPOINT_SUCCESS`, with `isDataNew` false. -/
theorem early_return_leaves_output :
    tick 0 emptyManager (emptyNavigation 43 (-80)) =
      .ok (emptyManager, emptyNavigation 43 (-80), blankOut, CURRENT_INDEX_INVALID) ∧
    start_circling coarseLib 1 emptyManager (emptyNavigation 43 (-80)) telemetry 0 1 50 false
      = .ok circlingFlat ∧
    circlingFlat.1.inHold = true ∧ circlingFlat.2.turnRadius = 0 ∧
    tick 0 circlingFlat.1 circlingFlat.2 =
      .ok (circlingFlat.1, circlingFlat.2, blankOut, INVALID_PARAMETERS) ∧
    head_home 5 twoWithHome = .ok (headingHome, true) ∧
    statusOf (initialize_flight_path_home 5 headingHome [some 12, some 13] 2 none)
      = .ok WAYPOINT_SUCCESS ∧
    homeless.goingHome = true ∧ homeless.homeBase = none ∧ homeless.inHold = false ∧
    tick 0 homeless (emptyNavigation 43 (-80)) =
      .ok ({ homeless with errorCode := WAYPOINT_SUCCESS }, emptyNavigation 43 (-80),
        blankOut, UNDEFINED_PARAMETER) ∧
    blankOut.errorCode = WAYPOINT_SUCCESS ∧ blankOut.isDataNew = false := by
  refine ⟨?_, ?_, ?_, ?_, ?_, ?_, ?_, ?_, ?_, ?_, ?_, rfl, rfl⟩ <;> with_unfolding_all rfl

/-- C16 fails on the code for the direction `0`: on a manager fresh from the
constructor, `start_circling` with the radius `100` and the direction `0` returns
with `inHold` set and the direction `0` stored, and the next tick of
`get_next_directions` runs the orbit follower: it returns `WAYPOINT_SUCCESS`, not
`INVALID_PARAMETERS`, and writes an `ORBIT_FOLLOW` output with the radius `100`
and the turn direction `0`. -/
theorem hold_direction_zero_accepted :
    start_circling coarseLib 0 emptyManager (emptyNavigation 43 (-80)) telemetry 100 0 50 false
      = .ok circlingZero ∧
    circlingZero.1.inHold = true ∧ circlingZero.2.turnRadius = 100 ∧
    circlingZero.2.turnDirection = 0 ∧
    tickStatus (tick 0 circlingZero.1 circlingZero.2) = some WAYPOINT_SUCCESS ∧
    tickOutput (tick 0 circlingZero.1 circlingZero.2) = some
      { desiredHeading := 90
        desiredAltitude := 50
        distanceToNextWaypoint := 0
        radius := 100
        turnDirection := 0
        errorCode := WAYPOINT_SUCCESS
        isDataNew := true
        timeOfData := 0
        out_type := ORBIT_FOLLOW } := by
  refine ⟨?_, ?_, ?_, ?_, ?_, ?_⟩ <;> with_unfolding_all rfl

section NavigationClaims

variable {F : Type} [LinearOrderedField F] (lib : MathLib F)

/-- C18. Bounded turn direction: whenever `get_next_directions` returns, from any
manager state, navigation state (whatever turn direction an earlier
`start_circling` left there) and telemetry, either it returns an error status and
the output record is as the caller handed it in, or it returns `WAYPOINT_SUCCESS`
and has written the record, and then the written `turnDirection` is `-1`, `0` or
`1`; and when the record reports `PATH_FOLLOW` (the straight-path follower ran
last) and no hold is active after the tick, the written `radius` and
`turnDirection` are both `0`. -/
theorem written_turn_direction_bounded (fuel PATH_BUFFER_SIZE : Nat)
    (m m1 : WaypointManager) (nav nav1 : NavigationData F) (a : Ptr)
    (currentStatus : WaypointManager_Data_In) (Data out : WaypointManager_Data_Out F)
    (s : WaypointStatus)
    (h : get_next_directions lib fuel PATH_BUFFER_SIZE m nav a currentStatus Data =
      .ok (m1, nav1, out, s)) :
    (s ≠ WAYPOINT_SUCCESS ∧ out = Data) ∨
      (s = WAYPOINT_SUCCESS ∧ out.isDataNew = true ∧
        (out.turnDirection = -1 ∨ out.turnDirection = 0 ∨ out.turnDirection = 1) ∧
        (m1.inHold = false → out.out_type = PATH_FOLLOW →
          out.radius = 0 ∧ out.turnDirection = 0)) := by
  obtain ⟨_, _, _, hw⟩ := tick_spec lib _ _ _ _ _ _ _ _ _ _ _ h
  rcases hw with ⟨hs, ho, _, _⟩ | ⟨hs, hW, hd, hz, _, _⟩
  · exact Or.inl ⟨hs, ho⟩
  · obtain ⟨_, hnew, _, _, _, _, hrad, hdir, htype, _⟩ := hW
    refine Or.inr ⟨hs, hnew, ?_, fun hi ht => ?_⟩
    · rw [hdir]
      exact hd
    · rw [hrad, hdir]
      exact hz hi (htype ▸ ht)

theorem written_turn_direction_bounded_witness :
    tick 0 threeWaypoints (emptyNavigation 43 (-80)) =
        .ok (threeWaypoints, straightNavigation, straightOut, WAYPOINT_SUCCESS) ∧
      ((WAYPOINT_SUCCESS ≠ WAYPOINT_SUCCESS ∧ straightOut = blankOut) ∨
        (WAYPOINT_SUCCESS = WAYPOINT_SUCCESS ∧ straightOut.isDataNew = true ∧
          (straightOut.turnDirection = -1 ∨ straightOut.turnDirection = 0 ∨
            straightOut.turnDirection = 1) ∧
          (threeWaypoints.inHold = false → straightOut.out_type = PATH_FOLLOW →
            straightOut.radius = 0 ∧ straightOut.turnDirection = 0))) :=
  ⟨by with_unfolding_all rfl,
    written_turn_direction_bounded coarseLib 0 5 threeWaypoints threeWaypoints
      (emptyNavigation 43 (-80)) straightNavigation 20 telemetry blankOut straightOut
      WAYPOINT_SUCCESS (by with_unfolding_all rfl)⟩

/-- C19. Heading normalisation: for every integer `h`, the two loops of the
followers (subtract `360` while `h >= 360`, then add `360` while `h < 0`), which
are total functions, yield exactly `h mod 360`, a value in `[0, 360)`; with `M_PI`
positive and the wrapping loops allowed enough iterations, `follow_orbit` and
`follow_straight_path` return and the `desiredHeading` they store is such a
remainder, in `[0, 360)`; and so is the heading of every call that returns. -/
theorem heading_normalisation [Archimedean F] (hpi : 0 < lib.pi) (h : Int) (inHold : Bool)
    (nav : NavigationData F) (waypointDirection targetWaypoint position : Vec3 F)
    (heading : F) :
    normalize_heading h = heading_modulo h ∧
      0 ≤ normalize_heading h ∧ normalize_heading h < 360 ∧
      (∃ N : Nat, ∀ fuel, N ≤ fuel → ∃ (nav1 : NavigationData F) (c : Int),
        follow_orbit lib fuel nav position heading = .ok nav1 ∧
          nav1.desiredHeading = heading_modulo c ∧
          0 ≤ nav1.desiredHeading ∧ nav1.desiredHeading < 360) ∧
      (∃ N : Nat, ∀ fuel, N ≤ fuel → ∃ (nav1 : NavigationData F) (c : Int),
        follow_straight_path lib fuel inHold nav waypointDirection targetWaypoint position
            heading = .ok nav1 ∧
          nav1.desiredHeading = heading_modulo c ∧
          0 ≤ nav1.desiredHeading ∧ nav1.desiredHeading < 360) ∧
      (∀ (fuel : Nat) (nav1 : NavigationData F),
        follow_orbit lib fuel nav position heading = .ok nav1 →
          0 ≤ nav1.desiredHeading ∧ nav1.desiredHeading < 360) ∧
      (∀ (fuel : Nat) (nav1 : NavigationData F),
        follow_straight_path lib fuel inHold nav waypointDirection targetWaypoint position
            heading = .ok nav1 →
          0 ≤ nav1.desiredHeading ∧ nav1.desiredHeading < 360) := by
  refine ⟨normalize_heading_eq h, (normalize_heading_range h).1,
    (normalize_heading_range h).2, ?_, ?_, ?_, ?_⟩
  · obtain ⟨c, N, hN⟩ := follow_orbit_returns lib hpi nav position heading
    exact ⟨N, fun fuel hf => ⟨_, c, hN fuel hf, normalize_heading_eq c,
      normalize_heading_range c⟩⟩
  · obtain ⟨N, hN⟩ := follow_straight_path_returns lib hpi inHold nav waypointDirection
      targetWaypoint position heading
    refine ⟨N, fun fuel hf => ?_⟩
    obtain ⟨nav1, h1⟩ := hN fuel hf
    obtain ⟨_, _, ⟨c, hc⟩, _, _⟩ := follow_straight_path_spec lib _ _ _ _ _ _ _ _ h1
    exact ⟨nav1, c, h1, hc.trans (normalize_heading_eq c), hc ▸ normalize_heading_range c⟩
  · intro fuel nav1 h1
    obtain ⟨c, hc⟩ := follow_orbit_spec lib _ _ _ _ _ h1
    subst hc
    exact normalize_heading_range c
  · intro fuel nav1 h1
    obtain ⟨_, _, ⟨c, hc⟩, _, _⟩ := follow_straight_path_spec lib _ _ _ _ _ _ _ _ h1
    exact hc ▸ normalize_heading_range c

theorem heading_normalisation_witness :
    normalize_heading (-450) = heading_modulo (-450) ∧
      0 ≤ normalize_heading (-450) ∧ normalize_heading (-450) < 360 ∧
      (∃ N : Nat, ∀ fuel, N ≤ fuel → ∃ (nav1 : NavigationData ℚ) (c : Int),
        follow_orbit coarseLib fuel holdNavigation { c0 := 0, c1 := 0, c2 := 100 } 0 =
            .ok nav1 ∧
          nav1.desiredHeading = heading_modulo c ∧
          0 ≤ nav1.desiredHeading ∧ nav1.desiredHeading < 360) ∧
      (∃ N : Nat, ∀ fuel, N ≤ fuel → ∃ (nav1 : NavigationData ℚ) (c : Int),
        follow_straight_path coarseLib fuel false holdNavigation { c0 := 1, c1 := 0, c2 := 0 }
            { c0 := 1000, c1 := 0, c2 := 100 } { c0 := 0, c1 := 0, c2 := 100 } 0 = .ok nav1 ∧
          nav1.desiredHeading = heading_modulo c ∧
          0 ≤ nav1.desiredHeading ∧ nav1.desiredHeading < 360) ∧
      (∀ (fuel : Nat) (nav1 : NavigationData ℚ),
        follow_orbit coarseLib fuel holdNavigation { c0 := 0, c1 := 0, c2 := 100 } 0 =
            .ok nav1 →
          0 ≤ nav1.desiredHeading ∧ nav1.desiredHeading < 360) ∧
      (∀ (fuel : Nat) (nav1 : NavigationData ℚ),
        follow_straight_path coarseLib fuel false holdNavigation { c0 := 1, c1 := 0, c2 := 0 }
            { c0 := 1000, c1 := 0, c2 := 100 } { c0 := 0, c1 := 0, c2 := 100 } 0 = .ok nav1 →
          0 ≤ nav1.desiredHeading ∧ nav1.desiredHeading < 360) :=
  heading_normalisation coarseLib (by norm_num [coarseLib]) (-450) false holdNavigation
    { c0 := 1, c1 := 0, c2 := 0 } { c0 := 1000, c1 := 0, c2 := 100 }
    { c0 := 0, c1 := 0, c2 := 100 } 0

/-- C20 (amended). No auto-advance: whenever `get_next_directions` returns, with
the address `a` that `new` hands out not in use before, `currentIndex`,
`numWaypoints`, `nextFilledIndex`, every buffer slot and every occupancy tag are
as before, whichever branch it took (hold, home-return, waypoint following, early
return), and so are `homeBase` and `goingHome`; every waypoint record other than
the home record is as before, so the links between buffered waypoints are
unchanged when the home waypoint is not itself in the buffer; and unless the
home-return branch ran, the whole heap is as before. -/
theorem tick_keeps_buffer (fuel PATH_BUFFER_SIZE : Nat) (m m1 : WaypointManager)
    (nav nav1 : NavigationData F) (a : Ptr) (currentStatus : WaypointManager_Data_In)
    (Data out : WaypointManager_Data_Out F) (s : WaypointStatus)
    (hfresh : m.heap a = none)
    (h : get_next_directions lib fuel PATH_BUFFER_SIZE m nav a currentStatus Data =
      .ok (m1, nav1, out, s)) :
    m1.currentIndex = m.currentIndex ∧ m1.numWaypoints = m.numWaypoints ∧
      m1.nextFilledIndex = m.nextFilledIndex ∧ m1.waypointBuffer = m.waypointBuffer ∧
      m1.waypointBufferStatus = m.waypointBufferStatus ∧ m1.homeBase = m.homeBase ∧
      m1.goingHome = m.goingHome ∧
      (∀ p : Ptr, some p ≠ m.homeBase → m1.heap p = m.heap p) ∧
      ((m.inHold = true ∨ m.goingHome = false ∨ s ≠ WAYPOINT_SUCCESS) →
        m1.heap = m.heap) := by
  obtain ⟨⟨h1, h2, h3, h4, _, h6, h7, h8, _, _, h10⟩, hheap, ha, _⟩ :=
    tick_spec lib _ _ _ _ _ _ _ _ _ _ _ h
  refine ⟨h6, h3, h4, h1, h2, h7, h8, fun p hp => ?_, hheap⟩
  by_cases hpa : p = a
  · rw [hpa, ha hfresh, hfresh]
  · exact h10 p hpa hp

theorem tick_keeps_buffer_witness :
    headingHome.heap 20 = none ∧ headingHome.goingHome = true ∧
    tick 0 headingHome (emptyNavigation 43 (-80)) =
      .ok (tickState (tick 0 headingHome (emptyNavigation 43 (-80))), straightNavigation,
        straightOut, WAYPOINT_SUCCESS) ∧
    (tickState (tick 0 headingHome (emptyNavigation 43 (-80)))).currentIndex
        = headingHome.currentIndex ∧
      (tickState (tick 0 headingHome (emptyNavigation 43 (-80)))).numWaypoints
        = headingHome.numWaypoints ∧
      (tickState (tick 0 headingHome (emptyNavigation 43 (-80)))).nextFilledIndex
        = headingHome.nextFilledIndex ∧
      (tickState (tick 0 headingHome (emptyNavigation 43 (-80)))).waypointBuffer
        = headingHome.waypointBuffer ∧
      (tickState (tick 0 headingHome (emptyNavigation 43 (-80)))).waypointBufferStatus
        = headingHome.waypointBufferStatus ∧
      (tickState (tick 0 headingHome (emptyNavigation 43 (-80)))).homeBase
        = headingHome.homeBase ∧
      (tickState (tick 0 headingHome (emptyNavigation 43 (-80)))).goingHome
        = headingHome.goingHome ∧
      (∀ p : Ptr, some p ≠ headingHome.homeBase →
        (tickState (tick 0 headingHome (emptyNavigation 43 (-80)))).heap p
          = headingHome.heap p) ∧
      ((headingHome.inHold = true ∨ headingHome.goingHome = false ∨
          WAYPOINT_SUCCESS ≠ WAYPOINT_SUCCESS) →
        (tickState (tick 0 headingHome (emptyNavigation 43 (-80)))).heap
          = headingHome.heap) :=
  ⟨by with_unfolding_all rfl, by with_unfolding_all rfl, by with_unfolding_all rfl,
    tick_keeps_buffer coarseLib 0 5 headingHome
      (tickState (tick 0 headingHome (emptyNavigation 43 (-80)))) (emptyNavigation 43 (-80))
      straightNavigation 20 telemetry blankOut straightOut WAYPOINT_SUCCESS
      (by with_unfolding_all rfl) (by with_unfolding_all rfl)⟩

/-- C20 (as stated) fails when the home waypoint is itself in the buffer: from
`twoWithHome`, `head_home` returns `true` and leaves the cleared buffer with
`goingHome` set; the appends of the waypoint at `12` and of the home waypoint at
`14` both return `WAYPOINT_SUCCESS`, after which the slots `0` and `1` hold `12`
and `14`, linked to each other. The next tick of `get_next_directions` takes the
home-return branch and returns `WAYPOINT_SUCCESS`; afterwards the buffered
waypoint at `14` has no `previous` any more, while `12` still has it as `next`. -/
theorem tick_unlinks_buffered_home :
    head_home 5 twoWithHome = .ok (headingHome, true) ∧
    statusOf (update_path_nodes 5 headingHome (some 12) APPEND_WAYPOINT 0 0 0)
      = .ok WAYPOINT_SUCCESS ∧
    statusOf (update_path_nodes 5
      (stateOf (update_path_nodes 5 headingHome (some 12) APPEND_WAYPOINT 0 0 0))
      (some 14) APPEND_WAYPOINT 0 0 0) = .ok WAYPOINT_SUCCESS ∧
    homeAppended.numWaypoints = 2 ∧
    homeAppended.waypointBuffer 0 = some 12 ∧ homeAppended.waypointBuffer 1 = some 14 ∧
    homeAppended.waypointBufferStatus 0 = FULL ∧ homeAppended.waypointBufferStatus 1 = FULL ∧
    homeAppended.homeBase = some 14 ∧ homeAppended.goingHome = true ∧
    homeAppended.inHold = false ∧ homeAppended.heap 20 = none ∧
    (homeAppended.heap 12).map (fun d => d.next) = some (some 14) ∧
    (homeAppended.heap 14).map (fun d => d.previous) = some (some 12) ∧
    tickStatus (tick 0 homeAppended (emptyNavigation 43 (-80))) = some WAYPOINT_SUCCESS ∧
    (tickState (tick 0 homeAppended (emptyNavigation 43 (-80)))).waypointBuffer 1
      = some 14 ∧
    ((tickState (tick 0 homeAppended (emptyNavigation 43 (-80)))).heap 12).map
      (fun d => d.next) = some (some 14) ∧
    ((tickState (tick 0 homeAppended (emptyNavigation 43 (-80)))).heap 14).map
      (fun d => d.previous) = some none := by
  refine ⟨?_, ?_, ?_, ?_, ?_, ?_, ?_, ?_, ?_, ?_, ?_, ?_, ?_, ?_, ?_, ?_, ?_, ?_⟩ <;>
    with_unfolding_all rfl

end NavigationClaims

/-! ## A buffer of one waypoint -/

theorem oneWaypoint_packing : Packing 5 oneWaypoint := by
  have hn : oneWaypoint.numWaypoints = 1 := rfl
  refine ⟨by decide, by decide, rfl, ?_, ?_⟩
  · intro i h0 h1
    rw [hn] at h1
    have : i = 0 := by omega
    subst this
    exact ⟨rfl, 10, _, rfl, rfl⟩
  · intro i h0 h1
    rw [hn] at h0
    have : i = 1 ∨ i = 2 ∨ i = 3 ∨ i = 4 := by omega
    rcases this with rfl | rfl | rfl | rfl <;> exact ⟨rfl, rfl⟩

theorem oneWaypoint_linking : Linking oneWaypoint := by
  have hn : oneWaypoint.numWaypoints = 1 := rfl
  intro i h0 h1
  rw [hn] at h1
  have : i = 0 := by omega
  subst this
  exact ⟨10, _, ⟨rfl, rfl⟩, rfl, rfl⟩

/-- C24 fails on the code: in the buffer that `initialize_flight_path` builds from
the single waypoint of id `0` (one waypoint, slot `0` `FULL`, slot `1` `FREE` and
null, both links of the waypoint null), which satisfies packing and linking, and
also in the buffer that one append to the empty buffer builds, neither the delete
of id `0` nor the update of id `0` with the unattached waypoint at `11` returns:
both dereference the null handle of slot `1`, directly and through
`update_path_nodes`. -/
theorem single_waypoint_delete_update_fault :
    statusOf (initialize_flight_path 5 factoryFive [some 10] 1) = .ok WAYPOINT_SUCCESS ∧
    Packing 5 oneWaypoint ∧ Linking oneWaypoint ∧
    oneWaypoint.numWaypoints = 1 ∧
    oneWaypoint.waypointBufferStatus 0 = FULL ∧ oneWaypoint.waypointBuffer 0 = some 10 ∧
    oneWaypoint.waypointBufferStatus 1 = FREE ∧ oneWaypoint.waypointBuffer 1 = none ∧
    oneWaypoint.heap 10 = some
      { waypointId := 0, latitude := 43, longitude := -80, altitude := 100,
        waypointType := PATH_FOLLOW, turnRadius := -1, next := none, previous := none } ∧
    get_waypoint_index_from_id 5 oneWaypoint 0 = .ok 0 ∧
    delete_waypoint 5 oneWaypoint 0 = .error Fault.nullDeref ∧
    update_waypoint 5 oneWaypoint (some 11) 0 = .error Fault.nullDeref ∧
    update_path_nodes 5 oneWaypoint none DELETE_WAYPOINT 0 0 0 = .error Fault.nullDeref ∧
    update_path_nodes 5 oneWaypoint (some 11) UPDATE_WAYPOINT 0 0 0
      = .error Fault.nullDeref ∧
    statusOf (update_path_nodes 5 factoryFive (some 10) APPEND_WAYPOINT 0 0 0)
      = .ok WAYPOINT_SUCCESS ∧
    oneAppended.numWaypoints = 1 ∧ oneAppended.waypointBuffer 1 = none ∧
    update_path_nodes 5 oneAppended none DELETE_WAYPOINT 0 0 0 = .error Fault.nullDeref ∧
    update_path_nodes 5 oneAppended (some 11) UPDATE_WAYPOINT 0 0 0
      = .error Fault.nullDeref :=
  ⟨rfl, oneWaypoint_packing, oneWaypoint_linking, rfl, rfl, rfl, rfl, rfl, rfl, rfl, rfl, rfl,
    rfl, rfl, rfl, rfl, rfl, rfl, rfl⟩

/-! ## Navigation: the transition planner -/

section NavigationPlanner

variable {F : Type} [LinearOrderedField F] (lib : MathLib F)

/-- The branch of `follow_waypoints` for the sub-mode `PATH_FOLLOW`, with the value
of its dot product as a parameter. -/
theorem path_branch_spec (fuel : Nat) (m m1 : WaypointManager) (nav0 nav1 : NavigationData F)
    (dot : F) (t : PathData) (waypointDirection targetCoordinates position : Vec3 F)
    (heading : F)
    (h : (follow_straight_path lib fuel
        (if (decide (0 < dot) && decide (t.waypointType = HOLD_WAYPOINT)) = true then
          { m with inHold := true } else m).inHold
        (if (decide (0 < dot) && decide (t.waypointType = HOLD_WAYPOINT)) = true then
          { (if 0 < dot then { nav0 with orbitPathStatus := ORBIT_FOLLOW } else nav0) with
            turnDirection := 1
            turnRadius := (t.turnRadius : F)
            turnDesiredAltitude := (t.altitude : F)
            turnCenter :=
              { c0 := (t.longitude : F), c1 := (t.latitude : F), c2 := (t.altitude : F) } }
          else (if 0 < dot then { nav0 with orbitPathStatus := ORBIT_FOLLOW } else nav0))
        waypointDirection targetCoordinates position heading
        >>= fun nav4 => (pure
          ((if (decide (0 < dot) && decide (t.waypointType = HOLD_WAYPOINT)) = true then
            { m with inHold := true } else m), nav4) :
          Except Stop (WaypointManager × NavigationData F))) = .ok (m1, nav1))
    (hmode : nav0.orbitPathStatus = PATH_FOLLOW) :
    nav1.outputType = PATH_FOLLOW ∧
    (0 < dot →
      nav1.orbitPathStatus = ORBIT_FOLLOW ∧
      (t.waypointType = HOLD_WAYPOINT →
        m1 = { m with inHold := true } ∧ nav1.turnDirection = 1 ∧
        nav1.turnRadius = (t.turnRadius : F) ∧
        nav1.turnDesiredAltitude = (t.altitude : F) ∧
        nav1.turnCenter =
          { c0 := (t.longitude : F), c1 := (t.latitude : F), c2 := (t.altitude : F) }) ∧
      (t.waypointType ≠ HOLD_WAYPOINT → m1 = m)) ∧
    (¬ 0 < dot → nav1.orbitPathStatus = PATH_FOLLOW ∧ m1 = m) := by
  obtain ⟨nav4, h4, h⟩ := (stop_bind_ok_iff _ _ _).mp h
  simp only [stop_pure_eq_ok, Except.ok.injEq, Prod.mk.injEq] at h
  obtain ⟨hm, hn⟩ := h
  subst hn
  unfold follow_straight_path at h4
  obtain ⟨c1, _, h4⟩ := (stop_bind_ok_iff _ _ _).mp h4
  obtain ⟨c2, _, h4⟩ := (stop_bind_ok_iff _ _ _).mp h4
  by_cases hdot : 0 < dot
  · by_cases hhold : t.waypointType = HOLD_WAYPOINT
    · simp only [hdot, hhold, decide_True, Bool.and_self, if_true] at hm h4
      simp only [stop_pure_eq_ok, Except.ok.injEq, Bool.true_eq_false, if_false] at h4
      subst h4
      subst hm
      exact ⟨rfl, fun _ => ⟨rfl, fun _ => ⟨rfl, rfl, rfl, rfl, rfl⟩,
        fun hne => absurd hhold hne⟩, fun hn => absurd hdot hn⟩
    · simp only [hdot, hhold, decide_True, decide_False, Bool.and_false, if_true,
        Bool.false_eq_true, if_false] at hm h4
      subst hm
      refine ⟨?_, fun _ => ⟨?_, fun hh => absurd hh hhold, fun _ => rfl⟩,
        fun hn => absurd hdot hn⟩
      · split_ifs at h4 <;>
          (simp only [stop_pure_eq_ok, Except.ok.injEq] at h4; subst h4; rfl)
      · split_ifs at h4 <;>
          (simp only [stop_pure_eq_ok, Except.ok.injEq] at h4; subst h4; rfl)
  · simp only [hdot, decide_False, Bool.false_and, Bool.false_eq_true, if_false] at hm h4
    subst hm
    refine ⟨?_, fun hp => absurd hp hdot, fun _ => ⟨?_, rfl⟩⟩
    · split_ifs at h4 <;>
        (simp only [stop_pure_eq_ok, Except.ok.injEq] at h4; subst h4; rfl)
    · split_ifs at h4 <;>
        (simp only [stop_pure_eq_ok, Except.ok.injEq] at h4; subst h4; exact hmode)

/-- The planner of `follow_waypoints` in the sub-mode `PATH_FOLLOW`, on a current
waypoint `c` with the target `t` and the waypoint `w` after it: whenever it
returns, the output mode is `PATH_FOLLOW`; the sub-mode is `ORBIT_FOLLOW` exactly
when the aircraft is past the half plane; and past the half plane of a
`HOLD_WAYPOINT` target the hold starts with the members below, otherwise the
manager is left alone. -/
theorem follow_waypoints_path (fuel : Nat) (m m1 : WaypointManager)
    (nav nav1 : NavigationData F) (currentWaypoint : Option Ptr) (position : Vec3 F)
    (heading : F) (c t w : PathData)
    (hc : deref m currentWaypoint = .ok c) (hcn : c.next ≠ none)
    (ht : deref m c.next = .ok t) (htn : t.next ≠ none) (hw : deref m t.next = .ok w)
    (hmode : nav.orbitPathStatus = PATH_FOLLOW)
    (h : follow_waypoints lib fuel m nav currentWaypoint position heading = .ok (m1, nav1)) :
    nav1.outputType = PATH_FOLLOW ∧
    (0 < dotProduct
        (direction3 lib (waypoint_coordinates lib nav t) (waypoint_coordinates lib nav c))
        position
        (halfPlane (waypoint_coordinates lib nav t)
          (direction3 lib (waypoint_coordinates lib nav t) (waypoint_coordinates lib nav c))
          (tangentFactor lib (t.turnRadius : F)
            (direction3 lib (waypoint_coordinates lib nav t) (waypoint_coordinates lib nav c))
            (direction3 lib (waypoint_coordinates lib nav w)
              (waypoint_coordinates lib nav t)))) →
      nav1.orbitPathStatus = ORBIT_FOLLOW ∧
      (t.waypointType = HOLD_WAYPOINT →
        m1 = { m with inHold := true } ∧ nav1.turnDirection = 1 ∧
        nav1.turnRadius = (t.turnRadius : F) ∧
        nav1.turnDesiredAltitude = (t.altitude : F) ∧
        nav1.turnCenter =
          { c0 := (t.longitude : F), c1 := (t.latitude : F), c2 := (t.altitude : F) }) ∧
      (t.waypointType ≠ HOLD_WAYPOINT → m1 = m)) ∧
    (¬ 0 < dotProduct
        (direction3 lib (waypoint_coordinates lib nav t) (waypoint_coordinates lib nav c))
        position
        (halfPlane (waypoint_coordinates lib nav t)
          (direction3 lib (waypoint_coordinates lib nav t) (waypoint_coordinates lib nav c))
          (tangentFactor lib (t.turnRadius : F)
            (direction3 lib (waypoint_coordinates lib nav t) (waypoint_coordinates lib nav c))
            (direction3 lib (waypoint_coordinates lib nav w)
              (waypoint_coordinates lib nav t)))) →
      nav1.orbitPathStatus = PATH_FOLLOW ∧ m1 = m) := by
  unfold follow_waypoints at h
  rw [hc] at h
  simp only [liftFault, stop_ok_bind, if_neg hcn, ht, if_neg htn, hw] at h
  dsimp only at h
  rw [if_pos hmode] at h
  exact path_branch_spec lib fuel m m1 _ nav1 _ t _ _ _ _ h hmode

/-- The branch of `follow_waypoints` for the sub-mode `ORBIT_FOLLOW`, with the values
it computes as parameters. -/
theorem orbit_branch_spec (fuel : Nat) (m m1 : WaypointManager) (nav0 nav1 : NavigationData F)
    (tdir : Int) (tcen position : Vec3 F) (e dot heading : F)
    (h : (if m.inHold = true then
        (follow_orbit lib fuel { nav0 with turnDirection := tdir, turnCenter := tcen }
          position heading >>= fun nav3 =>
            (pure (m, nav3) : Except Stop (WaypointManager × NavigationData F)))
      else
        (follow_orbit lib fuel
          { (if e = 0 then
              { (if 0 < dot then
                  { ({ nav0 with turnDirection := tdir, turnCenter := tcen } :
                      NavigationData F) with orbitPathStatus := PATH_FOLLOW }
                else { nav0 with turnDirection := tdir, turnCenter := tcen }) with
                orbitPathStatus := PATH_FOLLOW }
            else
              (if 0 < dot then
                { ({ nav0 with turnDirection := tdir, turnCenter := tcen } :
                    NavigationData F) with orbitPathStatus := PATH_FOLLOW }
              else { nav0 with turnDirection := tdir, turnCenter := tcen })) with
            outputType := ORBIT_FOLLOW }
          position heading >>= fun nav6 =>
            (pure (m, nav6) : Except Stop (WaypointManager × NavigationData F))))
      = .ok (m1, nav1)) :
    m1 = m ∧ nav1.outputType = ORBIT_FOLLOW ∧ nav1.turnCenter = tcen ∧
    nav1.turnDirection = tdir ∧ nav1.turnRadius = nav0.turnRadius ∧
    (m.inHold = false →
      nav1.orbitPathStatus =
        if e = 0 then PATH_FOLLOW else if 0 < dot then PATH_FOLLOW else nav0.orbitPathStatus) := by
  by_cases hh : m.inHold = true
  · rw [if_pos hh] at h
    obtain ⟨nav3, h3, h⟩ := (stop_bind_ok_iff _ _ _).mp h
    simp only [stop_pure_eq_ok, Except.ok.injEq, Prod.mk.injEq] at h
    obtain ⟨hm, hn⟩ := h
    subst hn hm
    obtain ⟨c, hc⟩ := follow_orbit_spec lib _ _ _ _ _ h3
    subst hc
    exact ⟨rfl, rfl, rfl, rfl, rfl, fun hf => absurd hh (by rw [hf]; decide)⟩
  · rw [if_neg hh] at h
    obtain ⟨nav3, h3, h⟩ := (stop_bind_ok_iff _ _ _).mp h
    simp only [stop_pure_eq_ok, Except.ok.injEq, Prod.mk.injEq] at h
    obtain ⟨hm, hn⟩ := h
    subst hn hm
    obtain ⟨c, hc⟩ := follow_orbit_spec lib _ _ _ _ _ h3
    subst hc
    refine ⟨rfl, rfl, ?_, ?_, ?_, fun _ => ?_⟩
    · dsimp only
      split_ifs <;> rfl
    · dsimp only
      split_ifs <;> rfl
    · dsimp only
      split_ifs <;> rfl
    · dsimp only
      split_ifs <;> rfl

/-- The planner of `follow_waypoints` in the sub-mode `ORBIT_FOLLOW`, on a current
waypoint `c` with the target `t` and the waypoint `w` after it: whenever it
returns, the manager is left alone, the output mode is `ORBIT_FOLLOW`, the turn
centre and the turn direction are the ones computed from the two direction
vectors, and outside a hold the sub-mode goes back to `PATH_FOLLOW` when the two
directions coincide or the aircraft is past the half plane. -/
theorem follow_waypoints_orbit (fuel : Nat) (m m1 : WaypointManager)
    (nav nav1 : NavigationData F) (currentWaypoint : Option Ptr) (position : Vec3 F)
    (heading : F) (c t w : PathData)
    (hc : deref m currentWaypoint = .ok c) (hcn : c.next ≠ none)
    (ht : deref m c.next = .ok t) (htn : t.next ≠ none) (hw : deref m t.next = .ok w)
    (hmode : nav.orbitPathStatus ≠ PATH_FOLLOW)
    (h : follow_waypoints lib fuel m nav currentWaypoint position heading = .ok (m1, nav1)) :
    m1 = m ∧ nav1.outputType = ORBIT_FOLLOW ∧
    nav1.turnCenter =
      { c0 := (waypoint_coordinates lib nav t).c0 +
          tangentFactor lib (t.turnRadius : F)
              (direction3 lib (waypoint_coordinates lib nav t) (waypoint_coordinates lib nav c))
              (direction3 lib (waypoint_coordinates lib nav w) (waypoint_coordinates lib nav t))
            * ((direction3 lib (waypoint_coordinates lib nav w)
                (waypoint_coordinates lib nav t)).c0 -
              (direction3 lib (waypoint_coordinates lib nav t)
                (waypoint_coordinates lib nav c)).c0)
            / euclideanWaypointDirection lib
              (direction3 lib (waypoint_coordinates lib nav t) (waypoint_coordinates lib nav c))
              (direction3 lib (waypoint_coordinates lib nav w) (waypoint_coordinates lib nav t))
        c1 := (waypoint_coordinates lib nav t).c1 +
          tangentFactor lib (t.turnRadius : F)
              (direction3 lib (waypoint_coordinates lib nav t) (waypoint_coordinates lib nav c))
              (direction3 lib (waypoint_coordinates lib nav w) (waypoint_coordinates lib nav t))
            * ((direction3 lib (waypoint_coordinates lib nav w)
                (waypoint_coordinates lib nav t)).c1 -
              (direction3 lib (waypoint_coordinates lib nav t)
                (waypoint_coordinates lib nav c)).c1)
            / euclideanWaypointDirection lib
              (direction3 lib (waypoint_coordinates lib nav t) (waypoint_coordinates lib nav c))
              (direction3 lib (waypoint_coordinates lib nav w) (waypoint_coordinates lib nav t))
        c2 := (waypoint_coordinates lib nav t).c2 +
          tangentFactor lib (t.turnRadius : F)
              (direction3 lib (waypoint_coordinates lib nav t) (waypoint_coordinates lib nav c))
              (direction3 lib (waypoint_coordinates lib nav w) (waypoint_coordinates lib nav t))
            * ((direction3 lib (waypoint_coordinates lib nav w)
                (waypoint_coordinates lib nav t)).c2 -
              (direction3 lib (waypoint_coordinates lib nav t)
                (waypoint_coordinates lib nav c)).c2)
            / euclideanWaypointDirection lib
              (direction3 lib (waypoint_coordinates lib nav t) (waypoint_coordinates lib nav c))
              (direction3 lib (waypoint_coordinates lib nav w)
                (waypoint_coordinates lib nav t)) } ∧
    (m.inHold = false →
      nav1.orbitPathStatus =
        if euclideanWaypointDirection lib
            (direction3 lib (waypoint_coordinates lib nav t) (waypoint_coordinates lib nav c))
            (direction3 lib (waypoint_coordinates lib nav w) (waypoint_coordinates lib nav t))
            = 0 then PATH_FOLLOW
        else if 0 < dotProduct
            (direction3 lib (waypoint_coordinates lib nav w) (waypoint_coordinates lib nav t))
            position
            (halfPlane (waypoint_coordinates lib nav t)
              (direction3 lib (waypoint_coordinates lib nav t)
                (waypoint_coordinates lib nav c))
              (tangentFactor lib (t.turnRadius : F)
                (direction3 lib (waypoint_coordinates lib nav t)
                  (waypoint_coordinates lib nav c))
                (direction3 lib (waypoint_coordinates lib nav w)
                  (waypoint_coordinates lib nav t)))) then PATH_FOLLOW
        else nav.orbitPathStatus) := by
  unfold follow_waypoints at h
  rw [hc] at h
  simp only [liftFault, stop_ok_bind, if_neg hcn, ht, if_neg htn, hw] at h
  dsimp only at h
  rw [if_neg hmode] at h
  obtain ⟨h1, h2, h3, _, _, h6⟩ := orbit_branch_spec lib fuel m m1
    { nav with distanceToNextWaypoint := distance3 lib (waypoint_coordinates lib nav t) position } nav1
    (if 0 < (direction3 lib (waypoint_coordinates lib nav t) (waypoint_coordinates lib nav c)).c0
        * (direction3 lib (waypoint_coordinates lib nav w) (waypoint_coordinates lib nav t)).c1 -
        (direction3 lib (waypoint_coordinates lib nav t) (waypoint_coordinates lib nav c)).c1 *
        (direction3 lib (waypoint_coordinates lib nav w) (waypoint_coordinates lib nav t)).c0 then
        1 else -1)
    { c0 := (waypoint_coordinates lib nav t).c0 + (tangentFactor lib (t.turnRadius : F)
        (direction3 lib (waypoint_coordinates lib nav t) (waypoint_coordinates lib nav c))
        (direction3 lib (waypoint_coordinates lib nav w) (waypoint_coordinates lib nav t))) *
        ((direction3 lib (waypoint_coordinates lib nav w) (waypoint_coordinates lib nav t)).c0 -
        (direction3 lib (waypoint_coordinates lib nav t) (waypoint_coordinates lib nav c)).c0) /
        (euclideanWaypointDirection lib (direction3 lib (waypoint_coordinates lib nav t)
        (waypoint_coordinates lib nav c)) (direction3 lib (waypoint_coordinates lib nav w)
        (waypoint_coordinates lib nav t)))
      c1 := (waypoint_coordinates lib nav t).c1 + (tangentFactor lib (t.turnRadius : F)
          (direction3 lib (waypoint_coordinates lib nav t) (waypoint_coordinates lib nav c))
          (direction3 lib (waypoint_coordinates lib nav w) (waypoint_coordinates lib nav t))) *
          ((direction3 lib (waypoint_coordinates lib nav w) (waypoint_coordinates lib nav t)).c1 -
          (direction3 lib (waypoint_coordinates lib nav t) (waypoint_coordinates lib nav c)).c1) /
          (euclideanWaypointDirection lib (direction3 lib (waypoint_coordinates lib nav t)
          (waypoint_coordinates lib nav c)) (direction3 lib (waypoint_coordinates lib nav w)
          (waypoint_coordinates lib nav t)))
      c2 := (waypoint_coordinates lib nav t).c2 + (tangentFactor lib (t.turnRadius : F)
          (direction3 lib (waypoint_coordinates lib nav t) (waypoint_coordinates lib nav c))
          (direction3 lib (waypoint_coordinates lib nav w) (waypoint_coordinates lib nav t))) *
          ((direction3 lib (waypoint_coordinates lib nav w) (waypoint_coordinates lib nav t)).c2 -
          (direction3 lib (waypoint_coordinates lib nav t) (waypoint_coordinates lib nav c)).c2) /
          (euclideanWaypointDirection lib (direction3 lib (waypoint_coordinates lib nav t)
          (waypoint_coordinates lib nav c)) (direction3 lib (waypoint_coordinates lib nav w)
          (waypoint_coordinates lib nav t))) }
    position (euclideanWaypointDirection lib (direction3 lib (waypoint_coordinates lib nav t)
        (waypoint_coordinates lib nav c)) (direction3 lib (waypoint_coordinates lib nav w)
        (waypoint_coordinates lib nav t)))
    (dotProduct (direction3 lib (waypoint_coordinates lib nav w) (waypoint_coordinates lib nav t))
        position (halfPlane (waypoint_coordinates lib nav t) (direction3 lib (waypoint_coordinates
        lib nav t) (waypoint_coordinates lib nav c)) (tangentFactor lib (t.turnRadius : F)
        (direction3 lib (waypoint_coordinates lib nav t) (waypoint_coordinates lib nav c))
        (direction3 lib (waypoint_coordinates lib nav w) (waypoint_coordinates lib nav t)))))
        heading h
  exact ⟨h1, h2, h3, h6⟩

end NavigationPlanner

/-! ## Navigation: the projection -/

section NavigationProjection

variable {F : Type} [LinearOrderedField F] (lib : MathLib F)

/-- A point has the distance `0` from itself, when `sin 0 = 0`, `sqrt 0 = 0` and
`atan2(0, sqrt 1) = 0`. -/
theorem get_distance_self (hsin : lib.sin 0 = 0) (hsqrt : lib.sqrt 0 = 0)
    (hatan : lib.atan2 0 (lib.sqrt 1) = 0) (lat lon : F) :
    get_distance lib lat lon lat lon = 0 := by
  unfold get_distance
  simp only [deg2rad, sub_self, zero_mul, zero_div, hsin, mul_zero, add_zero, hsqrt, sub_zero,
    hatan, le_refl, and_self, true_or, if_true]

/-- C22. Projection round trip: for every reference point, in every arithmetic
where `sin 0 = 0`, `sqrt 0 = 0` and `atan2(0, sqrt 1) = 0` (real arithmetic is
one), `get_distance` from the reference point to itself is `0`, and
`get_coordinates` of the reference longitude and latitude is `(0, 0)`. -/
theorem projection_round_trip (hsin : lib.sin 0 = 0) (hsqrt : lib.sqrt 0 = 0)
    (hatan : lib.atan2 0 (lib.sqrt 1) = 0) (nav : NavigationData F) :
    get_distance lib nav.relativeLatitude nav.relativeLongitude nav.relativeLatitude
        nav.relativeLongitude = 0 ∧
      get_coordinates lib nav nav.relativeLongitude nav.relativeLatitude = (0, 0) := by
  have h := get_distance_self lib hsin hsqrt hatan nav.relativeLatitude nav.relativeLongitude
  refine ⟨h, ?_⟩
  unfold get_coordinates
  rw [h]

end NavigationProjection

theorem projection_round_trip_witness :
    get_distance
        (MathLib.mk Real.pi Real.sqrt Real.sin Real.cos Real.tan Real.arcsin Real.arccos
          Real.arctan (fun y x => Complex.arg ⟨x, y⟩)
          (fun x => if 0 ≤ x then ⌊x + 1 / 2⌋ else ⌈x - 1 / 2⌉)
          (fun x => if 0 ≤ x then ⌊x⌋ else ⌈x⌉))
        43 (-80) 43 (-80) = 0 ∧
      get_coordinates
        (MathLib.mk Real.pi Real.sqrt Real.sin Real.cos Real.tan Real.arcsin Real.arccos
          Real.arctan (fun y x => Complex.arg ⟨x, y⟩)
          (fun x => if 0 ≤ x then ⌊x + 1 / 2⌋ else ⌈x - 1 / 2⌉)
          (fun x => if 0 ≤ x then ⌊x⌋ else ⌈x⌉))
        { relativeLongitude := -80
          relativeLatitude := 43
          orbitPathStatus := PATH_FOLLOW
          turnCenter := { c0 := 0, c1 := 0, c2 := 0 }
          turnRadius := 0
          turnDirection := 0
          turnDesiredAltitude := 0
          desiredHeading := 0
          desiredAltitude := 0
          distanceToNextWaypoint := 0
          outputType := PATH_FOLLOW
          dataIsNew := false }
        (-80) 43 = (0, 0) :=
  projection_round_trip
    (MathLib.mk Real.pi Real.sqrt Real.sin Real.cos Real.tan Real.arcsin Real.arccos
      Real.arctan (fun y x => Complex.arg ⟨x, y⟩)
      (fun x => if 0 ≤ x then ⌊x + 1 / 2⌋ else ⌈x - 1 / 2⌉)
      (fun x => if 0 ≤ x then ⌊x⌋ else ⌈x⌉))
    Real.sin_zero Real.sqrt_zero
    (by
      show Complex.arg ⟨Real.sqrt 1, 0⟩ = 0
      rw [Real.sqrt_one]
      exact Complex.arg_one)
    { relativeLongitude := -80
      relativeLatitude := 43
      orbitPathStatus := PATH_FOLLOW
      turnCenter := { c0 := 0, c1 := 0, c2 := 0 }
      turnRadius := 0
      turnDirection := 0
      turnDesiredAltitude := 0
      desiredHeading := 0
      desiredAltitude := 0
      distanceToNextWaypoint := 0
      outputType := PATH_FOLLOW
      dataIsNew := false }

/-! ## Navigation: the last segment -/

section NavigationLastSegment

variable {F : Type} [LinearOrderedField F] (lib : MathLib F)

/-- With a square root that is never negative, the dot product that
`follow_last_line_segment` compares with zero is never positive: its direction
vector points from the aircraft to the target, the other factor from the target
to the aircraft. -/
theorem last_segment_dot_nonpos (hsqrt : ∀ x : F, 0 ≤ lib.sqrt x)
    (targetCoordinates position : Vec3 F) :
    ¬ 0 < (direction3 lib targetCoordinates position).c0 *
          (position.c0 - targetCoordinates.c0) +
        (direction3 lib targetCoordinates position).c1 *
          (position.c1 - targetCoordinates.c1) +
        (direction3 lib targetCoordinates position).c2 *
          (position.c2 - targetCoordinates.c2) := by
  have hn : 0 ≤ distance3 lib targetCoordinates position := hsqrt _
  have key : ∀ a : F, a / distance3 lib targetCoordinates position * (-a) ≤ 0 := by
    intro a
    have h1 : a / distance3 lib targetCoordinates position * (-a) =
        -(a * a / distance3 lib targetCoordinates position) := by ring
    rw [h1]
    exact neg_nonpos.mpr (div_nonneg (mul_self_nonneg a) hn)
  have e : ∀ x y : F, x - y = -(y - x) := fun x y => by ring
  unfold direction3
  dsimp only
  rw [e position.c0, e position.c1, e position.c2]
  have h0 := key (targetCoordinates.c0 - position.c0)
  have h1 := key (targetCoordinates.c1 - position.c1)
  have h2 := key (targetCoordinates.c2 - position.c2)
  linarith

/-- C25 fails on the code: with a square root that is never negative (the real
one is), for every manager, every current waypoint and every aircraft position,
whenever `follow_last_line_segment` returns it has left the manager alone, so
`inHold` is not set, and the orbit centre and the orbit altitude are as before;
outside a hold it leaves the turn radius and the turn direction `0`, not `50` and
`1`. The automatic hold is never engaged. -/
theorem last_segment_never_holds (hsqrt : ∀ x : F, 0 ≤ lib.sqrt x) (fuel : Nat)
    (m m1 : WaypointManager) (nav nav1 : NavigationData F) (currentWaypoint : Option Ptr)
    (position : Vec3 F) (heading : F)
    (h : follow_last_line_segment lib fuel m nav currentWaypoint position heading =
      .ok (m1, nav1)) :
    m1 = m ∧ nav1.turnCenter = nav.turnCenter ∧
      nav1.turnDesiredAltitude = nav.turnDesiredAltitude ∧
      (m.inHold = false → nav1.turnRadius = 0 ∧ nav1.turnDirection = 0) ∧
      (m.inHold = true →
        nav1.turnRadius = nav.turnRadius ∧ nav1.turnDirection = nav.turnDirection) := by
  unfold follow_last_line_segment at h
  obtain ⟨tw, _, h⟩ := (stop_bind_ok_iff _ _ _).mp h
  dsimp only at h
  rw [if_neg (last_segment_dot_nonpos lib hsqrt _ _),
    if_neg (last_segment_dot_nonpos lib hsqrt _ _)] at h
  obtain ⟨nav3, h3, h⟩ := (stop_bind_ok_iff _ _ _).mp h
  simp only [stop_pure_eq_ok, Except.ok.injEq, Prod.mk.injEq] at h
  obtain ⟨hm, hn⟩ := h
  subst hn hm
  unfold follow_straight_path at h3
  obtain ⟨c1, _, h3⟩ := (stop_bind_ok_iff _ _ _).mp h3
  obtain ⟨c2, _, h3⟩ := (stop_bind_ok_iff _ _ _).mp h3
  cases hh : m.inHold with
  | false =>
    simp only [hh, if_true, stop_pure_eq_ok, Except.ok.injEq] at h3
    subst h3
    exact ⟨rfl, rfl, rfl, fun _ => ⟨rfl, rfl⟩, fun e => Bool.noConfusion e⟩
  | true =>
    simp only [hh, Bool.true_eq_false, if_false, stop_pure_eq_ok, Except.ok.injEq] at h3
    subst h3
    exact ⟨rfl, rfl, rfl, fun e => Bool.noConfusion e, fun _ => ⟨rfl, rfl⟩⟩

end NavigationLastSegment

theorem flatSqrt_nonneg (x : ℚ) : 0 ≤ flatLib.sqrt x :=
  div_nonneg (Nat.cast_nonneg _) (Nat.cast_nonneg _)

theorem last_segment_never_holds_witness :
    follow_last_line_segment flatLib 0 oneWaypoint (emptyNavigation 43 (-80)) (some 10)
        { c0 := 50, c1 := 0, c2 := 100 } 90 = .ok (oneWaypoint, lastSegmentNavigation) ∧
      (oneWaypoint = oneWaypoint ∧
        lastSegmentNavigation.turnCenter = (emptyNavigation 43 (-80)).turnCenter ∧
        lastSegmentNavigation.turnDesiredAltitude
          = (emptyNavigation 43 (-80)).turnDesiredAltitude ∧
        (oneWaypoint.inHold = false →
          lastSegmentNavigation.turnRadius = 0 ∧ lastSegmentNavigation.turnDirection = 0) ∧
        (oneWaypoint.inHold = true →
          lastSegmentNavigation.turnRadius = (emptyNavigation 43 (-80)).turnRadius ∧
          lastSegmentNavigation.turnDirection = (emptyNavigation 43 (-80)).turnDirection)) :=
  ⟨by with_unfolding_all rfl,
    last_segment_never_holds flatLib flatSqrt_nonneg 0 oneWaypoint oneWaypoint
      (emptyNavigation 43 (-80)) lastSegmentNavigation (some 10)
      { c0 := 50, c1 := 0, c2 := 100 } 90 (by with_unfolding_all rfl)⟩

/-! ## Navigation: the turning angle -/

/-- C27 fails on the code: `follow_waypoints` converts the dot product of the two
direction vectors with `deg2rad` before it negates it and takes the arc cosine.
Over the real numbers, for two equal unit vectors `q01 = q12 = (1, 0, 0)` (three
collinear waypoints), its turning angle is `acos(-π/180)`, which is less than
`π`, while `acos(-(q01 . q12)) = acos(-1)` is `π`. -/
theorem turning_angle_takes_degrees :
    turningAngle
        (MathLib.mk Real.pi Real.sqrt Real.sin Real.cos Real.tan Real.arcsin Real.arccos
          Real.arctan (fun y x => Complex.arg ⟨x, y⟩)
          (fun x => if 0 ≤ x then ⌊x + 1 / 2⌋ else ⌈x - 1 / 2⌉)
          (fun x => if 0 ≤ x then ⌊x⌋ else ⌈x⌉))
        { c0 := 1, c1 := 0, c2 := 0 } { c0 := 1, c1 := 0, c2 := 0 }
      = Real.arccos (-(Real.pi / 180)) ∧
    Real.arccos (-(1 * 1 + 0 * 0 + 0 * 0)) = Real.pi ∧
    turningAngle
        (MathLib.mk Real.pi Real.sqrt Real.sin Real.cos Real.tan Real.arcsin Real.arccos
          Real.arctan (fun y x => Complex.arg ⟨x, y⟩)
          (fun x => if 0 ≤ x then ⌊x + 1 / 2⌋ else ⌈x - 1 / 2⌉)
          (fun x => if 0 ≤ x then ⌊x⌋ else ⌈x⌉))
        { c0 := 1, c1 := 0, c2 := 0 } { c0 := 1, c1 := 0, c2 := 0 }
      < Real.arccos (-(1 * 1 + 0 * 0 + 0 * 0)) := by
  have h1 : turningAngle
        (MathLib.mk Real.pi Real.sqrt Real.sin Real.cos Real.tan Real.arcsin Real.arccos
          Real.arctan (fun y x => Complex.arg ⟨x, y⟩)
          (fun x => if 0 ≤ x then ⌊x + 1 / 2⌋ else ⌈x - 1 / 2⌉)
          (fun x => if 0 ≤ x then ⌊x⌋ else ⌈x⌉))
        { c0 := 1, c1 := 0, c2 := 0 } { c0 := 1, c1 := 0, c2 := 0 }
      = Real.arccos (-(Real.pi / 180)) := by
    simp only [turningAngle, deg2rad, mul_one, mul_zero, add_zero, one_mul]
  have h2 : Real.arccos (-(1 * 1 + 0 * 0 + 0 * 0)) = Real.pi := by
    simp only [mul_one, mul_zero, add_zero]
    exact Real.arccos_neg_one
  refine ⟨h1, h2, ?_⟩
  rw [h1, h2]
  have hlt : (-1 : ℝ) < -(Real.pi / 180) := by
    have := Real.pi_lt_four
    linarith
  exact lt_of_le_of_ne (Real.arccos_le_pi _)
    (fun e => absurd (Real.arccos_eq_pi.mp e) (not_le.mpr hlt))

/-! ## Navigation: the home-return branch -/

theorem assign_some_ok {m m1 : WaypointManager} {b : Ptr} {f : PathData → PathData}
    (d : PathData) (h : assign m (some b) f = .ok m1) (hb : m.heap b = some d) :
    m1 = { m with heap := Function.update m.heap b (some (f d)) } := by
  simp only [assign, hb, Except.ok.injEq] at h
  exact h.symm

section NavigationHome

variable {F : Type} [LinearOrderedField F] (lib : MathLib F)

/-- With a target that has no successor `follow_waypoints` follows the line
segment: the manager is left alone, the mode is `PATH_FOLLOW`, and outside a hold
the turn radius and the turn direction are `0`. -/
theorem follow_waypoints_line (fuel : Nat) (m m1 : WaypointManager)
    (nav nav1 : NavigationData F) (currentWaypoint : Option Ptr) (position : Vec3 F)
    (heading : F) (c t : PathData)
    (hc : deref m currentWaypoint = .ok c) (hcn : c.next ≠ none)
    (ht : deref m c.next = .ok t) (htn : t.next = none)
    (h : follow_waypoints lib fuel m nav currentWaypoint position heading = .ok (m1, nav1)) :
    m1 = m ∧ nav1.outputType = PATH_FOLLOW ∧
      (m.inHold = false → nav1.turnRadius = 0 ∧ nav1.turnDirection = 0) := by
  unfold follow_waypoints at h
  rw [hc] at h
  simp only [liftFault, stop_ok_bind, if_neg hcn, ht, if_pos htn] at h
  unfold follow_line_segment at h
  obtain ⟨cw, _, h⟩ := (stop_bind_ok_iff _ _ _).mp h
  obtain ⟨tw, _, h⟩ := (stop_bind_ok_iff _ _ _).mp h
  obtain ⟨nav2, h2, h⟩ := (stop_bind_ok_iff _ _ _).mp h
  simp only [stop_pure_eq_ok, Except.ok.injEq, Prod.mk.injEq] at h
  obtain ⟨hm, hn⟩ := h
  subst hn
  obtain ⟨ho, _, _, h0, _⟩ := follow_straight_path_spec lib _ _ _ _ _ _ _ _ h2
  exact ⟨hm.symm, ho, h0⟩

/-- C26 fails on the code: with `goingHome` set, `inHold` clear and a live home
record, whenever the tick of `get_next_directions` returns (whatever the
telemetry), it returns `WAYPOINT_SUCCESS`, the home record is a `HOLD_WAYPOINT`
with no successor (and no predecessor) afterwards, but `inHold` is still clear and
the output has `out_type = PATH_FOLLOW` with radius and turn direction `0`: the
target has no successor, so `follow_waypoints` takes `follow_line_segment`, which
never starts a hold or an orbit. -/
theorem home_return_never_orbits (fuel PATH_BUFFER_SIZE : Nat) (m m1 : WaypointManager)
    (nav nav1 : NavigationData F) (a b : Ptr) (d : PathData)
    (currentStatus : WaypointManager_Data_In) (Data out : WaypointManager_Data_Out F)
    (s : WaypointStatus)
    (hh : m.inHold = false) (hg : m.goingHome = true) (hb : m.homeBase = some b)
    (hd : m.heap b = some d) (hfresh : m.heap a = none)
    (h : get_next_directions lib fuel PATH_BUFFER_SIZE m nav a currentStatus Data =
      .ok (m1, nav1, out, s)) :
    s = WAYPOINT_SUCCESS ∧
      m1.heap b = some { d with previous := none, next := none, waypointType := HOLD_WAYPOINT } ∧
      m1.inHold = false ∧ out.out_type = PATH_FOLLOW ∧ nav1.outputType = PATH_FOLLOW ∧
      out.radius = 0 ∧ out.turnDirection = 0 := by
  have hba : b ≠ a := by
    rintro rfl
    rw [hfresh] at hd
    exact Option.noConfusion hd
  have hab : a ≠ b := fun e => hba e.symm
  unfold get_next_directions at h
  dsimp only at h
  rw [if_neg (by rw [hh]; exact Bool.noConfusion), if_pos hg,
    if_neg (by rw [hb]; exact Option.noConfusion)] at h
  obtain ⟨m2, h2, h⟩ := (stop_bind_ok_iff _ _ _).mp h
  obtain ⟨m3, h3, h⟩ := (stop_bind_ok_iff _ _ _).mp h
  obtain ⟨m4, h4, h⟩ := (stop_bind_ok_iff _ _ _).mp h
  obtain ⟨⟨mr, navr⟩, hr, h⟩ := (stop_bind_ok_iff _ _ _).mp h
  obtain ⟨m5, h5, h⟩ := (stop_bind_ok_iff _ _ _).mp h
  obtain ⟨m6, h6, h⟩ := (stop_bind_ok_iff _ _ _).mp h
  rw [liftFault_ok_iff] at h2 h3 h4 h5 h6
  simp only [stop_pure_eq_ok, Except.ok.injEq, Prod.mk.injEq, update_return_data] at h
  obtain ⟨hm, hn, ho, hs⟩ := h
  subst hm hn ho hs
  rw [hb] at h2
  have e2 := assign_some_ok d h2 (by simp only [Function.update_apply, if_neg hba, hd])
  subst e2
  dsimp only at h3
  have e3 := assign_some_ok { d with previous := some a } h3
    (by simp only [Function.update_same])
  subst e3
  dsimp only at h4
  have e4 := assign_some_ok { d with previous := some a, next := none } h4
    (by simp only [Function.update_same])
  subst e4
  obtain ⟨hmr, hout, hz⟩ := follow_waypoints_line lib _ _ _ _ _ _ _ _
    { waypointId := 0
      latitude := currentStatus.latitude
      longitude := currentStatus.longitude
      altitude := truncate currentStatus.altitude
      turnRadius := -1
      waypointType := PATH_FOLLOW
      previous := none
      next := some b }
    { d with previous := some a, next := none, waypointType := HOLD_WAYPOINT }
    (by simp only [deref, Function.update_apply, if_neg hab, if_true, hb])
    (by exact Option.noConfusion)
    (by simp only [deref, Function.update_same])
    rfl hr
  subst hmr
  dsimp only at h5
  have e5 := assign_some_ok
    { d with previous := some a, next := none, waypointType := HOLD_WAYPOINT } h5
    (by simp only [Function.update_same])
  subst e5
  obtain ⟨_, e6⟩ := (free_ok_iff _ _ _).mp h6
  subst e6
  refine ⟨rfl, ?_, hh, hout, hout, (hz hh).1, (hz hh).2⟩
  simp only [Function.update_apply, if_neg hba, if_true]

end NavigationHome

theorem home_return_never_orbits_witness :
    headingHome.inHold = false ∧ headingHome.goingHome = true ∧
    headingHome.homeBase = some 14 ∧ headingHome.heap 14 = some record14 ∧
    headingHome.heap 20 = none ∧
    get_next_directions coarseLib 0 5 headingHome (emptyNavigation 43 (-80)) 20 telemetry
        blankOut
      = .ok (tickState (tick 0 headingHome (emptyNavigation 43 (-80))), straightNavigation,
        straightOut, WAYPOINT_SUCCESS) ∧
    (WAYPOINT_SUCCESS = WAYPOINT_SUCCESS ∧
      (tickState (tick 0 headingHome (emptyNavigation 43 (-80)))).heap 14 =
        some { record14 with previous := none, next := none, waypointType := HOLD_WAYPOINT } ∧
      (tickState (tick 0 headingHome (emptyNavigation 43 (-80)))).inHold = false ∧
      straightOut.out_type = PATH_FOLLOW ∧ straightNavigation.outputType = PATH_FOLLOW ∧
      straightOut.radius = 0 ∧ straightOut.turnDirection = 0) :=
  ⟨by with_unfolding_all rfl, by with_unfolding_all rfl, by with_unfolding_all rfl,
    by with_unfolding_all rfl, by with_unfolding_all rfl, by with_unfolding_all rfl,
    home_return_never_orbits coarseLib 0 5 headingHome
      (tickState (tick 0 headingHome (emptyNavigation 43 (-80)))) (emptyNavigation 43 (-80))
      straightNavigation 20 14 record14 telemetry blankOut straightOut WAYPOINT_SUCCESS
      (by with_unfolding_all rfl) (by with_unfolding_all rfl) (by with_unfolding_all rfl)
      (by with_unfolding_all rfl) (by with_unfolding_all rfl) (by with_unfolding_all rfl)⟩

/-! ## Navigation: the waypoint-following branch of the tick -/

section NavigationFollowing

variable {F : Type} [LinearOrderedField F] (lib : MathLib F)

/-- Outside a hold and outside home-return, with a valid current index, a tick that
returns has read the current slot and run `follow_waypoints` on its content; it
returns the error code of the manager and writes the members that
`follow_waypoints` left. -/
theorem tick_following (fuel PATH_BUFFER_SIZE : Nat) (m m1 : WaypointManager)
    (nav nav1 : NavigationData F) (a : Ptr) (currentStatus : WaypointManager_Data_In)
    (Data out : WaypointManager_Data_Out F) (s : WaypointStatus)
    (hh : m.inHold = false) (hg : m.goingHome = false)
    (hidx : ¬ (m.numWaypoints - m.currentIndex < 1 ∧ 0 ≤ m.numWaypoints))
    (h : get_next_directions lib fuel PATH_BUFFER_SIZE m nav a currentStatus Data =
      .ok (m1, nav1, out, s)) :
    ∃ p navr, readBuffer PATH_BUFFER_SIZE m m.currentIndex = .ok p ∧
      follow_waypoints lib fuel { m with errorCode := WAYPOINT_SUCCESS } nav p
        (aircraftPosition lib nav currentStatus) (currentStatus.heading : F) = .ok (m1, navr) ∧
      nav1 = { navr with dataIsNew := false } ∧ out.out_type = navr.outputType ∧
      out.radius = navr.turnRadius ∧ out.turnDirection = navr.turnDirection ∧
      s = m1.errorCode := by
  unfold get_next_directions at h
  dsimp only at h
  rw [if_neg (by rw [hh]; exact Bool.noConfusion),
    if_neg (by rw [hg]; exact Bool.noConfusion), if_neg hidx] at h
  obtain ⟨p, hp, h⟩ := (stop_bind_ok_iff _ _ _).mp h
  obtain ⟨⟨mr, navr⟩, hr, h⟩ := (stop_bind_ok_iff _ _ _).mp h
  rw [liftFault_ok_iff] at hp
  simp only [stop_pure_eq_ok, Except.ok.injEq, Prod.mk.injEq, update_return_data] at h
  obtain ⟨hm, hn, ho, hs⟩ := h
  subst hm hn ho hs
  exact ⟨p, navr, hp, hr, rfl, rfl, rfl, rfl, rfl⟩

/-- With enough iterations allowed, a straight-path call followed by a `pure`
returns. -/
theorem straight_bind_returns [Archimedean F] (hpi : 0 < lib.pi) {α : Type} (inHold : Bool)
    (nav : NavigationData F) (waypointDirection targetWaypoint position : Vec3 F)
    (heading : F) (k : NavigationData F → α) :
    ∃ N : Nat, ∀ fuel, N ≤ fuel → ∃ r : α,
      (follow_straight_path lib fuel inHold nav waypointDirection targetWaypoint position
        heading >>= fun n => (pure (k n) : Except Stop α)) = .ok r := by
  obtain ⟨N, hN⟩ := follow_straight_path_returns lib hpi inHold nav waypointDirection
    targetWaypoint position heading
  refine ⟨N, fun fuel hf => ?_⟩
  obtain ⟨n, hn⟩ := hN fuel hf
  exact ⟨k n, by rw [hn]; rfl⟩

/-- With enough iterations allowed, an orbit call followed by a `pure` returns. -/
theorem orbit_bind_returns [Archimedean F] (hpi : 0 < lib.pi) {α : Type}
    (nav : NavigationData F) (position : Vec3 F) (heading : F) (k : NavigationData F → α) :
    ∃ N : Nat, ∀ fuel, N ≤ fuel → ∃ r : α,
      (follow_orbit lib fuel nav position heading >>= fun n =>
        (pure (k n) : Except Stop α)) = .ok r := by
  obtain ⟨c, N, hN⟩ := follow_orbit_returns lib hpi nav position heading
  refine ⟨N, fun fuel hf => ?_⟩
  exact ⟨k _, by rw [hN fuel hf]; rfl⟩

/-- With a target and a waypoint after it, and enough iterations allowed,
`follow_waypoints` returns. -/
theorem follow_waypoints_chain_returns [Archimedean F] (hpi : 0 < lib.pi)
    (m : WaypointManager) (nav : NavigationData F) (currentWaypoint : Option Ptr)
    (position : Vec3 F) (heading : F) (c t w : PathData)
    (hc : deref m currentWaypoint = .ok c) (hcn : c.next ≠ none)
    (ht : deref m c.next = .ok t) (htn : t.next ≠ none) (hw : deref m t.next = .ok w) :
    ∃ N : Nat, ∀ fuel, N ≤ fuel → ∃ r : WaypointManager × NavigationData F,
      follow_waypoints lib fuel m nav currentWaypoint position heading = .ok r := by
  unfold follow_waypoints
  simp only [hc, liftFault, stop_ok_bind, if_neg hcn, ht, if_neg htn, hw]
  dsimp only
  by_cases hmode : nav.orbitPathStatus = PATH_FOLLOW
  · simp only [if_pos hmode]
    exact straight_bind_returns lib hpi _ _ _ _ _ _ _
  · simp only [if_neg hmode]
    by_cases hh : m.inHold = true
    · simp only [if_pos hh]
      exact orbit_bind_returns lib hpi _ _ _ _
    · simp only [if_neg hh]
      exact orbit_bind_returns lib hpi _ _ _ _

/-- Outside a hold and outside home-return, with a current waypoint that has a target
and a waypoint after it, and enough iterations allowed, the tick returns. -/
theorem tick_chain_returns [Archimedean F] (hpi : 0 < lib.pi) (PATH_BUFFER_SIZE : Nat)
    (m : WaypointManager) (nav : NavigationData F) (a : Ptr)
    (currentStatus : WaypointManager_Data_In) (Data : WaypointManager_Data_Out F)
    (p : Option Ptr) (c t w : PathData)
    (hh : m.inHold = false) (hg : m.goingHome = false)
    (hidx : ¬ (m.numWaypoints - m.currentIndex < 1 ∧ 0 ≤ m.numWaypoints))
    (hp : readBuffer PATH_BUFFER_SIZE m m.currentIndex = .ok p)
    (hc : deref m p = .ok c) (hcn : c.next ≠ none)
    (ht : deref m c.next = .ok t) (htn : t.next ≠ none) (hw : deref m t.next = .ok w) :
    ∃ N : Nat, ∀ fuel, N ≤ fuel →
      ∃ r : WaypointManager × NavigationData F × WaypointManager_Data_Out F × WaypointStatus,
        get_next_directions lib fuel PATH_BUFFER_SIZE m nav a currentStatus Data = .ok r := by
  obtain ⟨N, hN⟩ := follow_waypoints_chain_returns lib hpi
    { m with errorCode := WAYPOINT_SUCCESS } nav p (aircraftPosition lib nav currentStatus)
    (currentStatus.heading : F) c t w hc hcn ht htn hw
  refine ⟨N, fun fuel hf => ?_⟩
  obtain ⟨r, hr⟩ := hN fuel hf
  have hp0 : readBuffer PATH_BUFFER_SIZE { m with errorCode := WAYPOINT_SUCCESS } m.currentIndex
      = .ok p := hp
  unfold get_next_directions
  dsimp only
  rw [if_neg (by rw [hh]; exact Bool.noConfusion),
    if_neg (by rw [hg]; exact Bool.noConfusion), if_neg hidx, hp0]
  unfold aircraftPosition at hr
  simp only [liftFault, stop_ok_bind, hr, stop_pure_eq_ok]
  exact ⟨_, rfl⟩

end NavigationFollowing

/-! ## Navigation: collinear waypoints -/

section NavigationCollinear

variable {F : Type} [LinearOrderedField F] (lib : MathLib F)

/-- With both direction vectors `(1, 0, 0)`, a positive turn radius and a positive
tangent of half the turning angle, the dot product that `follow_waypoints` tests in
the sub-mode `PATH_FOLLOW` is positive for an aircraft abeam of the target or
beyond it. -/
theorem collinear_dot_pos (r : F) (targetCoordinates position : Vec3 F) (hr : 0 < r)
    (htan : 0 < lib.tan (lib.acos (-deg2rad lib 1) / 2))
    (hpos : targetCoordinates.c0 ≤ position.c0) :
    0 < dotProduct ({ c0 := 1, c1 := 0, c2 := 0 } : Vec3 F) position
      (halfPlane targetCoordinates ({ c0 := 1, c1 := 0, c2 := 0 } : Vec3 F)
        (tangentFactor lib r ({ c0 := 1, c1 := 0, c2 := 0 } : Vec3 F)
          ({ c0 := 1, c1 := 0, c2 := 0 } : Vec3 F))) := by
  have htf : 0 < r / lib.tan (lib.acos (-deg2rad lib 1) / 2) := div_pos hr htan
  simp only [dotProduct, halfPlane, tangentFactor, turningAngle, mul_one, mul_zero, add_zero,
    one_mul, zero_mul]
  linarith

/-- C23 fails on the code: three buffered waypoints in a row along `+x` (both
direction vectors are `(1, 0, 0)`), the middle one not a hold waypoint and with a
positive turn radius, the current slot at the first, the sub-mode `PATH_FOLLOW`,
neither hold nor home-return active. For an aircraft abeam of the middle waypoint
or beyond it, with enough iterations allowed, the tick returns `WAYPOINT_SUCCESS`
and leaves the sub-mode `ORBIT_FOLLOW`; and every tick after it, whatever the
telemetry, returns `WAYPOINT_SUCCESS` with `out_type = ORBIT_FOLLOW` in the output
record. -/
theorem collinear_engages_orbit [Archimedean F] (hpi : 0 < lib.pi) (PATH_BUFFER_SIZE : Nat)
    (m : WaypointManager) (nav : NavigationData F) (a : Ptr)
    (currentStatus : WaypointManager_Data_In) (Data : WaypointManager_Data_Out F)
    (p : Option Ptr) (c t w : PathData)
    (hh : m.inHold = false) (hg : m.goingHome = false)
    (hidx : ¬ (m.numWaypoints - m.currentIndex < 1 ∧ 0 ≤ m.numWaypoints))
    (hp : readBuffer PATH_BUFFER_SIZE m m.currentIndex = .ok p)
    (hc : deref m p = .ok c) (hcn : c.next ≠ none)
    (ht : deref m c.next = .ok t) (htn : t.next ≠ none) (hw : deref m t.next = .ok w)
    (hq01 : direction3 lib (waypoint_coordinates lib nav t) (waypoint_coordinates lib nav c)
      = { c0 := 1, c1 := 0, c2 := 0 })
    (hq12 : direction3 lib (waypoint_coordinates lib nav w) (waypoint_coordinates lib nav t)
      = { c0 := 1, c1 := 0, c2 := 0 })
    (hkind : t.waypointType ≠ HOLD_WAYPOINT) (hr : 0 < (t.turnRadius : F))
    (htan : 0 < lib.tan (lib.acos (-deg2rad lib 1) / 2))
    (hmode : nav.orbitPathStatus = PATH_FOLLOW)
    (hpos : (waypoint_coordinates lib nav t).c0 ≤ (aircraftPosition lib nav currentStatus).c0) :
    ∃ N : Nat, ∀ fuel, N ≤ fuel → ∃ nav1 out,
      get_next_directions lib fuel PATH_BUFFER_SIZE m nav a currentStatus Data =
        .ok ({ m with errorCode := WAYPOINT_SUCCESS }, nav1, out, WAYPOINT_SUCCESS) ∧
      out.out_type = PATH_FOLLOW ∧ nav1.orbitPathStatus = ORBIT_FOLLOW ∧
      ∀ (a2 : Ptr) (status2 : WaypointManager_Data_In) (Data2 : WaypointManager_Data_Out F),
        ∃ N2 : Nat, ∀ fuel2, N2 ≤ fuel2 → ∃ m2 nav2 out2,
          get_next_directions lib fuel2 PATH_BUFFER_SIZE
              { m with errorCode := WAYPOINT_SUCCESS } nav1 a2 status2 Data2 =
            .ok (m2, nav2, out2, WAYPOINT_SUCCESS) ∧
          out2.out_type = ORBIT_FOLLOW := by
  obtain ⟨N, hN⟩ := tick_chain_returns lib hpi PATH_BUFFER_SIZE m nav a currentStatus Data
    p c t w hh hg hidx hp hc hcn ht htn hw
  refine ⟨N, fun fuel hf => ?_⟩
  obtain ⟨⟨m1, nav1, out, s⟩, h1⟩ := hN fuel hf
  obtain ⟨p1, navr, hp1, hfw, hnav, hot, _, _, hs⟩ :=
    tick_following lib fuel PATH_BUFFER_SIZE m m1 nav nav1 a currentStatus Data out s hh hg
      hidx h1
  rw [hp] at hp1
  have e1 := Except.ok.inj hp1
  subst e1
  obtain ⟨hout, hpass, _⟩ := follow_waypoints_path lib fuel
    { m with errorCode := WAYPOINT_SUCCESS } m1 nav navr p
    (aircraftPosition lib nav currentStatus) (currentStatus.heading : F) c t w hc hcn ht htn hw
    hmode hfw
  rw [hq01, hq12] at hpass
  obtain ⟨hmode1, _, hm1⟩ := hpass (collinear_dot_pos lib _ _ _ hr htan hpos)
  have em := hm1 hkind
  subst em
  have es : s = WAYPOINT_SUCCESS := hs
  subst es
  have hmode2 : nav1.orbitPathStatus = ORBIT_FOLLOW := by
    rw [hnav]
    exact hmode1
  refine ⟨nav1, out, h1, hot.trans hout, hmode2, fun a2 status2 Data2 => ?_⟩
  obtain ⟨N2, hN2⟩ := tick_chain_returns lib hpi PATH_BUFFER_SIZE
    { m with errorCode := WAYPOINT_SUCCESS } nav1 a2 status2 Data2 p c t w hh hg hidx hp hc hcn
    ht htn hw
  refine ⟨N2, fun fuel2 hf2 => ?_⟩
  obtain ⟨⟨m2, nav2, out2, s2⟩, h2⟩ := hN2 fuel2 hf2
  obtain ⟨p2, navr2, hp2, hfw2, _, hot2, _, _, hs2⟩ :=
    tick_following lib fuel2 PATH_BUFFER_SIZE _ m2 nav1 nav2 a2 status2 Data2 out2 s2 hh hg
      hidx h2
  have hp0 : readBuffer PATH_BUFFER_SIZE m m.currentIndex = .ok p2 := hp2
  rw [hp] at hp0
  have e2 := Except.ok.inj hp0
  subst e2
  obtain ⟨hm2, hout2, _⟩ := follow_waypoints_orbit lib fuel2
    { m with errorCode := WAYPOINT_SUCCESS } m2 nav1 navr2 p
    (aircraftPosition lib nav1 status2) (status2.heading : F) c t w hc hcn ht htn hw
    (by rw [hmode2]; exact WaypointOutputType.noConfusion) hfw2
  subst hm2
  have es2 : s2 = WAYPOINT_SUCCESS := hs2
  subst es2
  exact ⟨_, nav2, out2, h2, hot2.trans hout2⟩

end NavigationCollinear

theorem flatLib_pi_pos : 0 < flatLib.pi := by
  norm_num [flatLib]

theorem flatLib_half_turn_tan_pos : 0 < flatLib.tan (flatLib.acos (-deg2rad flatLib 1) / 2) := by
  norm_num [flatLib, deg2rad]

/-! ## Navigation: the hold waypoint and the fillet -/

section NavigationHoldWaypoint

variable {F : Type} [LinearOrderedField F] (lib : MathLib F)

/-- C28 fails on the code: outside a hold and outside home-return, in the sub-mode
`PATH_FOLLOW`, with a target `t` of kind `HOLD_WAYPOINT` that has a successor, an
aircraft past the half plane, and enough iterations allowed, the tick returns
`WAYPOINT_SUCCESS` with `inHold` set, the turn direction `1`, the turn radius and
the orbit altitude of `t`; but the stored turn centre is the longitude and the
latitude of `t` themselves, in degrees, so it is the position of `t` in the local
frame only when `get_coordinates` maps that longitude and latitude to
themselves. -/
theorem hold_waypoint_centre_in_degrees [Archimedean F] (hpi : 0 < lib.pi)
    (PATH_BUFFER_SIZE : Nat) (m : WaypointManager) (nav : NavigationData F) (a : Ptr)
    (currentStatus : WaypointManager_Data_In) (Data : WaypointManager_Data_Out F)
    (p : Option Ptr) (c t w : PathData)
    (hh : m.inHold = false) (hg : m.goingHome = false)
    (hidx : ¬ (m.numWaypoints - m.currentIndex < 1 ∧ 0 ≤ m.numWaypoints))
    (hp : readBuffer PATH_BUFFER_SIZE m m.currentIndex = .ok p)
    (hc : deref m p = .ok c) (hcn : c.next ≠ none)
    (ht : deref m c.next = .ok t) (htn : t.next ≠ none) (hw : deref m t.next = .ok w)
    (hkind : t.waypointType = HOLD_WAYPOINT) (hmode : nav.orbitPathStatus = PATH_FOLLOW)
    (hdot : 0 < dotProduct
      (direction3 lib (waypoint_coordinates lib nav t) (waypoint_coordinates lib nav c))
      (aircraftPosition lib nav currentStatus)
      (halfPlane (waypoint_coordinates lib nav t)
        (direction3 lib (waypoint_coordinates lib nav t) (waypoint_coordinates lib nav c))
        (tangentFactor lib (t.turnRadius : F)
          (direction3 lib (waypoint_coordinates lib nav t) (waypoint_coordinates lib nav c))
          (direction3 lib (waypoint_coordinates lib nav w)
            (waypoint_coordinates lib nav t))))) :
    ∃ N : Nat, ∀ fuel, N ≤ fuel → ∃ nav1 out,
      get_next_directions lib fuel PATH_BUFFER_SIZE m nav a currentStatus Data =
        .ok ({ m with inHold := true, errorCode := WAYPOINT_SUCCESS }, nav1, out,
          WAYPOINT_SUCCESS) ∧
      nav1.turnDirection = 1 ∧ nav1.turnRadius = (t.turnRadius : F) ∧
      nav1.turnDesiredAltitude = (t.altitude : F) ∧
      nav1.turnCenter =
        { c0 := (t.longitude : F), c1 := (t.latitude : F), c2 := (t.altitude : F) } ∧
      (nav1.turnCenter = waypoint_coordinates lib nav t ↔
        get_coordinates lib nav (t.longitude : F) (t.latitude : F)
          = ((t.longitude : F), (t.latitude : F))) := by
  obtain ⟨N, hN⟩ := tick_chain_returns lib hpi PATH_BUFFER_SIZE m nav a currentStatus Data
    p c t w hh hg hidx hp hc hcn ht htn hw
  refine ⟨N, fun fuel hf => ?_⟩
  obtain ⟨⟨m1, nav1, out, s⟩, h1⟩ := hN fuel hf
  obtain ⟨p1, navr, hp1, hfw, hnav, _, _, _, hs⟩ :=
    tick_following lib fuel PATH_BUFFER_SIZE m m1 nav nav1 a currentStatus Data out s hh hg
      hidx h1
  rw [hp] at hp1
  have e1 := Except.ok.inj hp1
  subst e1
  obtain ⟨_, hpass, _⟩ := follow_waypoints_path lib fuel
    { m with errorCode := WAYPOINT_SUCCESS } m1 nav navr p
    (aircraftPosition lib nav currentStatus) (currentStatus.heading : F) c t w hc hcn ht htn hw
    hmode hfw
  obtain ⟨_, hhold, _⟩ := hpass hdot
  obtain ⟨em, hd, hr, ha, hcen⟩ := hhold hkind
  subst em
  have es : s = WAYPOINT_SUCCESS := hs
  subst es
  have hcen1 : nav1.turnCenter =
      { c0 := (t.longitude : F), c1 := (t.latitude : F), c2 := (t.altitude : F) } := by
    rw [hnav]
    exact hcen
  refine ⟨nav1, out, h1, by rw [hnav]; exact hd, by rw [hnav]; exact hr,
    by rw [hnav]; exact ha, hcen1, ?_⟩
  rw [hcen1]
  unfold waypoint_coordinates
  simp only [Vec3.mk.injEq, and_true, Prod.ext_iff]
  exact ⟨fun e => ⟨e.1.symm, e.2.symm⟩, fun e => ⟨e.1.symm, e.2.symm⟩⟩

/-- C29 (amended). Fillet turn centre: outside a hold and outside home-return, in
the sub-mode `ORBIT_FOLLOW`, with a target `t` that has a successor, direction
vectors `q01`, `q12` whose difference `d = q12 - q01` has a length `|d|` other than
`0`, and enough iterations allowed, the tick returns `WAYPOINT_SUCCESS` with
`out_type = ORBIT_FOLLOW`, and the turn centre is, component by component,
`W1_i + t * d_i / (s * |d|)`, where `t` is the fillet offset the planner computes
and `s`, the same for the three components, is the product of the signs of the
three components of `d`; the denominator `s * |d|` is not `0`. -/
theorem orbit_turn_centre_common_sign [Archimedean F] (hpi : 0 < lib.pi)
    (PATH_BUFFER_SIZE : Nat) (m : WaypointManager) (nav : NavigationData F) (a : Ptr)
    (currentStatus : WaypointManager_Data_In) (Data : WaypointManager_Data_Out F)
    (p : Option Ptr) (c t w : PathData)
    (hh : m.inHold = false) (hg : m.goingHome = false)
    (hidx : ¬ (m.numWaypoints - m.currentIndex < 1 ∧ 0 ≤ m.numWaypoints))
    (hp : readBuffer PATH_BUFFER_SIZE m m.currentIndex = .ok p)
    (hc : deref m p = .ok c) (hcn : c.next ≠ none)
    (ht : deref m c.next = .ok t) (htn : t.next ≠ none) (hw : deref m t.next = .ok w)
    (hmode : nav.orbitPathStatus = ORBIT_FOLLOW)
    (hd : distance3 lib
      (direction3 lib (waypoint_coordinates lib nav w) (waypoint_coordinates lib nav t))
      (direction3 lib (waypoint_coordinates lib nav t) (waypoint_coordinates lib nav c))
        ≠ 0) :
    ∃ N : Nat, ∀ fuel, N ≤ fuel → ∃ nav1 out,
      get_next_directions lib fuel PATH_BUFFER_SIZE m nav a currentStatus Data =
        .ok ({ m with errorCode := WAYPOINT_SUCCESS }, nav1, out, WAYPOINT_SUCCESS) ∧
      out.out_type = ORBIT_FOLLOW ∧
      nav1.turnCenter = commonSignTurnCenter lib (waypoint_coordinates lib nav t)
        (tangentFactor lib (t.turnRadius : F)
          (direction3 lib (waypoint_coordinates lib nav t) (waypoint_coordinates lib nav c))
          (direction3 lib (waypoint_coordinates lib nav w) (waypoint_coordinates lib nav t)))
        (direction3 lib (waypoint_coordinates lib nav t) (waypoint_coordinates lib nav c))
        (direction3 lib (waypoint_coordinates lib nav w) (waypoint_coordinates lib nav t)) ∧
      euclideanWaypointDirection lib
        (direction3 lib (waypoint_coordinates lib nav t) (waypoint_coordinates lib nav c))
        (direction3 lib (waypoint_coordinates lib nav w) (waypoint_coordinates lib nav t))
          ≠ 0 := by
  obtain ⟨N, hN⟩ := tick_chain_returns lib hpi PATH_BUFFER_SIZE m nav a currentStatus Data
    p c t w hh hg hidx hp hc hcn ht htn hw
  refine ⟨N, fun fuel hf => ?_⟩
  obtain ⟨⟨m1, nav1, out, s⟩, h1⟩ := hN fuel hf
  obtain ⟨p1, navr, hp1, hfw, hnav, hot, _, _, hs⟩ :=
    tick_following lib fuel PATH_BUFFER_SIZE m m1 nav nav1 a currentStatus Data out s hh hg
      hidx h1
  rw [hp] at hp1
  have e1 := Except.ok.inj hp1
  subst e1
  obtain ⟨em, hout, hcen, _⟩ := follow_waypoints_orbit lib fuel
    { m with errorCode := WAYPOINT_SUCCESS } m1 nav navr p
    (aircraftPosition lib nav currentStatus) (currentStatus.heading : F) c t w hc hcn ht htn hw
    (by rw [hmode]; exact WaypointOutputType.noConfusion) hfw
  subst em
  have es : s = WAYPOINT_SUCCESS := hs
  subst es
  refine ⟨nav1, out, h1, hot.trans hout, ?_, ?_⟩
  · rw [hnav]
    show navr.turnCenter = _
    rw [hcen]
    unfold commonSignTurnCenter euclideanWaypointDirection signOf
    simp only [Vec3.mk.injEq]
    refine ⟨?_, ?_, ?_⟩ <;> congr 2 <;> ring
  · unfold distance3 at hd
    unfold euclideanWaypointDirection
    dsimp only
    refine mul_ne_zero (mul_ne_zero (mul_ne_zero hd ?_) ?_) ?_ <;> split_ifs <;> norm_num

end NavigationHoldWaypoint

set_option maxRecDepth 100000 in
/-- C29 (as stated) fails. Over the real numbers, for `q01 = (1, 0, 0)`,
`q12 = (0, 1, 0)`, `W1 = (0, 0, 0)` and `t = 1`: the difference is `d = (-1, 1, 0)`,
the product of the three signs is `-1`, so the second component of the turn centre
with the common denominator is negative, while with the sign of `d_1` alone in the
denominator it is positive. In the program, with the library `flatLib`: in the
buffer `cornerThree` (a right-angled corner, the direction vectors are `(1, 0, 0)`
and `(0, 1, 0)`), in the sub-mode `ORBIT_FOLLOW`, the tick returns
`WAYPOINT_SUCCESS` with the second component of the turn centre `-1400/11`, where
the formula with the per-component sign gives `1400/11`. -/
theorem turn_centre_sign_not_per_component :
    (commonSignTurnCenter
        (MathLib.mk Real.pi Real.sqrt Real.sin Real.cos Real.tan Real.arcsin Real.arccos
          Real.arctan (fun y x => Complex.arg ⟨x, y⟩)
          (fun x => if 0 ≤ x then ⌊x + 1 / 2⌋ else ⌈x - 1 / 2⌉)
          (fun x => if 0 ≤ x then ⌊x⌋ else ⌈x⌉))
        { c0 := 0, c1 := 0, c2 := 0 } 1 { c0 := 1, c1 := 0, c2 := 0 }
        { c0 := 0, c1 := 1, c2 := 0 }).c1 < 0 ∧
    0 < (statedTurnCenter
        (MathLib.mk Real.pi Real.sqrt Real.sin Real.cos Real.tan Real.arcsin Real.arccos
          Real.arctan (fun y x => Complex.arg ⟨x, y⟩)
          (fun x => if 0 ≤ x then ⌊x + 1 / 2⌋ else ⌈x - 1 / 2⌉)
          (fun x => if 0 ≤ x then ⌊x⌋ else ⌈x⌉))
        { c0 := 0, c1 := 0, c2 := 0 } 1 { c0 := 1, c1 := 0, c2 := 0 }
        { c0 := 0, c1 := 1, c2 := 0 }).c1 ∧
    tickStatus (flatTick 0 cornerThree orbitNavigation cornerTelemetry)
      = some WAYPOINT_SUCCESS ∧
    (tickNavigation (flatTick 0 cornerThree orbitNavigation cornerTelemetry)).turnCenter.c1
      = -1400 / 11 ∧
    (statedTurnCenter flatLib (waypoint_coordinates flatLib orbitNavigation equator11)
        (tangentFactor flatLib (equator11.turnRadius : ℚ)
          (direction3 flatLib (waypoint_coordinates flatLib orbitNavigation equator11)
            (waypoint_coordinates flatLib orbitNavigation equator10))
          (direction3 flatLib (waypoint_coordinates flatLib orbitNavigation corner12)
            (waypoint_coordinates flatLib orbitNavigation equator11)))
        (direction3 flatLib (waypoint_coordinates flatLib orbitNavigation equator11)
          (waypoint_coordinates flatLib orbitNavigation equator10))
        (direction3 flatLib (waypoint_coordinates flatLib orbitNavigation corner12)
          (waypoint_coordinates flatLib orbitNavigation equator11))).c1 = 1400 / 11 := by
  refine ⟨?_, ?_, by with_unfolding_all rfl, by with_unfolding_all rfl,
    by with_unfolding_all rfl⟩
  · simp only [commonSignTurnCenter, signOf]
    norm_num
  · simp only [statedTurnCenter, signOf]
    norm_num

/-! ## Id uniqueness: rules for walking through the operations -/

theorem safe_ok {J : WaypointManager → Prop} {m : WaypointManager} (h : J m) :
    Safe J (.ok m) := by
  intro m1 e
  cases e
  exact h

theorem safe_pure {J : WaypointManager → Prop} {m : WaypointManager} (h : J m) :
    Safe J (pure m) := safe_ok h

theorem safe_bind {J : WaypointManager → Prop} {α : Type} (x : Except Fault α)
    (f : α → Except Fault WaypointManager) (h : ∀ a, x = .ok a → Safe J (f a)) :
    Safe J (x >>= f) := by
  intro m1 e
  obtain ⟨a, ha, hf⟩ := (bind_ok_iff _ _ _).mp e
  exact h a ha m1 hf

theorem safe_ite {J : WaypointManager → Prop} {c : Prop} [Decidable c]
    {x y : Except Fault WaypointManager} (hx : c → Safe J x) (hy : ¬ c → Safe J y) :
    Safe J (if c then x else y) := by
  by_cases hc : c
  · rw [if_pos hc]
    exact hx hc
  · rw [if_neg hc]
    exact hy hc

/-- A loop whose body keeps `J` keeps `J`. -/
theorem forUp_safe {J : WaypointManager → Prop}
    (body : Int → WaypointManager → Except Fault WaypointManager)
    (hbody : ∀ i m, J m → Safe J (body i m)) :
    ∀ (cnt : Nat) (i : Int) (m : WaypointManager), J m → Safe J (forUp body cnt i m) := by
  intro cnt
  induction cnt with
  | zero =>
    intro i m hJ
    exact safe_ok hJ
  | succ n ih =>
    intro i m hJ
    unfold forUp
    exact safe_bind _ _ (fun m1 h1 => ih (i + 1) m1 (hbody i m hJ m1 h1))

/-- A loop whose body takes `J i` to `J (i + 1)` takes `J i` to `J (i + cnt)`. -/
theorem forUp_safe_indexed {J : Int → WaypointManager → Prop}
    (body : Int → WaypointManager → Except Fault WaypointManager)
    (hbody : ∀ i m, J i m → Safe (J (i + 1)) (body i m)) :
    ∀ (cnt : Nat) (i : Int) (m : WaypointManager), J i m →
      Safe (J (i + cnt)) (forUp body cnt i m) := by
  intro cnt
  induction cnt with
  | zero =>
    intro i m hJ
    simp only [Nat.cast_zero, add_zero]
    exact safe_ok hJ
  | succ n ih =>
    intro i m hJ
    unfold forUp
    refine safe_bind _ _ (fun m1 h1 => ?_)
    have h2 := ih (i + 1) m1 (hbody i m hJ m1 h1)
    have e : i + 1 + (n : Int) = i + ((n + 1 : Nat) : Int) := by
      push_cast
      ring
    rw [e] at h2
    exact h2

/-! ## Id uniqueness: the primitive steps -/

theorem writeBuffer_ok {S : Nat} {m m1 : WaypointManager} {i : Int} {p : Option Ptr}
    (h : writeBuffer S m i p = .ok m1) :
    (0 ≤ i ∧ i < (S : Int)) ∧
      m1 = { m with waypointBuffer := Function.update m.waypointBuffer i p } := by
  unfold writeBuffer at h
  by_cases hb : 0 ≤ i ∧ i < (S : Int)
  · rw [if_pos hb] at h
    exact ⟨hb, (Except.ok.inj h).symm⟩
  · rw [if_neg hb] at h
    cases h

theorem writeStatus_ok {S : Nat} {m m1 : WaypointManager} {i : Int}
    {st : WaypointBufferStatus} (h : writeStatus S m i st = .ok m1) :
    (0 ≤ i ∧ i < (S : Int)) ∧
      m1 = { m with waypointBufferStatus := Function.update m.waypointBufferStatus i st } := by
  unfold writeStatus at h
  by_cases hb : 0 ≤ i ∧ i < (S : Int)
  · rw [if_pos hb] at h
    exact ⟨hb, (Except.ok.inj h).symm⟩
  · rw [if_neg hb] at h
    cases h

theorem readBuffer_ok {S : Nat} {m : WaypointManager} {i : Int} {p : Option Ptr}
    (h : readBuffer S m i = .ok p) : (0 ≤ i ∧ i < (S : Int)) ∧ p = m.waypointBuffer i := by
  unfold readBuffer at h
  by_cases hb : 0 ≤ i ∧ i < (S : Int)
  · rw [if_pos hb] at h
    exact ⟨hb, (Except.ok.inj h).symm⟩
  · rw [if_neg hb] at h
    cases h

theorem readStatus_ok {S : Nat} {m : WaypointManager} {i : Int} {st : WaypointBufferStatus}
    (h : readStatus S m i = .ok st) :
    (0 ≤ i ∧ i < (S : Int)) ∧ st = m.waypointBufferStatus i := by
  unfold readStatus at h
  by_cases hb : 0 ≤ i ∧ i < (S : Int)
  · rw [if_pos hb] at h
    exact ⟨hb, (Except.ok.inj h).symm⟩
  · rw [if_neg hb] at h
    cases h

theorem Quiet.same (m : WaypointManager) : Quiet m m :=
  ⟨rfl, rfl, rfl, fun _ d h => ⟨d, h, rfl⟩⟩

theorem Quiet.andThen {m m1 m2 : WaypointManager} (h1 : Quiet m m1) (h2 : Quiet m1 m2) :
    Quiet m m2 := by
  obtain ⟨a1, b1, c1, d1⟩ := h1
  obtain ⟨a2, b2, c2, d2⟩ := h2
  refine ⟨a2.trans a1, b2.trans b1, c2.trans c1, fun a d hd => ?_⟩
  obtain ⟨e, he, hid⟩ := d2 a d hd
  obtain ⟨e1, he1, hid1⟩ := d1 a e he
  exact ⟨e1, he1, hid1.trans hid⟩

/-- A field assignment that keeps the id is a quiet step. -/
theorem assign_quiet {m m1 : WaypointManager} {p : Option Ptr} {f : PathData → PathData}
    (h : assign m p f = .ok m1) (hf : ∀ d, (f d).waypointId = d.waypointId) : Quiet m m1 := by
  obtain ⟨b, d, _, hb, hm⟩ := (assign_ok_iff _ _ _ _).mp h
  subst hm
  refine ⟨rfl, rfl, rfl, fun a d1 hd => ?_⟩
  by_cases hab : a = b
  · subst hab
    simp only [Function.update_same, Option.some.injEq] at hd
    subst hd
    exact ⟨d, hb, (hf d).symm⟩
  · simp only [Function.update_apply, if_neg hab] at hd
    exact ⟨d1, hd, rfl⟩

/-- The statement `delete p` is a quiet step. -/
theorem free_quiet {m m1 : WaypointManager} {p : Option Ptr} (h : free m p = .ok m1) :
    Quiet m m1 := by
  cases p with
  | none =>
    simp only [free, Except.ok.injEq] at h
    subst h
    exact Quiet.same m
  | some b =>
    obtain ⟨_, hm⟩ := (free_ok_iff _ _ _).mp h
    subst hm
    refine ⟨rfl, rfl, rfl, fun a d1 hd => ?_⟩
    by_cases hab : a = b
    · subst hab
      simp only [Function.update_same] at hd
      cases hd
    · simp only [Function.update_apply, if_neg hab] at hd
      exact ⟨d1, hd, rfl⟩

/-- The function `destroy_waypoint` is a quiet step. -/
theorem destroy_waypoint_quiet {m m1 : WaypointManager} {p : Option Ptr}
    (h : destroy_waypoint m p = .ok m1) : Quiet m m1 := by
  unfold destroy_waypoint at h
  obtain ⟨_, _, h⟩ := (bind_ok_iff _ _ _).mp h
  obtain ⟨m2, h2, h⟩ := (bind_ok_iff _ _ _).mp h
  obtain ⟨m3, h3, h⟩ := (bind_ok_iff _ _ _).mp h
  exact ((assign_quiet h2 (fun _ => rfl)).andThen (assign_quiet h3 (fun _ => rfl))).andThen
    (free_quiet h)

theorem HeapInv.heap_quiet {E : Ptr → Prop} {m m1 : WaypointManager} (h : HeapInv E m)
    (hq : Quiet m m1) : HeapInv E m1 := by
  obtain ⟨hA, hB⟩ := h
  obtain ⟨_, _, hn, hh⟩ := hq
  refine ⟨fun a d1 hE hd => ?_, fun a b da db hEa hEb ha hb hid => ?_⟩
  · obtain ⟨d, hd0, hid⟩ := hh a d1 hd
    rw [hn, ← hid]
    exact hA a d hE hd0
  · obtain ⟨da0, ha0, hida⟩ := hh a da ha
    obtain ⟨db0, hb0, hidb⟩ := hh b db hb
    exact hB a b da0 db0 hEa hEb ha0 hb0 (by rw [hida, hidb, hid])

theorem Occupies.occ_quiet {S : Nat} {m m1 : WaypointManager} {i : Int} {b : Ptr}
    (hq : Quiet m m1) : Occupies S m1 i b ↔ Occupies S m i b := by
  unfold Occupies
  rw [hq.1, hq.2.1]

theorem SlotInv.slot_quiet {S : Nat} {Q : Int → Ptr → Prop} {m m1 : WaypointManager}
    (h : SlotInv S Q m) (hq : Quiet m m1) : SlotInv S Q m1 :=
  ⟨fun i b ho => h.1 i b ((Occupies.occ_quiet hq).mp ho),
    fun i j b hi hj => h.2 i j b ((Occupies.occ_quiet hq).mp hi) ((Occupies.occ_quiet hq).mp hj)⟩

theorem IdInv.inv_quiet {S : Nat} {E H : Ptr → Prop} {m m1 : WaypointManager}
    (h : IdInv S E H m) (hq : Quiet m m1) : IdInv S E H m1 :=
  ⟨h.1.heap_quiet hq, h.2.slot_quiet hq⟩

/-- A write to the buffer or to the tags leaves the heap part of the invariant
alone. -/
theorem HeapInv.same_heap {E : Ptr → Prop} {m m1 : WaypointManager} (h : HeapInv E m)
    (hh : m1.heap = m.heap) (hn : m1.nextAssignedId = m.nextAssignedId) : HeapInv E m1 := by
  obtain ⟨hA, hB⟩ := h
  refine ⟨fun a d hE hd => ?_, fun a b da db hEa hEb ha hb hid => ?_⟩
  · rw [hn]
    rw [hh] at hd
    exact hA a d hE hd
  · rw [hh] at ha hb
    exact hB a b da db hEa hEb ha hb hid

/-! ## Id uniqueness: the quiet parts of the operations -/

theorem quiet_assign_end {m0 m : WaypointManager} {p : Option Ptr} {f : PathData → PathData}
    (hq : Quiet m0 m) (hf : ∀ d, (f d).waypointId = d.waypointId) :
    Safe (Quiet m0) (assign m p f) :=
  fun _ e => hq.andThen (assign_quiet e hf)

theorem quiet_assign_bind {m0 m : WaypointManager} {p : Option Ptr} {f : PathData → PathData}
    {g : WaypointManager → Except Fault WaypointManager} (hq : Quiet m0 m)
    (hf : ∀ d, (f d).waypointId = d.waypointId)
    (hg : ∀ m1, Quiet m0 m1 → Safe (Quiet m0) (g m1)) :
    Safe (Quiet m0) (assign m p f >>= g) :=
  safe_bind _ _ (fun m1 e => hg m1 (hq.andThen (assign_quiet e hf)))

theorem quiet_destroy_end {m0 m : WaypointManager} {p : Option Ptr} (hq : Quiet m0 m) :
    Safe (Quiet m0) (destroy_waypoint m p) :=
  fun _ e => hq.andThen (destroy_waypoint_quiet e)

theorem quiet_counters {m0 m : WaypointManager} (hq : Quiet m0 m) (n f : Int) :
    Quiet m0 { m with nextFilledIndex := f, numWaypoints := n } :=
  ⟨hq.1, hq.2.1, hq.2.2.1, hq.2.2.2⟩

theorem delete_relink_quiet (S : Nat) (m : WaypointManager) (k : Int) :
    Safe (Quiet m) (delete_relink S m k) := by
  have hq := Quiet.same m
  unfold delete_relink
  dsimp only
  repeat' (first
    | exact quiet_assign_end (by assumption) (fun _ => rfl)
    | exact safe_pure (by assumption)
    | refine quiet_assign_bind (by assumption) (fun _ => rfl) (fun _ _ => ?_)
    | refine safe_ite (fun _ => ?_) (fun _ => ?_)
    | refine safe_bind _ _ (fun _ _ => ?_))

theorem initialize_link_body_quiet (S : Nat) (i : Int) (m : WaypointManager) :
    Safe (Quiet m) (initialize_link_body S i m) := by
  have hq := Quiet.same m
  unfold initialize_link_body
  repeat' (first
    | exact quiet_assign_end (by assumption) (fun _ => rfl)
    | exact safe_pure (by assumption)
    | refine quiet_assign_bind (by assumption) (fun _ => rfl) (fun _ _ => ?_)
    | refine safe_ite (fun _ => ?_) (fun _ => ?_)
    | refine safe_bind _ _ (fun _ _ => ?_))

/-- The function `update_waypoint`, once the id is resolved: the new pointer is
written to slot `k`, and the rest is quiet. -/
theorem update_store_shape (S : Nat) (m m1 : WaypointManager) (w : Option Ptr) (k : Int)
    (h : update_store S m w k = .ok m1) :
    (0 ≤ k ∧ k < (S : Int)) ∧
      Quiet { m with waypointBuffer := Function.update m.waypointBuffer k w } m1 := by
  unfold update_store at h
  dsimp only at h
  rw [bind_ok_iff] at h
  obtain ⟨old, _, h⟩ := h
  rw [bind_ok_iff] at h
  obtain ⟨m0, h0, h⟩ := h
  obtain ⟨hb, e0⟩ := writeBuffer_ok h0
  refine ⟨hb, ?_⟩
  rw [← e0]
  have hq := Quiet.same m0
  revert h
  revert m1
  show Safe (Quiet m0) _
  repeat' (first
    | exact quiet_assign_end (by assumption) (fun _ => rfl)
    | exact quiet_destroy_end (by assumption)
    | exact safe_pure (by assumption)
    | refine quiet_assign_bind (by assumption) (fun _ => rfl) (fun _ _ => ?_)
    | refine safe_ite (fun _ => ?_) (fun _ => ?_)
    | refine safe_bind _ _ (fun _ _ => ?_))

/-- The function `append_waypoint` after the duplicate test: the new pointer is
written to slot `nextFilledIndex`, the slot is tagged `FULL`, and the rest is
quiet. -/
theorem append_store_shape (S : Nat) (m m1 : WaypointManager) (w : Option Ptr) (pi : Int)
    (h : append_store S m w pi = .ok m1) :
    (0 ≤ m.nextFilledIndex ∧ m.nextFilledIndex < (S : Int)) ∧
      Quiet { m with
        waypointBuffer := Function.update m.waypointBuffer m.nextFilledIndex w
        waypointBufferStatus := Function.update m.waypointBufferStatus m.nextFilledIndex FULL }
        m1 := by
  unfold append_store at h
  rw [bind_ok_iff] at h
  obtain ⟨ma, ha, h⟩ := h
  obtain ⟨hb, ea⟩ := writeBuffer_ok ha
  rw [bind_ok_iff] at h
  obtain ⟨mb, hb1, h⟩ := h
  obtain ⟨_, eb⟩ := writeStatus_ok hb1
  refine ⟨hb, ?_⟩
  have e : ({ m with
      waypointBuffer := Function.update m.waypointBuffer m.nextFilledIndex w
      waypointBufferStatus := Function.update m.waypointBufferStatus m.nextFilledIndex FULL } :
      WaypointManager) = mb := by
    rw [eb, ea]
  rw [e]
  have hq := Quiet.same mb
  revert h
  revert m1
  show Safe (Quiet mb) _
  repeat' (first
    | exact quiet_assign_end (by assumption) (fun _ => rfl)
    | exact safe_pure (quiet_counters (by assumption) _ _)
    | refine quiet_assign_bind (by assumption) (fun _ => rfl) (fun _ _ => ?_)
    | refine safe_ite (fun _ => ?_) (fun _ => ?_)
    | refine safe_bind _ _ (fun _ _ => ?_))

/-! ## Id uniqueness: writes to the buffer and to the tags -/

/-- When every occupied slot was occupied by the same pointer before, the slot
invariant is kept. -/
theorem SlotInv.shrink {S : Nat} {Q : Int → Ptr → Prop} {m m1 : WaypointManager}
    (h : SlotInv S Q m) (hsub : ∀ i b, Occupies S m1 i b → Occupies S m i b) :
    SlotInv S Q m1 :=
  ⟨fun i b ho => h.1 i b (hsub i b ho),
    fun i j b hi hj => h.2 i j b (hsub i b hi) (hsub j b hj)⟩

theorem SlotInv.relax {S : Nat} {Q Q1 : Int → Ptr → Prop} {m : WaypointManager}
    (h : SlotInv S Q m) (hQ : ∀ i b, Q i b → Q1 i b) : SlotInv S Q1 m :=
  ⟨fun i b ho => hQ i b (h.1 i b ho), h.2⟩

theorem inv_of_quiet {S : Nat} {E : Ptr → Prop} {Q : Int → Ptr → Prop}
    {m m1 : WaypointManager} (hq : Quiet m m1) (h : HeapInv E m ∧ SlotInv S Q m) :
    HeapInv E m1 ∧ SlotInv S Q m1 :=
  ⟨h.1.heap_quiet hq, h.2.slot_quiet hq⟩

/-- The write of a null pointer to a slot keeps the invariant. -/
theorem inv_writeBuffer_none {S : Nat} {E : Ptr → Prop} {Q : Int → Ptr → Prop}
    {m : WaypointManager} (i : Int) (h : HeapInv E m ∧ SlotInv S Q m) :
    Safe (fun m1 => HeapInv E m1 ∧ SlotInv S Q m1) (writeBuffer S m i none) := by
  intro m1 e
  obtain ⟨_, e1⟩ := writeBuffer_ok e
  subst e1
  refine ⟨h.1.same_heap rfl rfl, h.2.shrink (fun j b ho => ?_)⟩
  obtain ⟨h0, h1, h2, h3⟩ := ho
  refine ⟨h0, h1, h2, ?_⟩
  by_cases hj : j = i
  · subst hj
    simp only [Function.update_same] at h3
    cases h3
  · simpa only [Function.update_apply, if_neg hj] using h3

/-- The write of the tag `FREE` keeps the invariant. -/
theorem inv_writeStatus_free {S : Nat} {E : Ptr → Prop} {Q : Int → Ptr → Prop}
    {m : WaypointManager} (i : Int) (h : HeapInv E m ∧ SlotInv S Q m) :
    Safe (fun m1 => HeapInv E m1 ∧ SlotInv S Q m1) (writeStatus S m i FREE) := by
  intro m1 e
  obtain ⟨_, e1⟩ := writeStatus_ok e
  subst e1
  refine ⟨h.1.same_heap rfl rfl, h.2.shrink (fun j b ho => ?_)⟩
  obtain ⟨h0, h1, h2, h3⟩ := ho
  refine ⟨h0, h1, ?_, h3⟩
  by_cases hj : j = i
  · subst hj
    simp only [Function.update_same] at h2
    cases h2
  · simpa only [Function.update_apply, if_neg hj] using h2

/-- The store of a pointer that is in no occupied slot: the slot `k` receives `a`,
and the tags of the other slots are kept. -/
theorem SlotInv.store {S : Nat} {E H : Ptr → Prop} {m m1 : WaypointManager} {k : Int}
    {a : Ptr} (h : SlotInv S (fun _ b => E b ∧ H b) m) (hE : E a) (hH : ¬ H a)
    (hbuf : m1.waypointBuffer = Function.update m.waypointBuffer k (some a))
    (hst : ∀ j, j ≠ k → m1.waypointBufferStatus j = m.waypointBufferStatus j) :
    SlotInv S (fun _ b => E b ∧ (b = a ∨ H b)) m1 := by
  have old : ∀ j b, Occupies S m1 j b → j ≠ k → Occupies S m j b := by
    intro j b ho hj
    obtain ⟨h0, h1, h2, h3⟩ := ho
    rw [hst j hj] at h2
    rw [hbuf] at h3
    simp only [Function.update_apply, if_neg hj] at h3
    exact ⟨h0, h1, h2, h3⟩
  have new : ∀ b, Occupies S m1 k b → b = a := by
    intro b ho
    obtain ⟨_, _, _, h3⟩ := ho
    rw [hbuf] at h3
    simp only [Function.update_same, Option.some.injEq] at h3
    exact h3.symm
  refine ⟨fun j b ho => ?_, fun i j b hi hj => ?_⟩
  · by_cases hj : j = k
    · subst hj
      rw [new b ho]
      exact ⟨hE, Or.inl rfl⟩
    · have := h.1 j b (old j b ho hj)
      exact ⟨this.1, Or.inr this.2⟩
  · by_cases hik : i = k
    · by_cases hjk : j = k
      · rw [hik, hjk]
      · subst hik
        have e := new b hi
        subst e
        exact absurd (h.1 j b (old j b hj hjk)).2 hH
    · by_cases hjk : j = k
      · subst hjk
        have e := new b hj
        subst e
        exact absurd (h.1 i b (old i b hi hik)).2 hH
      · exact h.2 i j b (old i b hi hik) (old j b hj hjk)

/-- The body of the compacting loop of `delete_waypoint` keeps the invariant, for
a condition `Q` on the pointers that does not depend on the slot. -/
theorem delete_compact_body_inv {S : Nat} {E : Ptr → Prop} {Q : Ptr → Prop}
    (i : Int) (m : WaypointManager) (h : HeapInv E m ∧ SlotInv S (fun _ b => Q b) m) :
    Safe (fun m1 => HeapInv E m1 ∧ SlotInv S (fun _ b => Q b) m1)
      (delete_compact_body S i m) := by
  unfold delete_compact_body
  refine safe_bind _ _ (fun st hst => ?_)
  obtain ⟨hb1, est⟩ := readStatus_ok hst
  refine safe_ite (fun hfree => ?_) (fun _ => ?_)
  · refine safe_bind _ _ (fun m1 h1 => ?_)
    exact inv_writeBuffer_none i (inv_writeStatus_free i h m1 h1)
  · refine safe_bind _ _ (fun st1 hst1 => ?_)
    obtain ⟨_, est1⟩ := readStatus_ok hst1
    refine safe_ite (fun hfull => ?_) (fun _ => safe_pure h)
    intro m4 e
    rw [bind_ok_iff] at e
    obtain ⟨m1, h1, e⟩ := e
    rw [bind_ok_iff] at e
    obtain ⟨p, hp, e⟩ := e
    rw [bind_ok_iff] at e
    obtain ⟨m2, h2, e⟩ := e
    obtain ⟨hbi, e1⟩ := writeStatus_ok h1
    obtain ⟨_, ep⟩ := readBuffer_ok hp
    obtain ⟨_, e2⟩ := writeBuffer_ok h2
    obtain ⟨_, e3⟩ := writeStatus_ok e
    subst e1
    subst e2
    subst e3
    dsimp only at ep
    subst ep
    rw [est1] at hfull
    have hne : i + 1 ≠ i := by omega
    have shift : ∀ j b,
        Occupies S
          { m with
            waypointBufferStatus :=
              Function.update (Function.update m.waypointBufferStatus i FULL) (i + 1) FREE
            waypointBuffer := Function.update m.waypointBuffer i (m.waypointBuffer (i + 1)) }
          j b →
        j ≠ i + 1 ∧ Occupies S m (if j = i then i + 1 else j) b := by
      intro j b ho
      obtain ⟨h0, h1, h2, h3⟩ := ho
      dsimp only at h2 h3
      by_cases hj1 : j = i + 1
      · subst hj1
        simp only [Function.update_same] at h2
        cases h2
      · refine ⟨hj1, ?_⟩
        by_cases hji : j = i
        · subst hji
          simp only [Function.update_same] at h3
          rw [if_pos rfl]
          exact ⟨hb1.1, hb1.2, hfull, h3⟩
        · rw [if_neg hji]
          simp only [Function.update_apply, if_neg hj1, if_neg hji] at h2 h3
          exact ⟨h0, h1, h2, h3⟩
    refine ⟨h.1.same_heap rfl rfl, fun j b ho => h.2.1 _ b (shift j b ho).2,
      fun j j1 b hj hj1 => ?_⟩
    obtain ⟨n1, o1⟩ := shift j b hj
    obtain ⟨n2, o2⟩ := shift j1 b hj1
    have e := h.2.2 _ _ b o1 o2
    by_cases c1 : j = i
    · by_cases c2 : j1 = i
      · rw [c1, c2]
      · rw [if_pos c1, if_neg c2] at e
        exact absurd e.symm n2
    · by_cases c2 : j1 = i
      · rw [if_neg c1, if_pos c2] at e
        exact absurd e n1
      · rw [if_neg c1, if_neg c2] at e
        exact e

/-! ## Id uniqueness: the operations keep the invariant -/

theorem IdInv.mono_handed {S : Nat} {E H H1 : Ptr → Prop} {m : WaypointManager}
    (h : IdInv S E H m) (hH : ∀ b, H b → H1 b) : IdInv S E H1 m :=
  ⟨h.1, h.2.relax (fun _ b hb => ⟨hb.1, hH b hb.2⟩)⟩

/-- A change of members other than the heap, the buffer, the tags and
`nextAssignedId` keeps the invariant. -/
theorem IdInv.frame {S : Nat} {E H : Ptr → Prop} {m m1 : WaypointManager}
    (h : IdInv S E H m) (hh : m1.heap = m.heap) (hb : m1.waypointBuffer = m.waypointBuffer)
    (hs : m1.waypointBufferStatus = m.waypointBufferStatus)
    (hn : m1.nextAssignedId = m.nextAssignedId) : IdInv S E H m1 :=
  h.inv_quiet ⟨hb, hs, hn, fun a d hd => ⟨d, by rw [← hh]; exact hd, rfl⟩⟩

theorem delete_store_inv {S : Nat} {E H : Ptr → Prop} (m : WaypointManager) (k : Int)
    (h : IdInv S E H m) : Safe (IdInv S E H) (delete_store S m k) := by
  unfold delete_store
  dsimp only
  refine safe_bind _ _ (fun old _ => ?_)
  refine safe_bind _ _ (fun m1 h1 => ?_)
  refine safe_bind _ _ (fun m2 h2 => ?_)
  have i2 : IdInv S E H m2 :=
    (h.inv_quiet (delete_relink_quiet S m k m1 h1)).inv_quiet (destroy_waypoint_quiet h2)
  refine safe_ite (fun _ => ?_) (fun _ => ?_)
  · refine safe_bind _ _ (fun m21 h21 => ?_)
    refine safe_bind _ _ (fun m3 h3 => ?_)
    have i3 : IdInv S E H m3 := inv_writeStatus_free k (inv_writeBuffer_none k i2 m21 h21) m3 h3
    exact safe_pure (i3.frame rfl rfl rfl rfl)
  · refine safe_bind _ _ (fun m3 h3 => ?_)
    have i3 : IdInv S E H m3 :=
      forUp_safe _ (fun i mm hmm => delete_compact_body_inv i mm hmm) _ _ _ i2 m3 h3
    exact safe_pure (i3.frame rfl rfl rfl rfl)

theorem update_path_nodes_delete_inv {S : Nat} {E H : Ptr → Prop}
    (m m1 : WaypointManager) (w : Option Ptr) (waypointId previousId nextId : Int)
    (s : WaypointStatus) (h : IdInv S E H m)
    (hr : update_path_nodes S m w DELETE_WAYPOINT waypointId previousId nextId
      = .ok (m1, s)) : IdInv S E H m1 := by
  unfold update_path_nodes at hr
  rw [if_neg (by
    rintro ⟨_, h1 | h1⟩
    · exact WaypointBufferUpdateType.noConfusion h1
    · exact WaypointBufferUpdateType.noConfusion h1)] at hr
  rw [bind_ok_iff] at hr
  obtain ⟨⟨mr, sr⟩, h1, hr⟩ := hr
  simp only [pure_eq_ok, Except.ok.injEq, Prod.mk.injEq] at hr
  obtain ⟨e1, _⟩ := hr
  subst e1
  refine IdInv.frame (m := mr) ?_ rfl rfl rfl rfl
  simp only [update_path_nodes_dispatch, delete_waypoint] at h1
  rw [bind_ok_iff] at h1
  obtain ⟨k, _, h1⟩ := h1
  split_ifs at h1
  · simp only [pure_eq_ok, Except.ok.injEq, Prod.mk.injEq] at h1
    rw [← h1.1]
    exact h
  · rw [bind_ok_iff] at h1
    obtain ⟨m2, h2, h1⟩ := h1
    simp only [pure_eq_ok, Except.ok.injEq, Prod.mk.injEq] at h1
    obtain ⟨e2, _⟩ := h1
    subst e2
    exact delete_store_inv m k h m2 h2

theorem update_path_nodes_update_inv {S : Nat} {E H : Ptr → Prop}
    (m m1 : WaypointManager) (a : Ptr) (waypointId previousId nextId : Int)
    (s : WaypointStatus) (h : IdInv S E H m) (hE : E a) (hH : ¬ H a)
    (hr : update_path_nodes S m (some a) UPDATE_WAYPOINT waypointId previousId nextId
      = .ok (m1, s)) : IdInv S E (fun p => p = a ∨ H p) m1 := by
  unfold update_path_nodes at hr
  rw [if_neg (by
    rintro ⟨_, h1 | h1⟩
    · exact WaypointBufferUpdateType.noConfusion h1
    · exact WaypointBufferUpdateType.noConfusion h1)] at hr
  rw [bind_ok_iff] at hr
  obtain ⟨⟨mr, sr⟩, h1, hr⟩ := hr
  simp only [pure_eq_ok, Except.ok.injEq, Prod.mk.injEq] at hr
  obtain ⟨e1, _⟩ := hr
  subst e1
  refine IdInv.frame (m := mr) ?_ rfl rfl rfl rfl
  simp only [update_path_nodes_dispatch, update_waypoint] at h1
  rw [bind_ok_iff] at h1
  obtain ⟨k, _, h1⟩ := h1
  split_ifs at h1
  · simp only [pure_eq_ok, Except.ok.injEq, Prod.mk.injEq] at h1
    rw [← h1.1]
    exact h.mono_handed (fun _ hb => Or.inr hb)
  · rw [bind_ok_iff] at h1
    obtain ⟨m2, h2, h1⟩ := h1
    simp only [pure_eq_ok, Except.ok.injEq, Prod.mk.injEq] at h1
    obtain ⟨e2, _⟩ := h1
    subst e2
    obtain ⟨_, hq⟩ := update_store_shape S m m2 (some a) k h2
    exact inv_of_quiet hq ⟨h.1.same_heap rfl rfl, h.2.store hE hH rfl (fun _ _ => rfl)⟩

theorem update_path_nodes_append_inv {S : Nat} {E H : Ptr → Prop}
    (m m1 : WaypointManager) (a : Ptr) (waypointId previousId nextId : Int)
    (s : WaypointStatus) (h : IdInv S E H m) (hE : E a) (hH : ¬ H a)
    (hr : update_path_nodes S m (some a) APPEND_WAYPOINT waypointId previousId nextId
      = .ok (m1, s)) : IdInv S E (fun p => p = a ∨ H p) m1 := by
  unfold update_path_nodes at hr
  by_cases hfull : m.numWaypoints = (S : Int) ∧
      (APPEND_WAYPOINT = APPEND_WAYPOINT ∨ APPEND_WAYPOINT = INSERT_WAYPOINT)
  · rw [if_pos hfull] at hr
    simp only [pure_eq_ok, Except.ok.injEq, Prod.mk.injEq] at hr
    rw [← hr.1]
    exact h.mono_handed (fun _ hb => Or.inr hb)
  · rw [if_neg hfull] at hr
    rw [bind_ok_iff] at hr
    obtain ⟨⟨mr, sr⟩, h1, hr⟩ := hr
    simp only [pure_eq_ok, Except.ok.injEq, Prod.mk.injEq] at hr
    obtain ⟨e1, _⟩ := hr
    subst e1
    refine IdInv.frame (m := mr) ?_ rfl rfl rfl rfl
    simp only [update_path_nodes_dispatch, append_waypoint] at h1
    rw [bind_ok_iff] at h1
    obtain ⟨dup, _, h1⟩ := h1
    split_ifs at h1
    · simp only [pure_eq_ok, Except.ok.injEq, Prod.mk.injEq] at h1
      rw [← h1.1]
      exact h.mono_handed (fun _ hb => Or.inr hb)
    · rw [bind_ok_iff] at h1
      obtain ⟨m2, h2, h1⟩ := h1
      simp only [pure_eq_ok, Except.ok.injEq, Prod.mk.injEq] at h1
      obtain ⟨e2, _⟩ := h1
      subst e2
      obtain ⟨_, hq⟩ := append_store_shape S m m2 (some a) _ h2
      refine inv_of_quiet hq ⟨h.1.same_heap rfl rfl, h.2.store hE hH rfl (fun j hj => ?_)⟩
      simp only [Function.update_apply, if_neg hj]

/-! ## Id uniqueness: initialize, clear, the factories -/

/-- The body of the filling loop of `initialize_flight_path`: after it the slot `i`
holds the `i`-th pointer of the list. -/
theorem initialize_fill_body_inv {S : Nat} {E H : Ptr → Prop} (ws : List Ptr)
    (hE : ∀ a, a ∈ ws → E a ∧ ¬ H a) (hd : ws.Nodup) (i : Int) (m : WaypointManager)
    (h : HeapInv E m ∧ SlotInv S (fun j b => E b ∧
      (H b ∨ ∃ t : Nat, (t : Int) < i ∧ ws[t]? = some b ∧ j = (t : Int))) m) :
    Safe (fun m1 => HeapInv E m1 ∧ SlotInv S (fun j b => E b ∧
        (H b ∨ ∃ t : Nat, (t : Int) < i + 1 ∧ ws[t]? = some b ∧ j = (t : Int))) m1)
      (initialize_fill_body S (ws.map some) i m) := by
  intro m3 e
  unfold initialize_fill_body at e
  dsimp only at e
  have hw : ∃ b, ws[i.toNat]? = some b ∧
      (writeBuffer S m i (some b) >>= fun m1 => writeStatus S m1 i FULL >>= fun m2 =>
        (pure { m2 with nextFilledIndex := i + 1 } : Except Fault WaypointManager))
        = .ok m3 := by
    cases hq : (List.map some ws)[i.toNat]? with
    | none =>
      simp only [hq] at e
      rw [bind_ok_iff] at e
      obtain ⟨_, e0, _⟩ := e
      cases e0
    | some q =>
      simp only [hq] at e
      rw [bind_ok_iff] at e
      obtain ⟨p, hp, e⟩ := e
      simp only [pure_eq_ok, Except.ok.injEq] at hp
      subst hp
      rw [List.getElem?_map] at hq
      cases hv : ws[i.toNat]? with
      | none =>
        rw [hv] at hq
        cases hq
      | some b =>
        rw [hv] at hq
        have eq : q = some b := (Option.some.inj hq).symm
        subst eq
        exact ⟨b, rfl, e⟩
  clear e
  obtain ⟨b, hwb, e⟩ := hw
  rw [bind_ok_iff] at e
  obtain ⟨m1, h1, e⟩ := e
  rw [bind_ok_iff] at e
  obtain ⟨m2, h2, e⟩ := e
  obtain ⟨hb, e1⟩ := writeBuffer_ok h1
  obtain ⟨_, e2⟩ := writeStatus_ok h2
  simp only [pure_eq_ok, Except.ok.injEq] at e
  subst e1
  subst e2
  subst e
  have hcast : ((i.toNat : Nat) : Int) = i := Int.toNat_of_nonneg hb.1
  have hmem : b ∈ ws := List.getElem?_mem hwb
  have old : ∀ j c,
      Occupies S
        { m with
          waypointBuffer := Function.update m.waypointBuffer i (some b)
          waypointBufferStatus := Function.update m.waypointBufferStatus i FULL
          nextFilledIndex := i + 1 } j c →
      j ≠ i → Occupies S m j c := by
    intro j c ho hj
    obtain ⟨h0, h1, h2, h3⟩ := ho
    simp only [Function.update_apply, if_neg hj] at h2 h3
    exact ⟨h0, h1, h2, h3⟩
  have new : ∀ c,
      Occupies S
        { m with
          waypointBuffer := Function.update m.waypointBuffer i (some b)
          waypointBufferStatus := Function.update m.waypointBufferStatus i FULL
          nextFilledIndex := i + 1 } i c → c = b := by
    intro c ho
    obtain ⟨_, _, _, h3⟩ := ho
    simp only [Function.update_same, Option.some.injEq] at h3
    exact h3.symm
  have clash : ∀ j, Occupies S m j b → j ≠ i → False := by
    intro j ho hj
    obtain ⟨_, hQ⟩ := h.2.1 j b ho
    rcases hQ with hH | ⟨t, ht, hwt, hjt⟩
    · exact (hE b hmem).2 hH
    · have hlen : t < ws.length := by
        obtain ⟨hl, _⟩ := List.getElem?_eq_some.mp hwt
        exact hl
      have := List.getElem?_inj hlen hd (hwt.trans hwb.symm)
      rw [hjt, this, hcast] at hj
      exact hj rfl
  refine ⟨h.1.same_heap rfl rfl, fun j c ho => ?_, fun j j1 c hj hj1 => ?_⟩
  · by_cases hji : j = i
    · subst hji
      rw [new c ho]
      exact ⟨(hE b hmem).1, Or.inr ⟨j.toNat, by omega, hwb, hcast.symm⟩⟩
    · obtain ⟨hEc, hQ⟩ := h.2.1 j c (old j c ho hji)
      refine ⟨hEc, ?_⟩
      rcases hQ with hH | ⟨t, ht, hwt, hjt⟩
      · exact Or.inl hH
      · exact Or.inr ⟨t, by omega, hwt, hjt⟩
  · by_cases c1 : j = i
    · by_cases c2 : j1 = i
      · rw [c1, c2]
      · subst c1
        have e := new c hj
        subst e
        exact absurd (old j1 c hj1 c2) (fun ho => clash j1 ho c2)
    · by_cases c2 : j1 = i
      · subst c2
        have e := new c hj1
        subst e
        exact absurd (old j c hj c1) (fun ho => clash j ho c1)
      · exact h.2.2 j j1 c (old j c hj c1) (old j1 c hj1 c2)

/-- The three loops of `initialize_flight_path` keep the invariant, with the
pointers of the list handed. -/
theorem initialize_loops_inv {S : Nat} {E H : Ptr → Prop} (ws : List Ptr)
    (hE : ∀ a, a ∈ ws → E a ∧ ¬ H a) (hd : ws.Nodup) (m : WaypointManager)
    (h : IdInv S E H m) :
    Safe (IdInv S E (fun p => p ∈ ws ∨ H p))
      (initialize_flight_path_loops S m (ws.map some)) := by
  unfold initialize_flight_path_loops
  refine safe_bind _ _ (fun m1 h1 => ?_)
  have i1 := forUp_safe_indexed
    (J := fun i mm => HeapInv E mm ∧ SlotInv S (fun j b => E b ∧
      (H b ∨ ∃ t : Nat, (t : Int) < i ∧ ws[t]? = some b ∧ j = (t : Int))) mm)
    (initialize_fill_body S (ws.map some))
    (fun i mm hmm => initialize_fill_body_inv ws hE hd i mm hmm) m.numWaypoints.toNat 0 m
    ⟨h.1, h.2.relax (fun _ b hb => ⟨hb.1, Or.inl hb.2⟩)⟩ m1 h1
  have j1 : IdInv S E (fun p => p ∈ ws ∨ H p) m1 := by
    refine ⟨i1.1, i1.2.relax (fun j b hb => ⟨hb.1, ?_⟩)⟩
    rcases hb.2 with hH | ⟨t, _, hwt, _⟩
    · exact Or.inr hH
    · exact Or.inl (List.getElem?_mem hwt)
  refine safe_bind _ _ (fun m2 h2 => ?_)
  have j2 : IdInv S E (fun p => p ∈ ws ∨ H p) m2 :=
    forUp_safe (initialize_link_body S)
      (fun i mm hmm m3 e => IdInv.inv_quiet hmm (initialize_link_body_quiet S i mm m3 e)) _ _ _ j1
      m2 h2
  exact forUp_safe _ (fun i mm hmm => inv_writeBuffer_none i hmm) _ _ _ j2

theorem initialize_flight_path_inv {S : Nat} {E H : Ptr → Prop} (ws : List Ptr)
    (hE : ∀ a, a ∈ ws → E a ∧ ¬ H a) (hd : ws.Nodup) (m m1 : WaypointManager) (n : Int)
    (s : WaypointStatus) (h : IdInv S E H m)
    (hr : initialize_flight_path S m (ws.map some) n = .ok (m1, s)) :
    IdInv S E (fun p => p ∈ ws ∨ H p) m1 := by
  unfold initialize_flight_path at hr
  by_cases h0 : m.numWaypoints ≠ 0
  · rw [if_pos h0] at hr
    simp only [pure_eq_ok, Except.ok.injEq, Prod.mk.injEq] at hr
    rw [← hr.1]
    exact (h.mono_handed (fun _ hb => Or.inr hb)).frame rfl rfl rfl rfl
  · rw [if_neg h0, bind_ok_iff] at hr
    obtain ⟨m2, h2, hr⟩ := hr
    simp only [pure_eq_ok, Except.ok.injEq, Prod.mk.injEq] at hr
    rw [← hr.1]
    exact (initialize_loops_inv ws hE hd
      { m with
        numWaypoints := n
        nextFilledIndex := 0 } (h.frame rfl rfl rfl rfl) m2 h2).frame rfl rfl rfl rfl

theorem initialize_flight_path_home_inv {S : Nat} {E H : Ptr → Prop} (ws : List Ptr)
    (hE : ∀ a, a ∈ ws → E a ∧ ¬ H a) (hd : ws.Nodup) (m m1 : WaypointManager) (n : Int)
    (currentLocation : Option Ptr) (s : WaypointStatus) (h : IdInv S E H m)
    (hr : initialize_flight_path_home S m (ws.map some) n currentLocation = .ok (m1, s)) :
    IdInv S E (fun p => p ∈ ws ∨ H p) m1 := by
  unfold initialize_flight_path_home at hr
  by_cases h0 : m.numWaypoints ≠ 0
  · rw [if_pos h0] at hr
    simp only [pure_eq_ok, Except.ok.injEq, Prod.mk.injEq] at hr
    rw [← hr.1]
    exact (h.mono_handed (fun _ hb => Or.inr hb)).frame rfl rfl rfl rfl
  · rw [if_neg h0, bind_ok_iff] at hr
    obtain ⟨m2, h2, hr⟩ := hr
    simp only [pure_eq_ok, Except.ok.injEq, Prod.mk.injEq] at hr
    rw [← hr.1]
    exact (initialize_loops_inv ws hE hd
      { m with
        homeBase := currentLocation
        numWaypoints := n
        nextFilledIndex := 0 } (h.frame rfl rfl rfl rfl) m2 h2).frame rfl rfl rfl rfl

/-- No slot is occupied: the invariant holds for every `E` whose live records
satisfy the heap part. -/
theorem IdInv.of_free {S : Nat} {H : Ptr → Prop} {m : WaypointManager}
    (hfree : ∀ i : Int, 0 ≤ i → i < (S : Int) → m.waypointBufferStatus i = FREE) :
    IdInv S (fun _ => False) H m := by
  refine ⟨⟨fun _ _ hE => hE.elim, fun _ _ _ _ hE => hE.elim⟩, fun i b ho => ?_,
    fun i _ b ho => ?_⟩
  · obtain ⟨h0, h1, h2, _⟩ := ho
    rw [hfree i h0 h1] at h2
    cases h2
  · obtain ⟨h0, h1, h2, _⟩ := ho
    rw [hfree i h0 h1] at h2
    cases h2

/-- The body of the loop of `clear_path_nodes` tags the slot `i` `FREE` and keeps
the tags `FREE` below `i`. -/
theorem clear_body_free (S : Nat) (i : Int) (m : WaypointManager)
    (h : ∀ j : Int, 0 ≤ j → j < i → m.waypointBufferStatus j = FREE) :
    Safe (fun m1 => ∀ j : Int, 0 ≤ j → j < i + 1 → m1.waypointBufferStatus j = FREE)
      (clear_body S i m) := by
  intro m3 e
  unfold clear_body at e
  dsimp only at e
  rw [bind_ok_iff] at e
  obtain ⟨st, _, e⟩ := e
  have hw : ∃ m1, m1.waypointBufferStatus = m.waypointBufferStatus ∧
      (writeStatus S m1 i FREE >>= fun m2 => writeBuffer S m2 i none) = .ok m3 := by
    by_cases hf : st = FULL
    · rw [if_pos hf, bind_ok_iff] at e
      obtain ⟨p, _, e⟩ := e
      rw [bind_ok_iff] at e
      obtain ⟨m1, h1, e⟩ := e
      exact ⟨m1, (destroy_waypoint_quiet h1).2.1, e⟩
    · rw [if_neg hf, bind_ok_iff] at e
      obtain ⟨m1, h1, e⟩ := e
      simp only [pure_eq_ok, Except.ok.injEq] at h1
      subst h1
      exact ⟨m, rfl, e⟩
  clear e
  obtain ⟨m1, hs1, e⟩ := hw
  rw [bind_ok_iff] at e
  obtain ⟨m2, h2, e⟩ := e
  obtain ⟨_, e2⟩ := writeStatus_ok h2
  obtain ⟨_, e3⟩ := writeBuffer_ok e
  subst e2
  subst e3
  intro j hj0 hj1
  dsimp only
  by_cases hji : j = i
  · rw [hji, Function.update_same]
  · rw [Function.update_apply, if_neg hji, hs1]
    exact h j hj0 (by omega)

theorem clear_path_nodes_inv {S : Nat} {H : Ptr → Prop} (m m1 : WaypointManager)
    (hr : clear_path_nodes S m = .ok m1) : IdInv S (fun _ => False) H m1 := by
  unfold clear_path_nodes at hr
  rw [bind_ok_iff] at hr
  obtain ⟨m2, h2, hr⟩ := hr
  simp only [pure_eq_ok, Except.ok.injEq] at hr
  subst hr
  have hfree := forUp_safe_indexed
    (J := fun i mm => ∀ j : Int, 0 ≤ j → j < i → mm.waypointBufferStatus j = FREE)
    (clear_body S) (fun i mm hmm => clear_body_free S i mm hmm) S 0 m
    (fun j h0 h1 => absurd h0 (by omega)) m2 h2
  exact IdInv.of_free (fun i h0 h1 => hfree i h0 (by omega))

theorem head_home_inv {S : Nat} {E H : Ptr → Prop} (m m1 : WaypointManager) (b : Bool)
    (h : IdInv S E H m) (hr : head_home S m = .ok (m1, b)) :
    IdInv S (fun p => E p ∧ b = false) H m1 := by
  unfold head_home at hr
  by_cases hb : m.homeBase = none
  · rw [if_pos hb] at hr
    simp only [pure_eq_ok, Except.ok.injEq, Prod.mk.injEq] at hr
    obtain ⟨e1, e2⟩ := hr
    subst e1
    subst e2
    simpa only [and_true] using h
  · rw [if_neg hb] at hr
    by_cases hg : m.goingHome = false
    · rw [if_pos hg, bind_ok_iff] at hr
      obtain ⟨m2, h2, hr⟩ := hr
      simp only [pure_eq_ok, Except.ok.injEq, Prod.mk.injEq] at hr
      obtain ⟨e1, e2⟩ := hr
      subst e1
      subst e2
      have i2 : IdInv S (fun _ => False) H m2 := clear_path_nodes_inv m m2 h2
      have i3 : IdInv S (fun p => E p ∧ true = false) H m2 := by
        refine ⟨⟨fun _ _ hE => Bool.noConfusion hE.2, fun _ _ _ _ hE => Bool.noConfusion hE.2⟩,
          i2.2.relax (fun _ _ hq => hq.1.elim)⟩
      exact i3.frame rfl rfl rfl rfl
    · rw [if_neg hg] at hr
      simp only [pure_eq_ok, Except.ok.injEq, Prod.mk.injEq] at hr
      obtain ⟨e1, e2⟩ := hr
      subst e1
      subst e2
      have i3 : IdInv S (fun p => E p ∧ false = false) H m := by
        simpa only [and_true] using h
      exact i3.frame rfl rfl rfl rfl

/-- A factory keeps the invariant: the new record has the id `nextAssignedId`,
above the ids of the waypoints made since the last clear. -/
theorem factory_inv {S : Nat} {E H : Ptr → Prop} (m : WaypointManager) (a : Ptr)
    (d : PathData) (h : IdInv S E H m) (hid : d.waypointId = m.nextAssignedId) :
    IdInv S (fun p => p = a ∨ E p) H
      { m with
        heap := Function.update m.heap a (some d)
        nextAssignedId := m.nextAssignedId + 1 } := by
  obtain ⟨⟨hA, hB⟩, hC, hD⟩ := h
  have idlt : ∀ p dp, (p = a ∨ E p) → Function.update m.heap a (some d) p = some dp →
      (p = a ∧ dp = d) ∨ (p ≠ a ∧ E p ∧ m.heap p = some dp) := by
    intro p dp hp hdp
    by_cases hpa : p = a
    · subst hpa
      simp only [Function.update_same, Option.some.injEq] at hdp
      exact Or.inl ⟨rfl, hdp.symm⟩
    · simp only [Function.update_apply, if_neg hpa] at hdp
      rcases hp with hp | hp
      · exact absurd hp hpa
      · exact Or.inr ⟨hpa, hp, hdp⟩
  refine ⟨⟨fun p dp hp hdp => ?_, fun p q dp dq hp hq hdp hdq hpq => ?_⟩,
    fun i b ho => ?_, fun i j b hi hj => hD i j b hi hj⟩
  · show dp.waypointId < m.nextAssignedId + 1
    rcases idlt p dp hp hdp with ⟨_, e⟩ | ⟨_, hEp, hl⟩
    · rw [e, hid]
      omega
    · have := hA p dp hEp hl
      omega
  · rcases idlt p dp hp hdp with ⟨e1, e2⟩ | ⟨_, hEp, hl⟩
    · rcases idlt q dq hq hdq with ⟨f1, _⟩ | ⟨_, hEq, hl2⟩
      · rw [e1, f1]
      · have := hA q dq hEq hl2
        rw [e2, hid] at hpq
        omega
    · rcases idlt q dq hq hdq with ⟨_, f2⟩ | ⟨_, hEq, hl2⟩
      · have := hA p dp hEp hl
        rw [f2, hid] at hpq
        omega
      · exact hB p q dp dq hEp hEq hl hl2 hpq
  · have := hC i b ho
    exact ⟨Or.inr this.1, this.2⟩

/-! ## Id uniqueness: the reachable states -/

/-- Every reachable state satisfies the id invariant. -/
theorem Reached.inv {S : Nat} {m : WaypointManager} {E H : Ptr → Prop}
    (h : Reached S m E H) : IdInv S E H m := by
  induction h with
  | construct m hc => exact IdInv.of_free hc.2.2.2.2
  | factory_default m E H a _ ih => exact factory_inv m a _ ih rfl
  | factory m E H a longitude latitude altitude waypointType _ ih =>
    exact factory_inv m a _ ih rfl
  | factory_radius m E H a longitude latitude altitude waypointType turnRadius _ ih =>
    exact factory_inv m a _ ih rfl
  | flight_path m m1 E H ws n s _ hE hd hr ih =>
    exact initialize_flight_path_inv ws hE hd m m1 n s ih hr
  | flight_path_home m m1 E H ws n currentLocation s _ hE hd hr ih =>
    exact initialize_flight_path_home_inv ws hE hd m m1 n currentLocation s ih hr
  | append m m1 E H a waypointId previousId nextId s _ hE hH hr ih =>
    exact update_path_nodes_append_inv m m1 a waypointId previousId nextId s ih hE hH hr
  | update m m1 E H a waypointId previousId nextId s _ hE hH hr ih =>
    exact update_path_nodes_update_inv m m1 a waypointId previousId nextId s ih hE hH hr
  | delete m m1 E H w waypointId previousId nextId s _ hr ih =>
    exact update_path_nodes_delete_inv m m1 w waypointId previousId nextId s ih hr
  | clear m m1 E H _ hr _ => exact clear_path_nodes_inv m m1 hr
  | head_home m m1 E H b _ hr ih => exact head_home_inv m m1 b ih hr

/-- The id invariant gives pairwise distinct ids in the occupied slots. -/
theorem IdInv.unique {S : Nat} {E H : Ptr → Prop} {m : WaypointManager}
    (h : IdInv S E H m) : UniqueIds S m := by
  intro i j hi0 hi1 hj0 hj1 hfi hfj x hxi hxj
  unfold slotId at hxi hxj
  cases hbi : m.waypointBuffer i with
  | none =>
    rw [hbi] at hxi
    cases hxi
  | some a =>
    cases hbj : m.waypointBuffer j with
    | none =>
      rw [hbj] at hxj
      cases hxj
    | some b =>
      rw [hbi] at hxi
      rw [hbj] at hxj
      dsimp only at hxi hxj
      cases hda : m.heap a with
      | none =>
        rw [hda] at hxi
        cases hxi
      | some da =>
        cases hdb : m.heap b with
        | none =>
          rw [hdb] at hxj
          cases hxj
        | some db =>
          rw [hda] at hxi
          rw [hdb] at hxj
          simp only [Option.map_some', Option.some.injEq] at hxi hxj
          have oi : Occupies S m i a := ⟨hi0, hi1, hfi, hbi⟩
          have oj : Occupies S m j b := ⟨hj0, hj1, hfj, hbj⟩
          have e : a = b :=
            h.1.2 a b da db (h.2.1 i a oi).1 (h.2.1 j b oj).1 hda hdb (hxi.trans hxj.symm)
          subst e
          exact h.2.2 i j a oi oj

/-- C21 (amended). Id uniqueness: in every state reachable from construction
through the waypoint factories, `initialize_flight_path`, the append, update and
delete requests of `update_path_nodes`, `clear_path_nodes` and `head_home`, where
every pointer handed to the buffer is the address of a waypoint that a factory has
made since the last clear and no pointer is handed over twice (those of one
`initialize_flight_path` call are pairwise different), the ids of the occupied
slots are pairwise distinct. -/
theorem ids_unique_in_reachable_states (S : Nat) (m : WaypointManager) (E H : Ptr → Prop)
    (h : Reached S m E H) : UniqueIds S m :=
  h.inv.unique

theorem ids_unique_in_reachable_states_witness :
    (∃ E H, Reached 5 reachedThree E H) ∧
    reachedThree.waypointBuffer 0 = some 10 ∧ reachedThree.waypointBuffer 1 = some 12 ∧
    reachedThree.waypointBuffer 2 = some 13 ∧ reachedThree.waypointBufferStatus 2 = FULL ∧
    reachedThree.waypointBufferStatus 3 = FREE ∧
    slotId reachedThree 0 = some 0 ∧ slotId reachedThree 1 = some 2 ∧
    slotId reachedThree 2 = some 3 ∧
    UniqueIds 5 reachedThree := by
  have r0 : Reached 5 emptyManager (fun _ => False) (fun _ => False) :=
    Reached.construct emptyManager ⟨rfl, rfl, rfl, rfl, fun _ _ _ => rfl⟩
  have r1 := Reached.factory _ _ _ 10 (-80) 43 100 PATH_FOLLOW r0
  have r2 := Reached.factory _ _ _ 11 (-81) 43 100 PATH_FOLLOW r1
  have r3 := Reached.factory _ _ _ 12 (-82) 43 100 PATH_FOLLOW r2
  have r4 := Reached.factory _ _ _ 13 (-83) 43 100 PATH_FOLLOW r3
  have r5 := Reached.factory _ _ _ 14 (-84) 43 100 PATH_FOLLOW r4
  have r6 := Reached.flight_path _ threeWaypoints _ _ [10, 11, 12] 3 WAYPOINT_SUCCESS r5
    (by
      intro a ha
      simp only [List.mem_cons, List.mem_singleton, List.not_mem_nil, or_false] at ha
      refine ⟨?_, fun hf => hf⟩
      rcases ha with e | e | e
      · exact Or.inr (Or.inr (Or.inr (Or.inr (Or.inl e))))
      · exact Or.inr (Or.inr (Or.inr (Or.inl e)))
      · exact Or.inr (Or.inr (Or.inl e)))
    (by decide) rfl
  have r7 := Reached.append _ reachedFour _ _ 13 0 0 0 WAYPOINT_SUCCESS r6
    (Or.inr (Or.inl rfl))
    (by
      rintro (hf | hf)
      · simp only [List.mem_cons, List.mem_singleton, List.not_mem_nil, or_false] at hf
        rcases hf with e | e | e <;> exact absurd e (by decide)
      · exact hf)
    rfl
  have r8 := Reached.delete _ reachedThree _ _ none 1 0 0 WAYPOINT_SUCCESS r7 rfl
  exact ⟨⟨_, _, r8⟩, rfl, rfl, rfl, rfl, rfl, rfl, rfl, rfl,
    ids_unique_in_reachable_states 5 reachedThree _ _ r8⟩

/-- C21 (as stated) fails. A waypoint made by the factory at `10` gets the id `0`;
`clear_path_nodes` then resets `nextAssignedId`, so the waypoint that the factory
makes at `11` afterwards gets the id `0` again. Both appends return
`WAYPOINT_SUCCESS` (each waypoint made by a factory, each handed over once), and the
slots `0` and `1` are then `FULL` with the id `0` in both. With the insert request:
from `threeWaypoints`, the insert of the waypoint of id `3` between the ids `0` and
`1`, the delete of id `0` and the insert of the waypoint of id `4` between the ids
`3` and `1` all return `WAYPOINT_SUCCESS`, and leave the waypoint of id `2` in the
slots `3` and `4`, both `FULL`. -/
theorem ids_reused_after_clear :
    clear_path_nodes 5 madeBeforeClear = .ok clearedOnce ∧
    clearedOnce.nextAssignedId = 0 ∧
    (madeAfterClear.heap 10).map (fun d => d.waypointId) = some 0 ∧
    (madeAfterClear.heap 11).map (fun d => d.waypointId) = some 0 ∧
    statusOf (update_path_nodes 5 madeAfterClear (some 10) APPEND_WAYPOINT 0 0 0)
      = .ok WAYPOINT_SUCCESS ∧
    statusOf (update_path_nodes 5
      (stateOf (update_path_nodes 5 madeAfterClear (some 10) APPEND_WAYPOINT 0 0 0))
      (some 11) APPEND_WAYPOINT 0 0 0) = .ok WAYPOINT_SUCCESS ∧
    clearedTwins.waypointBufferStatus 0 = FULL ∧ clearedTwins.waypointBufferStatus 1 = FULL ∧
    clearedTwins.waypointBuffer 0 = some 10 ∧ clearedTwins.waypointBuffer 1 = some 11 ∧
    slotId clearedTwins 0 = some 0 ∧ slotId clearedTwins 1 = some 0 ∧
    ¬ UniqueIds 5 clearedTwins ∧
    statusOf afterInsert = .ok WAYPOINT_SUCCESS ∧
    statusOf (update_path_nodes 5 (stateOf afterInsert) none DELETE_WAYPOINT 0 0 0)
      = .ok WAYPOINT_SUCCESS ∧
    statusOf (update_path_nodes 5 insertedDeleted (some 14) INSERT_WAYPOINT 0 3 1)
      = .ok WAYPOINT_SUCCESS ∧
    insertedTwice.waypointBufferStatus 3 = FULL ∧ insertedTwice.waypointBufferStatus 4 = FULL ∧
    insertedTwice.waypointBuffer 3 = some 12 ∧ insertedTwice.waypointBuffer 4 = some 12 ∧
    slotId insertedTwice 3 = some 2 ∧ slotId insertedTwice 4 = some 2 ∧
    ¬ UniqueIds 5 insertedTwice := by
  refine ⟨rfl, rfl, rfl, rfl, rfl, rfl, rfl, rfl, rfl, rfl, rfl, rfl, ?_, rfl, rfl, rfl, rfl,
    rfl, rfl, rfl, rfl, rfl, ?_⟩
  · intro hu
    have := hu 0 1 (by decide) (by decide) (by decide) (by decide) rfl rfl 0 rfl rfl
    exact absurd this (by decide)
  · intro hu
    have := hu 3 4 (by decide) (by decide) (by decide) (by decide) rfl rfl 2 rfl rfl
    exact absurd this (by decide)

/-! ## Navigation: the projection on the equator over the real numbers -/

/-- The argument of `cos φ + i sin φ` is `φ`, for `φ` in `[0, π/2]`. -/
theorem arg_of_cos_sin (φ : ℝ) (h0 : 0 ≤ φ) (h1 : φ ≤ Real.pi / 2) :
    Complex.arg ⟨Real.cos φ, Real.sin φ⟩ = φ := by
  have hpi := Real.pi_pos
  have e : (⟨Real.cos φ, Real.sin φ⟩ : ℂ) = Complex.cos φ + Complex.sin φ * Complex.I := by
    apply Complex.ext
    · simp [Complex.cos_ofReal_re, Complex.sin_ofReal_im]
    · simp [Complex.cos_ofReal_im, Complex.sin_ofReal_re]
  rw [e]
  exact Complex.arg_cos_add_sin_mul_I ⟨by linarith, by linarith⟩

/-- Over the real numbers, from the reference point `(0, 0)`, `get_distance` along
the equator to the longitude `lon` in `[0, 180]` is the arc length
`6378137 * lon * π / 180`. -/
theorem real_equator_distance (lon : ℝ) (h0 : 0 ≤ lon) (h1 : lon ≤ 180) :
    get_distance
      (MathLib.mk Real.pi Real.sqrt Real.sin Real.cos Real.tan Real.arcsin Real.arccos
        Real.arctan (fun y x => Complex.arg ⟨x, y⟩)
        (fun x => if 0 ≤ x then ⌊x + 1 / 2⌋ else ⌈x - 1 / 2⌉)
        (fun x => if 0 ≤ x then ⌊x⌋ else ⌈x⌉))
      0 0 0 lon = 6378137 * (lon * Real.pi / 180) := by
  have hpi := Real.pi_pos
  have hφ0 : 0 ≤ lon * Real.pi / 180 / 2 := by positivity
  have hφ1 : lon * Real.pi / 180 / 2 ≤ Real.pi / 2 := by
    have : lon * Real.pi ≤ 180 * Real.pi := mul_le_mul_of_nonneg_right h1 hpi.le
    linarith
  have hs : 0 ≤ Real.sin (lon * Real.pi / 180 / 2) :=
    Real.sin_nonneg_of_nonneg_of_le_pi hφ0 (by linarith)
  have hc : 0 ≤ Real.cos (lon * Real.pi / 180 / 2) :=
    Real.cos_nonneg_of_neg_pi_div_two_le_of_le (by linarith) hφ1
  have hθ : 0 ≤ lon * Real.pi / 180 := by positivity
  unfold get_distance
  simp only [deg2rad, sub_self, sub_zero, zero_mul, zero_div, Real.sin_zero, mul_zero,
    zero_add, Real.cos_zero, one_mul, EARTH_RADIUS]
  rw [if_pos (Or.inl ⟨le_refl 0, hθ⟩)]
  have e1 : Real.sqrt (Real.sin (lon * Real.pi / 180 / 2) * Real.sin (lon * Real.pi / 180 / 2))
      = Real.sin (lon * Real.pi / 180 / 2) := Real.sqrt_mul_self hs
  have e2 : Real.sqrt
      (1 - Real.sin (lon * Real.pi / 180 / 2) * Real.sin (lon * Real.pi / 180 / 2))
      = Real.cos (lon * Real.pi / 180 / 2) := by
    have : 1 - Real.sin (lon * Real.pi / 180 / 2) * Real.sin (lon * Real.pi / 180 / 2)
        = Real.cos (lon * Real.pi / 180 / 2) * Real.cos (lon * Real.pi / 180 / 2) := by
      have := Real.sin_sq_add_cos_sq (lon * Real.pi / 180 / 2)
      nlinarith
    rw [this]
    exact Real.sqrt_mul_self hc
  rw [e1, e2, arg_of_cos_sin _ hφ0 hφ1]
  ring

/-- Over the real numbers, with the reference point `(0, 0)`: the local coordinates
of a waypoint on the equator at a longitude in `[0, 180]`. -/
theorem real_equator_coordinates (w : PathData) (hlat : w.latitude = 0)
    (h0 : 0 ≤ w.longitude) (h1 : w.longitude ≤ 180) :
    waypoint_coordinates
      (MathLib.mk Real.pi Real.sqrt Real.sin Real.cos Real.tan Real.arcsin Real.arccos
        Real.arctan (fun y x => Complex.arg ⟨x, y⟩)
        (fun x => if 0 ≤ x then ⌊x + 1 / 2⌋ else ⌈x - 1 / 2⌉)
        (fun x => if 0 ≤ x then ⌊x⌋ else ⌈x⌉))
      (originNavigation ℝ) w
      = { c0 := 6378137 * ((w.longitude : ℝ) * Real.pi / 180), c1 := 0,
          c2 := (w.altitude : ℝ) } := by
  have g0 : (0 : ℝ) ≤ (w.longitude : ℝ) := by exact_mod_cast h0
  have g1 : (w.longitude : ℝ) ≤ 180 := by exact_mod_cast h1
  have e0 := real_equator_distance 0 (le_refl 0) (by norm_num)
  have e1 := real_equator_distance (w.longitude : ℝ) g0 g1
  unfold waypoint_coordinates get_coordinates originNavigation
  simp only [hlat, Rat.cast_zero, e0, e1, zero_mul, zero_div, mul_zero]

/-- Over the real numbers, with the reference point `(0, 0)`: the local position of
an aircraft over the equator at a longitude in `[0, 180]`. -/
theorem real_equator_position (s : WaypointManager_Data_In) (hlat : s.latitude = 0)
    (h0 : 0 ≤ s.longitude) (h1 : s.longitude ≤ 180) :
    aircraftPosition
      (MathLib.mk Real.pi Real.sqrt Real.sin Real.cos Real.tan Real.arcsin Real.arccos
        Real.arctan (fun y x => Complex.arg ⟨x, y⟩)
        (fun x => if 0 ≤ x then ⌊x + 1 / 2⌋ else ⌈x - 1 / 2⌉)
        (fun x => if 0 ≤ x then ⌊x⌋ else ⌈x⌉))
      (originNavigation ℝ) s
      = { c0 := 6378137 * ((s.longitude : ℝ) * Real.pi / 180), c1 := 0,
          c2 := (s.altitude : ℝ) } := by
  have g0 : (0 : ℝ) ≤ (s.longitude : ℝ) := by exact_mod_cast h0
  have g1 : (s.longitude : ℝ) ≤ 180 := by exact_mod_cast h1
  have e0 := real_equator_distance 0 (le_refl 0) (by norm_num)
  have e1 := real_equator_distance (s.longitude : ℝ) g0 g1
  unfold aircraftPosition get_coordinates originNavigation
  simp only [hlat, Rat.cast_zero, e0, e1, zero_mul, zero_div, mul_zero]

/-- Over the real numbers: the unit vector between two points at the same height on
the `x` axis, towards the one further along, is `(1, 0, 0)`. -/
theorem real_direction_along_x (x0 x1 z : ℝ) (h : x0 < x1) :
    direction3
      (MathLib.mk Real.pi Real.sqrt Real.sin Real.cos Real.tan Real.arcsin Real.arccos
        Real.arctan (fun y x => Complex.arg ⟨x, y⟩)
        (fun x => if 0 ≤ x then ⌊x + 1 / 2⌋ else ⌈x - 1 / 2⌉)
        (fun x => if 0 ≤ x then ⌊x⌋ else ⌈x⌉))
      { c0 := x1, c1 := 0, c2 := z } { c0 := x0, c1 := 0, c2 := z }
      = { c0 := 1, c1 := 0, c2 := 0 } := by
  have hpos : 0 < x1 - x0 := by linarith
  have hd : Real.sqrt ((x1 - x0) ^ 2 + (0 - 0) ^ 2 + (z - z) ^ 2) = x1 - x0 := by
    have : (x1 - x0) ^ 2 + (0 - 0) ^ 2 + (z - z) ^ 2 = (x1 - x0) ^ 2 := by ring
    rw [this]
    exact Real.sqrt_sq hpos.le
  unfold direction3 distance3
  dsimp only
  rw [hd]
  simp only [sub_self, zero_div, div_self hpos.ne']

/-- Over the real numbers, the tangent of half the turning angle that
`follow_waypoints` computes for two equal direction vectors is positive. -/
theorem real_half_turn_tan_pos :
    0 < Real.tan (Real.arccos
      (-deg2rad
        (MathLib.mk Real.pi Real.sqrt Real.sin Real.cos Real.tan Real.arcsin Real.arccos
        Real.arctan (fun y x => Complex.arg ⟨x, y⟩)
        (fun x => if 0 ≤ x then ⌊x + 1 / 2⌋ else ⌈x - 1 / 2⌉)
        (fun x => if 0 ≤ x then ⌊x⌋ else ⌈x⌉))
        1) / 2) := by
  have hpi := Real.pi_pos
  have h4 := Real.pi_lt_four
  have hx1 : -(1 * Real.pi / 180) < 1 := by linarith
  have hx2 : (-1 : ℝ) < -(1 * Real.pi / 180) := by linarith
  have hpos : 0 < Real.arccos (-(1 * Real.pi / 180)) := Real.arccos_pos.mpr hx1
  have hlt : Real.arccos (-(1 * Real.pi / 180)) < Real.pi :=
    lt_of_le_of_ne (Real.arccos_le_pi _)
      (fun e => absurd (Real.arccos_eq_pi.mp e) (not_le.mpr hx2))
  show 0 < Real.tan (Real.arccos (-(1 * Real.pi / 180)) / 2)
  exact Real.tan_pos_of_pos_of_lt_pi_div_two (by linarith) (by linarith)

set_option maxRecDepth 100000 in
theorem collinear_engages_orbit_witness :
    (tickStatus (flatTick 0 equatorThree (emptyNavigation 0 0) equatorTelemetry)
      = some WAYPOINT_SUCCESS ∧
    (tickNavigation (flatTick 0 equatorThree (emptyNavigation 0 0) equatorTelemetry)).orbitPathStatus
      = ORBIT_FOLLOW ∧
    tickStatus (flatTick 0
        (tickState (flatTick 0 equatorThree (emptyNavigation 0 0) equatorTelemetry))
        (tickNavigation (flatTick 0 equatorThree (emptyNavigation 0 0) equatorTelemetry))
        equatorTelemetry) = some WAYPOINT_SUCCESS ∧
    (tickRecord (flatTick 0
        (tickState (flatTick 0 equatorThree (emptyNavigation 0 0) equatorTelemetry))
        (tickNavigation (flatTick 0 equatorThree (emptyNavigation 0 0) equatorTelemetry))
        equatorTelemetry)).out_type = ORBIT_FOLLOW ∧
    equatorThree.inHold = false ∧ equatorThree.goingHome = false ∧
    equatorThree.currentIndex = 0 ∧ equatorThree.numWaypoints = 3 ∧
    readBuffer 5 equatorThree equatorThree.currentIndex = .ok (some 10) ∧
    deref equatorThree (some 10) = .ok equator10 ∧
    deref equatorThree equator10.next = .ok equator11 ∧
    deref equatorThree equator11.next = .ok equator12 ∧
    direction3 flatLib (waypoint_coordinates flatLib (emptyNavigation 0 0) equator11)
      (waypoint_coordinates flatLib (emptyNavigation 0 0) equator10)
      = { c0 := 1, c1 := 0, c2 := 0 } ∧
    direction3 flatLib (waypoint_coordinates flatLib (emptyNavigation 0 0) equator12)
      (waypoint_coordinates flatLib (emptyNavigation 0 0) equator11)
      = { c0 := 1, c1 := 0, c2 := 0 } ∧
    (∃ N : Nat, ∀ fuel, N ≤ fuel → ∃ nav1 out,
      get_next_directions flatLib fuel 5 equatorThree (emptyNavigation 0 0) 20 equatorTelemetry
          blankOut =
        .ok ({ equatorThree with errorCode := WAYPOINT_SUCCESS }, nav1, out,
          WAYPOINT_SUCCESS) ∧
      out.out_type = PATH_FOLLOW ∧ nav1.orbitPathStatus = ORBIT_FOLLOW ∧
      ∀ (a2 : Ptr) (status2 : WaypointManager_Data_In) (Data2 : WaypointManager_Data_Out ℚ),
        ∃ N2 : Nat, ∀ fuel2, N2 ≤ fuel2 → ∃ m2 nav2 out2,
          get_next_directions flatLib fuel2 5
              { equatorThree with errorCode := WAYPOINT_SUCCESS } nav1 a2 status2 Data2 =
            .ok (m2, nav2, out2, WAYPOINT_SUCCESS) ∧
          out2.out_type = ORBIT_FOLLOW)) ∧
    (direction3
      (MathLib.mk Real.pi Real.sqrt Real.sin Real.cos Real.tan Real.arcsin Real.arccos
        Real.arctan (fun y x => Complex.arg ⟨x, y⟩)
        (fun x => if 0 ≤ x then ⌊x + 1 / 2⌋ else ⌈x - 1 / 2⌉)
        (fun x => if 0 ≤ x then ⌊x⌋ else ⌈x⌉))
      (waypoint_coordinates
        (MathLib.mk Real.pi Real.sqrt Real.sin Real.cos Real.tan Real.arcsin Real.arccos
        Real.arctan (fun y x => Complex.arg ⟨x, y⟩)
        (fun x => if 0 ≤ x then ⌊x + 1 / 2⌋ else ⌈x - 1 / 2⌉)
        (fun x => if 0 ≤ x then ⌊x⌋ else ⌈x⌉))
        (originNavigation ℝ) equator11)
      (waypoint_coordinates
        (MathLib.mk Real.pi Real.sqrt Real.sin Real.cos Real.tan Real.arcsin Real.arccos
        Real.arctan (fun y x => Complex.arg ⟨x, y⟩)
        (fun x => if 0 ≤ x then ⌊x + 1 / 2⌋ else ⌈x - 1 / 2⌉)
        (fun x => if 0 ≤ x then ⌊x⌋ else ⌈x⌉))
        (originNavigation ℝ) equator10)
      = { c0 := 1, c1 := 0, c2 := 0 } ∧
    direction3
      (MathLib.mk Real.pi Real.sqrt Real.sin Real.cos Real.tan Real.arcsin Real.arccos
        Real.arctan (fun y x => Complex.arg ⟨x, y⟩)
        (fun x => if 0 ≤ x then ⌊x + 1 / 2⌋ else ⌈x - 1 / 2⌉)
        (fun x => if 0 ≤ x then ⌊x⌋ else ⌈x⌉))
      (waypoint_coordinates
        (MathLib.mk Real.pi Real.sqrt Real.sin Real.cos Real.tan Real.arcsin Real.arccos
        Real.arctan (fun y x => Complex.arg ⟨x, y⟩)
        (fun x => if 0 ≤ x then ⌊x + 1 / 2⌋ else ⌈x - 1 / 2⌉)
        (fun x => if 0 ≤ x then ⌊x⌋ else ⌈x⌉))
        (originNavigation ℝ) equator12)
      (waypoint_coordinates
        (MathLib.mk Real.pi Real.sqrt Real.sin Real.cos Real.tan Real.arcsin Real.arccos
        Real.arctan (fun y x => Complex.arg ⟨x, y⟩)
        (fun x => if 0 ≤ x then ⌊x + 1 / 2⌋ else ⌈x - 1 / 2⌉)
        (fun x => if 0 ≤ x then ⌊x⌋ else ⌈x⌉))
        (originNavigation ℝ) equator11)
      = { c0 := 1, c1 := 0, c2 := 0 } ∧
    (∃ N : Nat, ∀ fuel, N ≤ fuel → ∃ nav1 out,
      get_next_directions
          (MathLib.mk Real.pi Real.sqrt Real.sin Real.cos Real.tan Real.arcsin Real.arccos
        Real.arctan (fun y x => Complex.arg ⟨x, y⟩)
        (fun x => if 0 ≤ x then ⌊x + 1 / 2⌋ else ⌈x - 1 / 2⌉)
        (fun x => if 0 ≤ x then ⌊x⌋ else ⌈x⌉))
          fuel 5 equatorThree (originNavigation ℝ) 20 equatorTelemetry (originOut ℝ) =
        .ok ({ equatorThree with errorCode := WAYPOINT_SUCCESS }, nav1, out,
          WAYPOINT_SUCCESS) ∧
      out.out_type = PATH_FOLLOW ∧ nav1.orbitPathStatus = ORBIT_FOLLOW ∧
      ∀ (a2 : Ptr) (status2 : WaypointManager_Data_In) (Data2 : WaypointManager_Data_Out ℝ),
        ∃ N2 : Nat, ∀ fuel2, N2 ≤ fuel2 → ∃ m2 nav2 out2,
          get_next_directions
              (MathLib.mk Real.pi Real.sqrt Real.sin Real.cos Real.tan Real.arcsin Real.arccos
        Real.arctan (fun y x => Complex.arg ⟨x, y⟩)
        (fun x => if 0 ≤ x then ⌊x + 1 / 2⌋ else ⌈x - 1 / 2⌉)
        (fun x => if 0 ≤ x then ⌊x⌋ else ⌈x⌉))
              fuel2 5 { equatorThree with errorCode := WAYPOINT_SUCCESS } nav1 a2 status2
              Data2 =
            .ok (m2, nav2, out2, WAYPOINT_SUCCESS) ∧
          out2.out_type = ORBIT_FOLLOW)) :=
  ⟨⟨by with_unfolding_all rfl, by with_unfolding_all rfl, by with_unfolding_all rfl,
    by with_unfolding_all rfl, by with_unfolding_all rfl, by with_unfolding_all rfl,
    by with_unfolding_all rfl, by with_unfolding_all rfl, by with_unfolding_all rfl,
    by with_unfolding_all rfl, by with_unfolding_all rfl, by with_unfolding_all rfl,
    by with_unfolding_all rfl, by with_unfolding_all rfl,
    collinear_engages_orbit flatLib flatLib_pi_pos 5 equatorThree (emptyNavigation 0 0) 20
      equatorTelemetry blankOut (some 10) equator10 equator11 equator12
      (by with_unfolding_all rfl) (by with_unfolding_all rfl)
      (by
        have h3 : equatorThree.numWaypoints = 3 := by with_unfolding_all rfl
        have h0 : equatorThree.currentIndex = 0 := by with_unfolding_all rfl
        rw [h3, h0]
        omega)
      (by with_unfolding_all rfl) (by with_unfolding_all rfl) (by exact Option.noConfusion)
      (by with_unfolding_all rfl) (by exact Option.noConfusion) (by with_unfolding_all rfl)
      (by with_unfolding_all rfl) (by with_unfolding_all rfl)
      (by exact WaypointOutputType.noConfusion)
      (by norm_num [equator11])
      flatLib_half_turn_tan_pos rfl
      (by
        have h1 : (waypoint_coordinates flatLib (emptyNavigation 0 0) equator11).c0
            = 140319014 / 1259 := by with_unfolding_all rfl
        have h2 : (aircraftPosition flatLib (emptyNavigation 0 0) equatorTelemetry).c0
            = 140319014 / 629 := by with_unfolding_all rfl
        rw [h1, h2]
        norm_num)⟩,
    by
      have c10 := real_equator_coordinates equator10 rfl (by norm_num [equator10])
        (by norm_num [equator10])
      have c11 := real_equator_coordinates equator11 rfl (by norm_num [equator11])
        (by norm_num [equator11])
      have c12 := real_equator_coordinates equator12 rfl (by norm_num [equator12])
        (by norm_num [equator12])
      have cp := real_equator_position equatorTelemetry rfl (by norm_num [equatorTelemetry])
        (by norm_num [equatorTelemetry])
      have hpi := Real.pi_pos
      have x01 : 6378137 * ((equator10.longitude : ℝ) * Real.pi / 180)
          < 6378137 * ((equator11.longitude : ℝ) * Real.pi / 180) := by
        norm_num [equator10, equator11]
        positivity
      have x12 : 6378137 * ((equator11.longitude : ℝ) * Real.pi / 180)
          < 6378137 * ((equator12.longitude : ℝ) * Real.pi / 180) := by
        norm_num [equator11, equator12]
        linarith
      have q01 : direction3
          (MathLib.mk Real.pi Real.sqrt Real.sin Real.cos Real.tan Real.arcsin Real.arccos
        Real.arctan (fun y x => Complex.arg ⟨x, y⟩)
        (fun x => if 0 ≤ x then ⌊x + 1 / 2⌋ else ⌈x - 1 / 2⌉)
        (fun x => if 0 ≤ x then ⌊x⌋ else ⌈x⌉))
          (waypoint_coordinates
            (MathLib.mk Real.pi Real.sqrt Real.sin Real.cos Real.tan Real.arcsin Real.arccos
        Real.arctan (fun y x => Complex.arg ⟨x, y⟩)
        (fun x => if 0 ≤ x then ⌊x + 1 / 2⌋ else ⌈x - 1 / 2⌉)
        (fun x => if 0 ≤ x then ⌊x⌋ else ⌈x⌉))
            (originNavigation ℝ) equator11)
          (waypoint_coordinates
            (MathLib.mk Real.pi Real.sqrt Real.sin Real.cos Real.tan Real.arcsin Real.arccos
        Real.arctan (fun y x => Complex.arg ⟨x, y⟩)
        (fun x => if 0 ≤ x then ⌊x + 1 / 2⌋ else ⌈x - 1 / 2⌉)
        (fun x => if 0 ≤ x then ⌊x⌋ else ⌈x⌉))
            (originNavigation ℝ) equator10)
          = { c0 := 1, c1 := 0, c2 := 0 } := by
        rw [c10, c11]
        exact real_direction_along_x _ _ _ x01
      have q12 : direction3
          (MathLib.mk Real.pi Real.sqrt Real.sin Real.cos Real.tan Real.arcsin Real.arccos
        Real.arctan (fun y x => Complex.arg ⟨x, y⟩)
        (fun x => if 0 ≤ x then ⌊x + 1 / 2⌋ else ⌈x - 1 / 2⌉)
        (fun x => if 0 ≤ x then ⌊x⌋ else ⌈x⌉))
          (waypoint_coordinates
            (MathLib.mk Real.pi Real.sqrt Real.sin Real.cos Real.tan Real.arcsin Real.arccos
        Real.arctan (fun y x => Complex.arg ⟨x, y⟩)
        (fun x => if 0 ≤ x then ⌊x + 1 / 2⌋ else ⌈x - 1 / 2⌉)
        (fun x => if 0 ≤ x then ⌊x⌋ else ⌈x⌉))
            (originNavigation ℝ) equator12)
          (waypoint_coordinates
            (MathLib.mk Real.pi Real.sqrt Real.sin Real.cos Real.tan Real.arcsin Real.arccos
        Real.arctan (fun y x => Complex.arg ⟨x, y⟩)
        (fun x => if 0 ≤ x then ⌊x + 1 / 2⌋ else ⌈x - 1 / 2⌉)
        (fun x => if 0 ≤ x then ⌊x⌋ else ⌈x⌉))
            (originNavigation ℝ) equator11)
          = { c0 := 1, c1 := 0, c2 := 0 } := by
        rw [c11, c12]
        exact real_direction_along_x _ _ _ x12
      refine ⟨q01, q12, ?_⟩
      exact collinear_engages_orbit
        (MathLib.mk Real.pi Real.sqrt Real.sin Real.cos Real.tan Real.arcsin Real.arccos
        Real.arctan (fun y x => Complex.arg ⟨x, y⟩)
        (fun x => if 0 ≤ x then ⌊x + 1 / 2⌋ else ⌈x - 1 / 2⌉)
        (fun x => if 0 ≤ x then ⌊x⌋ else ⌈x⌉))
        Real.pi_pos 5 equatorThree (originNavigation ℝ) 20 equatorTelemetry (originOut ℝ)
        (some 10) equator10 equator11 equator12 rfl rfl
        (by
          have h3 : equatorThree.numWaypoints = 3 := rfl
          have h0 : equatorThree.currentIndex = 0 := rfl
          rw [h3, h0]
          omega)
        rfl rfl (by exact Option.noConfusion) rfl (by exact Option.noConfusion) rfl q01 q12
        (by exact WaypointOutputType.noConfusion) (by norm_num [equator11])
        real_half_turn_tan_pos rfl
        (by
          rw [c11, cp]
          show 6378137 * ((equator11.longitude : ℝ) * Real.pi / 180)
            ≤ 6378137 * ((equatorTelemetry.longitude : ℝ) * Real.pi / 180)
          norm_num [equator11, equatorTelemetry]
          linarith)⟩

/-- Over the real numbers, from the reference point `(0, 0)`, `get_distance` along
the meridian to the latitude `lat` in `[0, 180]` is the arc length
`6378137 * lat * π / 180`. -/
theorem real_meridian_distance (lat : ℝ) (h0 : 0 ≤ lat) (h1 : lat ≤ 180) :
    get_distance
      (MathLib.mk Real.pi Real.sqrt Real.sin Real.cos Real.tan Real.arcsin Real.arccos
        Real.arctan (fun y x => Complex.arg ⟨x, y⟩)
        (fun x => if 0 ≤ x then ⌊x + 1 / 2⌋ else ⌈x - 1 / 2⌉)
        (fun x => if 0 ≤ x then ⌊x⌋ else ⌈x⌉))
      0 0 lat 0 = 6378137 * (lat * Real.pi / 180) := by
  have hpi := Real.pi_pos
  have hφ0 : 0 ≤ lat * Real.pi / 180 / 2 := by positivity
  have hφ1 : lat * Real.pi / 180 / 2 ≤ Real.pi / 2 := by
    have : lat * Real.pi ≤ 180 * Real.pi := mul_le_mul_of_nonneg_right h1 hpi.le
    linarith
  have hs : 0 ≤ Real.sin (lat * Real.pi / 180 / 2) :=
    Real.sin_nonneg_of_nonneg_of_le_pi hφ0 (by linarith)
  have hc : 0 ≤ Real.cos (lat * Real.pi / 180 / 2) :=
    Real.cos_nonneg_of_neg_pi_div_two_le_of_le (by linarith) hφ1
  have hθ : 0 ≤ lat * Real.pi / 180 := by positivity
  unfold get_distance
  simp only [deg2rad, sub_self, sub_zero, zero_mul, zero_div, Real.sin_zero, mul_zero,
    add_zero, EARTH_RADIUS]
  rw [if_pos (Or.inl ⟨hθ, le_refl 0⟩)]
  have e1 : Real.sqrt (Real.sin (lat * Real.pi / 180 / 2) * Real.sin (lat * Real.pi / 180 / 2))
      = Real.sin (lat * Real.pi / 180 / 2) := Real.sqrt_mul_self hs
  have e2 : Real.sqrt
      (1 - Real.sin (lat * Real.pi / 180 / 2) * Real.sin (lat * Real.pi / 180 / 2))
      = Real.cos (lat * Real.pi / 180 / 2) := by
    have : 1 - Real.sin (lat * Real.pi / 180 / 2) * Real.sin (lat * Real.pi / 180 / 2)
        = Real.cos (lat * Real.pi / 180 / 2) * Real.cos (lat * Real.pi / 180 / 2) := by
      have := Real.sin_sq_add_cos_sq (lat * Real.pi / 180 / 2)
      nlinarith
    rw [this]
    exact Real.sqrt_mul_self hc
  rw [e1, e2, arg_of_cos_sin _ hφ0 hφ1]
  ring

/-- Over the real numbers, with the reference point `(0, 0)`: the local coordinates
of a waypoint at a longitude and a latitude in `[0, 180]`. -/
theorem real_local_coordinates (nav : NavigationData ℝ) (w : PathData)
    (hlon : nav.relativeLongitude = 0) (hlat : nav.relativeLatitude = 0)
    (h0 : 0 ≤ w.longitude) (h1 : w.longitude ≤ 180)
    (k0 : 0 ≤ w.latitude) (k1 : w.latitude ≤ 180) :
    waypoint_coordinates
      (MathLib.mk Real.pi Real.sqrt Real.sin Real.cos Real.tan Real.arcsin Real.arccos
        Real.arctan (fun y x => Complex.arg ⟨x, y⟩)
        (fun x => if 0 ≤ x then ⌊x + 1 / 2⌋ else ⌈x - 1 / 2⌉)
        (fun x => if 0 ≤ x then ⌊x⌋ else ⌈x⌉))
      nav w
      = { c0 := 6378137 * ((w.longitude : ℝ) * Real.pi / 180)
          c1 := 6378137 * ((w.latitude : ℝ) * Real.pi / 180)
          c2 := (w.altitude : ℝ) } := by
  have g0 : (0 : ℝ) ≤ (w.longitude : ℝ) := by exact_mod_cast h0
  have g1 : (w.longitude : ℝ) ≤ 180 := by exact_mod_cast h1
  have f0 : (0 : ℝ) ≤ (w.latitude : ℝ) := by exact_mod_cast k0
  have f1 : (w.latitude : ℝ) ≤ 180 := by exact_mod_cast k1
  have e0 := real_meridian_distance (w.latitude : ℝ) f0 f1
  have e1 := real_equator_distance (w.longitude : ℝ) g0 g1
  unfold waypoint_coordinates get_coordinates
  simp only [hlon, hlat, e0, e1]

/-- Over the real numbers: the unit vector between two points with the same `y` and
the same height, towards the one further along `x`, is `(1, 0, 0)`. -/
theorem real_direction_x (P Q : Vec3 ℝ) (h1 : P.c1 = Q.c1) (h2 : P.c2 = Q.c2)
    (h : Q.c0 < P.c0) :
    direction3
      (MathLib.mk Real.pi Real.sqrt Real.sin Real.cos Real.tan Real.arcsin Real.arccos
        Real.arctan (fun y x => Complex.arg ⟨x, y⟩)
        (fun x => if 0 ≤ x then ⌊x + 1 / 2⌋ else ⌈x - 1 / 2⌉)
        (fun x => if 0 ≤ x then ⌊x⌋ else ⌈x⌉))
      P Q = { c0 := 1, c1 := 0, c2 := 0 } := by
  have hpos : 0 < P.c0 - Q.c0 := by linarith
  have hd : Real.sqrt ((P.c0 - Q.c0) ^ 2 + (P.c1 - Q.c1) ^ 2 + (P.c2 - Q.c2) ^ 2)
      = P.c0 - Q.c0 := by
    have : (P.c0 - Q.c0) ^ 2 + (P.c1 - Q.c1) ^ 2 + (P.c2 - Q.c2) ^ 2 = (P.c0 - Q.c0) ^ 2 := by
      rw [h1, h2]
      ring
    rw [this]
    exact Real.sqrt_sq hpos.le
  unfold direction3 distance3
  dsimp only
  rw [hd, h1, h2]
  simp only [sub_self, zero_div, div_self hpos.ne']

/-- Over the real numbers: the unit vector between two points with the same `x` and
the same height, towards the one further along `y`, is `(0, 1, 0)`. -/
theorem real_direction_y (P Q : Vec3 ℝ) (h0 : P.c0 = Q.c0) (h2 : P.c2 = Q.c2)
    (h : Q.c1 < P.c1) :
    direction3
      (MathLib.mk Real.pi Real.sqrt Real.sin Real.cos Real.tan Real.arcsin Real.arccos
        Real.arctan (fun y x => Complex.arg ⟨x, y⟩)
        (fun x => if 0 ≤ x then ⌊x + 1 / 2⌋ else ⌈x - 1 / 2⌉)
        (fun x => if 0 ≤ x then ⌊x⌋ else ⌈x⌉))
      P Q = { c0 := 0, c1 := 1, c2 := 0 } := by
  have hpos : 0 < P.c1 - Q.c1 := by linarith
  have hd : Real.sqrt ((P.c0 - Q.c0) ^ 2 + (P.c1 - Q.c1) ^ 2 + (P.c2 - Q.c2) ^ 2)
      = P.c1 - Q.c1 := by
    have : (P.c0 - Q.c0) ^ 2 + (P.c1 - Q.c1) ^ 2 + (P.c2 - Q.c2) ^ 2 = (P.c1 - Q.c1) ^ 2 := by
      rw [h0, h2]
      ring
    rw [this]
    exact Real.sqrt_sq hpos.le
  unfold direction3 distance3
  dsimp only
  rw [hd, h0, h2]
  simp only [sub_self, zero_div, div_self hpos.ne']

set_option maxRecDepth 100000 in
theorem hold_waypoint_centre_in_degrees_witness :
    (tickStatus (flatTick 0 holdThree (emptyNavigation 0 0) equatorTelemetry)
      = some WAYPOINT_SUCCESS ∧
    (tickState (flatTick 0 holdThree (emptyNavigation 0 0) equatorTelemetry)).inHold = true ∧
    (tickNavigation (flatTick 0 holdThree (emptyNavigation 0 0) equatorTelemetry)).turnCenter
      = { c0 := 1, c1 := 0, c2 := 100 } ∧
    waypoint_coordinates flatLib (emptyNavigation 0 0) hold11
      = { c0 := 140319014 / 1259, c1 := 0, c2 := 100 } ∧
    get_coordinates flatLib (emptyNavigation 0 0) (hold11.longitude : ℚ) (hold11.latitude : ℚ)
      ≠ ((hold11.longitude : ℚ), (hold11.latitude : ℚ)) ∧
    holdThree.inHold = false ∧ holdThree.goingHome = false ∧
    holdThree.currentIndex = 0 ∧ holdThree.numWaypoints = 3 ∧
    readBuffer 5 holdThree holdThree.currentIndex = .ok (some 10) ∧
    deref holdThree (some 10) = .ok equator10 ∧
    deref holdThree equator10.next = .ok hold11 ∧
    deref holdThree hold11.next = .ok equator12 ∧
    hold11.waypointType = HOLD_WAYPOINT ∧
    (∃ N : Nat, ∀ fuel, N ≤ fuel → ∃ nav1 out,
      get_next_directions flatLib fuel 5 holdThree (emptyNavigation 0 0) 20 equatorTelemetry
          blankOut =
        .ok ({ holdThree with inHold := true, errorCode := WAYPOINT_SUCCESS }, nav1, out,
          WAYPOINT_SUCCESS) ∧
      nav1.turnDirection = 1 ∧ nav1.turnRadius = (hold11.turnRadius : ℚ) ∧
      nav1.turnDesiredAltitude = (hold11.altitude : ℚ) ∧
      nav1.turnCenter =
        { c0 := (hold11.longitude : ℚ), c1 := (hold11.latitude : ℚ),
          c2 := (hold11.altitude : ℚ) } ∧
      (nav1.turnCenter = waypoint_coordinates flatLib (emptyNavigation 0 0) hold11 ↔
        get_coordinates flatLib (emptyNavigation 0 0) (hold11.longitude : ℚ)
            (hold11.latitude : ℚ)
          = ((hold11.longitude : ℚ), (hold11.latitude : ℚ))))) ∧
    ((waypoint_coordinates
        (MathLib.mk Real.pi Real.sqrt Real.sin Real.cos Real.tan Real.arcsin Real.arccos
        Real.arctan (fun y x => Complex.arg ⟨x, y⟩)
        (fun x => if 0 ≤ x then ⌊x + 1 / 2⌋ else ⌈x - 1 / 2⌉)
        (fun x => if 0 ≤ x then ⌊x⌋ else ⌈x⌉))
        (originNavigation ℝ) hold11).c0 ≠ (hold11.longitude : ℝ) ∧
    (∃ N : Nat, ∀ fuel, N ≤ fuel → ∃ nav1 out,
      get_next_directions
          (MathLib.mk Real.pi Real.sqrt Real.sin Real.cos Real.tan Real.arcsin Real.arccos
        Real.arctan (fun y x => Complex.arg ⟨x, y⟩)
        (fun x => if 0 ≤ x then ⌊x + 1 / 2⌋ else ⌈x - 1 / 2⌉)
        (fun x => if 0 ≤ x then ⌊x⌋ else ⌈x⌉))
          fuel 5 holdThree (originNavigation ℝ) 20 equatorTelemetry (originOut ℝ) =
        .ok ({ holdThree with inHold := true, errorCode := WAYPOINT_SUCCESS }, nav1, out,
          WAYPOINT_SUCCESS) ∧
      nav1.turnDirection = 1 ∧ nav1.turnRadius = (hold11.turnRadius : ℝ) ∧
      nav1.turnDesiredAltitude = (hold11.altitude : ℝ) ∧
      nav1.turnCenter =
        { c0 := (hold11.longitude : ℝ), c1 := (hold11.latitude : ℝ),
          c2 := (hold11.altitude : ℝ) } ∧
      (nav1.turnCenter = waypoint_coordinates
          (MathLib.mk Real.pi Real.sqrt Real.sin Real.cos Real.tan Real.arcsin Real.arccos
        Real.arctan (fun y x => Complex.arg ⟨x, y⟩)
        (fun x => if 0 ≤ x then ⌊x + 1 / 2⌋ else ⌈x - 1 / 2⌉)
        (fun x => if 0 ≤ x then ⌊x⌋ else ⌈x⌉))
          (originNavigation ℝ) hold11 ↔
        get_coordinates
            (MathLib.mk Real.pi Real.sqrt Real.sin Real.cos Real.tan Real.arcsin Real.arccos
        Real.arctan (fun y x => Complex.arg ⟨x, y⟩)
        (fun x => if 0 ≤ x then ⌊x + 1 / 2⌋ else ⌈x - 1 / 2⌉)
        (fun x => if 0 ≤ x then ⌊x⌋ else ⌈x⌉))
            (originNavigation ℝ) (hold11.longitude : ℝ) (hold11.latitude : ℝ)
          = ((hold11.longitude : ℝ), (hold11.latitude : ℝ))))) :=
  ⟨⟨by with_unfolding_all rfl, by with_unfolding_all rfl, by with_unfolding_all rfl,
    by with_unfolding_all rfl,
    (by
      have h1 : get_coordinates flatLib (emptyNavigation 0 0) (hold11.longitude : ℚ)
          (hold11.latitude : ℚ) = (140319014 / 1259, 0) := by with_unfolding_all rfl
      have h2 : ((hold11.longitude : ℚ), (hold11.latitude : ℚ)) = ((1 : ℚ), (0 : ℚ)) := by
        with_unfolding_all rfl
      rw [h1, h2]
      intro e
      have e0 := congrArg Prod.fst e
      norm_num at e0),
    by with_unfolding_all rfl, by with_unfolding_all rfl, by with_unfolding_all rfl,
    by with_unfolding_all rfl, by with_unfolding_all rfl, by with_unfolding_all rfl,
    by with_unfolding_all rfl, by with_unfolding_all rfl, by with_unfolding_all rfl,
    hold_waypoint_centre_in_degrees flatLib flatLib_pi_pos 5 holdThree (emptyNavigation 0 0) 20
      equatorTelemetry blankOut (some 10) equator10 hold11 equator12
      (by with_unfolding_all rfl) (by with_unfolding_all rfl)
      (by
        have h3 : holdThree.numWaypoints = 3 := by with_unfolding_all rfl
        have h0 : holdThree.currentIndex = 0 := by with_unfolding_all rfl
        rw [h3, h0]
        omega)
      (by with_unfolding_all rfl) (by with_unfolding_all rfl) (by exact Option.noConfusion)
      (by with_unfolding_all rfl) (by exact Option.noConfusion) (by with_unfolding_all rfl)
      (by with_unfolding_all rfl) rfl
      (lt_of_lt_of_eq (b := (12655594369260 / 113243273 : ℚ)) (by norm_num)
        (by with_unfolding_all rfl))⟩,
    by
      have hpi := Real.pi_gt_three
      have l10 : ((equator10.longitude : ℚ) : ℝ) = 0 := by norm_num [equator10]
      have l11 : ((hold11.longitude : ℚ) : ℝ) = 1 := by norm_num [hold11, equator11]
      have l12 : ((equator12.longitude : ℚ) : ℝ) = 2 := by norm_num [equator12]
      have lt : ((equatorTelemetry.longitude : ℚ) : ℝ) = 2 := by norm_num [equatorTelemetry]
      have c10 := real_local_coordinates (originNavigation ℝ) equator10 rfl rfl
        (by norm_num [equator10]) (by norm_num [equator10]) (by norm_num [equator10])
        (by norm_num [equator10])
      have c11 := real_local_coordinates (originNavigation ℝ) hold11 rfl rfl
        (by norm_num [hold11, equator11]) (by norm_num [hold11, equator11])
        (by norm_num [hold11, equator11]) (by norm_num [hold11, equator11])
      have c12 := real_local_coordinates (originNavigation ℝ) equator12 rfl rfl
        (by norm_num [equator12]) (by norm_num [equator12]) (by norm_num [equator12])
        (by norm_num [equator12])
      have cp := real_equator_position equatorTelemetry rfl (by norm_num [equatorTelemetry])
        (by norm_num [equatorTelemetry])
      have q01 := real_direction_x _ _
        (show (waypoint_coordinates _ (originNavigation ℝ) hold11).c1
          = (waypoint_coordinates _ (originNavigation ℝ) equator10).c1 from by
            rw [c10, c11]
            norm_num [hold11, equator11, equator10])
        (show (waypoint_coordinates _ (originNavigation ℝ) hold11).c2
          = (waypoint_coordinates _ (originNavigation ℝ) equator10).c2 from rfl)
        (show (waypoint_coordinates _ (originNavigation ℝ) equator10).c0
          < (waypoint_coordinates _ (originNavigation ℝ) hold11).c0 from by
            rw [c10, c11]
            dsimp only
            rw [l10, l11]
            linarith)
      have q12 := real_direction_x _ _
        (show (waypoint_coordinates _ (originNavigation ℝ) equator12).c1
          = (waypoint_coordinates _ (originNavigation ℝ) hold11).c1 from by
            rw [c11, c12]
            norm_num [hold11, equator11, equator12])
        (show (waypoint_coordinates _ (originNavigation ℝ) equator12).c2
          = (waypoint_coordinates _ (originNavigation ℝ) hold11).c2 from rfl)
        (show (waypoint_coordinates _ (originNavigation ℝ) hold11).c0
          < (waypoint_coordinates _ (originNavigation ℝ) equator12).c0 from by
            rw [c11, c12]
            dsimp only
            rw [l11, l12]
            linarith)
      refine ⟨?_, ?_⟩
      · rw [c11]
        dsimp only
        rw [l11]
        intro e
        linarith
      · refine hold_waypoint_centre_in_degrees
          (MathLib.mk Real.pi Real.sqrt Real.sin Real.cos Real.tan Real.arcsin Real.arccos
        Real.arctan (fun y x => Complex.arg ⟨x, y⟩)
        (fun x => if 0 ≤ x then ⌊x + 1 / 2⌋ else ⌈x - 1 / 2⌉)
        (fun x => if 0 ≤ x then ⌊x⌋ else ⌈x⌉))
          Real.pi_pos 5 holdThree (originNavigation ℝ) 20 equatorTelemetry (originOut ℝ)
          (some 10) equator10 hold11 equator12 rfl rfl
          (by
            have h3 : holdThree.numWaypoints = 3 := rfl
            have h0 : holdThree.currentIndex = 0 := rfl
            rw [h3, h0]
            omega)
          rfl rfl (by exact Option.noConfusion) rfl (by exact Option.noConfusion) rfl rfl rfl ?_
        rw [q01, q12]
        refine collinear_dot_pos _ _ _ _ (by norm_num [hold11, equator11]) real_half_turn_tan_pos ?_
        rw [c11, cp]
        dsimp only
        rw [l11, lt]
        linarith⟩

set_option maxRecDepth 100000 in
theorem orbit_turn_centre_common_sign_witness :
    (tickStatus (flatTick 0 cornerThree orbitNavigation cornerTelemetry)
      = some WAYPOINT_SUCCESS ∧
    (tickNavigation (flatTick 0 cornerThree orbitNavigation cornerTelemetry)).turnCenter
      = { c0 := 1545271754 / 13849, c1 := -1400 / 11, c2 := 100 } ∧
    cornerThree.inHold = false ∧ cornerThree.goingHome = false ∧
    cornerThree.currentIndex = 0 ∧ cornerThree.numWaypoints = 3 ∧
    readBuffer 5 cornerThree cornerThree.currentIndex = .ok (some 10) ∧
    deref cornerThree (some 10) = .ok equator10 ∧
    deref cornerThree equator10.next = .ok equator11 ∧
    deref cornerThree equator11.next = .ok corner12 ∧
    direction3 flatLib (waypoint_coordinates flatLib orbitNavigation equator11)
      (waypoint_coordinates flatLib orbitNavigation equator10)
      = { c0 := 1, c1 := 0, c2 := 0 } ∧
    direction3 flatLib (waypoint_coordinates flatLib orbitNavigation corner12)
      (waypoint_coordinates flatLib orbitNavigation equator11)
      = { c0 := 0, c1 := 1, c2 := 0 } ∧
    (∃ N : Nat, ∀ fuel, N ≤ fuel → ∃ nav1 out,
      get_next_directions flatLib fuel 5 cornerThree orbitNavigation 20 cornerTelemetry
          blankOut =
        .ok ({ cornerThree with errorCode := WAYPOINT_SUCCESS }, nav1, out,
          WAYPOINT_SUCCESS) ∧
      out.out_type = ORBIT_FOLLOW ∧
      nav1.turnCenter = commonSignTurnCenter flatLib
        (waypoint_coordinates flatLib orbitNavigation equator11)
        (tangentFactor flatLib (equator11.turnRadius : ℚ)
          (direction3 flatLib (waypoint_coordinates flatLib orbitNavigation equator11)
            (waypoint_coordinates flatLib orbitNavigation equator10))
          (direction3 flatLib (waypoint_coordinates flatLib orbitNavigation corner12)
            (waypoint_coordinates flatLib orbitNavigation equator11)))
        (direction3 flatLib (waypoint_coordinates flatLib orbitNavigation equator11)
          (waypoint_coordinates flatLib orbitNavigation equator10))
        (direction3 flatLib (waypoint_coordinates flatLib orbitNavigation corner12)
          (waypoint_coordinates flatLib orbitNavigation equator11)) ∧
      euclideanWaypointDirection flatLib
        (direction3 flatLib (waypoint_coordinates flatLib orbitNavigation equator11)
          (waypoint_coordinates flatLib orbitNavigation equator10))
        (direction3 flatLib (waypoint_coordinates flatLib orbitNavigation corner12)
          (waypoint_coordinates flatLib orbitNavigation equator11))
          ≠ 0)) ∧
    (direction3
      (MathLib.mk Real.pi Real.sqrt Real.sin Real.cos Real.tan Real.arcsin Real.arccos
        Real.arctan (fun y x => Complex.arg ⟨x, y⟩)
        (fun x => if 0 ≤ x then ⌊x + 1 / 2⌋ else ⌈x - 1 / 2⌉)
        (fun x => if 0 ≤ x then ⌊x⌋ else ⌈x⌉))
      (waypoint_coordinates
        (MathLib.mk Real.pi Real.sqrt Real.sin Real.cos Real.tan Real.arcsin Real.arccos
        Real.arctan (fun y x => Complex.arg ⟨x, y⟩)
        (fun x => if 0 ≤ x then ⌊x + 1 / 2⌋ else ⌈x - 1 / 2⌉)
        (fun x => if 0 ≤ x then ⌊x⌋ else ⌈x⌉))
        (originOrbitNavigation ℝ) equator11)
      (waypoint_coordinates
        (MathLib.mk Real.pi Real.sqrt Real.sin Real.cos Real.tan Real.arcsin Real.arccos
        Real.arctan (fun y x => Complex.arg ⟨x, y⟩)
        (fun x => if 0 ≤ x then ⌊x + 1 / 2⌋ else ⌈x - 1 / 2⌉)
        (fun x => if 0 ≤ x then ⌊x⌋ else ⌈x⌉))
        (originOrbitNavigation ℝ) equator10)
      = { c0 := 1, c1 := 0, c2 := 0 } ∧
    direction3
      (MathLib.mk Real.pi Real.sqrt Real.sin Real.cos Real.tan Real.arcsin Real.arccos
        Real.arctan (fun y x => Complex.arg ⟨x, y⟩)
        (fun x => if 0 ≤ x then ⌊x + 1 / 2⌋ else ⌈x - 1 / 2⌉)
        (fun x => if 0 ≤ x then ⌊x⌋ else ⌈x⌉))
      (waypoint_coordinates
        (MathLib.mk Real.pi Real.sqrt Real.sin Real.cos Real.tan Real.arcsin Real.arccos
        Real.arctan (fun y x => Complex.arg ⟨x, y⟩)
        (fun x => if 0 ≤ x then ⌊x + 1 / 2⌋ else ⌈x - 1 / 2⌉)
        (fun x => if 0 ≤ x then ⌊x⌋ else ⌈x⌉))
        (originOrbitNavigation ℝ) corner12)
      (waypoint_coordinates
        (MathLib.mk Real.pi Real.sqrt Real.sin Real.cos Real.tan Real.arcsin Real.arccos
        Real.arctan (fun y x => Complex.arg ⟨x, y⟩)
        (fun x => if 0 ≤ x then ⌊x + 1 / 2⌋ else ⌈x - 1 / 2⌉)
        (fun x => if 0 ≤ x then ⌊x⌋ else ⌈x⌉))
        (originOrbitNavigation ℝ) equator11)
      = { c0 := 0, c1 := 1, c2 := 0 } ∧
    (∃ N : Nat, ∀ fuel, N ≤ fuel → ∃ nav1 out,
      get_next_directions
          (MathLib.mk Real.pi Real.sqrt Real.sin Real.cos Real.tan Real.arcsin Real.arccos
        Real.arctan (fun y x => Complex.arg ⟨x, y⟩)
        (fun x => if 0 ≤ x then ⌊x + 1 / 2⌋ else ⌈x - 1 / 2⌉)
        (fun x => if 0 ≤ x then ⌊x⌋ else ⌈x⌉))
          fuel 5 cornerThree (originOrbitNavigation ℝ) 20 cornerTelemetry (originOut ℝ) =
        .ok ({ cornerThree with errorCode := WAYPOINT_SUCCESS }, nav1, out,
          WAYPOINT_SUCCESS) ∧
      out.out_type = ORBIT_FOLLOW ∧
      nav1.turnCenter = commonSignTurnCenter
        (MathLib.mk Real.pi Real.sqrt Real.sin Real.cos Real.tan Real.arcsin Real.arccos
        Real.arctan (fun y x => Complex.arg ⟨x, y⟩)
        (fun x => if 0 ≤ x then ⌊x + 1 / 2⌋ else ⌈x - 1 / 2⌉)
        (fun x => if 0 ≤ x then ⌊x⌋ else ⌈x⌉))
        (waypoint_coordinates
          (MathLib.mk Real.pi Real.sqrt Real.sin Real.cos Real.tan Real.arcsin Real.arccos
        Real.arctan (fun y x => Complex.arg ⟨x, y⟩)
        (fun x => if 0 ≤ x then ⌊x + 1 / 2⌋ else ⌈x - 1 / 2⌉)
        (fun x => if 0 ≤ x then ⌊x⌋ else ⌈x⌉))
          (originOrbitNavigation ℝ) equator11)
        (tangentFactor
          (MathLib.mk Real.pi Real.sqrt Real.sin Real.cos Real.tan Real.arcsin Real.arccos
        Real.arctan (fun y x => Complex.arg ⟨x, y⟩)
        (fun x => if 0 ≤ x then ⌊x + 1 / 2⌋ else ⌈x - 1 / 2⌉)
        (fun x => if 0 ≤ x then ⌊x⌋ else ⌈x⌉))
          (equator11.turnRadius : ℝ)
          (direction3
            (MathLib.mk Real.pi Real.sqrt Real.sin Real.cos Real.tan Real.arcsin Real.arccos
        Real.arctan (fun y x => Complex.arg ⟨x, y⟩)
        (fun x => if 0 ≤ x then ⌊x + 1 / 2⌋ else ⌈x - 1 / 2⌉)
        (fun x => if 0 ≤ x then ⌊x⌋ else ⌈x⌉))
            (waypoint_coordinates
              (MathLib.mk Real.pi Real.sqrt Real.sin Real.cos Real.tan Real.arcsin Real.arccos
        Real.arctan (fun y x => Complex.arg ⟨x, y⟩)
        (fun x => if 0 ≤ x then ⌊x + 1 / 2⌋ else ⌈x - 1 / 2⌉)
        (fun x => if 0 ≤ x then ⌊x⌋ else ⌈x⌉))
              (originOrbitNavigation ℝ) equator11)
            (waypoint_coordinates
              (MathLib.mk Real.pi Real.sqrt Real.sin Real.cos Real.tan Real.arcsin Real.arccos
        Real.arctan (fun y x => Complex.arg ⟨x, y⟩)
        (fun x => if 0 ≤ x then ⌊x + 1 / 2⌋ else ⌈x - 1 / 2⌉)
        (fun x => if 0 ≤ x then ⌊x⌋ else ⌈x⌉))
              (originOrbitNavigation ℝ) equator10))
          (direction3
            (MathLib.mk Real.pi Real.sqrt Real.sin Real.cos Real.tan Real.arcsin Real.arccos
        Real.arctan (fun y x => Complex.arg ⟨x, y⟩)
        (fun x => if 0 ≤ x then ⌊x + 1 / 2⌋ else ⌈x - 1 / 2⌉)
        (fun x => if 0 ≤ x then ⌊x⌋ else ⌈x⌉))
            (waypoint_coordinates
              (MathLib.mk Real.pi Real.sqrt Real.sin Real.cos Real.tan Real.arcsin Real.arccos
        Real.arctan (fun y x => Complex.arg ⟨x, y⟩)
        (fun x => if 0 ≤ x then ⌊x + 1 / 2⌋ else ⌈x - 1 / 2⌉)
        (fun x => if 0 ≤ x then ⌊x⌋ else ⌈x⌉))
              (originOrbitNavigation ℝ) corner12)
            (waypoint_coordinates
              (MathLib.mk Real.pi Real.sqrt Real.sin Real.cos Real.tan Real.arcsin Real.arccos
        Real.arctan (fun y x => Complex.arg ⟨x, y⟩)
        (fun x => if 0 ≤ x then ⌊x + 1 / 2⌋ else ⌈x - 1 / 2⌉)
        (fun x => if 0 ≤ x then ⌊x⌋ else ⌈x⌉))
              (originOrbitNavigation ℝ) equator11)))
        (direction3
          (MathLib.mk Real.pi Real.sqrt Real.sin Real.cos Real.tan Real.arcsin Real.arccos
        Real.arctan (fun y x => Complex.arg ⟨x, y⟩)
        (fun x => if 0 ≤ x then ⌊x + 1 / 2⌋ else ⌈x - 1 / 2⌉)
        (fun x => if 0 ≤ x then ⌊x⌋ else ⌈x⌉))
          (waypoint_coordinates
            (MathLib.mk Real.pi Real.sqrt Real.sin Real.cos Real.tan Real.arcsin Real.arccos
        Real.arctan (fun y x => Complex.arg ⟨x, y⟩)
        (fun x => if 0 ≤ x then ⌊x + 1 / 2⌋ else ⌈x - 1 / 2⌉)
        (fun x => if 0 ≤ x then ⌊x⌋ else ⌈x⌉))
            (originOrbitNavigation ℝ) equator11)
          (waypoint_coordinates
            (MathLib.mk Real.pi Real.sqrt Real.sin Real.cos Real.tan Real.arcsin Real.arccos
        Real.arctan (fun y x => Complex.arg ⟨x, y⟩)
        (fun x => if 0 ≤ x then ⌊x + 1 / 2⌋ else ⌈x - 1 / 2⌉)
        (fun x => if 0 ≤ x then ⌊x⌋ else ⌈x⌉))
            (originOrbitNavigation ℝ) equator10))
        (direction3
          (MathLib.mk Real.pi Real.sqrt Real.sin Real.cos Real.tan Real.arcsin Real.arccos
        Real.arctan (fun y x => Complex.arg ⟨x, y⟩)
        (fun x => if 0 ≤ x then ⌊x + 1 / 2⌋ else ⌈x - 1 / 2⌉)
        (fun x => if 0 ≤ x then ⌊x⌋ else ⌈x⌉))
          (waypoint_coordinates
            (MathLib.mk Real.pi Real.sqrt Real.sin Real.cos Real.tan Real.arcsin Real.arccos
        Real.arctan (fun y x => Complex.arg ⟨x, y⟩)
        (fun x => if 0 ≤ x then ⌊x + 1 / 2⌋ else ⌈x - 1 / 2⌉)
        (fun x => if 0 ≤ x then ⌊x⌋ else ⌈x⌉))
            (originOrbitNavigation ℝ) corner12)
          (waypoint_coordinates
            (MathLib.mk Real.pi Real.sqrt Real.sin Real.cos Real.tan Real.arcsin Real.arccos
        Real.arctan (fun y x => Complex.arg ⟨x, y⟩)
        (fun x => if 0 ≤ x then ⌊x + 1 / 2⌋ else ⌈x - 1 / 2⌉)
        (fun x => if 0 ≤ x then ⌊x⌋ else ⌈x⌉))
            (originOrbitNavigation ℝ) equator11)) ∧
      euclideanWaypointDirection
        (MathLib.mk Real.pi Real.sqrt Real.sin Real.cos Real.tan Real.arcsin Real.arccos
        Real.arctan (fun y x => Complex.arg ⟨x, y⟩)
        (fun x => if 0 ≤ x then ⌊x + 1 / 2⌋ else ⌈x - 1 / 2⌉)
        (fun x => if 0 ≤ x then ⌊x⌋ else ⌈x⌉))
        (direction3
          (MathLib.mk Real.pi Real.sqrt Real.sin Real.cos Real.tan Real.arcsin Real.arccos
        Real.arctan (fun y x => Complex.arg ⟨x, y⟩)
        (fun x => if 0 ≤ x then ⌊x + 1 / 2⌋ else ⌈x - 1 / 2⌉)
        (fun x => if 0 ≤ x then ⌊x⌋ else ⌈x⌉))
          (waypoint_coordinates
            (MathLib.mk Real.pi Real.sqrt Real.sin Real.cos Real.tan Real.arcsin Real.arccos
        Real.arctan (fun y x => Complex.arg ⟨x, y⟩)
        (fun x => if 0 ≤ x then ⌊x + 1 / 2⌋ else ⌈x - 1 / 2⌉)
        (fun x => if 0 ≤ x then ⌊x⌋ else ⌈x⌉))
            (originOrbitNavigation ℝ) equator11)
          (waypoint_coordinates
            (MathLib.mk Real.pi Real.sqrt Real.sin Real.cos Real.tan Real.arcsin Real.arccos
        Real.arctan (fun y x => Complex.arg ⟨x, y⟩)
        (fun x => if 0 ≤ x then ⌊x + 1 / 2⌋ else ⌈x - 1 / 2⌉)
        (fun x => if 0 ≤ x then ⌊x⌋ else ⌈x⌉))
            (originOrbitNavigation ℝ) equator10))
        (direction3
          (MathLib.mk Real.pi Real.sqrt Real.sin Real.cos Real.tan Real.arcsin Real.arccos
        Real.arctan (fun y x => Complex.arg ⟨x, y⟩)
        (fun x => if 0 ≤ x then ⌊x + 1 / 2⌋ else ⌈x - 1 / 2⌉)
        (fun x => if 0 ≤ x then ⌊x⌋ else ⌈x⌉))
          (waypoint_coordinates
            (MathLib.mk Real.pi Real.sqrt Real.sin Real.cos Real.tan Real.arcsin Real.arccos
        Real.arctan (fun y x => Complex.arg ⟨x, y⟩)
        (fun x => if 0 ≤ x then ⌊x + 1 / 2⌋ else ⌈x - 1 / 2⌉)
        (fun x => if 0 ≤ x then ⌊x⌋ else ⌈x⌉))
            (originOrbitNavigation ℝ) corner12)
          (waypoint_coordinates
            (MathLib.mk Real.pi Real.sqrt Real.sin Real.cos Real.tan Real.arcsin Real.arccos
        Real.arctan (fun y x => Complex.arg ⟨x, y⟩)
        (fun x => if 0 ≤ x then ⌊x + 1 / 2⌋ else ⌈x - 1 / 2⌉)
        (fun x => if 0 ≤ x then ⌊x⌋ else ⌈x⌉))
            (originOrbitNavigation ℝ) equator11))
          ≠ 0)) :=
  ⟨⟨by with_unfolding_all rfl, by with_unfolding_all rfl, by with_unfolding_all rfl,
    by with_unfolding_all rfl, by with_unfolding_all rfl, by with_unfolding_all rfl,
    by with_unfolding_all rfl, by with_unfolding_all rfl, by with_unfolding_all rfl,
    by with_unfolding_all rfl, by with_unfolding_all rfl, by with_unfolding_all rfl,
    orbit_turn_centre_common_sign flatLib flatLib_pi_pos 5 cornerThree orbitNavigation 20
      cornerTelemetry blankOut (some 10) equator10 equator11 corner12
      (by with_unfolding_all rfl) (by with_unfolding_all rfl)
      (by
        have h3 : cornerThree.numWaypoints = 3 := by with_unfolding_all rfl
        have h0 : cornerThree.currentIndex = 0 := by with_unfolding_all rfl
        rw [h3, h0]
        omega)
      (by with_unfolding_all rfl) (by with_unfolding_all rfl) (by exact Option.noConfusion)
      (by with_unfolding_all rfl) (by exact Option.noConfusion) (by with_unfolding_all rfl)
      rfl
      (by
        have h1 : distance3 flatLib
            (direction3 flatLib (waypoint_coordinates flatLib orbitNavigation corner12)
              (waypoint_coordinates flatLib orbitNavigation equator11))
            (direction3 flatLib (waypoint_coordinates flatLib orbitNavigation equator11)
              (waypoint_coordinates flatLib orbitNavigation equator10)) = 1 := by
          with_unfolding_all rfl
        rw [h1]
        exact one_ne_zero)⟩,
    by
      have hpi := Real.pi_gt_three
      have l10 : ((equator10.longitude : ℚ) : ℝ) = 0 := by norm_num [equator10]
      have l11 : ((equator11.longitude : ℚ) : ℝ) = 1 := by norm_num [equator11]
      have l12 : ((corner12.longitude : ℚ) : ℝ) = 1 := by norm_num [corner12, equator12]
      have t10 : ((equator10.latitude : ℚ) : ℝ) = 0 := by norm_num [equator10]
      have t11 : ((equator11.latitude : ℚ) : ℝ) = 0 := by norm_num [equator11]
      have t12 : ((corner12.latitude : ℚ) : ℝ) = 1 := by norm_num [corner12, equator12]
      have c10 := real_local_coordinates (originOrbitNavigation ℝ) equator10 rfl rfl
        (by norm_num [equator10]) (by norm_num [equator10]) (by norm_num [equator10])
        (by norm_num [equator10])
      have c11 := real_local_coordinates (originOrbitNavigation ℝ) equator11 rfl rfl
        (by norm_num [equator11]) (by norm_num [equator11]) (by norm_num [equator11])
        (by norm_num [equator11])
      have c12 := real_local_coordinates (originOrbitNavigation ℝ) corner12 rfl rfl
        (by norm_num [corner12, equator12]) (by norm_num [corner12, equator12])
        (by norm_num [corner12, equator12]) (by norm_num [corner12, equator12])
      have q01 := real_direction_x _ _
        (show (waypoint_coordinates _ (originOrbitNavigation ℝ) equator11).c1
          = (waypoint_coordinates _ (originOrbitNavigation ℝ) equator10).c1 from by
            rw [c10, c11]
            dsimp only
            rw [t10, t11])
        (show (waypoint_coordinates _ (originOrbitNavigation ℝ) equator11).c2
          = (waypoint_coordinates _ (originOrbitNavigation ℝ) equator10).c2 from rfl)
        (show (waypoint_coordinates _ (originOrbitNavigation ℝ) equator10).c0
          < (waypoint_coordinates _ (originOrbitNavigation ℝ) equator11).c0 from by
            rw [c10, c11]
            dsimp only
            rw [l10, l11]
            linarith)
      have q12 := real_direction_y _ _
        (show (waypoint_coordinates _ (originOrbitNavigation ℝ) corner12).c0
          = (waypoint_coordinates _ (originOrbitNavigation ℝ) equator11).c0 from by
            rw [c11, c12]
            dsimp only
            rw [l11, l12])
        (show (waypoint_coordinates _ (originOrbitNavigation ℝ) corner12).c2
          = (waypoint_coordinates _ (originOrbitNavigation ℝ) equator11).c2 from rfl)
        (show (waypoint_coordinates _ (originOrbitNavigation ℝ) equator11).c1
          < (waypoint_coordinates _ (originOrbitNavigation ℝ) corner12).c1 from by
            rw [c11, c12]
            dsimp only
            rw [t11, t12]
            linarith)
      refine ⟨q01, q12, ?_⟩
      refine orbit_turn_centre_common_sign
        (MathLib.mk Real.pi Real.sqrt Real.sin Real.cos Real.tan Real.arcsin Real.arccos
        Real.arctan (fun y x => Complex.arg ⟨x, y⟩)
        (fun x => if 0 ≤ x then ⌊x + 1 / 2⌋ else ⌈x - 1 / 2⌉)
        (fun x => if 0 ≤ x then ⌊x⌋ else ⌈x⌉))
        Real.pi_pos 5 cornerThree (originOrbitNavigation ℝ) 20 cornerTelemetry (originOut ℝ)
        (some 10) equator10 equator11 corner12 rfl rfl
        (by
          have h3 : cornerThree.numWaypoints = 3 := rfl
          have h0 : cornerThree.currentIndex = 0 := rfl
          rw [h3, h0]
          omega)
        rfl rfl (by exact Option.noConfusion) rfl (by exact Option.noConfusion) rfl rfl ?_
      rw [q01, q12]
      unfold distance3
      dsimp only
      exact Real.sqrt_ne_zero'.mpr (by norm_num)⟩

/-! ## Rounding to a binary floating format -/

theorem roundHalfEven_spec (q : ℚ) :
    |q - roundHalfEven q| < 1 / 2 ∨
      (|q - roundHalfEven q| = 1 / 2 ∧ roundHalfEven q % 2 = 0) := by
  have h1 := Int.floor_le q
  have h2 := Int.lt_floor_add_one q
  unfold roundHalfEven
  by_cases ha : q - ⌊q⌋ < 1 / 2
  · rw [if_pos ha]
    left
    rw [abs_lt]
    constructor <;> linarith
  · rw [if_neg ha]
    by_cases hb : 1 / 2 < q - ⌊q⌋
    · rw [if_pos hb]
      left
      rw [abs_lt]
      push_cast
      constructor <;> linarith
    · rw [if_neg hb]
      have he : q - ⌊q⌋ = 1 / 2 := le_antisymm (not_lt.mp hb) (not_lt.mp ha)
      right
      by_cases hc : ⌊q⌋ % 2 = 0
      · rw [if_pos hc]
        refine ⟨?_, hc⟩
        rw [he]
        norm_num
      · rw [if_neg hc]
        refine ⟨?_, by omega⟩
        push_cast
        rw [show q - ((⌊q⌋ : ℚ) + 1) = -(1 / 2) by linarith]
        norm_num

theorem roundHalfEven_unique (q : ℚ) (k : Int)
    (h : |q - k| < 1 / 2 ∨ (|q - k| = 1 / 2 ∧ k % 2 = 0)) : roundHalfEven q = k := by
  have hs := roundHalfEven_spec q
  generalize roundHalfEven q = r at hs ⊢
  have key : ∀ a b : Int, |q - a| ≤ 1 / 2 → |q - b| < 1 / 2 → a = b := by
    intro a b ha hb
    rw [abs_le] at ha
    rw [abs_lt] at hb
    have h1 : ((a : ℚ) - b) < 1 := by linarith
    have h2 : -1 < ((a : ℚ) - b) := by linarith
    have h3 : a - b < 1 := by exact_mod_cast h1
    have h4 : -1 < a - b := by exact_mod_cast h2
    omega
  rcases hs with hs | ⟨hs, hse⟩
  · rcases h with h | ⟨h, _⟩
    · exact key r k hs.le h
    · exact (key k r h.le hs).symm
  · rcases h with h | ⟨h, hke⟩
    · exact key r k hs.le h
    · have ha := hs.le
      have hb := h.le
      rw [abs_le] at ha hb
      have h1 : ((r : ℚ) - k) ≤ 1 := by linarith
      have h2 : -1 ≤ ((r : ℚ) - k) := by linarith
      have h3 : r - k ≤ 1 := by exact_mod_cast h1
      have h4 : -1 ≤ r - k := by exact_mod_cast h2
      omega

theorem roundHalfEven_intCast (k : Int) : roundHalfEven (k : ℚ) = k :=
  roundHalfEven_unique _ k (Or.inl (by norm_num))

theorem abs_sub_roundHalfEven (q : ℚ) : |q - roundHalfEven q| ≤ 1 / 2 := by
  rcases roundHalfEven_spec q with h | ⟨h, _⟩
  · exact h.le
  · exact h.le

theorem roundHalfEven_mono {q1 q2 : ℚ} (h : q1 ≤ q2) : roundHalfEven q1 ≤ roundHalfEven q2 := by
  by_contra hlt
  have hlt1 : roundHalfEven q2 + 1 ≤ roundHalfEven q1 := by omega
  have hc : ((roundHalfEven q2 : ℚ)) + 1 ≤ (roundHalfEven q1 : ℚ) := by exact_mod_cast hlt1
  have s1 := roundHalfEven_spec q1
  have s2 := roundHalfEven_spec q2
  have a1 := abs_le.mp (abs_sub_roundHalfEven q1)
  have a2 := abs_le.mp (abs_sub_roundHalfEven q2)
  have e1 : q1 - roundHalfEven q1 = -(1 / 2) := by linarith
  have e2 : q2 - roundHalfEven q2 = 1 / 2 := by linarith
  have e3 : (roundHalfEven q1 : ℚ) = roundHalfEven q2 + 1 := by linarith
  have e4 : roundHalfEven q1 = roundHalfEven q2 + 1 := by exact_mod_cast e3
  rcases s1 with s1 | ⟨_, p1⟩
  · rw [e1, abs_neg, abs_of_pos (by norm_num : (0 : ℚ) < 1 / 2)] at s1
    exact lt_irrefl _ s1
  · rcases s2 with s2 | ⟨_, p2⟩
    · rw [e2, abs_of_pos (by norm_num : (0 : ℚ) < 1 / 2)] at s2
      exact lt_irrefl _ s2
    · omega

theorem roundHalfEven_neg (q : ℚ) : roundHalfEven (-q) = -roundHalfEven q := by
  apply roundHalfEven_unique
  have e : -q - ((-roundHalfEven q : Int) : ℚ) = -(q - roundHalfEven q) := by
    push_cast
    ring
  rw [e, abs_neg]
  rcases roundHalfEven_spec q with h | ⟨h, hp⟩
  · exact Or.inl h
  · exact Or.inr ⟨h, by omega⟩

theorem binaryUlp_pos (p : Nat) (emin : Int) (x : ℚ) : 0 < binaryUlp p emin x :=
  zpow_pos (by norm_num) _

theorem binaryUlp_neg (p : Nat) (emin : Int) (x : ℚ) :
    binaryUlp p emin (-x) = binaryUlp p emin x := by
  unfold binaryUlp
  rw [abs_neg]

theorem roundBinary_zero (p : Nat) (emin : Int) : roundBinary p emin 0 = 0 := by
  unfold roundBinary
  rw [zero_div, show (0 : ℚ) = ((0 : Int) : ℚ) by norm_num, roundHalfEven_intCast]
  norm_num

theorem roundBinary_neg (p : Nat) (emin : Int) (x : ℚ) :
    roundBinary p emin (-x) = -roundBinary p emin x := by
  unfold roundBinary
  rw [binaryUlp_neg, neg_div, roundHalfEven_neg]
  push_cast
  ring

theorem roundBinary_nonneg (p : Nat) (emin : Int) {x : ℚ} (h : 0 ≤ x) :
    0 ≤ roundBinary p emin x := by
  unfold roundBinary
  have hu := binaryUlp_pos p emin x
  have h1 : roundHalfEven (0 : ℚ) ≤ roundHalfEven (x / binaryUlp p emin x) :=
    roundHalfEven_mono (div_nonneg h hu.le)
  rw [show (0 : ℚ) = ((0 : Int) : ℚ) by norm_num, roundHalfEven_intCast] at h1
  exact mul_nonneg (by exact_mod_cast h1) hu.le

/-- The exponent of a nonzero value that is at most `2 ^ n`. -/
theorem log_abs_le {x : ℚ} {n : Int} (h0 : x ≠ 0) (hx : |x| ≤ 2 ^ n) : Int.log 2 |x| ≤ n := by
  have hpos : 0 < |x| := abs_pos.mpr h0
  have h1 : |x| < ((2 : Nat) : ℚ) ^ (n + 1) := by
    refine lt_of_le_of_lt hx ?_
    push_cast
    exact zpow_lt_zpow_right₀ (by norm_num) (by omega)
  have := (Int.lt_zpow_iff_log_lt (by norm_num : 1 < 2) hpos).mp h1
  omega

theorem roundBinary_error (p : Nat) (emin : Int) {x : ℚ} {n : Int} (hn : emin ≤ n)
    (hx : |x| ≤ 2 ^ n) : |roundBinary p emin x - x| ≤ 2 ^ (n - (p : Int)) := by
  by_cases h0 : x = 0
  · rw [h0, roundBinary_zero, sub_zero, abs_zero]
    exact (zpow_pos (by norm_num) _).le
  have hu := binaryUlp_pos p emin x
  have he : max (Int.log 2 |x|) emin ≤ n := max_le (log_abs_le h0 hx) hn
  have h1 := abs_sub_roundHalfEven (x / binaryUlp p emin x)
  have h2 : roundBinary p emin x - x =
      -((x / binaryUlp p emin x - roundHalfEven (x / binaryUlp p emin x)) *
        binaryUlp p emin x) := by
    unfold roundBinary
    field_simp
    ring
  rw [h2, abs_neg, abs_mul, abs_of_pos hu]
  have h3 : binaryUlp p emin x ≤ 2 ^ (n + 1 - (p : Int)) := by
    unfold binaryUlp
    exact zpow_le_zpow_right₀ (by norm_num) (by omega)
  have h4 : (2 : ℚ) ^ (n + 1 - (p : Int)) = 2 * 2 ^ (n - (p : Int)) := by
    rw [show n + 1 - (p : Int) = 1 + (n - (p : Int)) by ring, zpow_add₀ (by norm_num), zpow_one]
  calc |x / binaryUlp p emin x - roundHalfEven (x / binaryUlp p emin x)| * binaryUlp p emin x
      ≤ 1 / 2 * (2 * 2 ^ (n - (p : Int))) :=
        mul_le_mul h1 (h4 ▸ h3) hu.le (by norm_num)
    _ = 2 ^ (n - (p : Int)) := by ring

/-- The exponent of a value that is at least `2 ^ n`. -/
theorem le_log_abs {x : ℚ} {n : Int} (hx : 2 ^ n ≤ |x|) : n ≤ Int.log 2 |x| := by
  have hpos : 0 < |x| := lt_of_lt_of_le (zpow_pos (by norm_num) _) hx
  have h1 : ((2 : Nat) : ℚ) ^ n ≤ |x| := by
    push_cast
    exact hx
  exact (Int.zpow_le_iff_le_log (by norm_num : 1 < 2) hpos).mp h1

theorem zpow_log_abs_le {x : ℚ} (h0 : x ≠ 0) : (2 : ℚ) ^ Int.log 2 |x| ≤ |x| := by
  have := Int.zpow_log_le_self (b := 2) (r := |x|) (by norm_num) (abs_pos.mpr h0)
  push_cast at this
  exact this

theorem abs_lt_zpow_log_succ (x : ℚ) : |x| < (2 : ℚ) ^ (Int.log 2 |x| + 1) := by
  have := Int.lt_zpow_succ_log_self (b := 2) (by norm_num) |x|
  push_cast at this
  exact this

/-- Rounding a positive value does not pass the next power of two. -/
theorem roundBinary_le_zpow (p : Nat) (emin : Int) {x : ℚ} (hx : 0 < x) :
    roundBinary p emin x ≤ 2 ^ (max (Int.log 2 |x|) emin + 1) := by
  have hu := binaryUlp_pos p emin x
  have h1 : x < 2 ^ (max (Int.log 2 |x|) emin + 1) := by
    have := abs_lt_zpow_log_succ x
    rw [abs_of_pos hx] at this ⊢
    exact lt_of_lt_of_le this (zpow_le_zpow_right₀ (by norm_num) (by
      have := le_max_left (Int.log 2 x) emin
      omega))
  have h2 : (2 : ℚ) ^ (max (Int.log 2 |x|) emin + 1) =
      (((2 : Int) ^ p : Int) : ℚ) * binaryUlp p emin x := by
    unfold binaryUlp
    push_cast
    rw [← zpow_natCast, ← zpow_add₀ (by norm_num)]
    congr 1
    ring
  have h3 : x / binaryUlp p emin x ≤ (((2 : Int) ^ p : Int) : ℚ) := by
    rw [div_le_iff₀ hu, ← h2]
    exact h1.le
  have h4 := roundHalfEven_mono h3
  rw [roundHalfEven_intCast] at h4
  rw [h2]
  unfold roundBinary
  exact mul_le_mul_of_nonneg_right (by exact_mod_cast h4) hu.le

/-- Rounding a value that is at least a power of two in the normal range gives
at least that power. -/
theorem zpow_le_roundBinary (p : Nat) (emin : Int) (hp : 1 ≤ p) {x : ℚ} {n : Int}
    (hn : emin ≤ n) (hx : 2 ^ n ≤ x) : 2 ^ n ≤ roundBinary p emin x := by
  have hpos : 0 < x := lt_of_lt_of_le (zpow_pos (by norm_num) _) hx
  have hu := binaryUlp_pos p emin x
  have hl : n ≤ Int.log 2 |x| := le_log_abs (by rw [abs_of_pos hpos]; exact hx)
  have he : max (Int.log 2 |x|) emin = Int.log 2 |x| := max_eq_left (by omega)
  have h1 : (2 : ℚ) ^ Int.log 2 |x| ≤ x := by
    have := zpow_log_abs_le hpos.ne'
    rw [abs_of_pos hpos] at this ⊢
    exact this
  have h2 : (2 : ℚ) ^ Int.log 2 |x| = (((2 : Int) ^ (p - 1) : Int) : ℚ) * binaryUlp p emin x := by
    unfold binaryUlp
    rw [he]
    push_cast
    rw [← zpow_natCast, ← zpow_add₀ (by norm_num)]
    congr 1
    rw [Nat.cast_sub hp]
    push_cast
    ring
  have h3 : (((2 : Int) ^ (p - 1) : Int) : ℚ) ≤ x / binaryUlp p emin x := by
    rw [le_div_iff₀ hu, ← h2]
    exact h1
  have h4 := roundHalfEven_mono h3
  rw [roundHalfEven_intCast] at h4
  calc (2 : ℚ) ^ n ≤ 2 ^ Int.log 2 |x| := zpow_le_zpow_right₀ (by norm_num) hl
    _ = (((2 : Int) ^ (p - 1) : Int) : ℚ) * binaryUlp p emin x := h2
    _ ≤ roundBinary p emin x := by
        unfold roundBinary
        exact mul_le_mul_of_nonneg_right (by exact_mod_cast h4) hu.le

theorem roundBinary_mono_pos (p : Nat) (emin : Int) (hp : 1 ≤ p) {x y : ℚ} (hx : 0 < x)
    (hxy : x ≤ y) : roundBinary p emin x ≤ roundBinary p emin y := by
  have hy : 0 < y := lt_of_lt_of_le hx hxy
  have hl : Int.log 2 |x| ≤ Int.log 2 |y| := by
    rw [abs_of_pos hx, abs_of_pos hy]
    exact Int.log_mono_right hx hxy
  by_cases he : max (Int.log 2 |x|) emin = max (Int.log 2 |y|) emin
  · have hu : binaryUlp p emin x = binaryUlp p emin y := by
      unfold binaryUlp
      rw [he]
    have hpos := binaryUlp_pos p emin y
    unfold roundBinary
    rw [hu]
    have := roundHalfEven_mono (div_le_div_of_nonneg_right hxy hpos.le)
    exact mul_le_mul_of_nonneg_right (by exact_mod_cast this) hpos.le
  · have hlt : max (Int.log 2 |x|) emin < Int.log 2 |y| := by
      rcases le_total (Int.log 2 |x|) emin with h | h
      · rw [max_eq_right h] at he ⊢
        rcases le_total (Int.log 2 |y|) emin with h1 | h1
        · rw [max_eq_right h1] at he
          exact absurd rfl he
        · rw [max_eq_left h1] at he
          omega
      · rw [max_eq_left h] at he ⊢
        rcases le_total (Int.log 2 |y|) emin with h1 | h1
        · rw [max_eq_right h1] at he
          omega
        · rw [max_eq_left h1] at he
          omega
    have hemin : emin ≤ Int.log 2 |y| := by
      have := le_max_right (Int.log 2 |x|) emin
      omega
    have h1 := roundBinary_le_zpow p emin hx
    have h2 : (2 : ℚ) ^ Int.log 2 |y| ≤ y := by
      have := zpow_log_abs_le hy.ne'
      rw [abs_of_pos hy] at this ⊢
      exact this
    have h3 := zpow_le_roundBinary p emin hp hemin h2
    calc roundBinary p emin x ≤ 2 ^ (max (Int.log 2 |x|) emin + 1) := h1
      _ ≤ 2 ^ Int.log 2 |y| := zpow_le_zpow_right₀ (by norm_num) (by omega)
      _ ≤ roundBinary p emin y := h3

/-- Rounding to a binary format is monotone. -/
theorem roundBinary_mono (p : Nat) (emin : Int) (hp : 1 ≤ p) {x y : ℚ} (hxy : x ≤ y) :
    roundBinary p emin x ≤ roundBinary p emin y := by
  rcases lt_trichotomy 0 x with hx | hx | hx
  · exact roundBinary_mono_pos p emin hp hx hxy
  · rw [← hx, roundBinary_zero]
    exact roundBinary_nonneg p emin (hx ▸ hxy)
  · rcases le_or_lt 0 y with hy | hy
    · have h1 := roundBinary_nonneg p emin (neg_nonneg.mpr hx.le)
      rw [roundBinary_neg] at h1
      exact le_trans (by linarith) (roundBinary_nonneg p emin hy)
    · have h1 := roundBinary_mono_pos p emin hp (neg_pos.mpr hy) (neg_le_neg hxy)
      rw [roundBinary_neg, roundBinary_neg] at h1
      linarith

/-- A value `k * 2 ^ j` whose `k` has at most `p` bits, with `j` in the range of
the format, is rounded to itself. -/
theorem roundBinary_representable (p : Nat) (emin : Int) (k j : Int)
    (hk : |k| < 2 ^ p) (hj : emin + 1 - p ≤ j) :
    roundBinary p emin ((k : ℚ) * 2 ^ j) = (k : ℚ) * 2 ^ j := by
  by_cases h0 : k = 0
  · rw [h0]
    simp [roundBinary_zero]
  have hx0 : (k : ℚ) * 2 ^ j ≠ 0 :=
    mul_ne_zero (by exact_mod_cast h0) (zpow_pos (by norm_num) _).ne'
  have hlt : |(k : ℚ) * 2 ^ j| < 2 ^ ((p : Int) + j) := by
    rw [abs_mul, abs_of_pos (zpow_pos (by norm_num : (0 : ℚ) < 2) j), zpow_add₀ (by norm_num)]
    refine mul_lt_mul_of_pos_right ?_ (zpow_pos (by norm_num) _)
    rw [zpow_natCast]
    exact_mod_cast hk
  have hl : Int.log 2 |(k : ℚ) * 2 ^ j| < (p : Int) + j := by
    have h1 : |(k : ℚ) * 2 ^ j| < ((2 : Nat) : ℚ) ^ ((p : Int) + j) := by
      push_cast
      exact hlt
    exact (Int.lt_zpow_iff_log_lt (by norm_num : 1 < 2) (abs_pos.mpr hx0)).mp h1
  obtain ⟨d, hd⟩ : ∃ d : Nat,
      j = max (Int.log 2 |(k : ℚ) * 2 ^ j|) emin + 1 - (p : Int) + d := by
    refine ⟨(j - (max (Int.log 2 |(k : ℚ) * 2 ^ j|) emin + 1 - (p : Int))).toNat, ?_⟩
    have : max (Int.log 2 |(k : ℚ) * 2 ^ j|) emin + 1 - (p : Int) ≤ j := by
      rcases le_total (Int.log 2 |(k : ℚ) * 2 ^ j|) emin with h | h
      · rw [max_eq_right h]
        exact hj
      · rw [max_eq_left h]
        omega
    omega
  have hu := binaryUlp_pos p emin ((k : ℚ) * 2 ^ j)
  have hq : (k : ℚ) * 2 ^ j / binaryUlp p emin ((k : ℚ) * 2 ^ j) = ((k * 2 ^ d : Int) : ℚ) := by
    rw [div_eq_iff hu.ne']
    unfold binaryUlp
    push_cast
    rw [mul_assoc, ← zpow_natCast, ← zpow_add₀ (by norm_num)]
    congr 2
    omega
  unfold roundBinary
  rw [hq, roundHalfEven_intCast, ← hq]
  field_simp

/-- The rounding of a value whose binade and nearest grid point are known. -/
theorem roundBinary_eq_of_near (p : Nat) (emin : Int) {x : ℚ} (e k : Int) (he : emin ≤ e)
    (h1 : 2 ^ e ≤ |x|) (h2 : |x| < 2 ^ (e + 1))
    (hk : |x / 2 ^ (e + 1 - (p : Int)) - k| < 1 / 2) :
    roundBinary p emin x = (k : ℚ) * 2 ^ (e + 1 - (p : Int)) := by
  have hpos : 0 < |x| := lt_of_lt_of_le (zpow_pos (by norm_num) _) h1
  have hl1 : e ≤ Int.log 2 |x| := le_log_abs h1
  have hl2 : Int.log 2 |x| < e + 1 := by
    have h3 : |x| < ((2 : Nat) : ℚ) ^ (e + 1) := by
      push_cast
      exact h2
    exact (Int.lt_zpow_iff_log_lt (by norm_num : 1 < 2) hpos).mp h3
  have hu : binaryUlp p emin x = 2 ^ (e + 1 - (p : Int)) := by
    unfold binaryUlp
    rw [show Int.log 2 |x| = e by omega, max_eq_left he]
  unfold roundBinary
  rw [hu, roundHalfEven_unique _ k (Or.inl hk)]

theorem binary32_mono {x y : ℚ} (h : x ≤ y) : binary32 x ≤ binary32 y :=
  roundBinary_mono 24 (-126) (by norm_num) h

theorem binary64_mono {x y : ℚ} (h : x ≤ y) : binary64 x ≤ binary64 y :=
  roundBinary_mono 53 (-1022) (by norm_num) h

/-- A value `k * 2 ^ j` with `|k| < 2 ^ 24` and `j ≥ -149` is a `float`. -/
theorem binary32_fixed (x : ℚ) (k j : Int) (hx : x = (k : ℚ) * 2 ^ j) (hk : |k| < 2 ^ 24)
    (hj : -149 ≤ j) : binary32 x = x := by
  rw [hx]
  exact roundBinary_representable 24 (-126) k j hk (by norm_num; omega)

/-- A value `k * 2 ^ j` with `|k| < 2 ^ 53` and `j ≥ -1074` is a `double`. -/
theorem binary64_fixed (x : ℚ) (k j : Int) (hx : x = (k : ℚ) * 2 ^ j) (hk : |k| < 2 ^ 53)
    (hj : -1074 ≤ j) : binary64 x = x := by
  rw [hx]
  exact roundBinary_representable 53 (-1022) k j hk (by norm_num; omega)

theorem binary32_error {x : ℚ} {n : Int} (hn : -126 ≤ n) (hx : |x| ≤ 2 ^ n) :
    |binary32 x - x| ≤ 2 ^ (n - 24) :=
  roundBinary_error 24 (-126) hn hx

theorem binary64_error {x : ℚ} {n : Int} (hn : -1022 ≤ n) (hx : |x| ≤ 2 ^ n) :
    |binary64 x - x| ≤ 2 ^ (n - 53) :=
  roundBinary_error 53 (-1022) hn hx

/-- The `double` product `2 * M_PI`, for `M_PI` between `3` and `22 / 7`. -/
theorem two_pi_double (lib : MathLib ℚ) (h3 : 3 ≤ lib.pi) (h4 : lib.pi ≤ 22 / 7) :
    6 ≤ binary64 (2 * lib.pi) ∧ binary64 (2 * lib.pi) ≤ 7 := by
  constructor
  · have := binary64_mono (show (6 : ℚ) ≤ 2 * lib.pi by linarith)
    rwa [binary64_fixed 6 3 1 (by norm_num) (by norm_num) (by norm_num)] at this
  · have := binary64_mono (show 2 * lib.pi ≤ (7 : ℚ) by linarith)
    rwa [binary64_fixed 7 7 0 (by norm_num) (by norm_num) (by norm_num)] at this

/-- The `float` that `follow_orbit` computes as `currentHeading` from a heading of
at least `10 ^ 10` degrees is at most `-138412032 = -(2 ^ 27 + 2 ^ 22)`. -/
theorem large_heading_float (lib : MathLib ℚ) (h3 : 3 ≤ lib.pi) {heading : ℚ}
    (hh : 10000000000 ≤ heading) :
    binary32 (binary64 (binary64 (binary32 (90 - binary32 heading) * lib.pi) / 180))
      ≤ -138412032 := by
  have a1 : (10000000000 : ℚ) ≤ binary32 heading := by
    have := binary32_mono hh
    rwa [binary32_fixed 10000000000 9765625 10 (by norm_num) (by norm_num) (by norm_num)] at this
  have a2 : binary32 (90 - binary32 heading) ≤ -8589934592 := by
    have := binary32_mono (show 90 - binary32 heading ≤ (-8589934592 : ℚ) by linarith)
    rwa [binary32_fixed (-8589934592) (-1) 33 (by norm_num) (by norm_num) (by norm_num)] at this
  have a3 : binary64 (binary32 (90 - binary32 heading) * lib.pi) ≤ -25769803776 := by
    have hm : binary32 (90 - binary32 heading) * lib.pi ≤ (-25769803776 : ℚ) := by
      nlinarith
    have := binary64_mono hm
    rwa [binary64_fixed (-25769803776) (-3) 33 (by norm_num) (by norm_num) (by norm_num)] at this
  have a4 : binary64 (binary64 (binary32 (90 - binary32 heading) * lib.pi) / 180)
      ≤ -138412032 := by
    have hm : binary64 (binary32 (90 - binary32 heading) * lib.pi) / 180
        ≤ (-138412032 : ℚ) := by
      rw [div_le_iff₀ (by norm_num)]
      linarith
    have := binary64_mono hm
    rwa [binary64_fixed (-138412032) (-33) 22 (by norm_num) (by norm_num) (by norm_num)] at this
  have := binary32_mono a4
  rwa [binary32_fixed (-138412032) (-33) 22 (by norm_num) (by norm_num) (by norm_num)] at this

/-- At `-2 ^ 27` the `float`s are `16` apart: a `float` of at least `-2 ^ 27`, less
a `2 * M_PI` of at most `7`, is stored as a `float` of at least `-2 ^ 27`. -/
theorem stalled_step {courseAngle twoPi : ℚ} (hc : -134217728 ≤ courseAngle)
    (ht : twoPi ≤ 7) : -134217728 ≤ binary32 (binary64 (courseAngle - twoPi)) := by
  have h1 := binary64_mono (show (-134217735 : ℚ) ≤ courseAngle - twoPi by linarith)
  rw [binary64_fixed (-134217735) (-134217735) 0 (by norm_num) (by norm_num) (by norm_num)] at h1
  have h2 := binary32_mono h1
  have h3 : binary32 (-134217735) = -134217728 := by
    have := roundBinary_eq_of_near 24 (-126) (x := -134217735) 27 (-8388608) (by norm_num)
      (by norm_num) (by norm_num) (by norm_num [abs_lt])
    rw [binary32, this]
    norm_num
  rwa [h3] at h2

/-- While `courseAngle` is at least `-2 ^ 27` and `currentHeading` at most
`-(2 ^ 27 + 4)`, the test of the second loop holds. -/
theorem stalled_test (lib : MathLib ℚ) (h4 : lib.pi ≤ 22 / 7) {courseAngle currentHeading : ℚ}
    (hc : -134217728 ≤ courseAngle) (hh : currentHeading ≤ -134217732) :
    lib.pi < binary32 (courseAngle - currentHeading) := by
  have h1 := binary32_mono (show (4 : ℚ) ≤ courseAngle - currentHeading by linarith)
  rw [binary32_fixed 4 1 2 (by norm_num) (by norm_num) (by norm_num)] at h1
  linarith

/-- The second wrapping loop never ends from a `courseAngle` of at least
`-2 ^ 27` when `currentHeading` is at most `-(2 ^ 27 + 4)`: whatever number of
iterations is allowed, it is used up. -/
theorem wrap_course_down_float_stalls (lib : MathLib ℚ) (h3 : 3 ≤ lib.pi)
    (h4 : lib.pi ≤ 22 / 7) {currentHeading : ℚ} (hh : currentHeading ≤ -134217732) :
    ∀ (fuel : Nat) (courseAngle : ℚ), -134217728 ≤ courseAngle →
      wrap_course_down_float lib currentHeading fuel courseAngle = .error Stop.fuel := by
  intro fuel
  induction fuel with
  | zero =>
    intro c hc
    unfold wrap_course_down_float
    rw [if_pos (stalled_test lib h4 hc hh)]
  | succ n ih =>
    intro c hc
    unfold wrap_course_down_float
    rw [if_pos (stalled_test lib h4 hc hh)]
    exact ih _ (stalled_step hc (two_pi_double lib h3 h4).2)

/-- The first wrapping loop returns at once when its test fails. -/
theorem wrap_course_up_float_skip (lib : MathLib ℚ) {currentHeading courseAngle : ℚ}
    (h : ¬ binary32 (courseAngle - currentHeading) < -lib.pi) (fuel : Nat) :
    wrap_course_up_float lib currentHeading fuel courseAngle = .ok courseAngle := by
  cases fuel with
  | zero =>
    unfold wrap_course_up_float
    rw [if_neg h]
  | succ n =>
    unfold wrap_course_up_float
    rw [if_neg h]

/-- With a heading of at least `10 ^ 10` degrees `follow_orbit` does not return
in `float` arithmetic: `currentHeading` is below `-2 ^ 27`, and `courseAngle`,
which starts at the value of `atan2`, cannot get below `-2 ^ 27` in steps of
`2 * M_PI`. -/
theorem follow_orbit_float_stalls (lib : MathLib ℚ) (h3 : 3 ≤ lib.pi) (h4 : lib.pi ≤ 22 / 7)
    (hatan : ∀ y x, -4 ≤ lib.atan2 y x) (nav : NavigationData ℚ) (position : Vec3 ℚ)
    {heading : ℚ} (hh : 10000000000 ≤ heading) (fuel : Nat) :
    follow_orbit_float lib fuel nav position (binary32 heading) = .error Stop.fuel := by
  have hH := large_heading_float lib h3 hh
  have hc : (-4 : ℚ) ≤ binary32
      (lib.atan2 (position.c1 - nav.turnCenter.c1) (position.c0 - nav.turnCenter.c0)) := by
    have := binary32_mono (hatan (position.c1 - nav.turnCenter.c1)
      (position.c0 - nav.turnCenter.c0))
    rwa [binary32_fixed (-4) (-1) 2 (by norm_num) (by norm_num) (by norm_num)] at this
  have hup : ¬ binary32 (binary32
      (lib.atan2 (position.c1 - nav.turnCenter.c1) (position.c0 - nav.turnCenter.c0)) -
        binary32 (binary64 (binary64 (binary32 (90 - binary32 heading) * lib.pi) / 180)))
      < -lib.pi := by
    have := stalled_test lib h4 (le_trans (by norm_num) hc) (le_trans hH (by norm_num))
    intro hlt
    linarith
  unfold follow_orbit_float
  dsimp only
  rw [wrap_course_up_float_skip lib hup fuel, stop_ok_bind,
    wrap_course_down_float_stalls lib h3 h4 (le_trans hH (by norm_num)) fuel _
      (le_trans (by norm_num) hc)]
  rfl

/-- In a hold whose parameters pass the check, with a heading of at least
`10 ^ 10` degrees, the tick does not return in `float` arithmetic, whatever
number of iterations the wrapping loops are allowed. -/
theorem hold_tick_float_stalls (lib : MathLib ℚ) (h3 : 3 ≤ lib.pi) (h4 : lib.pi ≤ 22 / 7)
    (hatan : ∀ y x, -4 ≤ lib.atan2 y x) (PATH_BUFFER_SIZE : Nat) (m : WaypointManager)
    (nav : NavigationData ℚ) (a : Ptr) (currentStatus : WaypointManager_Data_In)
    (Data : WaypointManager_Data_Out ℚ) (hh : m.inHold = true)
    (hg : ¬ (nav.turnRadius ≤ 0 ∨ nav.turnDirection < -1 ∨ 1 < nav.turnDirection))
    (hheading : 10000000000 ≤ currentStatus.heading) (fuel : Nat) :
    get_next_directions_float lib fuel PATH_BUFFER_SIZE m nav a currentStatus Data =
      .error Stop.fuel := by
  unfold get_next_directions_float
  dsimp only
  rw [if_pos hh, if_neg hg]
  unfold follow_hold_pattern_float
  dsimp only
  rw [follow_orbit_float_stalls lib h3 h4 hatan _ _ hheading fuel]
  rfl


/-- Rounding to `float` keeps a value within a bound that is itself a `float`. -/
theorem binary32_abs_le {x : ℚ} (B : ℚ) (k j : Int) (hB : B = (k : ℚ) * 2 ^ j)
    (hk : |k| < 2 ^ 24) (hj : -149 ≤ j) (hx : |x| ≤ B) : |binary32 x| ≤ B := by
  have hf := binary32_fixed B k j hB hk hj
  have hn : binary32 (-B) = -B := by
    rw [binary32, roundBinary_neg, ← binary32, hf]
  rw [abs_le] at hx ⊢
  constructor
  · have := binary32_mono hx.1
    rwa [hn] at this
  · have := binary32_mono hx.2
    rwa [hf] at this

/-- Rounding to `double` keeps a value within a bound that is itself a `double`. -/
theorem binary64_abs_le {x : ℚ} (B : ℚ) (k j : Int) (hB : B = (k : ℚ) * 2 ^ j)
    (hk : |k| < 2 ^ 53) (hj : -1074 ≤ j) (hx : |x| ≤ B) : |binary64 x| ≤ B := by
  have hf := binary64_fixed B k j hB hk hj
  have hn : binary64 (-B) = -B := by
    rw [binary64, roundBinary_neg, ← binary64, hf]
  rw [abs_le] at hx ⊢
  constructor
  · have := binary64_mono hx.1
    rwa [hn] at this
  · have := binary64_mono hx.2
    rwa [hf] at this

/-- Below `2 ^ 18` a value and its `float` differ by at most `1 / 64`. -/
theorem binary32_near {x : ℚ} (hx : |x| ≤ 262144) : |binary32 x - x| ≤ 1 / 64 := by
  have := binary32_error (x := x) (n := 18) (by norm_num) (by norm_num; exact hx)
  norm_num at this
  exact this

/-- Below `2 ^ 18` a value and its `double` differ by at most `1 / 64`. -/
theorem binary64_near {x : ℚ} (hx : |x| ≤ 262144) : |binary64 x - x| ≤ 1 / 64 := by
  have := binary64_error (x := x) (n := 18) (by norm_num) (by norm_num; exact hx)
  refine le_trans this ?_
  norm_num

/-- The `float` that `follow_orbit` computes as `currentHeading` from a heading of
at most `10 ^ 6` degrees in absolute value is at most `2 ^ 16` in absolute value. -/
theorem moderate_heading_float (lib : MathLib ℚ) (h3 : 3 ≤ lib.pi) (h4 : lib.pi ≤ 22 / 7)
    {heading : ℚ} (hh : |heading| ≤ 1000000) :
    |binary32 (binary64 (binary64 (binary32 (90 - binary32 heading) * lib.pi) / 180))|
      ≤ 65536 := by
  have a1 : |binary32 heading| ≤ 1048576 :=
    binary32_abs_le 1048576 1 20 (by norm_num) (by norm_num) (by norm_num)
      (le_trans hh (by norm_num))
  have a2 : |binary32 (90 - binary32 heading)| ≤ 2097152 := by
    refine binary32_abs_le 2097152 1 21 (by norm_num) (by norm_num) (by norm_num) ?_
    rw [abs_le] at a1 ⊢
    constructor <;> linarith [a1.1, a1.2]
  have a3 : |binary64 (binary32 (90 - binary32 heading) * lib.pi)| ≤ 8388608 := by
    refine binary64_abs_le 8388608 1 23 (by norm_num) (by norm_num) (by norm_num) ?_
    rw [abs_mul, abs_of_pos (by linarith : (0 : ℚ) < lib.pi)]
    calc |binary32 (90 - binary32 heading)| * lib.pi ≤ 2097152 * (22 / 7) :=
          mul_le_mul a2 h4 (by linarith) (by norm_num)
      _ ≤ 8388608 := by norm_num
  have a4 : |binary64 (binary64 (binary32 (90 - binary32 heading) * lib.pi) / 180)|
      ≤ 65536 := by
    refine binary64_abs_le 65536 1 16 (by norm_num) (by norm_num) (by norm_num) ?_
    rw [abs_div, abs_of_pos (by norm_num : (0 : ℚ) < 180), div_le_iff₀ (by norm_num)]
    exact le_trans a3 (by norm_num)
  exact binary32_abs_le 65536 1 16 (by norm_num) (by norm_num) (by norm_num) a4

/-- One iteration of the first loop moves a moderate `courseAngle` up by between
`5` and `8`. -/
theorem wrap_up_step {courseAngle twoPi : ℚ} (h1 : -4 ≤ courseAngle)
    (h2 : courseAngle ≤ 131072) (ht1 : 6 ≤ twoPi) (ht2 : twoPi ≤ 7) :
    courseAngle + 5 ≤ binary32 (binary64 (courseAngle + twoPi)) ∧
      binary32 (binary64 (courseAngle + twoPi)) ≤ courseAngle + 8 := by
  have e1 := abs_le.mp (binary64_near (x := courseAngle + twoPi)
    (abs_le.mpr ⟨by linarith, by linarith⟩))
  have e2 := abs_le.mp (binary32_near (x := binary64 (courseAngle + twoPi))
    (abs_le.mpr ⟨by linarith [e1.1], by linarith [e1.2]⟩))
  constructor <;> linarith [e1.1, e1.2, e2.1, e2.2]

/-- One iteration of the second loop moves a moderate `courseAngle` down by
between `5` and `8`. -/
theorem wrap_down_step {courseAngle twoPi : ℚ} (h1 : -131072 ≤ courseAngle)
    (h2 : courseAngle ≤ 131072) (ht1 : 6 ≤ twoPi) (ht2 : twoPi ≤ 7) :
    courseAngle - 8 ≤ binary32 (binary64 (courseAngle - twoPi)) ∧
      binary32 (binary64 (courseAngle - twoPi)) ≤ courseAngle - 5 := by
  have e1 := abs_le.mp (binary64_near (x := courseAngle - twoPi)
    (abs_le.mpr ⟨by linarith, by linarith⟩))
  have e2 := abs_le.mp (binary32_near (x := binary64 (courseAngle - twoPi))
    (abs_le.mpr ⟨by linarith [e1.1], by linarith [e1.2]⟩))
  constructor <;> linarith [e1.1, e1.2, e2.1, e2.2]

/-- The `float` difference that the loops test is within `1 / 64` of the exact
difference, for moderate operands. -/
theorem wrap_test_near {courseAngle currentHeading : ℚ} (h1 : -131072 ≤ courseAngle)
    (h2 : courseAngle ≤ 131072) (hh : |currentHeading| ≤ 65536) :
    courseAngle - currentHeading - 1 / 64 ≤ binary32 (courseAngle - currentHeading) ∧
      binary32 (courseAngle - currentHeading) ≤ courseAngle - currentHeading + 1 / 64 := by
  have hh1 := abs_le.mp hh
  have e1 := abs_le.mp (binary32_near (x := courseAngle - currentHeading)
    (abs_le.mpr ⟨by linarith [hh1.2], by linarith [hh1.1]⟩))
  constructor <;> linarith [e1.1, e1.2]

/-- The second wrapping loop returns at once when its test fails. -/
theorem wrap_course_down_float_skip (lib : MathLib ℚ) {currentHeading courseAngle : ℚ}
    (h : ¬ lib.pi < binary32 (courseAngle - currentHeading)) (fuel : Nat) :
    wrap_course_down_float lib currentHeading fuel courseAngle = .ok courseAngle := by
  cases fuel with
  | zero =>
    unfold wrap_course_down_float
    rw [if_neg h]
  | succ n =>
    unfold wrap_course_down_float
    rw [if_neg h]

/-- The first wrapping loop ends in `float` arithmetic for a moderate
`currentHeading`: from a `courseAngle` at most `5 * n` below it, `n` iterations
are enough, and the result does not depend on the number allowed beyond that. -/
theorem wrap_course_up_float_returns (lib : MathLib ℚ) (h3 : 3 ≤ lib.pi)
    (h4 : lib.pi ≤ 22 / 7) {currentHeading : ℚ} (hh : |currentHeading| ≤ 65536) :
    ∀ (n : Nat) (courseAngle : ℚ), -4 ≤ courseAngle → courseAngle ≤ 131072 →
      currentHeading - courseAngle ≤ 5 * (n : ℚ) →
      ∃ c, -4 ≤ c ∧ c ≤ 131072 ∧
        ∀ fuel, n ≤ fuel → wrap_course_up_float lib currentHeading fuel courseAngle = .ok c := by
  have hh1 := abs_le.mp hh
  have ht := two_pi_double lib h3 h4
  intro n
  induction n with
  | zero =>
    intro c h1 h2 hm
    have e := wrap_test_near (by linarith) h2 hh
    refine ⟨c, h1, h2, fun fuel _ => wrap_course_up_float_skip lib ?_ fuel⟩
    intro hlt
    norm_num at hm
    linarith [e.1]
  | succ n ih =>
    intro c h1 h2 hm
    by_cases hc : binary32 (c - currentHeading) < -lib.pi
    · have e := wrap_test_near (by linarith) h2 hh
      have s := wrap_up_step h1 h2 ht.1 ht.2
      obtain ⟨c1, b1, b2, hc1⟩ := ih (binary32 (binary64 (c + binary64 (2 * lib.pi))))
        (by linarith [s.1]) (by linarith [s.2, e.1]) (by push_cast at hm; linarith [s.1])
      refine ⟨c1, b1, b2, fun fuel hf => ?_⟩
      obtain ⟨k, rfl⟩ : ∃ k, fuel = k + 1 := ⟨fuel - 1, by omega⟩
      unfold wrap_course_up_float
      rw [if_pos hc]
      exact hc1 k (by omega)
    · exact ⟨c, h1, h2, fun fuel _ => wrap_course_up_float_skip lib hc fuel⟩

/-- The second wrapping loop ends in `float` arithmetic for a moderate
`currentHeading`: from a `courseAngle` at most `5 * n` above it, `n` iterations
are enough, and the result does not depend on the number allowed beyond that. -/
theorem wrap_course_down_float_returns (lib : MathLib ℚ) (h3 : 3 ≤ lib.pi)
    (h4 : lib.pi ≤ 22 / 7) {currentHeading : ℚ} (hh : |currentHeading| ≤ 65536) :
    ∀ (n : Nat) (courseAngle : ℚ), -131072 ≤ courseAngle → courseAngle ≤ 131072 →
      courseAngle - currentHeading ≤ 5 * (n : ℚ) →
      ∃ c, ∀ fuel, n ≤ fuel →
        wrap_course_down_float lib currentHeading fuel courseAngle = .ok c := by
  have hh1 := abs_le.mp hh
  have ht := two_pi_double lib h3 h4
  intro n
  induction n with
  | zero =>
    intro c h1 h2 hm
    have e := wrap_test_near h1 h2 hh
    refine ⟨c, fun fuel _ => wrap_course_down_float_skip lib ?_ fuel⟩
    intro hlt
    norm_num at hm
    linarith [e.2]
  | succ n ih =>
    intro c h1 h2 hm
    by_cases hc : lib.pi < binary32 (c - currentHeading)
    · have e := wrap_test_near h1 h2 hh
      have s := wrap_down_step h1 h2 ht.1 ht.2
      obtain ⟨c1, hc1⟩ := ih (binary32 (binary64 (c - binary64 (2 * lib.pi))))
        (by linarith [s.1, e.2, hh1.1]) (by linarith [s.2])
        (by push_cast at hm; linarith [s.2])
      refine ⟨c1, fun fuel hf => ?_⟩
      obtain ⟨k, rfl⟩ : ∃ k, fuel = k + 1 := ⟨fuel - 1, by omega⟩
      unfold wrap_course_down_float
      rw [if_pos hc]
      exact hc1 k (by omega)
    · exact ⟨c, fun fuel _ => wrap_course_down_float_skip lib hc fuel⟩

/-- In `float` arithmetic `follow_orbit` returns for every heading of at most
`10 ^ 6` degrees in absolute value, when `M_PI` lies between `3` and `22 / 7`
and `atan2` returns an angle of at most `4` in absolute value: `65536`
iterations of each wrapping loop are enough. -/
theorem follow_orbit_float_returns (lib : MathLib ℚ) (h3 : 3 ≤ lib.pi) (h4 : lib.pi ≤ 22 / 7)
    (hatan : ∀ y x, |lib.atan2 y x| ≤ 4) (nav : NavigationData ℚ) (position : Vec3 ℚ)
    {heading : ℚ} (hh : |heading| ≤ 1000000) :
    ∃ c : Int, ∀ fuel, 65536 ≤ fuel →
      follow_orbit_float lib fuel nav position (binary32 heading) =
        .ok { nav with
          desiredHeading := normalize_heading c
          distanceToNextWaypoint := 0
          outputType := ORBIT_FOLLOW
          desiredAltitude := nav.turnDesiredAltitude } := by
  have hH := moderate_heading_float lib h3 h4 hh
  have hH1 := abs_le.mp hH
  have hc := abs_le.mp (binary32_abs_le 4 1 2 (by norm_num) (by norm_num) (by norm_num)
    (hatan (position.c1 - nav.turnCenter.c1) (position.c0 - nav.turnCenter.c0)))
  obtain ⟨c1, b1, b2, hc1⟩ := wrap_course_up_float_returns lib h3 h4 hH 16384 _ hc.1
    (by linarith [hc.2]) (by push_cast; linarith [hH1.2, hc.1])
  obtain ⟨c2, hc2⟩ := wrap_course_down_float_returns lib h3 h4 hH 65536 c1 (by linarith) b2
    (by push_cast; linarith [hH1.1])
  refine ⟨lib.round (90 - rad2deg lib (c2 + (nav.turnDirection : ℚ) *
      (lib.pi / 2 + lib.atan (k_gain ORBIT_FOLLOW *
        (binary32 (lib.sqrt ((position.c0 - nav.turnCenter.c0) ^ 2 +
          (position.c1 - nav.turnCenter.c1) ^ 2)) - nav.turnRadius) / nav.turnRadius)))),
    fun fuel hf => ?_⟩
  unfold follow_orbit_float
  dsimp only
  rw [hc1 fuel (by omega), stop_ok_bind, hc2 fuel hf, stop_ok_bind]
  rfl

/-- C17 (amended). Hold has strict priority, in the program's `float` arithmetic:
in every state with `inHold` set, a positive `turnRadius` and `turnDirection` one
of `-1`, `1`, for every telemetry whose heading is at most `10 ^ 6` degrees in
absolute value, every output record, and all values of `goingHome`, `homeBase`,
`currentIndex` and the buffer, with `M_PI` between `3` and `22 / 7` and an
`atan2` that returns angles of at most `4` in absolute value,
`get_next_directions` returns `WAYPOINT_SUCCESS` once the wrapping loops are
allowed `65536` iterations; the record it writes has `out_type = ORBIT_FOLLOW`,
`distanceToNextWaypoint = 0`, the stored orbit altitude as `desiredAltitude`,
`radius = turnRadius`, the stored `turnDirection`, and a heading in `[0, 360)`;
and the manager afterwards is the manager before with `errorCode` set to
`WAYPOINT_SUCCESS`, so the buffer, the heap, `homeBase` and `goingHome` are
unchanged. -/
theorem hold_has_priority (lib : MathLib ℚ) (h3 : 3 ≤ lib.pi) (h4 : lib.pi ≤ 22 / 7)
    (hatan : ∀ y x, |lib.atan2 y x| ≤ 4) (PATH_BUFFER_SIZE : Nat)
    (m : WaypointManager) (nav : NavigationData ℚ) (a : Ptr)
    (currentStatus : WaypointManager_Data_In) (Data : WaypointManager_Data_Out ℚ)
    (hh : m.inHold = true) (hr : 0 < nav.turnRadius)
    (hd : nav.turnDirection = -1 ∨ nav.turnDirection = 1)
    (hheading : |currentStatus.heading| ≤ 1000000) :
    ∃ heading : Int, 0 ≤ heading ∧ heading < 360 ∧ ∀ fuel, 65536 ≤ fuel →
      ∃ nav1, get_next_directions_float lib fuel PATH_BUFFER_SIZE m nav a currentStatus Data =
        .ok ({ m with errorCode := WAYPOINT_SUCCESS }, nav1,
          { desiredHeading := heading
            desiredAltitude := nav.turnDesiredAltitude
            distanceToNextWaypoint := 0
            radius := nav.turnRadius
            turnDirection := nav.turnDirection
            errorCode := WAYPOINT_SUCCESS
            isDataNew := true
            timeOfData := 0
            out_type := ORBIT_FOLLOW },
          WAYPOINT_SUCCESS) := by
  have hg : ¬ (nav.turnRadius ≤ 0 ∨ nav.turnDirection < -1 ∨ 1 < nav.turnDirection) := by
    rintro (h1 | h1 | h1)
    · exact absurd hr (not_lt.mpr h1)
    · omega
    · omega
  obtain ⟨c, hc⟩ := follow_orbit_float_returns lib h3 h4 hatan nav
    { c0 := binary32 (get_coordinates lib nav (binary32 currentStatus.longitude)
        (binary32 currentStatus.latitude)).1
      c1 := binary32 (get_coordinates lib nav (binary32 currentStatus.longitude)
        (binary32 currentStatus.latitude)).2
      c2 := binary32 currentStatus.altitude } hheading
  refine ⟨normalize_heading c, (normalize_heading_range c).1, (normalize_heading_range c).2,
    fun fuel hf => ?_⟩
  unfold get_next_directions_float
  dsimp only
  rw [if_pos hh, if_neg hg]
  unfold follow_hold_pattern_float
  dsimp only
  rw [hc fuel hf, stop_ok_bind]
  exact ⟨_, rfl⟩

/-- The `float` that `follow_orbit` computes as `currentHeading` from the heading
`10 ^ 10` degrees, with `M_PI` the `double` nearest to pi: `-174532928`. -/
theorem large_heading_value :
    binary32 (binary64 (binary64 (binary32 (90 - binary32 largeHeading.heading) *
      doubleLib.pi) / 180)) = -174532928 := by
  have a1 : binary32 largeHeading.heading = 10000000000 :=
    binary32_fixed 10000000000 9765625 10 (by norm_num) (by norm_num) (by norm_num)
  have a2 : binary32 (90 - 10000000000) = -10000000000 := by
    have := roundBinary_eq_of_near 24 (-126) (x := 90 - 10000000000) 33 (-9765625)
      (by norm_num) (by norm_num) (by norm_num) (by norm_num [abs_lt])
    rw [binary32, this]
    norm_num
  have a3 : binary64 (-10000000000 * doubleLib.pi) = -8235496645826427 / 262144 := by
    have := roundBinary_eq_of_near 53 (-1022)
      (x := -10000000000 * (884279719003555 / 281474976710656)) 34 (-8235496645826427)
      (by norm_num) (by rw [abs_of_neg (by norm_num)]; norm_num)
      (by rw [abs_of_neg (by norm_num)]; norm_num) (by norm_num [abs_lt])
    rw [binary64, show doubleLib.pi = 884279719003555 / 281474976710656 from rfl, this]
    norm_num
  have a4 : binary64 (-8235496645826427 / 262144 / 180) = -5856353170365459 / 33554432 := by
    have := roundBinary_eq_of_near 53 (-1022) (x := -8235496645826427 / 262144 / 180) 27
      (-5856353170365459) (by norm_num) (by rw [abs_of_neg (by norm_num)]; norm_num)
      (by rw [abs_of_neg (by norm_num)]; norm_num) (by norm_num [abs_lt])
    rw [binary64, this]
    norm_num
  have a5 : binary32 (-5856353170365459 / 33554432) = -174532928 := by
    have := roundBinary_eq_of_near 24 (-126) (x := -5856353170365459 / 33554432) 27
      (-10908308) (by norm_num) (by rw [abs_of_neg (by norm_num)]; norm_num)
      (by rw [abs_of_neg (by norm_num)]; norm_num) (by norm_num [abs_lt])
    rw [binary32, this]
    norm_num
  rw [a1, a2, a3, a4, a5]

theorem hold_has_priority_witness :
    holdingHome.1.inHold = true ∧ holdingHome.1.goingHome = true ∧
    holdingHome.1.homeBase = some 14 ∧ holdingHome.2.turnRadius = 100 ∧
    holdingHome.2.turnDirection = -1 ∧ eastwards.heading = 90 ∧
    ∃ heading : Int, 0 ≤ heading ∧ heading < 360 ∧ ∀ fuel, 65536 ≤ fuel →
      ∃ nav1, get_next_directions_float doubleLib fuel 5 holdingHome.1 holdingHome.2 20
          eastwards blankOut =
        .ok ({ holdingHome.1 with errorCode := WAYPOINT_SUCCESS }, nav1,
          { desiredHeading := heading
            desiredAltitude := holdingHome.2.turnDesiredAltitude
            distanceToNextWaypoint := 0
            radius := holdingHome.2.turnRadius
            turnDirection := holdingHome.2.turnDirection
            errorCode := WAYPOINT_SUCCESS
            isDataNew := true
            timeOfData := 0
            out_type := ORBIT_FOLLOW },
          WAYPOINT_SUCCESS) :=
  ⟨by with_unfolding_all rfl, by with_unfolding_all rfl, by with_unfolding_all rfl,
    by with_unfolding_all rfl, by with_unfolding_all rfl, rfl,
    hold_has_priority doubleLib
      (show (3 : ℚ) ≤ 884279719003555 / 281474976710656 by norm_num)
      (show (884279719003555 / 281474976710656 : ℚ) ≤ 22 / 7 by norm_num)
      (fun _ _ => show |(0 : ℚ)| ≤ 4 by norm_num) 5 holdingHome.1 holdingHome.2 20
      eastwards blankOut (by with_unfolding_all rfl)
      (by rw [show holdingHome.2.turnRadius = 100 by with_unfolding_all rfl]; norm_num)
      (Or.inl (by with_unfolding_all rfl))
      (show |(90 : ℚ)| ≤ 1000000 by norm_num [abs_le])⟩

/-- C17 (as stated) fails for the program's `float`s. In the hold `holdingHome`
(radius `100`, direction `-1`), with the telemetry heading `10 ^ 10` degrees,
`get_next_directions` does not return `WAYPOINT_SUCCESS`: the second
angle-wrapping loop of `follow_orbit` uses up every number of iterations, because
`currentHeading` is below `-2 ^ 27` and a `float` at `-2 ^ 27` is not changed by
subtracting `2 * M_PI`. -/
theorem hold_tick_stalls_on_large_heading :
    holdingHome.1.inHold = true ∧ holdingHome.2.turnRadius = 100 ∧
    holdingHome.2.turnDirection = -1 ∧ largeHeading.heading = 10000000000 ∧
    binary32 (binary64 (binary64 (binary32 (90 - binary32 largeHeading.heading) *
      doubleLib.pi) / 180)) = -174532928 ∧
    binary32 (binary64 (-134217728 - binary64 (2 * doubleLib.pi))) = -134217728 ∧
    ∀ fuel : Nat,
      get_next_directions_float doubleLib fuel 5 holdingHome.1 holdingHome.2 20 largeHeading
        blankOut = .error Stop.fuel := by
  have h3 : (3 : ℚ) ≤ doubleLib.pi := by
    show (3 : ℚ) ≤ 884279719003555 / 281474976710656
    norm_num
  have h4 : doubleLib.pi ≤ 22 / 7 := by
    show (884279719003555 / 281474976710656 : ℚ) ≤ 22 / 7
    norm_num
  refine ⟨by with_unfolding_all rfl, by with_unfolding_all rfl, by with_unfolding_all rfl,
    rfl, large_heading_value, ?_, fun fuel => ?_⟩
  · refine le_antisymm ?_ (stalled_step le_rfl (two_pi_double doubleLib h3 h4).2)
    have h6 := (two_pi_double doubleLib h3 h4).1
    have h1 := binary64_mono
      (show -134217728 - binary64 (2 * doubleLib.pi) ≤ (-134217728 : ℚ) by linarith)
    rw [binary64_fixed (-134217728) (-1) 27 (by norm_num) (by norm_num) (by norm_num)] at h1
    have h2 := binary32_mono h1
    rwa [binary32_fixed (-134217728) (-1) 27 (by norm_num) (by norm_num) (by norm_num)] at h2
  · refine hold_tick_float_stalls doubleLib h3 h4 (fun _ _ => ?_) 5 holdingHome.1
      holdingHome.2 20 largeHeading blankOut (by with_unfolding_all rfl) ?_ ?_ fuel
    · show (-4 : ℚ) ≤ 0
      norm_num
    · rw [show holdingHome.2.turnRadius = 100 by with_unfolding_all rfl,
        show holdingHome.2.turnDirection = -1 by with_unfolding_all rfl]
      norm_num
    · show (10000000000 : ℚ) ≤ 10000000000
      exact le_rfl

end WaypointManager

end ZeroPilot
